import Mathlib

/-!
# Lifecycle orchestration of eks-anywhere: a shallow embedding

The development embeds the parts of `pkg/clustermanager/cluster_manager.go`
that coordinate reconciliation pause/resume, node readiness polling, the management
move and the deployment waits, and the remote command execution of
`internal/pkg/ssm/command.go`.

* Go `error` values are strings (`none` is the nil error); `fmt.Errorf("p: %v", err)`
  is string concatenation.
* `time.Duration` is an `Int` number of nanoseconds, wrapped to 64 bits where the
  source multiplies durations.
* The collaborator behind the `ClusterClient` interface is a deterministic state
  machine over an arbitrary state type `σ`; every call made through the interface
  is appended to a log, the way the generated gomock records calls.
* Loops that the source bounds only through its retry policy take a fuel argument.
-/

set_option linter.dupNamespace false

namespace EksAnywhere

/-- Go error values: the message text. -/
abbrev Error := String

/-- Go `time.Duration`: nanoseconds. -/
abbrev Duration := Int

/-- Wrap-around of a mathematical integer to a signed 64 bit integer. -/
def wrap64 (x : Int) : Int := (x + 2 ^ 63) % 2 ^ 64 - 2 ^ 63

def Second : Duration := 1000000000
def Minute : Duration := 60 * Second

-- cluster_manager.go, lines 26-37
def maxRetries : Nat := 30
def backOffPeriod : Duration := 5 * Second
def machineMaxWait : Duration := 10 * Minute
def machineBackoff : Duration := 1 * Second
def machinesMinWait : Duration := 30 * Minute
def moveCapiWait : Duration := 5 * Minute
def deploymentWaitStr : String := "30m"
def logDir : String := "logs"
def ctrlPlaneWaitStr : String := "60m"
def etcdWaitStr : String := "60m"

deriving instance DecidableEq for Except

/-- The type `types.Cluster`: the fields the cluster manager reads. -/
structure Cluster where
  Name : String
  KubeconfigFile : String
deriving DecidableEq, Repr

/-- The type `v1alpha1.Ref`. -/
structure Ref where
  Kind : String
  Name : String
deriving DecidableEq, Repr

/-- Control plane section of `v1alpha1.ClusterSpec`; `MachineGroupRef` is a pointer. -/
structure ControlPlaneConfiguration where
  Count : Int
  MachineGroupRef : Option Ref
deriving DecidableEq, Repr

/-- One entry of `WorkerNodeGroupConfigurations`; `MachineGroupRef` is a pointer. -/
structure WorkerNodeGroupConfiguration where
  Count : Int
  MachineGroupRef : Option Ref
deriving DecidableEq, Repr

/-- External etcd section of `v1alpha1.ClusterSpec`; `MachineGroupRef` is a pointer. -/
structure ExternalEtcdConfiguration where
  Count : Int
  MachineGroupRef : Option Ref
deriving DecidableEq, Repr

/-- The type `v1alpha1.ClusterSpec`, restricted to the fields the cluster manager reads.
`ExternalEtcdConfiguration` is a pointer. -/
structure ClusterSpec where
  ControlPlaneConfiguration : ControlPlaneConfiguration
  WorkerNodeGroupConfigurations : List WorkerNodeGroupConfiguration
  ExternalEtcdConfiguration : Option ExternalEtcdConfiguration
  DatacenterRef : Ref
deriving DecidableEq, Repr

/-- The type `cluster.Spec`. The methods `PausedAnnotation()` and `ResourceType()` are
declared outside the embedded files; their results are fields here. `paused` is the
in-memory pause marker that `ClearPauseAnnotation()` clears. `Name` is `ObjectMeta.Name` of
the cluster object the spec embeds; `HasOverrideClusterSpecFile` and
`ReadOverrideClusterSpecFile` are the results of the methods of these names. -/
structure Spec where
  Spec : ClusterSpec
  ( PausedAnnotation : String)
  ResourceType : String
  paused : Bool
  Name : String := ""
  HasOverrideClusterSpecFile : Bool := false
  ReadOverrideClusterSpecFile : Except Error String := Except.ok ""
deriving DecidableEq, Repr

/-- The type `v1alpha1.Cluster`, the cluster object `GetEksaCluster` fetches: its name and
its spec. -/
structure EksaCluster where
  Name : String
  Spec : ClusterSpec
deriving DecidableEq, Repr

/-- The type `v1alpha1.VSphereDatacenterConfigSpec`. Its declaration lies outside the
embedded files; the fields are those `vsphere_test.go` reads. -/
structure VSphereDatacenterConfigSpec where
  Datacenter : String
  Network : String
  Server : String
  Thumbprint : String
  Insecure : Bool
deriving DecidableEq, Repr

/-- The type `v1alpha1.VSphereDatacenterConfig`: its name and its spec. -/
structure VSphereDatacenterConfig where
  Name : String
  Spec : VSphereDatacenterConfigSpec
deriving DecidableEq, Repr

/-- The type `v1alpha1.VSphereMachineConfigSpec`. Its declaration lies outside the embedded
files; the fields are those `vsphere_test.go` reads, `Users` as (name, authorized keys). -/
structure VSphereMachineConfigSpec where
  Datastore : String
  Folder : String
  ResourcePool : String
  Template : String
  OSFamily : String
  StoragePolicyName : String
  MemoryMiB : Int
  NumCPUs : Int
  Users : List (String × List String)
deriving DecidableEq, Repr

/-- The type `v1alpha1.VSphereMachineConfig`: its name and its spec. -/
structure VSphereMachineConfig where
  Name : String
  Spec : VSphereMachineConfigSpec
deriving DecidableEq, Repr

/-- A value of the interface `providers.MachineConfig`: `vsphere` holds the value when its
dynamic type is `*v1alpha1.VSphereMachineConfig` and is `none` for every other type. -/
structure MachineConfig where
  vsphere : Option VSphereMachineConfig
deriving DecidableEq, Repr

/-- The type `types.Deployment`. -/
structure Deployment where
  Name : String
  Namespace : String
  Container : String := ""
deriving DecidableEq, Repr

/-- A value of the interface `providers.DatacenterConfig`, such as
`provider.DatacenterConfig()`, with its in-memory pause marker. `vsphere` holds the value
when its dynamic type is `*v1alpha1.VSphereDatacenterConfig` and is `none` for every other
type. -/
structure DatacenterConfig where
  paused : Bool
  vsphere : Option VSphereDatacenterConfig := none
deriving DecidableEq, Repr

/-- The interface `providers.Provider`: the results of the methods the cluster manager
calls. `GetDeployments()` returns a Go map from namespace to deployment names. -/
structure Provider where
  DatacenterResourceType : String
  MachineResourceType : String
  DatacenterConfig : DatacenterConfig
  GetDeployments : List (String × List String) := []
deriving DecidableEq, Repr

/-- `clusterSpec.ClearPauseAnnotation()`. -/
def Spec.ClearPauseAnnotation (s : EksAnywhere.Spec) : EksAnywhere.Spec :=
  { s with paused := false }

/-- `provider.DatacenterConfig().ClearPauseAnnotation()`. -/
def Provider.ClearPauseAnnotation (p : Provider) : Provider :=
  { p with DatacenterConfig := { p.DatacenterConfig with paused := false } }

/-- The type `types.Machine`: `Metadata.Labels` (a Go map, as an association list) and
the pointer `Status.NodeRef`. -/
structure Machine where
  Labels : List (String × String)
  NodeRef : Option String
deriving DecidableEq, Repr

/-- How a Go function ends: it returns its `error` result, or a runtime panic unwinds it. -/
inductive Exit where
  | returned (err : Option Error)
  | panicked (reason : String)
deriving DecidableEq, Repr

/-- Dereference of a Go pointer: a nil pointer panics. -/
def deref {α : Type} : Option α → Except String α
  | some a => Except.ok a
  | none => Except.error "invalid memory address or nil pointer dereference"

/-- Go `xs[0]`: an empty slice panics. -/
def index0 {α : Type} : List α → Except String α
  | a :: _ => Except.ok a
  | [] => Except.error "index out of range [0] with length 0"

/-- The type `types.CAPICluster`: the field `Metadata.Name`. -/
structure CAPICluster where
  Name : String
deriving DecidableEq, Repr

/-- The type `ssm.SendCommandInput` of the AWS SDK: the fields `Run` sets. The SDK's string
pointers are strings, the two optional S3 fields are `none` when unset. -/
structure SendCommandInput where
  DocumentName : String
  InstanceIds : List String
  Parameters : List (String × List String)
  OutputS3BucketName : Option String
  OutputS3KeyPrefix : Option String
deriving DecidableEq, Repr

/-- The type `ssm.GetCommandInvocationInput` of the AWS SDK. -/
structure GetCommandInvocationInput where
  CommandId : String
  InstanceId : String
deriving DecidableEq, Repr

/-- The type `ssm.GetCommandInvocationOutput` of the AWS SDK: the fields `Run` reads, taken
as set (non-nil) in every answer. -/
structure GetCommandInvocationOutput where
  Status : String
  StandardOutputContent : String
  StandardErrorContent : String
deriving DecidableEq, Repr

/-- Observable effects, in program order: calls through the `ClusterClient` interface,
calls of the SSM service, lines printed with `fmt.Println`, `time.Sleep` calls of the
Retrier, and calls of the file writer, of the provider and of `cluster.ApplyExtraObjects`. -/
inductive Call where
  | UpdateAnnotationInNamespace (resourceType objectName : String)
      (annotations : List (String × String)) (cluster : Cluster) (ns : String)
  | RemoveAnnotationInNamespace (resourceType objectName key : String)
      (cluster : Cluster) (ns : String)
  | GetMachines (cluster : Cluster)
  | Sleep (d : Duration)
  | MoveManagement (org target : Cluster)
  | GetClusters (cluster : Cluster)
  | WaitForControlPlaneReady (cluster : Cluster) (timeout newClusterName : String)
  | WaitForDeployment (cluster : Cluster) (timeout condition target ns : String)
  | SendCommand (input : SendCommandInput)
  | GetCommandInvocation (input : GetCommandInvocationInput)
  | Println (line : String)
  | DeleteCluster (managementCluster clusterToDelete : Cluster)
  | ApplyKubeSpecWithNamespace (cluster : Cluster) (kubeSpecFile ns : String)
  | WaitForManagedExternalEtcdReady (cluster : Cluster) (timeout newClusterName : String)
  | GetWorkloadKubeconfig (clusterName : String) (cluster : Cluster)
  | SaveLog (cluster : Cluster) (deployment : Deployment) (fileName writer : String)
  | GetEksaCluster (cluster : Cluster)
  | GetEksaVSphereDatacenterConfig (name kubeconfigFile : String)
  | GetEksaVSphereMachineConfig (name kubeconfigFile : String)
  | Write (fileName content : String) (opts : List String)
  | WithDir (dir : String)
  | GenerateDeploymentFileForUpgrade (bootstrapCluster workloadCluster : Cluster)
      (clusterSpec : Spec) (fileName : String)
  | GenerateDeploymentFileForCreate (workloadCluster : Cluster) (clusterSpec : Spec)
      (fileName : String)
  | UpdateKubeConfig (content clusterName : String)
  | ApplyExtraObjects (cluster : Cluster) (clusterSpec : Spec)
deriving DecidableEq, Repr

/-- The interface `ClusterClient` (cluster_manager.go, lines 75-95), restricted to the
methods used below. Each method maps the collaborator state to its answer and the next
collaborator state. Byte slices are strings; the file writer `SaveLog` receives is named by
the directory it writes to. -/
structure ClusterClient (σ : Type) where
  UpdateAnnotationInNamespace : String → String → List (String × String) → Cluster →
    String → σ → Option Error × σ
  RemoveAnnotationInNamespace : String → String → String → Cluster →
    String → σ → Option Error × σ
  GetMachines : Cluster → σ → Except Error (List Machine) × σ
  MoveManagement : Cluster → Cluster → σ → Option Error × σ := fun _ _ s => (none, s)
  GetClusters : Cluster → σ → Except Error (List CAPICluster) × σ :=
    fun _ s => (Except.ok [], s)
  WaitForControlPlaneReady : Cluster → String → String → σ → Option Error × σ :=
    fun _ _ _ s => (none, s)
  WaitForDeployment : Cluster → String → String → String → String → σ → Option Error × σ :=
    fun _ _ _ _ _ s => (none, s)
  DeleteCluster : Cluster → Cluster → σ → Option Error × σ := fun _ _ s => (none, s)
  ApplyKubeSpecWithNamespace : Cluster → String → String → σ → Option Error × σ :=
    fun _ _ _ s => (none, s)
  WaitForManagedExternalEtcdReady : Cluster → String → String → σ → Option Error × σ :=
    fun _ _ _ s => (none, s)
  GetWorkloadKubeconfig : String → Cluster → σ → Except Error String × σ :=
    fun _ _ s => (Except.ok "", s)
  SaveLog : Cluster → Deployment → String → String → σ → Option Error × σ :=
    fun _ _ _ _ s => (none, s)
  GetEksaCluster : Cluster → σ → Except Error EksaCluster × σ :=
    fun _ s => (Except.error "not found", s)
  GetEksaVSphereDatacenterConfig : String → String → σ →
    Except Error VSphereDatacenterConfig × σ := fun _ _ s => (Except.error "not found", s)
  GetEksaVSphereMachineConfig : String → String → σ →
    Except Error VSphereMachineConfig × σ := fun _ _ s => (Except.error "not found", s)

/-- The world a workflow runs in: collaborator state, the log of effects so far, a virtual
clock advanced by sleeping, and the number of `Retry` invocations so far. -/
structure World (σ : Type) where
  st : σ
  log : List Call
  clock : Duration
  retrierRuns : Nat
deriving DecidableEq

/-- `time.Sleep(d)`: returns at once for `d ≤ 0`. -/
def World.sleep {σ : Type} (d : Duration) (w : World σ) : World σ :=
  { w with log := w.log ++ [Call.Sleep d], clock := w.clock + max d 0 }

/-- Modelled from the spec: the package `pkg/retrier` is not among the embedded files.
Section 4.1: configuration is either (maxAttempts, fixedDelay) or (totalTimeout,
policy-function); the policy receives (attemptIndex, lastError) and returns (shouldRetry,
nextDelay). `timeout = none` is the configuration without a wall-clock bound. The policy
may read the local variables `L` of the function that built it (Go closures). -/
structure Retrier (L : Type) where
  timeout : Option Duration
  retryPolicy : L → Nat → Error → Bool × Duration

/-- Modelled from the spec: section 4.1, the exhaustion error "wraps the last underlying
error". The message text of the absent package is not part of the spec. -/
def exhaustionError (last : Error) : Error := "retries exhausted: " ++ last

/-- Modelled from the spec: section 4.1 and section 8, a Retrier with maxAttempts = n and a
fixed delay invokes an always failing operation exactly n times. -/
def maxRetriesPolicy {L : Type} (maxRetries : Nat) (backOffPeriod : Duration) :
    L → Nat → Error → Bool × Duration :=
  fun _ totalRetries _ => (decide (totalRetries < maxRetries), backOffPeriod)

/-- Modelled from the spec: `retrier.NewWithMaxRetries`, the (maxAttempts, fixedDelay)
configuration of section 4.1. -/
def Retrier.NewWithMaxRetries {L : Type} (maxRetries : Nat) (backOffPeriod : Duration) :
    Retrier L :=
  { timeout := none, retryPolicy := maxRetriesPolicy maxRetries backOffPeriod }

/-- Modelled from the spec: `retrier.New(timeout, retrier.WithRetryPolicy(policy))`, the
(totalTimeout, policy-function) configuration of section 4.1. -/
def Retrier.New {L : Type} (timeout : Duration) (policy : L → Nat → Error → Bool × Duration) :
    Retrier L :=
  { timeout := some timeout, retryPolicy := policy }

/-- Modelled from the spec: the loop of `Retrier.Retry` (section 4.1). The operation is
run; a nil error ends the loop with success and the operation is not run again; after a
failure the policy is asked, a stop answer or an exceeded timeout ends the loop with the
exhaustion error wrapping the last error, otherwise the loop sleeps for the delay and runs
the operation again. `retries` counts the attempts made so far; `none` means the fuel ran
out. -/
def Retrier.loop {σ L : Type} (r : Retrier L)
    (fn : L → World σ → Option Error × L × World σ) (start : Duration) :
    Nat → Nat → L → World σ → Option (Option Error × L × World σ)
  | 0, _, _, _ => none
  | fuel + 1, retries, l, w =>
    match fn l w with
    | (none, l1, w1) => some (none, l1, w1)
    | (some err, l1, w1) =>
      match r.retryPolicy l1 (retries + 1) err with
      | (false, _) => some (some (exhaustionError err), l1, w1)
      | (true, wait) =>
        let w2 := w1.sleep wait
        match r.timeout with
        | none => Retrier.loop r fn start fuel (retries + 1) l1 w2
        | some t =>
          if w2.clock - start < t then Retrier.loop r fn start fuel (retries + 1) l1 w2
          else some (some (exhaustionError err), l1, w2)

/-- Modelled from the spec: `Retry(operation) -> error` (section 4.1). -/
def Retrier.Retry {σ L : Type} (r : Retrier L) (fuel : Nat)
    (fn : L → World σ → Option Error × L × World σ) (l : L) (w : World σ) :
    Option (Option Error × L × World σ) :=
  Retrier.loop r fn w.clock fuel 0 l { w with retrierRuns := w.retrierRuns + 1 }

/-- The interface `filewriter.FileWriter`: `Write(fileName, content, options...)` answers
with the path of the written file, `WithDir(dir)` with a writer for a directory, named here
by that directory. The options of `Write` are given by their names. -/
structure FileWriter (σ : Type) where
  Write : String → String → List String → σ → Except Error String × σ
  WithDir : String → σ → Except Error String × σ

/-- A file writer that keeps no state and answers with the path under its directory. -/
def FileWriter.inDir {σ : Type} (dir : String) : FileWriter σ :=
  { Write := fun fileName _ _ s => (Except.ok (dir ++ "/" ++ fileName), s)
    WithDir := fun d s => (Except.ok (dir ++ "/" ++ d), s) }

/-- The struct `ClusterManager` (cluster_manager.go, lines 65-73), without the networking
client. The shared Retrier captures no local variables. Where no file writer is given it is
the one that writes under the directory `.`. -/
structure ClusterManager (σ : Type) where
  clusterClient : ClusterClient σ
  Retrier : Retrier Unit
  machineMaxWait : Duration
  machineBackoff : Duration
  machinesMinWait : Duration
  writer : FileWriter σ := FileWriter.inDir "."

/-- The constructor `New` (cluster_manager.go, lines 103-119) without options. -/
def ClusterManager.New {σ : Type} (clusterClient : ClusterClient σ) : ClusterManager σ :=
  { clusterClient := clusterClient
    Retrier := Retrier.NewWithMaxRetries maxRetries backOffPeriod
    machineMaxWait := EksAnywhere.machineMaxWait
    machineBackoff := EksAnywhere.machineBackoff
    machinesMinWait := EksAnywhere.machinesMinWait }

/-- A logged call of `clusterClient.UpdateAnnotationInNamespace`. -/
def ClusterClient.callUpdateAnnotationInNamespace {σ : Type} (cl : ClusterClient σ)
    (resourceType objectName : String) (annotations : List (String × String))
    (cluster : Cluster) (ns : String) (w : World σ) : Option Error × Unit × World σ :=
  let r := cl.UpdateAnnotationInNamespace resourceType objectName annotations cluster ns w.st
  (r.1, (), { w with
    st := r.2
    log := w.log ++ [Call.UpdateAnnotationInNamespace resourceType objectName annotations
      cluster ns] })

/-- A logged call of `clusterClient.RemoveAnnotationInNamespace`. -/
def ClusterClient.callRemoveAnnotationInNamespace {σ : Type} (cl : ClusterClient σ)
    (resourceType objectName key : String) (cluster : Cluster) (ns : String) (w : World σ) :
    Option Error × Unit × World σ :=
  let r := cl.RemoveAnnotationInNamespace resourceType objectName key cluster ns w.st
  (r.1, (), { w with
    st := r.2
    log := w.log ++ [Call.RemoveAnnotationInNamespace resourceType objectName key cluster ns] })

/-- A logged call of `clusterClient.GetMachines`. -/
def ClusterClient.callGetMachines {σ : Type} (cl : ClusterClient σ) (cluster : Cluster)
    (w : World σ) : Except Error (List Machine) × World σ :=
  let r := cl.GetMachines cluster w.st
  (r.1, { w with st := r.2, log := w.log ++ [Call.GetMachines cluster] })

/-- The Go idiom `err := Retry(..); if err != nil { return fmt.Errorf(msg + "%v", err) }`
followed by the rest `k` of the function. `fail` builds what the caller observes besides
the exit when the function returns early. -/
def afterRetry {σ β : Type} (res : Option (Option Error × Unit × World σ)) (msg : String)
    (fail : World σ → β) (k : World σ → Option (Exit × β)) : Option (Exit × β) :=
  match res with
  | none => none
  | some (some err, _, w) => some (Exit.returned (some (msg ++ err)), fail w)
  | some (none, _, w) => k w

/-- The expression `clusterSpec.Spec.ControlPlaneConfiguration.MachineGroupRef.Name`. -/
def cpMachineGroupName (spec : ClusterSpec) : Except String String :=
  (deref spec.ControlPlaneConfiguration.MachineGroupRef).map Ref.Name

/-- The expression `clusterSpec.Spec.WorkerNodeGroupConfigurations[0].MachineGroupRef.Name`. -/
def workerMachineGroupName (spec : ClusterSpec) : Except String String :=
  (index0 spec.WorkerNodeGroupConfigurations).bind fun wg =>
    (deref wg.MachineGroupRef).map Ref.Name

/-- The expression `clusterSpec.Spec.ExternalEtcdConfiguration.MachineGroupRef.Name`. -/
def etcdMachineGroupName (spec : ClusterSpec) : Except String String :=
  (deref spec.ExternalEtcdConfiguration).bind fun e =>
    (deref e.MachineGroupRef).map Ref.Name

/-- The condition `len(ws) <= 0 || ws[0].MachineGroupRef == nil`, with Go short-circuit. -/
def workerRefUndefined (spec : ClusterSpec) : Except String Bool :=
  if spec.WorkerNodeGroupConfigurations.length ≤ 0 then Except.ok true
  else (index0 spec.WorkerNodeGroupConfigurations).map fun wg => wg.MachineGroupRef.isNone

/-- The condition `etcd != nil && etcd.MachineGroupRef == nil`, with Go short-circuit. -/
def etcdRefUndefined (spec : ClusterSpec) : Except String Bool :=
  if spec.ExternalEtcdConfiguration.isSome then
    (deref spec.ExternalEtcdConfiguration).map fun e => e.MachineGroupRef.isNone
  else Except.ok false

/-- A comparison `a != b` of two string expressions, evaluated left to right. -/
def namesDiffer (a b : Except String String) : Except String Bool :=
  a.bind fun x => b.map fun y => decide (x ≠ y)

/-- The method `PauseEKSAControllerReconcile` (cluster_manager.go, lines 612-674). The
result is `none` when the fuel of a retry loop runs out. -/
def ClusterManager.PauseEKSAControllerReconcile {σ : Type} (c : ClusterManager σ) (fuel : Nat)
    (cluster : Cluster) (clusterSpec : Spec) (provider : Provider) (w : World σ) :
    Option (Exit × World σ) :=
  let pausedAnnotation := [( clusterSpec.PausedAnnotation, "true")]
  let spec := clusterSpec.Spec
  let update := fun (resourceType objectName : String) (w : World σ) =>
    c.Retrier.Retry fuel (fun _ w => c.clusterClient.callUpdateAnnotationInNamespace
      resourceType objectName pausedAnnotation cluster "" w) () w
  let pauseCluster := fun (w : World σ) =>
    afterRetry (update clusterSpec.ResourceType cluster.Name w)
      "error updating annotation when pausing cluster reconciliation: " id
      fun w => some (Exit.returned none, w)
  let pauseEtcd := fun (w : World σ) =>
    if spec.ExternalEtcdConfiguration.isSome then
      match namesDiffer (etcdMachineGroupName spec) (cpMachineGroupName spec) with
      | Except.error p => some (Exit.panicked p, w)
      | Except.ok false => pauseCluster w
      | Except.ok true =>
        match etcdMachineGroupName spec with
        | Except.error p => some (Exit.panicked p, w)
        | Except.ok etcdName =>
          afterRetry (update provider.MachineResourceType etcdName w)
            "error updating annotation when pausing etcd machineconfig reconciliation: " id
            pauseCluster
    else pauseCluster w
  let pauseWorker := fun (w : World σ) =>
    match namesDiffer (cpMachineGroupName spec) (workerMachineGroupName spec) with
    | Except.error p => some (Exit.panicked p, w)
    | Except.ok false => pauseEtcd w
    | Except.ok true =>
      match workerMachineGroupName spec with
      | Except.error p => some (Exit.panicked p, w)
      | Except.ok workerName =>
        afterRetry (update provider.MachineResourceType workerName w)
          "error updating annotation when pausing worker node machineconfig reconciliation: " id
          pauseEtcd
  afterRetry (update provider.DatacenterResourceType spec.DatacenterRef.Name w)
    "error updating annotation when pausing datacenterconfig reconciliation: " id fun w =>
  if provider.MachineResourceType ≠ "" then
    if spec.ControlPlaneConfiguration.MachineGroupRef.isNone then
      some (Exit.returned (some "machineGroupRef for control plane is not defined"), w)
    else
    match workerRefUndefined spec with
    | Except.error p => some (Exit.panicked p, w)
    | Except.ok true =>
      some (Exit.returned (some "machineGroupRef for worker nodes is not defined"), w)
    | Except.ok false =>
    match etcdRefUndefined spec with
    | Except.error p => some (Exit.panicked p, w)
    | Except.ok true =>
      some (Exit.returned (some "machineGroupRef for etcd machines is not defined"), w)
    | Except.ok false =>
    match cpMachineGroupName spec with
    | Except.error p => some (Exit.panicked p, w)
    | Except.ok cpName =>
      afterRetry (update provider.MachineResourceType cpName w)
        "error updating annotation when pausing control plane machineconfig reconciliation: " id
        pauseWorker
  else pauseCluster w

/-- The method `ResumeEKSAControllerReconcile` (cluster_manager.go, lines 676-741). Besides
the exit and the world, the result holds the spec and the provider as the caller sees them
afterwards: their pause markers are cleared on the path that returns nil. -/
def ClusterManager.ResumeEKSAControllerReconcile {σ : Type} (c : ClusterManager σ) (fuel : Nat)
    (cluster : Cluster) (clusterSpec : Spec) (provider : Provider) (w : World σ) :
    Option (Exit × Spec × Provider × World σ) :=
  let pausedAnnotation := clusterSpec.PausedAnnotation
  let spec := clusterSpec.Spec
  let unchanged := fun (w : World σ) => (clusterSpec, provider, w)
  let remove := fun (resourceType objectName : String) (w : World σ) =>
    c.Retrier.Retry fuel (fun _ w => c.clusterClient.callRemoveAnnotationInNamespace
      resourceType objectName pausedAnnotation cluster "" w) () w
  let resumeCluster := fun (w : World σ) =>
    afterRetry (remove clusterSpec.ResourceType cluster.Name w)
      "error updating annotation when unpausing cluster reconciliation: " unchanged
      fun w => some (Exit.returned none,
        clusterSpec.ClearPauseAnnotation, provider.ClearPauseAnnotation, w)
  let resumeEtcd := fun (w : World σ) =>
    if spec.ExternalEtcdConfiguration.isSome then
      match namesDiffer (etcdMachineGroupName spec) (cpMachineGroupName spec) with
      | Except.error p => some (Exit.panicked p, unchanged w)
      | Except.ok false => resumeCluster w
      | Except.ok true =>
        match etcdMachineGroupName spec with
        | Except.error p => some (Exit.panicked p, unchanged w)
        | Except.ok etcdName =>
          afterRetry (remove provider.MachineResourceType etcdName w)
            "error updating annotation when resuming etcd machineconfig reconciliation: "
            unchanged resumeCluster
    else resumeCluster w
  let resumeWorker := fun (w : World σ) =>
    match namesDiffer (cpMachineGroupName spec) (workerMachineGroupName spec) with
    | Except.error p => some (Exit.panicked p, unchanged w)
    | Except.ok false => resumeEtcd w
    | Except.ok true =>
      match workerMachineGroupName spec with
      | Except.error p => some (Exit.panicked p, unchanged w)
      | Except.ok workerName =>
        afterRetry (remove provider.MachineResourceType workerName w)
          "error updating annotation when unpausing worker node machineconfig reconciliation: "
          unchanged resumeEtcd
  afterRetry (remove provider.DatacenterResourceType spec.DatacenterRef.Name w)
    "error updating annotation when unpausing datacenterconfig reconciliation: " unchanged
    fun w =>
  if provider.MachineResourceType ≠ "" then
    if spec.ControlPlaneConfiguration.MachineGroupRef.isNone then
      some (Exit.returned (some "machineGroupRef for control plane is not defined"),
        unchanged w)
    else
    match workerRefUndefined spec with
    | Except.error p => some (Exit.panicked p, unchanged w)
    | Except.ok true =>
      some (Exit.returned (some "machineGroupRef for worker nodes is not defined"),
        unchanged w)
    | Except.ok false =>
    match etcdRefUndefined spec with
    | Except.error p => some (Exit.panicked p, unchanged w)
    | Except.ok true =>
      some (Exit.returned (some "machineGroupRef for etcd machines is not defined"),
        unchanged w)
    | Except.ok false =>
    match cpMachineGroupName spec with
    | Except.error p => some (Exit.panicked p, unchanged w)
    | Except.ok cpName =>
      afterRetry (remove provider.MachineResourceType cpName w)
        "error updating annotation when unpausing control plane machineconfig reconciliation: "
        unchanged resumeWorker
  else resumeCluster w

/-- Label keys `clusterv1.MachineControlPlaneLabelName` and
`clusterv1.MachineDeploymentLabelName` of cluster-api v1alpha3. -/
def MachineControlPlaneLabelName : String := "cluster.x-k8s.io/control-plane"
def MachineDeploymentLabelName : String := "cluster.x-k8s.io/deployment-name"

/-- The Go map lookup `_, ok := m.Metadata.Labels[key]`. -/
def Machine.hasLabel (m : Machine) (key : String) : Bool := (m.Labels.lookup key).isSome

/-- One iteration of the loop of `countNodesReady` (lines 530-542) over the counters
(ready, controlPlaneNodesCount, workerNodesCount). -/
def countStep (acc : Int × Int × Int) (m : Machine) : Int × Int × Int :=
  let ready := if m.NodeRef.isSome then acc.1 + 1 else acc.1
  let controlPlaneNodesCount :=
    if m.hasLabel MachineControlPlaneLabelName then acc.2.1 + 1 else acc.2.1
  let workerNodesCount :=
    if m.hasLabel MachineDeploymentLabelName then acc.2.2 + 1 else acc.2.2
  (ready, controlPlaneNodesCount, workerNodesCount)

/-- The method `countNodesReady` (cluster_manager.go, lines 522-545): the results
(ready, total, err) and the world after the query. -/
def ClusterManager.countNodesReady {σ : Type} (c : ClusterManager σ)
    (managementCluster : Cluster) (w : World σ) : (Int × Int × Option Error) × World σ :=
  match c.clusterClient.callGetMachines managementCluster w with
  | (Except.error err, w1) =>
    ((0, 0, some ("error getting machines resources from management cluster: " ++ err)), w1)
  | (Except.ok machines, w1) =>
    let acc := machines.foldl countStep (0, 0, 0)
    ((acc.1, acc.2.1 + acc.2.2, none), w1)

/-- The local variables `readyNodes, totalNodes` of `waitForNodesReady`, which its two
closures share. -/
structure NodeCounters where
  readyNodes : Int
  totalNodes : Int
deriving DecidableEq, Repr

/-- The closure `policy` of `waitForNodesReady` (lines 484-486). -/
def ClusterManager.policy {σ : Type} (c : ClusterManager σ) :
    NodeCounters → Nat → Error → Bool × Duration :=
  fun l _ _ => (true, wrap64 (c.machineBackoff * (l.totalNodes - l.readyNodes)))

/-- The closure `areNodesReady` of `waitForNodesReady` (lines 488-502). -/
def ClusterManager.areNodesReady {σ : Type} (c : ClusterManager σ)
    (managementCluster : Cluster) :
    NodeCounters → World σ → Option Error × NodeCounters × World σ :=
  fun _ w =>
    match c.countNodesReady managementCluster w with
    | ((readyNodes, totalNodes, some err), w1) => (some err, ⟨readyNodes, totalNodes⟩, w1)
    | ((readyNodes, totalNodes, none), w1) =>
      if readyNodes ≠ totalNodes then
        (some "nodes are not ready yet", ⟨readyNodes, totalNodes⟩, w1)
      else (none, ⟨readyNodes, totalNodes⟩, w1)

/-- The overall timeout computed in `waitForNodesReady` (lines 509-512). -/
def ClusterManager.nodesTimeout {σ : Type} (c : ClusterManager σ) (totalNodes : Int) :
    Duration :=
  let timeout := wrap64 (totalNodes * c.machineMaxWait)
  if timeout ≤ c.machinesMinWait then c.machinesMinWait else timeout

/-- The part of `waitForNodesReady` after a failed first check (lines 509-519). -/
def ClusterManager.retryNodesReady {σ : Type} (c : ClusterManager σ) (fuel : Nat)
    (managementCluster : Cluster) (l : NodeCounters) (w : World σ) :
    Option (Option Error × World σ) :=
  let r : EksAnywhere.Retrier NodeCounters :=
    EksAnywhere.Retrier.New (c.nodesTimeout l.totalNodes) c.policy
  match r.Retry fuel (c.areNodesReady managementCluster) l w with
  | none => none
  | some (some err, _, w2) =>
    some (some ("retries exhausted waiting for machines to be ready: " ++ err), w2)
  | some (none, _, w2) => some (none, w2)

/-- The method `waitForNodesReady` (cluster_manager.go, lines 482-520). -/
def ClusterManager.waitForNodesReady {σ : Type} (c : ClusterManager σ) (fuel : Nat)
    (managementCluster : Cluster) (w : World σ) : Option (Option Error × World σ) :=
  match c.areNodesReady managementCluster ⟨0, 0⟩ w with
  | (none, _, w1) => some (none, w1)
  | (some _, l1, w1) => c.retryNodesReady fuel managementCluster l1 w1

/-! ## Management move and deployment waits -/

/-- Go `fmtFrac` of package time: the digits of the fraction `v / 10^prec` without
trailing zeros, least significant digit first in the loop; `print` tells whether a non-zero
digit has been seen. Results: the digits, `v / 10^prec`, and `print`. -/
def fmtFracLoop : Nat → Nat → Bool → String → String × Nat × Bool
  | 0, v, print, acc => (acc, v, print)
  | prec + 1, v, print, acc =>
    let digit := v % 10
    let print1 := print || decide (digit ≠ 0)
    let acc1 := if print1 then String.singleton (Char.ofNat (digit + 48)) ++ acc else acc
    fmtFracLoop prec (v / 10) print1 acc1

/-- Go `fmtFrac` of package time: the fraction text (with its decimal point, empty when the
fraction is zero) and the integer part. -/
def fmtFrac (v prec : Nat) : String × Nat :=
  let r := fmtFracLoop prec v false ""
  (if r.2.2 then "." ++ r.1 else r.1, r.2.1)

/-- Go `time.Duration.String()`: the form "72h3m0.5s", with smaller units below a second. -/
def Duration.String (d : Duration) : String :=
  let u : Nat := d.natAbs
  let body :=
    if u < 1000000000 then
      if u = 0 then "0s"
      else if u < 1000 then toString u ++ "ns"
      else if u < 1000000 then toString (fmtFrac u 3).2 ++ (fmtFrac u 3).1 ++ "µs"
      else toString (fmtFrac u 6).2 ++ (fmtFrac u 6).1 ++ "ms"
    else
      let secs := (fmtFrac u 9).2
      let s := toString (secs % 60) ++ (fmtFrac u 9).1 ++ "s"
      let mins := secs / 60
      if mins > 0 then
        let m := toString (mins % 60) ++ "m"
        let hours := mins / 60
        if hours > 0 then toString hours ++ "h" ++ m ++ s else m ++ s
      else s
  if d < 0 then "-" ++ body else body

/-- A logged call of `clusterClient.MoveManagement`. -/
def ClusterClient.callMoveManagement {σ : Type} (cl : ClusterClient σ) (org target : Cluster)
    (w : World σ) : Option Error × World σ :=
  let r := cl.MoveManagement org target w.st
  (r.1, { w with st := r.2, log := w.log ++ [Call.MoveManagement org target] })

/-- A logged call of `clusterClient.GetClusters`. -/
def ClusterClient.callGetClusters {σ : Type} (cl : ClusterClient σ) (cluster : Cluster)
    (w : World σ) : Except Error (List CAPICluster) × World σ :=
  let r := cl.GetClusters cluster w.st
  (r.1, { w with st := r.2, log := w.log ++ [Call.GetClusters cluster] })

/-- A logged call of `clusterClient.WaitForControlPlaneReady`. -/
def ClusterClient.callWaitForControlPlaneReady {σ : Type} (cl : ClusterClient σ)
    (cluster : Cluster) (timeout newClusterName : String) (w : World σ) :
    Option Error × World σ :=
  let r := cl.WaitForControlPlaneReady cluster timeout newClusterName w.st
  (r.1, { w with
    st := r.2
    log := w.log ++ [Call.WaitForControlPlaneReady cluster timeout newClusterName] })

/-- A logged call of `clusterClient.WaitForDeployment`. -/
def ClusterClient.callWaitForDeployment {σ : Type} (cl : ClusterClient σ)
    (cluster : Cluster) (timeout condition target ns : String) (w : World σ) :
    Option Error × World σ :=
  let r := cl.WaitForDeployment cluster timeout condition target ns w.st
  (r.1, { w with
    st := r.2
    log := w.log ++ [Call.WaitForDeployment cluster timeout condition target ns] })

/-- The loop of `waitForAllControlPlanes` (lines 553-558) over the clusters left. -/
def ClusterManager.waitForControlPlanes {σ : Type} (c : ClusterManager σ) (cluster : Cluster)
    (waitForCluster : Duration) : List CAPICluster → World σ → Option Error × World σ
  | [], w => (none, w)
  | clu :: rest, w =>
    match c.clusterClient.callWaitForControlPlaneReady cluster
        (Duration.String waitForCluster) clu.Name w with
    | (some err, w1) =>
      (some ("error waiting for workload cluster control plane for cluster " ++ clu.Name ++
        " to be ready: " ++ err), w1)
    | (none, w1) => c.waitForControlPlanes cluster waitForCluster rest w1

/-- The method `waitForAllControlPlanes` (cluster_manager.go, lines 547-561). -/
def ClusterManager.waitForAllControlPlanes {σ : Type} (c : ClusterManager σ)
    (cluster : Cluster) (waitForCluster : Duration) (w : World σ) : Option Error × World σ :=
  match c.clusterClient.callGetClusters cluster w with
  | (Except.error err, w1) => (some ("error getting clusters: " ++ err), w1)
  | (Except.ok clusters, w1) => c.waitForControlPlanes cluster waitForCluster clusters w1

/-- The method `MoveCapi` (cluster_manager.go, lines 129-152); `org` and `target` are its
parameters `from` and `to`. -/
def ClusterManager.MoveCapi {σ : Type} (c : ClusterManager σ) (fuel : Nat)
    (org target : Cluster) (w : World σ) : Option (Option Error × World σ) :=
  match c.waitForNodesReady fuel org w with
  | none => none
  | some (some err, w1) => some (some err, w1)
  | some (none, w1) =>
    match c.clusterClient.callMoveManagement org target w1 with
    | (some err, w2) =>
      some (some ("error moving CAPI management from source to target: " ++ err), w2)
    | (none, w2) =>
      match c.waitForAllControlPlanes target moveCapiWait w2 with
      | (some err, w3) => some (some err, w3)
      | (none, w3) =>
        match c.waitForNodesReady fuel target w3 with
        | none => none
        | some (some err, w4) => some (some err, w4)
        | some (none, w4) => some (none, w4)

/-- The table `capiDeployments` (cluster_manager.go, lines 40-46): a Go map from namespace
to deployment names, listed in source order. -/
def capiDeployments : List (String × List String) :=
  [("capi-kubeadm-bootstrap-system", ["capi-kubeadm-bootstrap-controller-manager"]),
   ("capi-kubeadm-control-plane-system", ["capi-kubeadm-control-plane-controller-manager"]),
   ("capi-system", ["capi-controller-manager"]),
   ("capi-webhook-system", ["capi-controller-manager",
      "capi-kubeadm-bootstrap-controller-manager",
      "capi-kubeadm-control-plane-controller-manager"]),
   ("cert-manager", ["cert-manager", "cert-manager-cainjector", "cert-manager-webhook"])]

/-- The inner loop of `waitForDeployments` (lines 453-458) over the deployments left in one
namespace. -/
def ClusterManager.waitForNamespace {σ : Type} (c : ClusterManager σ) (cluster : Cluster)
    (ns : String) : List String → World σ → Option Error × World σ
  | [], w => (none, w)
  | deployment :: rest, w =>
    match c.clusterClient.callWaitForDeployment cluster deploymentWaitStr "Available"
        deployment ns w with
    | (some err, w1) =>
      (some ("error waiting for " ++ deployment ++ " in namespace " ++ ns ++ ": " ++ err), w1)
    | (none, w1) => c.waitForNamespace cluster ns rest w1

/-- The outer loop of `waitForDeployments` (lines 452-459) over the map entries left, in
the order the `range` statement visits them. -/
def ClusterManager.waitForEntries {σ : Type} (c : ClusterManager σ) (cluster : Cluster) :
    List (String × List String) → World σ → Option Error × World σ
  | [], w => (none, w)
  | (ns, deployments) :: rest, w =>
    match c.waitForNamespace cluster ns deployments w with
    | (some err, w1) => (some err, w1)
    | (none, w1) => c.waitForEntries cluster rest w1

/-- The method `waitForDeployments` (cluster_manager.go, lines 451-461). Go leaves the
order in which `range` visits a map open: `rangeOrder` gives, for a map, its entries in the
order of this visit. -/
def ClusterManager.waitForDeployments {σ : Type} (c : ClusterManager σ)
    (rangeOrder : List (String × List String) → List (String × List String))
    (deploymentsByNamespace : List (String × List String)) (cluster : Cluster)
    (w : World σ) : Option Error × World σ :=
  c.waitForEntries cluster (rangeOrder deploymentsByNamespace) w

/-- The method `waitForCapi` (cluster_manager.go, lines 359-371). -/
def ClusterManager.waitForCapi {σ : Type} (c : ClusterManager σ)
    (rangeOrder : List (String × List String) → List (String × List String))
    (cluster : Cluster) (provider : Provider) (w : World σ) : Option Error × World σ :=
  match c.waitForDeployments rangeOrder capiDeployments cluster w with
  | (some err, w1) => (some err, w1)
  | (none, w1) =>
    match c.waitForDeployments rangeOrder provider.GetDeployments cluster w1 with
    | (some err, w2) => (some err, w2)
    | (none, w2) => (none, w2)

/-! ## Remote command execution (internal/pkg/ssm/command.go) -/

/-- The SSM client `ssm.New(session)` of the AWS SDK, restricted to the two operations
`Run` calls: `SendCommand` answers with the command id, `GetCommandInvocation` with the
invocation. Like the cluster client it is a deterministic state machine. -/
structure SSMService (σ : Type) where
  SendCommand : SendCommandInput → σ → Except Error String × σ
  GetCommandInvocation : GetCommandInvocationInput → σ →
    Except Error GetCommandInvocationOutput × σ

/-- A logged call of `service.SendCommand`. -/
def SSMService.callSendCommand {σ : Type} (service : SSMService σ) (input : SendCommandInput)
    (w : World σ) : Except Error String × World σ :=
  let r := service.SendCommand input w.st
  (r.1, { w with st := r.2, log := w.log ++ [Call.SendCommand input] })

/-- A logged call of `service.GetCommandInvocation`. -/
def SSMService.callGetCommandInvocation {σ : Type} (service : SSMService σ)
    (input : GetCommandInvocationInput) (w : World σ) :
    Except Error GetCommandInvocationOutput × World σ :=
  let r := service.GetCommandInvocation input w.st
  (r.1, { w with st := r.2, log := w.log ++ [Call.GetCommandInvocation input] })

/-- The call `fmt.Println(line)`. -/
def World.println {σ : Type} (line : String) (w : World σ) : World σ :=
  { w with log := w.log ++ [Call.Println line] }

/-- The function `printDivider` (command.go, lines 128-130). -/
def printDivider {σ : Type} (w : World σ) : World σ := w.println "------"

/-- The status constants of the AWS SDK (`ssm.CommandInvocationStatus...`). -/
def CommandInvocationStatusInProgress : String := "InProgress"
def CommandInvocationStatusDelayed : String := "Delayed"
def CommandInvocationStatusPending : String := "Pending"
def CommandInvocationStatusSuccess : String := "Success"

/-- The set `nonFinalStatuses` (command.go, lines 36-38): the keys of the Go map. -/
def nonFinalStatuses : List String :=
  [CommandInvocationStatusInProgress, CommandInvocationStatusDelayed,
    CommandInvocationStatusPending]

/-- The function `isFinalStatus` (command.go, lines 123-126). -/
def isFinalStatus (status : String) : Bool :=
  let nonFinalStatus := nonFinalStatuses.contains status
  !nonFinalStatus

/-- Modelled from the spec: the delay of the total-timeout policy with a fixed interval
(section 2) that `retrier.New(timeout)` uses when no policy is given. The spec does not
give the length of the interval; the statements below hold for the value chosen here. -/
def defaultRetryWait : Duration := 0

/-- Modelled from the spec: the policy of `retrier.New(timeout)` without options, which
always retries after the fixed interval; only the timeout ends the loop. -/
def defaultPolicy {L : Type} : L → Nat → Error → Bool × Duration :=
  fun _ _ _ => (true, defaultRetryWait)

/-- Modelled from the spec: the package-level function
`retrier.Retry(maxRetries, backOffPeriod, fn)`, the (maxAttempts, fixedDelay) configuration
of section 4.1 run on `fn`. -/
def retrierRetry {σ L : Type} (maxRetries : Nat) (backOffPeriod : Duration) (fuel : Nat)
    (fn : L → World σ → Option Error × L × World σ) (l : L) (w : World σ) :
    Option (Option Error × L × World σ) :=
  (Retrier.NewWithMaxRetries maxRetries backOffPeriod).Retry fuel fn l w

/-- The closure of `Run` that checks the command is registered (command.go, lines 74-81). -/
def registrationCheck {σ : Type} (service : SSMService σ)
    (commandIn : GetCommandInvocationInput) :
    Unit → World σ → Option Error × Unit × World σ :=
  fun _ w =>
    match service.callGetCommandInvocation commandIn w with
    | (Except.error err, w1) =>
      (some ("error getting ssm command invocation: " ++ err), (), w1)
    | (Except.ok _, w1) => (none, (), w1)

/-- The closure of `Run` that polls the status (command.go, lines 89-111). The local state
is the variable `commandOut`, a pointer that is nil before the first answer; after a
failed call its value is not read again and is taken as nil. -/
def statusPoll {σ : Type} (service : SSMService σ) (commandIn : GetCommandInvocationInput) :
    Option GetCommandInvocationOutput → World σ →
      Option Error × Option GetCommandInvocationOutput × World σ :=
  fun _ w =>
    match service.callGetCommandInvocation commandIn w with
    | (Except.error err, w1) => (some err, none, w1)
    | (Except.ok commandOut, w1) =>
      let status := commandOut.Status
      if isFinalStatus status then
        (none, some commandOut,
          printDivider ((printDivider ((w1.println "Command stdout:").println
            commandOut.StandardOutputContent)).println "Command stderr" |>.println
            commandOut.StandardErrorContent))
      else (some ("command still running with status " ++ status), some commandOut, w1)

/-- The input `Run` builds before the options are applied (command.go, lines 43-47). -/
def runCommandInput (instanceId command : String) : SendCommandInput :=
  { DocumentName := "AWS-RunShellScript"
    InstanceIds := [instanceId]
    Parameters := [("commands", [command]), ("executionTimeout", ["10800"])]
    OutputS3BucketName := none
    OutputS3KeyPrefix := none }

/-- The function `Run` (command.go, lines 41-121). The result is `none` when the fuel of a
retry loop runs out. -/
def Run {σ : Type} (service : SSMService σ) (fuel : Nat) (instanceId command : String)
    (opts : List (SendCommandInput → SendCommandInput)) (w : World σ) :
    Option (Exit × World σ) :=
  let c := opts.foldl (fun c opt => opt c) (runCommandInput instanceId command)
  match service.callSendCommand c w with
  | (Except.error err, w1) =>
    some (Exit.returned (some ("error sending ssm command: " ++ err)), w1)
  | (Except.ok commandId, w1) =>
    let commandIn : GetCommandInvocationInput :=
      { CommandId := commandId, InstanceId := instanceId }
    match retrierRetry 10 (5 * Second) fuel (registrationCheck service commandIn) () w1 with
    | none => none
    | some (some err, _, w2) =>
      some (Exit.returned (some ("error waiting for ssm command to be registered: " ++ err)),
        w2)
    | some (none, _, w2) =>
      match (Retrier.New (180 * Minute) defaultPolicy).Retry fuel
          (statusPoll service commandIn) none w2 with
      | none => none
      | some (some err, _, w3) =>
        some (Exit.returned (some ("retries exhausted running ssm command: " ++ err)), w3)
      | some (none, commandOut, w3) =>
        match deref commandOut with
        | Except.error p => some (Exit.panicked p, w3)
        | Except.ok out =>
          if out.Status ≠ CommandInvocationStatusSuccess then
            some (Exit.returned (some "failed to execute ssm command"), w3)
          else some (Exit.returned none, w3)

/-! ## Cluster deletion, creation and upgrade -/

/-- A logged call of `clusterClient.DeleteCluster`. -/
def ClusterClient.callDeleteCluster {σ : Type} (cl : ClusterClient σ)
    (managementCluster clusterToDelete : Cluster) (w : World σ) :
    Option Error × Unit × World σ :=
  let r := cl.DeleteCluster managementCluster clusterToDelete w.st
  (r.1, (), { w with
    st := r.2
    log := w.log ++ [Call.DeleteCluster managementCluster clusterToDelete] })

/-- The method `DeleteCluster` (cluster_manager.go, lines 192-198): the result of the Retry
is returned as it is. -/
def ClusterManager.DeleteCluster {σ : Type} (c : ClusterManager σ) (fuel : Nat)
    (managementCluster clusterToDelete : Cluster) (w : World σ) :
    Option (Option Error × World σ) :=
  match c.Retrier.Retry fuel
      (fun _ w => c.clusterClient.callDeleteCluster managementCluster clusterToDelete w)
      () w with
  | none => none
  | some (err, _, w1) => some (err, w1)

/-! ## Log collection -/

/-- The table `clusterDeployments` (cluster_manager.go, lines 48-63): a Go map from file
name to deployment, listed in source order. -/
def clusterDeployments : List (String × Deployment) :=
  [("kubeadm-bootstrap-controller-manager.log",
      { Name := "capi-kubeadm-bootstrap-controller-manager"
        Namespace := "capi-kubeadm-bootstrap-system", Container := "manager" }),
   ("kubeadm-control-plane-controller-manager.log",
      { Name := "capi-kubeadm-control-plane-controller-manager"
        Namespace := "capi-kubeadm-control-plane-system", Container := "manager" }),
   ("capi-controller-manager.log",
      { Name := "capi-controller-manager", Namespace := "capi-system"
        Container := "manager" }),
   ("wh-capi-controller-manager.log",
      { Name := "capi-controller-manager", Namespace := "capi-webhook-system"
        Container := "manager" }),
   ("wh-capi-kubeadm-bootstrap-controller-manager.log",
      { Name := "capi-kubeadm-bootstrap-controller-manager"
        Namespace := "capi-webhook-system", Container := "manager" }),
   ("wh-kubeadm-control-plane-controller-manager.log",
      { Name := "capi-kubeadm-control-plane-controller-manager"
        Namespace := "capi-webhook-system", Container := "manager" }),
   ("cert-manager.log", { Name := "cert-manager", Namespace := "cert-manager" }),
   ("cert-manager-cainjector.log",
      { Name := "cert-manager-cainjector", Namespace := "cert-manager" }),
   ("cert-manager-webhook.log",
      { Name := "cert-manager-webhook", Namespace := "cert-manager" }),
   ("coredns.log", { Name := "coredns", Namespace := "kube-system" }),
   ("local-path-provisioner.log",
      { Name := "local-path-provisioner", Namespace := "local-path-storage" }),
   ("capv-controller-manager.log",
      { Name := "capv-controller-manager", Namespace := "capv-system"
        Container := "manager" }),
   ("wh-capv-controller-manager.log",
      { Name := "capv-controller-manager", Namespace := "capi-webhook-system"
        Container := "manager" })]

/-- A logged call of `writer.WithDir`. -/
def FileWriter.callWithDir {σ : Type} (fw : FileWriter σ) (dir : String) (w : World σ) :
    Except Error String × World σ :=
  let r := fw.WithDir dir w.st
  (r.1, { w with st := r.2, log := w.log ++ [Call.WithDir dir] })

/-- A logged call of `clusterClient.SaveLog`. -/
def ClusterClient.callSaveLog {σ : Type} (cl : ClusterClient σ) (cluster : Cluster)
    (deployment : Deployment) (fileName writer : String) (w : World σ) :
    Option Error × World σ :=
  let r := cl.SaveLog cluster deployment fileName writer w.st
  (r.1, { w with
    st := r.2
    log := w.log ++ [Call.SaveLog cluster deployment fileName writer] })

/-- The goroutine of `SaveLogs` (lines 438-445) for one entry of the table: the error of
`SaveLog` is written to the debug log and dropped. -/
def ClusterManager.saveLog {σ : Type} (c : ClusterManager σ) (cluster : Cluster)
    (writer : String) (w : World σ) (entry : String × Deployment) : World σ :=
  (c.clusterClient.callSaveLog cluster entry.2 entry.1 writer w).2

/-- The method `SaveLogs` (cluster_manager.go, lines 426-449). The receiver and the cluster
are pointers, `none` when nil. The loop starts one goroutine per entry of the table and
`wg.Wait()` returns when all of them are done; each goroutine makes one `SaveLog` call, and
`schedule` gives, for the table, its entries in the order in which these calls reach the
collaborator, which the Go scheduler and the `range` over the map leave open. -/
def ClusterManager.SaveLogs {σ : Type} (c : Option (ClusterManager σ))
    (schedule : List (String × Deployment) → List (String × Deployment))
    (cluster : Option Cluster) (w : World σ) : Option Error × World σ :=
  match c, cluster with
  | some c, some cluster =>
    match c.writer.callWithDir logDir w with
    | (Except.error err, w1) => (some err, w1)
    | (Except.ok dir, w1) =>
      (none, (schedule clusterDeployments).foldl (c.saveLog cluster dir) w1)
  | _, _ => (none, w)

/-! ## Creation of the workload cluster -/

/-- The methods of the interface `providers.Provider` that the create and upgrade workflows
call and that act outside the process: each maps the collaborator state to its answer and
the next state. `UpdateKubeConfig` answers with the content it rewrote in place. -/
structure ProviderActions (σ : Type) where
  GenerateDeploymentFileForUpgrade : Cluster → Cluster → Spec → String → σ →
    Except Error String × σ
  GenerateDeploymentFileForCreate : Cluster → Spec → String → σ → Except Error String × σ
  UpdateKubeConfig : String → String → σ → Except Error String × σ

/-- Declarations of this repository that lie outside the embedded files, taken as
parameters: the constant `constants.EksaSystemNamespace`, the function
`cluster.ApplyExtraObjects`, which acts on the cluster through the cluster client, and the
constant `v1alpha1.VSphereDatacenterKind`. -/
structure Externals (σ : Type) where
  EksaSystemNamespace : String
  ApplyExtraObjects : Cluster → Spec → σ → Option Error × σ
  VSphereDatacenterKind : String

/-- A logged call of `writer.Write`. -/
def FileWriter.callWrite {σ : Type} (fw : FileWriter σ) (fileName content : String)
    (opts : List String) (w : World σ) : Except Error String × World σ :=
  let r := fw.Write fileName content opts w.st
  (r.1, { w with st := r.2, log := w.log ++ [Call.Write fileName content opts] })

/-- A logged call of `provider.GenerateDeploymentFileForUpgrade`. -/
def ProviderActions.callGenerateDeploymentFileForUpgrade {σ : Type}
    (provider : ProviderActions σ) (bootstrapCluster workloadCluster : Cluster)
    (clusterSpec : Spec) (fileName : String) (w : World σ) : Except Error String × World σ :=
  let r := provider.GenerateDeploymentFileForUpgrade bootstrapCluster workloadCluster
    clusterSpec fileName w.st
  (r.1, { w with
    st := r.2
    log := w.log ++ [Call.GenerateDeploymentFileForUpgrade bootstrapCluster workloadCluster
      clusterSpec fileName] })

/-- A logged call of `provider.GenerateDeploymentFileForCreate`. -/
def ProviderActions.callGenerateDeploymentFileForCreate {σ : Type}
    (provider : ProviderActions σ) (workloadCluster : Cluster) (clusterSpec : Spec)
    (fileName : String) (w : World σ) : Except Error String × World σ :=
  let r := provider.GenerateDeploymentFileForCreate workloadCluster clusterSpec fileName w.st
  (r.1, { w with
    st := r.2
    log := w.log ++ [Call.GenerateDeploymentFileForCreate workloadCluster clusterSpec
      fileName] })

/-- A logged call of `provider.UpdateKubeConfig`. -/
def ProviderActions.callUpdateKubeConfig {σ : Type} (provider : ProviderActions σ)
    (content clusterName : String) (w : World σ) : Except Error String × World σ :=
  let r := provider.UpdateKubeConfig content clusterName w.st
  (r.1, { w with st := r.2, log := w.log ++ [Call.UpdateKubeConfig content clusterName] })

/-- A logged call of `cluster.ApplyExtraObjects`. -/
def Externals.callApplyExtraObjects {σ : Type} (ext : Externals σ) (cluster : Cluster)
    (clusterSpec : Spec) (w : World σ) : Option Error × World σ :=
  let r := ext.ApplyExtraObjects cluster clusterSpec w.st
  (r.1, { w with st := r.2, log := w.log ++ [Call.ApplyExtraObjects cluster clusterSpec] })

/-- A logged call of `clusterClient.ApplyKubeSpecWithNamespace`. -/
def ClusterClient.callApplyKubeSpecWithNamespace {σ : Type} (cl : ClusterClient σ)
    (cluster : Cluster) (kubeSpecFile ns : String) (w : World σ) :
    Option Error × Unit × World σ :=
  let r := cl.ApplyKubeSpecWithNamespace cluster kubeSpecFile ns w.st
  (r.1, (), { w with
    st := r.2
    log := w.log ++ [Call.ApplyKubeSpecWithNamespace cluster kubeSpecFile ns] })

/-- A logged call of `clusterClient.WaitForManagedExternalEtcdReady`. -/
def ClusterClient.callWaitForManagedExternalEtcdReady {σ : Type} (cl : ClusterClient σ)
    (cluster : Cluster) (timeout newClusterName : String) (w : World σ) :
    Option Error × World σ :=
  let r := cl.WaitForManagedExternalEtcdReady cluster timeout newClusterName w.st
  (r.1, { w with
    st := r.2
    log := w.log ++ [Call.WaitForManagedExternalEtcdReady cluster timeout newClusterName] })

/-- A logged call of `clusterClient.GetWorkloadKubeconfig`. -/
def ClusterClient.callGetWorkloadKubeconfig {σ : Type} (cl : ClusterClient σ)
    (clusterName : String) (cluster : Cluster) (w : World σ) :
    Except Error String × World σ :=
  let r := cl.GetWorkloadKubeconfig clusterName cluster w.st
  (r.1, { w with st := r.2, log := w.log ++ [Call.GetWorkloadKubeconfig clusterName cluster] })

/-- The shared Retrier run on a closure that has local variables: its policy does not read
them. -/
def Retrier.withLocals {L : Type} (r : Retrier Unit) : Retrier L :=
  { timeout := r.timeout
    retryPolicy := fun _ totalRetries err => r.retryPolicy () totalRetries err }

/-- The method `GenerateDeploymentFile` (cluster_manager.go, lines 463-480). -/
def ClusterManager.GenerateDeploymentFile {σ : Type} (c : ClusterManager σ)
    (bootstrapCluster workloadCluster : Cluster) (clusterSpec : Spec)
    (provider : ProviderActions σ) (isUpgrade : Bool) (w : World σ) :
    Except Error String × World σ :=
  let fileName := clusterSpec.Name ++ "-eks-a-cluster.yaml"
  if !clusterSpec.HasOverrideClusterSpecFile then
    if isUpgrade then
      provider.callGenerateDeploymentFileForUpgrade bootstrapCluster workloadCluster
        clusterSpec fileName w
    else provider.callGenerateDeploymentFileForCreate workloadCluster clusterSpec fileName w
  else
    match clusterSpec.ReadOverrideClusterSpecFile with
    | Except.error err => (Except.error err, w)
    | Except.ok fileContent =>
      match c.writer.callWrite fileName fileContent [] w with
      | (Except.error err, w1) =>
        (Except.error ("error creating cluster config file: " ++ err), w1)
      | (Except.ok writtenFile, w1) => (Except.ok writtenFile, w1)

/-- The method `generateWorkloadKubeconfig` (cluster_manager.go, lines 175-190): the results
(path, err) and the world afterwards. -/
def ClusterManager.generateWorkloadKubeconfig {σ : Type} (c : ClusterManager σ)
    (clusterName : String) (cluster : Cluster) (provider : ProviderActions σ)
    (w : World σ) : (String × Option Error) × World σ :=
  let fileName := clusterName ++ "-eks-a-cluster.kubeconfig"
  match c.clusterClient.callGetWorkloadKubeconfig clusterName cluster w with
  | (Except.error err, w1) => (("", some ("error getting workload kubeconfig: " ++ err)), w1)
  | (Except.ok kubeconfig, w1) =>
    match provider.callUpdateKubeConfig kubeconfig clusterName w1 with
    | (Except.error err, w2) => (("", some err), w2)
    | (Except.ok kubeconfig1, w2) =>
      match c.writer.callWrite fileName kubeconfig1 ["PersistentFile", "Permission0600"]
          w2 with
      | (Except.error err, w3) =>
        (("", some ("error writing workload kubeconfig: " ++ err)), w3)
      | (Except.ok writtenFile, w3) => ((writtenFile, none), w3)

/-- The first part of `applyCluster` (lines 300-312): the manifest file is generated and
applied under the shared Retrier. The result is the returned error, if any, and the world;
`none` when the fuel of the retry loop runs out. -/
def ClusterManager.applyManifest {σ : Type} (c : ClusterManager σ) (ext : Externals σ)
    (fuel : Nat) (managementCluster workloadCluster : Cluster) (clusterSpec : Spec)
    (provider : ProviderActions σ) (isUpgrade : Bool) (w : World σ) :
    Option (Option Error × World σ) :=
  match c.GenerateDeploymentFile managementCluster workloadCluster clusterSpec provider
      isUpgrade w with
  | (Except.error err, w1) => some (some ("error generating workload spec: " ++ err), w1)
  | (Except.ok clusterSpecFile, w1) =>
    match c.Retrier.Retry fuel
        (fun _ w => c.clusterClient.callApplyKubeSpecWithNamespace managementCluster
          clusterSpecFile ext.EksaSystemNamespace w) () w1 with
    | none => none
    | some (some err, _, w2) => some (some ("error applying workload spec: " ++ err), w2)
    | some (none, _, w2) => some (none, w2)

/-- The second part of `applyCluster` (lines 314-328): the wait for external etcd, when the
spec configures it, and the wait for the control plane. -/
def ClusterManager.waitForPlanes {σ : Type} (c : ClusterManager σ)
    (managementCluster workloadCluster : Cluster) (clusterSpec : Spec) (w : World σ) :
    Option Error × World σ :=
  let waitForControlPlane := fun (w : World σ) =>
    match c.clusterClient.callWaitForControlPlaneReady managementCluster ctrlPlaneWaitStr
        workloadCluster.Name w with
    | (some err, w1) =>
      (some ("error waiting for workload cluster control plane to be ready: " ++ err), w1)
    | (none, w1) => (none, w1)
  if clusterSpec.Spec.ExternalEtcdConfiguration.isSome then
    match c.clusterClient.callWaitForManagedExternalEtcdReady managementCluster etcdWaitStr
        workloadCluster.Name w with
    | (some err, w1) =>
      (some ("error waiting for external etcd for workload cluster to be ready: " ++ err), w1)
    | (none, w1) => waitForControlPlane w1
  else waitForControlPlane w

/-- The closure of `applyCluster` that fetches the kubeconfig (lines 332-335). Its local
state is the field `KubeconfigFile` of the workload cluster, which it assigns. -/
def ClusterManager.kubeconfigAttempt {σ : Type} (c : ClusterManager σ)
    (managementCluster workloadCluster : Cluster) (provider : ProviderActions σ) :
    String → World σ → Option Error × String × World σ :=
  fun _ w =>
    let r := c.generateWorkloadKubeconfig workloadCluster.Name managementCluster provider w
    (r.1.2, r.1.1, r.2)

/-- The third part of `applyCluster` (lines 330-341): unless this is an upgrade, the
kubeconfig of the workload cluster is fetched and written under the shared Retrier. The
result holds the workload cluster as the caller sees it afterwards. -/
def ClusterManager.fetchKubeconfig {σ : Type} (c : ClusterManager σ) (fuel : Nat)
    (managementCluster workloadCluster : Cluster) (provider : ProviderActions σ)
    (isUpgrade : Bool) (w : World σ) : Option (Option Error × Cluster × World σ) :=
  if !isUpgrade then
    match (c.Retrier.withLocals).Retry fuel
        (c.kubeconfigAttempt managementCluster workloadCluster provider)
        workloadCluster.KubeconfigFile w with
    | none => none
    | some (some err, kubeconfigFile, w1) =>
      some (some ("error generating workload kubeconfig: " ++ err),
        { workloadCluster with KubeconfigFile := kubeconfigFile }, w1)
    | some (none, kubeconfigFile, w1) =>
      some (none, { workloadCluster with KubeconfigFile := kubeconfigFile }, w1)
  else some (none, workloadCluster, w)

/-- The method `applyCluster` (cluster_manager.go, lines 299-348). Besides the returned
error the result holds the workload cluster as the caller sees it afterwards. -/
def ClusterManager.applyCluster {σ : Type} (c : ClusterManager σ) (ext : Externals σ)
    (fuel : Nat) (managementCluster workloadCluster : Cluster) (clusterSpec : Spec)
    (provider : ProviderActions σ) (isUpgrade : Bool) (w : World σ) :
    Option (Option Error × Cluster × World σ) :=
  match c.applyManifest ext fuel managementCluster workloadCluster clusterSpec provider
      isUpgrade w with
  | none => none
  | some (some err, w1) => some (some err, workloadCluster, w1)
  | some (none, w1) =>
    match c.waitForPlanes managementCluster workloadCluster clusterSpec w1 with
    | (some err, w2) => some (some err, workloadCluster, w2)
    | (none, w2) =>
      match c.fetchKubeconfig fuel managementCluster workloadCluster provider isUpgrade
          w2 with
      | none => none
      | some (some err, workloadCluster1, w3) => some (some err, workloadCluster1, w3)
      | some (none, workloadCluster1, w3) =>
        match c.waitForNodesReady fuel managementCluster w3 with
        | none => none
        | some (some err, w4) => some (some err, workloadCluster1, w4)
        | some (none, w4) => some (none, workloadCluster1, w4)

/-- The method `CreateWorkloadCluster` (cluster_manager.go, lines 154-173): the results
(cluster, err), the cluster being `none` when the returned pointer is nil. -/
def ClusterManager.CreateWorkloadCluster {σ : Type} (c : ClusterManager σ)
    (ext : Externals σ) (fuel : Nat) (managementCluster : Cluster) (clusterSpec : Spec)
    (provider : ProviderActions σ) (w : World σ) :
    Option ((Option Cluster × Option Error) × World σ) :=
  let workloadCluster : Cluster := { Name := managementCluster.Name, KubeconfigFile := "" }
  match c.applyCluster ext fuel managementCluster workloadCluster clusterSpec provider
      false w with
  | none => none
  | some (some err, _, w1) => some ((none, some err), w1)
  | some (none, workloadCluster1, w1) =>
    match ext.callApplyExtraObjects workloadCluster1 clusterSpec w1 with
    | (some err, w2) =>
      some ((none, some ("error applying extra resources to workload cluster: " ++ err)), w2)
    | (none, w2) => some ((some workloadCluster1, none), w2)

/-! ## Comparison of the stored and the new cluster spec -/

/-- A logged call of `clusterClient.GetEksaCluster`. -/
def ClusterClient.callGetEksaCluster {σ : Type} (cl : ClusterClient σ) (cluster : Cluster)
    (w : World σ) : Except Error EksaCluster × World σ :=
  let r := cl.GetEksaCluster cluster w.st
  (r.1, { w with st := r.2, log := w.log ++ [Call.GetEksaCluster cluster] })

/-- A logged call of `clusterClient.GetEksaVSphereDatacenterConfig`. -/
def ClusterClient.callGetEksaVSphereDatacenterConfig {σ : Type} (cl : ClusterClient σ)
    (name kubeconfigFile : String) (w : World σ) :
    Except Error VSphereDatacenterConfig × World σ :=
  let r := cl.GetEksaVSphereDatacenterConfig name kubeconfigFile w.st
  (r.1, { w with
    st := r.2
    log := w.log ++ [Call.GetEksaVSphereDatacenterConfig name kubeconfigFile] })

/-- A logged call of `clusterClient.GetEksaVSphereMachineConfig`. -/
def ClusterClient.callGetEksaVSphereMachineConfig {σ : Type} (cl : ClusterClient σ)
    (name kubeconfigFile : String) (w : World σ) :
    Except Error VSphereMachineConfig × World σ :=
  let r := cl.GetEksaVSphereMachineConfig name kubeconfigFile w.st
  (r.1, { w with
    st := r.2
    log := w.log ++ [Call.GetEksaVSphereMachineConfig name kubeconfigFile] })

/-- The type assertion `datacenterConfig.(*v1alpha1.VSphereDatacenterConfig)`: it panics
for every other dynamic type. -/
def DatacenterConfig.assertVSphere (datacenterConfig : DatacenterConfig) :
    Except String VSphereDatacenterConfig :=
  match datacenterConfig.vsphere with
  | some vdc => Except.ok vdc
  | none =>
    Except.error ("interface conversion: providers.DatacenterConfig is not " ++
      "*v1alpha1.VSphereDatacenterConfig")

/-- The type assertion `config.(*v1alpha1.VSphereMachineConfig)`: it panics for every other
dynamic type. -/
def MachineConfig.assertVSphere (config : MachineConfig) : Except String VSphereMachineConfig :=
  match config.vsphere with
  | some mc => Except.ok mc
  | none =>
    Except.error ("interface conversion: providers.MachineConfig is not " ++
      "*v1alpha1.VSphereMachineConfig")

/-- The loop of `EKSAClusterSpecChanged` that fills `machineConfigMap` (lines 258-261). The
Go map is an association list in which a later entry of a name comes before, and so
replaces, an earlier one. -/
def buildMachineConfigMap :
    List MachineConfig → List (String × VSphereMachineConfig) →
      Except String (List (String × VSphereMachineConfig))
  | [], machineConfigMap => Except.ok machineConfigMap
  | config :: rest, machineConfigMap =>
    match config.assertVSphere with
    | Except.error p => Except.error p
    | Except.ok mc => buildMachineConfigMap rest ((mc.Name, mc) :: machineConfigMap)

/-- The results of `EKSAClusterSpecChanged`: the pair (bool, error) it returns, or the
reason of the panic that ends it. -/
abbrev Changed := Except String (Bool × Option Error)

/-- The comparison of one machine config in `EKSAClusterSpecChanged` (lines 262-270,
271-279 and 281-289): the name in the stored spec is read and the stored machine config of
that name fetched; the name in the new spec is read and looked up in `machineConfigMap`; the
two specs are compared with `reflect.DeepEqual`. `k` is what follows when they are equal. -/
def ClusterManager.compareMachineConfig {σ : Type} (c : ClusterManager σ) (cluster : Cluster)
    (machineConfigMap : List (String × VSphereMachineConfig))
    (existingName newName : Except String String) (k : World σ → Changed × World σ)
    (w : World σ) : Changed × World σ :=
  match existingName with
  | Except.error p => (Except.error p, w)
  | Except.ok name =>
    match c.clusterClient.callGetEksaVSphereMachineConfig name cluster.KubeconfigFile w with
    | (Except.error err, w1) => (Except.ok (false, some err), w1)
    | (Except.ok existingVmc, w1) =>
      match newName.bind fun n => deref (machineConfigMap.lookup n) with
      | Except.error p => (Except.error p, w1)
      | Except.ok vmc =>
        if existingVmc.Spec ≠ vmc.Spec then (Except.ok (true, none), w1) else k w1

/-- The method `EKSAClusterSpecChanged` (cluster_manager.go, lines 232-297).
`reflect.DeepEqual` on the specs is equality of the embedded values. -/
def ClusterManager.EKSAClusterSpecChanged {σ : Type} (c : ClusterManager σ)
    (ext : Externals σ) (cluster : Cluster) (clusterSpec : Spec)
    (datacenterConfig : DatacenterConfig) (machineConfigs : List MachineConfig)
    (w : World σ) : Changed × World σ :=
  match c.clusterClient.callGetEksaCluster cluster w with
  | (Except.error err, w1) => (Except.ok (false, some err), w1)
  | (Except.ok cc, w1) =>
    if cc.Spec ≠ clusterSpec.Spec then (Except.ok (true, none), w1)
    else if cc.Spec.DatacenterRef.Kind = ext.VSphereDatacenterKind then
      match c.clusterClient.callGetEksaVSphereDatacenterConfig cc.Spec.DatacenterRef.Name
          cluster.KubeconfigFile w1 with
      | (Except.error err, w2) => (Except.ok (false, some err), w2)
      | (Except.ok existingVdc, w2) =>
        match datacenterConfig.assertVSphere with
        | Except.error p => (Except.error p, w2)
        | Except.ok vdc =>
          if existingVdc.Spec ≠ vdc.Spec then (Except.ok (true, none), w2)
          else
            match buildMachineConfigMap machineConfigs [] with
            | Except.error p => (Except.error p, w2)
            | Except.ok machineConfigMap =>
              c.compareMachineConfig cluster machineConfigMap
                (cpMachineGroupName cc.Spec) (cpMachineGroupName clusterSpec.Spec)
                (c.compareMachineConfig cluster machineConfigMap
                  (workerMachineGroupName cc.Spec) (workerMachineGroupName clusterSpec.Spec)
                  (fun w4 =>
                    if cc.Spec.ExternalEtcdConfiguration.isSome then
                      c.compareMachineConfig cluster machineConfigMap
                        (etcdMachineGroupName cc.Spec) (etcdMachineGroupName clusterSpec.Spec)
                        (fun w5 => (Except.ok (false, none), w5)) w4
                    else (Except.ok (false, none), w4))) w2
    else (Except.ok (true, none), w1)

/-- The option `WithWaitForMachines` (cluster_manager.go, lines 121-127), applied to a
cluster manager as `New` applies its options. -/
def WithWaitForMachines {σ : Type} (machineBackoff machineMaxWait machinesMinWait : Duration)
    (c : ClusterManager σ) : ClusterManager σ :=
  { c with
    machineBackoff := machineBackoff
    machineMaxWait := machineMaxWait
    machinesMinWait := machinesMinWait }

/-! ## Definitions used to state the properties -/

/-- Every annotation write of the collaborator succeeds, in every collaborator state. -/
def WritesSucceed {σ : Type} (cl : ClusterClient σ) : Prop :=
  (∀ rt nm ann c ns s, (cl.UpdateAnnotationInNamespace rt nm ann c ns s).1 = none) ∧
  (∀ rt nm key c ns s, (cl.RemoveAnnotationInNamespace rt nm key c ns s).1 = none)

/-- The heads of the five error messages of one coordinator method. -/
structure StepMessages where
  datacenter : String
  controlPlane : String
  worker : String
  etcd : String
  cluster : String

/-- The message heads of `PauseEKSAControllerReconcile` (lines 620, 638, 647, 659, 671). -/
def pauseMessages : StepMessages :=
  { datacenter := "error updating annotation when pausing datacenterconfig reconciliation: "
    controlPlane :=
      "error updating annotation when pausing control plane machineconfig reconciliation: "
    worker :=
      "error updating annotation when pausing worker node machineconfig reconciliation: "
    etcd := "error updating annotation when pausing etcd machineconfig reconciliation: "
    cluster := "error updating annotation when pausing cluster reconciliation: " }

/-- The message heads of `ResumeEKSAControllerReconcile` (lines 684, 702, 711, 723, 735). -/
def resumeMessages : StepMessages :=
  { datacenter := "error updating annotation when unpausing datacenterconfig reconciliation: "
    controlPlane :=
      "error updating annotation when unpausing control plane machineconfig reconciliation: "
    worker :=
      "error updating annotation when unpausing worker node machineconfig reconciliation: "
    etcd := "error updating annotation when resuming etcd machineconfig reconciliation: "
    cluster := "error updating annotation when unpausing cluster reconciliation: " }

/-- One retried write: its (resource type, object name) target and the head of the error
message returned when it fails. -/
abbrev Step := (String × String) × String

/-- A summary of the coordinator on a spec: the retried writes it goes through, in order,
and how it exits once they have all succeeded. `pause_chain` and `resume_chain` prove that
the two methods follow it for every collaborator. -/
def plan (msgs : StepMessages) (cluster : Cluster) (clusterSpec : Spec) (provider : Provider) :
    Exit × List Step :=
  let dc : Step :=
    ((provider.DatacenterResourceType, clusterSpec.Spec.DatacenterRef.Name), msgs.datacenter)
  let cl : Step := ((clusterSpec.ResourceType, cluster.Name), msgs.cluster)
  let mc := fun (r : Ref) (msg : String) => (((provider.MachineResourceType, r.Name), msg) : Step)
  if provider.MachineResourceType = "" then (Exit.returned none, [dc, cl])
  else
    match clusterSpec.Spec.ControlPlaneConfiguration.MachineGroupRef with
    | none => (Exit.returned (some "machineGroupRef for control plane is not defined"), [dc])
    | some cp =>
      match clusterSpec.Spec.WorkerNodeGroupConfigurations with
      | [] => (Exit.returned (some "machineGroupRef for worker nodes is not defined"), [dc])
      | wg :: _ =>
        match wg.MachineGroupRef with
        | none => (Exit.returned (some "machineGroupRef for worker nodes is not defined"), [dc])
        | some wr =>
          match clusterSpec.Spec.ExternalEtcdConfiguration with
          | none =>
            (Exit.returned none,
              [dc, mc cp msgs.controlPlane] ++
                (if cp.Name ≠ wr.Name then [mc wr msgs.worker] else []) ++ [cl])
          | some e =>
            match e.MachineGroupRef with
            | none =>
              (Exit.returned (some "machineGroupRef for etcd machines is not defined"), [dc])
            | some er =>
              (Exit.returned none,
                [dc, mc cp msgs.controlPlane] ++
                  (if cp.Name ≠ wr.Name then [mc wr msgs.worker] else []) ++
                  (if er.Name ≠ cp.Name then [mc er msgs.etcd] else []) ++ [cl])

/-- Run a list of retried writes in order: the first write whose Retry returns an error
ends the run with that error under the message head of the write; `final` is what follows
the last write. -/
def runSteps {σ β : Type}
    (retry : String × String → World σ → Option (Option Error × Unit × World σ))
    (fail : World σ → β) (final : World σ → Option (Exit × β)) :
    List Step → World σ → Option (Exit × β)
  | [], w => final w
  | (t, msg) :: rest, w => afterRetry (retry t w) msg fail (runSteps retry fail final rest)

/-- The Retry of one annotation update, as `PauseEKSAControllerReconcile` issues it. -/
def ClusterManager.retryUpdate {σ : Type} (c : ClusterManager σ) (fuel : Nat)
    (cluster : Cluster) (annotations : List (String × String)) (t : String × String)
    (w : World σ) : Option (Option Error × Unit × World σ) :=
  c.Retrier.Retry fuel (fun _ w => c.clusterClient.callUpdateAnnotationInNamespace
    t.1 t.2 annotations cluster "" w) () w

/-- The Retry of one annotation removal, as `ResumeEKSAControllerReconcile` issues it. -/
def ClusterManager.retryRemove {σ : Type} (c : ClusterManager σ) (fuel : Nat)
    (cluster : Cluster) (key : String) (t : String × String)
    (w : World σ) : Option (Option Error × Unit × World σ) :=
  c.Retrier.Retry fuel (fun _ w => c.clusterClient.callRemoveAnnotationInNamespace
    t.1 t.2 key cluster "" w) () w

/-- The world after one retried `UpdateAnnotationInNamespace` call that succeeded at once. -/
def World.afterUpdate {σ : Type} (cl : ClusterClient σ) (annotations : List (String × String))
    (cluster : Cluster) (w : World σ) (target : String × String) : World σ :=
  { st := (cl.UpdateAnnotationInNamespace target.1 target.2 annotations cluster "" w.st).2
    log := w.log ++ [Call.UpdateAnnotationInNamespace target.1 target.2 annotations cluster ""]
    clock := w.clock
    retrierRuns := w.retrierRuns + 1 }

/-- The world after one retried `RemoveAnnotationInNamespace` call that succeeded at once. -/
def World.afterRemove {σ : Type} (cl : ClusterClient σ) (key : String)
    (cluster : Cluster) (w : World σ) (target : String × String) : World σ :=
  { st := (cl.RemoveAnnotationInNamespace target.1 target.2 key cluster "" w.st).2
    log := w.log ++ [Call.RemoveAnnotationInNamespace target.1 target.2 key cluster ""]
    clock := w.clock
    retrierRuns := w.retrierRuns + 1 }

/-- The spec and provider objects as the caller of Resume sees them afterwards. -/
def resumedObjects (e : Exit) (clusterSpec : Spec) (provider : Provider) : Spec × Provider :=
  if e = Exit.returned none then
    ( clusterSpec.ClearPauseAnnotation, provider.ClearPauseAnnotation)
  else (clusterSpec, provider)

/-! ## Concrete collaborators and inputs -/

/-- A collaborator whose calls all succeed and that keeps no state; it reports no machine. -/
def okClient : ClusterClient Unit :=
  { UpdateAnnotationInNamespace := fun _ _ _ _ _ s => (none, s)
    RemoveAnnotationInNamespace := fun _ _ _ _ _ s => (none, s)
    GetMachines := fun _ s => (Except.ok [], s) }

/-- A collaborator like `okClient` whose annotation removal fails, in every state, on the
object named `cp`. -/
def failingRemoveClient : ClusterClient Unit :=
  { okClient with
    RemoveAnnotationInNamespace := fun _ nm _ _ _ s =>
      (if nm = "cp" then some "connection refused" else none, s) }

/-- A world with an empty log at time zero. -/
def World.init {σ : Type} (s : σ) : World σ :=
  { st := s, log := [], clock := 0, retrierRuns := 0 }

def exampleCluster : Cluster := { Name := "mgmt", KubeconfigFile := "mgmt.kubeconfig" }

def exampleProvider : Provider :=
  { DatacenterResourceType := "vspheredatacenterconfigs.anywhere.eks.amazonaws.com"
    MachineResourceType := "vspheremachineconfigs.anywhere.eks.amazonaws.com"
    DatacenterConfig := { paused := true } }

def machineRef (name : String) : Ref := { Kind := "VSphereMachineConfig", Name := name }

/-- A cluster spec with the given control plane reference, worker group references and
external etcd configuration. -/
def exampleSpec (cp : Option String) (workers : List (Option String))
    (etcd : Option (Option String)) : Spec :=
  { Spec :=
      { ControlPlaneConfiguration := { Count := 1, MachineGroupRef := cp.map machineRef }
        WorkerNodeGroupConfigurations :=
          workers.map fun r => { Count := 1, MachineGroupRef := r.map machineRef }
        ExternalEtcdConfiguration :=
          etcd.map fun r => { Count := 3, MachineGroupRef := r.map machineRef }
        DatacenterRef := { Kind := "VSphereDatacenterConfig", Name := "dc" } }
    PausedAnnotation := "anywhere.eks.amazonaws.com/paused"
    ResourceType := "clusters.anywhere.eks.amazonaws.com"
    paused := true }

/-- The update call the example inputs produce on the object `nm` of type `rt`. -/
def exampleUpdate (rt nm : String) : Call :=
  Call.UpdateAnnotationInNamespace rt nm [("anywhere.eks.amazonaws.com/paused", "true")]
    exampleCluster ""

/-- The remove call the example inputs produce on the object `nm` of type `rt`. -/
def exampleRemove (rt nm : String) : Call :=
  Call.RemoveAnnotationInNamespace rt nm "anywhere.eks.amazonaws.com/paused" exampleCluster ""

/-- Run retried writes in order as long as each Retry returns nil: the world after the
last one, or `none` when a Retry returned an error or ran out of fuel. -/
def succeedAll {σ : Type}
    (retry : String × String → World σ → Option (Option Error × Unit × World σ)) :
    List Step → World σ → Option (World σ)
  | [], w => some w
  | (t, _) :: rest, w =>
    match retry t w with
    | some (none, _, w1) => succeedAll retry rest w1
    | _ => none

/-- The spec used in the examples: control plane on `cp`, one worker group on `w`, external
etcd on `e`. -/
def distinctSpec : Spec := exampleSpec (some "cp") [some "w"] (some (some "e"))

/-- The world in which the removal on `cp` gives up, in a Resume of `distinctSpec` against
`failingRemoveClient`. -/
def exhaustedWorld : World Unit :=
  match (ClusterManager.New failingRemoveClient).retryRemove 30 exampleCluster
      distinctSpec.PausedAnnotation (exampleProvider.MachineResourceType, "cp")
      (World.afterRemove failingRemoveClient distinctSpec.PausedAnnotation exampleCluster
        (World.init ()) (exampleProvider.DatacenterResourceType, "dc")) with
  | some r => r.2.2
  | none => World.init ()

/-- The state of a collaborator that stores annotations as a key/value map per resource:
the resource (resource type, object name, namespace) and the key give the value. -/
abbrev AnnotationStore := String × String × String → String → Option String

/-- A collaborator that stores annotations as a key/value map per resource: an update sets
every given key of the resource, a removal deletes the key of the resource, and both
succeed whatever the map holds. -/
def storeClient : ClusterClient AnnotationStore :=
  { UpdateAnnotationInNamespace := fun rt nm ann _ ns s =>
      (none, fun r k =>
        if r = (rt, nm, ns) then
          match ann.lookup k with
          | some v => some v
          | none => s r k
        else s r k)
    RemoveAnnotationInNamespace := fun rt nm key _ ns s =>
      (none, fun r k => if r = (rt, nm, ns) ∧ k = key then none else s r k)
    GetMachines := fun _ s => (Except.ok [], s) }

/-- The store with no annotation at all. -/
def emptyStore : AnnotationStore := fun _ _ => none

/-- The machine-group references a provider with machine configs needs are set: the control
plane's, the first worker group's and, when external etcd is configured, its own. -/
def machineGroupsDefined (clusterSpec : Spec) : Prop :=
  (∃ cp, clusterSpec.Spec.ControlPlaneConfiguration.MachineGroupRef = some cp) ∧
  (∃ wg rest wr, clusterSpec.Spec.WorkerNodeGroupConfigurations = wg :: rest ∧
    wg.MachineGroupRef = some wr) ∧
  (∀ e, clusterSpec.Spec.ExternalEtcdConfiguration = some e → e.MachineGroupRef ≠ none)

/-- A control-plane machine, with or without a node reference. -/
def controlPlaneMachine (joined : Bool) : Machine :=
  { Labels := [(MachineControlPlaneLabelName, "")]
    NodeRef := if joined then some "node" else none }

/-- A worker machine of the machine deployment `md-0`, with or without a node reference. -/
def workerMachine (joined : Bool) : Machine :=
  { Labels := [(MachineDeploymentLabelName, "md-0")]
    NodeRef := if joined then some "node" else none }

/-- A collaborator whose state counts the `GetMachines` queries answered so far: the first
query sees one control-plane machine that has joined and two workers that have not, every
later query sees all three joined. -/
def joiningClient : ClusterClient Nat :=
  { UpdateAnnotationInNamespace := fun _ _ _ _ _ s => (none, s)
    RemoveAnnotationInNamespace := fun _ _ _ _ _ s => (none, s)
    GetMachines := fun _ n =>
      (Except.ok [controlPlaneMachine true, workerMachine (decide (0 < n)),
        workerMachine (decide (0 < n))], n + 1) }

/-- A machine that carries both the control-plane label and the machine-deployment label. -/
def doubleLabelMachine : Machine :=
  { Labels := [(MachineControlPlaneLabelName, ""), (MachineDeploymentLabelName, "md-0")]
    NodeRef := some "node" }

/-- A collaborator like `okClient` that reports the single machine `doubleLabelMachine`. -/
def doubleLabelClient : ClusterClient Unit :=
  { okClient with GetMachines := fun _ s => (Except.ok [doubleLabelMachine], s) }

/-- The elements of a list up to and including the first one that satisfies `p`. -/
def untilFirst {α : Type} (p : α → Bool) : List α → List α
  | [] => []
  | a :: rest => if p a then [a] else a :: untilFirst p rest

/-- Whether a logged call is a `MoveManagement` call. -/
def Call.isMoveManagement : Call → Bool
  | Call.MoveManagement _ _ => true
  | _ => false

/-- The (namespace, deployment) pairs of a map from namespace to deployment names, in the
order of the entries. -/
def deploymentPairs (entries : List (String × List String)) : List (String × String) :=
  entries.flatMap fun e => e.2.map fun d => (e.1, d)

/-- A second cluster, the target of a move. -/
def targetCluster : Cluster := { Name := "workload", KubeconfigFile := "workload.kubeconfig" }

/-- A collaborator like `okClient` whose `MoveManagement` call fails. -/
def failingMoveClient : ClusterClient Unit :=
  { okClient with MoveManagement := fun _ _ s => (some "move failed", s) }

/-- A collaborator like `okClient` that tracks three clusters; waiting for the control
plane of the cluster `w1` fails. -/
def fleetClient : ClusterClient Unit :=
  { okClient with
    GetClusters := fun _ s => (Except.ok [⟨"mgmt"⟩, ⟨"w1"⟩, ⟨"w2"⟩], s)
    WaitForControlPlaneReady := fun _ _ name s =>
      (if name = "w1" then some "timed out" else none, s) }

/-- A collaborator like `okClient` for which the deployment `capi-controller-manager` never
becomes available in the namespace `capi-webhook-system`. -/
def failingDeploymentClient : ClusterClient Unit :=
  { okClient with
    WaitForDeployment := fun _ _ _ target ns s =>
      (if target = "capi-controller-manager" ∧ ns = "capi-webhook-system" then
        some "timed out" else none, s) }

/-- The world after a successful `MoveCapi` from `exampleCluster` to `targetCluster`
against `okClient`, started in `World.init ()`. -/
def movedWorld : World Unit :=
  { st := ()
    log := [Call.GetMachines exampleCluster, Call.MoveManagement exampleCluster targetCluster,
      Call.GetClusters targetCluster, Call.GetMachines targetCluster]
    clock := 0
    retrierRuns := 0 }

/-- Whether waiting for the deployment of a (namespace, deployment) pair fails, for a
collaborator whose answer is determined by the deployment and the namespace. -/
def deploymentFails (answer : String → String → Option Error) (p : String × String) : Bool :=
  (answer p.2 p.1).isSome

/-- The `WaitForDeployment` call for a (namespace, deployment) pair. -/
def deploymentWaitCall (cluster : Cluster) (p : String × String) : Call :=
  Call.WaitForDeployment cluster "30m" "Available" p.2 p.1

/-- The error returned for a (namespace, deployment) pair whose wait fails. -/
def deploymentWaitError (answer : String → String → Option Error) (p : String × String) :
    Option Error :=
  (answer p.2 p.1).map fun err =>
    "error waiting for " ++ p.2 ++ " in namespace " ++ p.1 ++ ": " ++ err

/-- A provider like `exampleProvider` that adds the deployment of its own controller. -/
def capvProvider : Provider :=
  { exampleProvider with GetDeployments := [("capv-system", ["capv-controller-manager"])] }

/-- A remote channel whose state counts the `GetCommandInvocation` calls answered so far:
the n-th call (from 0) returns the n-th status of `script`, and `Success` once the script
is used up; every answer carries the same captured output. -/
def scriptedService (script : List String) : SSMService Nat :=
  { SendCommand := fun _ n => (Except.ok "cmd-1", n)
    GetCommandInvocation := fun _ n =>
      (Except.ok { Status := script.getD n "Success"
                   StandardOutputContent := "hello"
                   StandardErrorContent := "warning" }, n + 1) }

/-- The `GetCommandInvocation` call of the examples. -/
def exampleInvocation : Call :=
  Call.GetCommandInvocation { CommandId := "cmd-1", InstanceId := "i-0abc" }

/-- The channel of the examples where the command ends with the status `Failed`. -/
def failedService : SSMService Nat := scriptedService ["Pending", "Failed"]

/-- The world after `SendCommand` in a `Run` of `ls` on `i-0abc` against `failedService`. -/
def failedRunSent : World Nat :=
  (failedService.callSendCommand (runCommandInput "i-0abc" "ls") (World.init 0)).2

/-- The world after the registration check of that `Run`. -/
def failedRunRegistered : World Nat :=
  match retrierRetry 10 (5 * Second) 1
      (registrationCheck failedService { CommandId := "cmd-1", InstanceId := "i-0abc" }) ()
      failedRunSent with
  | some r => r.2.2
  | none => failedRunSent

/-- The world after the status polling of that `Run`. -/
def failedRunPolled : World Nat :=
  match (Retrier.New (180 * Minute) defaultPolicy).Retry 1
      (statusPoll failedService { CommandId := "cmd-1", InstanceId := "i-0abc" }) none
      failedRunRegistered with
  | some r => r.2.2
  | none => failedRunRegistered

/-- The invocation `failedService` answers with at its second call. -/
def failedOutput : GetCommandInvocationOutput :=
  { Status := "Failed", StandardOutputContent := "hello", StandardErrorContent := "warning" }

/-- The invocation a `scriptedService` answers with for a status. -/
def scriptedOutput (status : String) : GetCommandInvocationOutput :=
  { Status := status, StandardOutputContent := "hello", StandardErrorContent := "warning" }

/-- The channel of the examples whose call that confirms the registration is followed by
the statuses Pending, InProgress, Success. -/
def pendingService : SSMService Nat :=
  scriptedService ["Pending", "Pending", "InProgress", "Success"]

/-- A provider without machine configs: `MachineResourceType()` is the empty string. -/
def noMachineProvider : Provider :=
  { DatacenterResourceType := "dockerdatacenterconfigs.anywhere.eks.amazonaws.com"
    MachineResourceType := ""
    DatacenterConfig := { paused := true } }

/-- A spec without machine groups: the control-plane reference is nil, there is no worker
group, and external etcd is configured with a nil reference. -/
def noMachineGroupSpec : Spec := exampleSpec none [] (some none)

/-- A collaborator like `okClient` whose `GetMachines` query fails. -/
def failingMachinesClient : ClusterClient Unit :=
  { okClient with GetMachines := fun _ s => (Except.error "connection refused", s) }

/-- A collaborator like `okClient` whose `DeleteCluster` call fails in every state. -/
def failingDeleteClient : ClusterClient Unit :=
  { okClient with DeleteCluster := fun _ _ s => (some "cluster is busy", s) }

/-- An operation that fails on every call and logs each call as a `GetClusters` query. -/
def failingOperation : Unit → World Unit → Option Error × Unit × World Unit :=
  fun _ w => (some "boom", (), { w with log := w.log ++ [Call.GetClusters exampleCluster] })

/-- A remote channel that accepts the command but never knows its invocation. -/
def unregisteredService : SSMService Unit :=
  { SendCommand := fun _ s => (Except.ok "cmd-1", s)
    GetCommandInvocation := fun _ s => (Except.error "InvocationDoesNotExist", s) }

/-- A remote channel that refuses the command. -/
def refusingService : SSMService Unit :=
  { SendCommand := fun _ s => (Except.error "AccessDenied", s)
    GetCommandInvocation := fun _ s => (Except.error "InvocationDoesNotExist", s) }

/-- The result of the `Run` of `ls` on `i-0abc` against `pendingService`. -/
def pendingRun : Exit × World Nat :=
  match Run pendingService 3 "i-0abc" "ls" [] (World.init 0) with
  | some r => r
  | none => (Exit.panicked "out of fuel", World.init 0)

/-- The `SaveLog` call of `SaveLogs` for one entry of the table. -/
def saveLogCall (cluster : Cluster) (writer : String) (entry : String × Deployment) : Call :=
  Call.SaveLog cluster entry.2 entry.1 writer

/-- A collaborator like `okClient` whose `SaveLog` call fails in every state. -/
def failingSaveLogClient : ClusterClient Unit :=
  { okClient with SaveLog := fun _ _ _ _ s => (some "pod not found", s) }

/-- Whether a logged call is a readiness poll: a wait on the external etcd, on the control
plane or on a deployment, or a query of the machines. -/
def Call.isReadinessPoll : Call → Bool
  | Call.WaitForManagedExternalEtcdReady _ _ _ => true
  | Call.WaitForControlPlaneReady _ _ _ => true
  | Call.WaitForDeployment _ _ _ _ _ => true
  | Call.GetMachines _ => true
  | _ => false

/-- Whether a logged call belongs to the generation of the manifest file. -/
def Call.isFileGeneration : Call → Bool
  | Call.GenerateDeploymentFileForUpgrade _ _ _ _ => true
  | Call.GenerateDeploymentFileForCreate _ _ _ => true
  | Call.Write _ _ _ => true
  | _ => false

/-- Whether a logged call rewrites or writes the fetched kubeconfig. -/
def Call.isKubeconfigWrite : Call → Bool
  | Call.UpdateKubeConfig _ _ => true
  | Call.Write _ _ _ => true
  | _ => false

/-- A provider whose methods succeed and keep no state: the manifest is written under
`generated/`, the kubeconfig is left as fetched. -/
def okProvider : ProviderActions Unit :=
  { GenerateDeploymentFileForUpgrade := fun _ _ _ fileName s =>
      (Except.ok ("generated/" ++ fileName), s)
    GenerateDeploymentFileForCreate := fun _ _ fileName s =>
      (Except.ok ("generated/" ++ fileName), s)
    UpdateKubeConfig := fun content _ s => (Except.ok content, s) }

/-- The namespace `eksa-system`, an `ApplyExtraObjects` that succeeds, and the kind name
`VSphereDatacenterConfig`. -/
def okExternals : Externals Unit :=
  { EksaSystemNamespace := "eksa-system"
    ApplyExtraObjects := fun _ _ s => (none, s)
    VSphereDatacenterKind := "VSphereDatacenterConfig" }

/-- A collaborator like `okClient` whose `ApplyKubeSpecWithNamespace` call fails in every
state. -/
def failingApplyClient : ClusterClient Unit :=
  { okClient with ApplyKubeSpecWithNamespace := fun _ _ _ s => (some "webhook not ready", s) }

/-- The spec of the examples with its name set: control plane on `cp`, one worker group on
`w`, external etcd on `e`. -/
def namedSpec : Spec := { distinctSpec with Name := "mgmt" }

/-- The workload cluster as `CreateWorkloadCluster` builds it for `exampleCluster`. -/
def newWorkload : Cluster := { Name := "mgmt", KubeconfigFile := "" }

/-- The result of `applyCluster`, for a create, against `okClient` and `okProvider`. -/
def appliedRun : Option Error × Cluster × World Unit :=
  match (ClusterManager.New okClient).applyCluster okExternals 1 exampleCluster newWorkload
      namedSpec okProvider false (World.init ()) with
  | some r => r
  | none => (some "out of fuel", newWorkload, World.init ())

/-- The world after the generation of the manifest file against `failingApplyClient`. -/
def generatedWorld : World Unit :=
  ((ClusterManager.New failingApplyClient).GenerateDeploymentFile exampleCluster newWorkload
    namedSpec okProvider false (World.init ())).2

/-- The world in which the Retry of the apply gives up against `failingApplyClient`. -/
def applyExhaustedWorld : World Unit :=
  match (ClusterManager.New failingApplyClient).Retrier.Retry 30
      (fun _ w => failingApplyClient.callApplyKubeSpecWithNamespace exampleCluster
        "generated/mgmt-eks-a-cluster.yaml" "eksa-system" w) () generatedWorld with
  | some r => r.2.2
  | none => generatedWorld

/-- The result of `CreateWorkloadCluster` against `okClient` and `okProvider`. -/
def createdRun : (Option Cluster × Option Error) × World Unit :=
  match (ClusterManager.New okClient).CreateWorkloadCluster okExternals 1 exampleCluster
      namedSpec okProvider (World.init ()) with
  | some r => r
  | none => ((none, some "out of fuel"), World.init ())

/-- The error of a fetch that failed, for a collaborator whose answers to the three fetches
of `EKSAClusterSpecChanged` are `ccAns` and, by name, `dcAns` and `mcAns`; `none` for a fetch
that succeeded and for every other call. -/
def fetchError (ccAns : Except Error EksaCluster)
    (dcAns : String → Except Error VSphereDatacenterConfig)
    (mcAns : String → Except Error VSphereMachineConfig) : Call → Option Error
  | Call.GetEksaCluster _ =>
    match ccAns with
    | Except.error e => some e
    | Except.ok _ => none
  | Call.GetEksaVSphereDatacenterConfig name _ =>
    match dcAns name with
    | Except.error e => some e
    | Except.ok _ => none
  | Call.GetEksaVSphereMachineConfig name _ =>
    match mcAns name with
    | Except.error e => some e
    | Except.ok _ => none
  | _ => none

/-- A run of fetches in which a fetch that fails is the last call and gives the result
(false, err): the log grows by `ext`, and either no call of `ext` is a failed fetch, or the
last one is, none before it, and the result is false with its error. -/
def FailsFast (ccAns : Except Error EksaCluster)
    (dcAns : String → Except Error VSphereDatacenterConfig)
    (mcAns : String → Except Error VSphereMachineConfig) {σ : Type} (w : World σ)
    (r : Changed × World σ) : Prop :=
  ∃ ext, r.2.log = w.log ++ ext ∧
    ((∀ x ∈ ext, fetchError ccAns dcAns mcAns x = none) ∨
      ∃ pre x e, ext = pre ++ [x] ∧ (∀ y ∈ pre, fetchError ccAns dcAns mcAns y = none) ∧
        fetchError ccAns dcAns mcAns x = some e ∧ r.1 = Except.ok (false, some e))

/-- The machine config supplied under a name: the last one of that name in the list. -/
def suppliedMachineConfig (configs : List VSphereMachineConfig) (name : String) :
    Option VSphereMachineConfig :=
  (configs.foldl (fun m mc => (mc.Name, mc) :: m) []).lookup name

/-- The stored and the supplied machine config of a machine-group reference have equal
specs: the reference is set, a machine config is supplied under its name, and its spec is
the one of the stored machine config `mcOf` gives for the name. -/
def machineSpecUnchanged (mcOf : String → VSphereMachineConfig)
    (configs : List VSphereMachineConfig) (ref : Option Ref) : Prop :=
  ∃ r vmc, ref = some r ∧ suppliedMachineConfig configs r.Name = some vmc ∧
    (mcOf r.Name).Spec = vmc.Spec

/-- Every machine-group name that `EKSAClusterSpecChanged` reads from the new spec is
present in the supplied machine configs: the control-plane reference, the reference of the
first worker node group and, with external etcd, the etcd reference are set, and a machine
config is supplied under each of their names. -/
def machineGroupsSupplied (clusterSpec : Spec) (configs : List VSphereMachineConfig) : Prop :=
  (∃ r vmc, clusterSpec.Spec.ControlPlaneConfiguration.MachineGroupRef = some r ∧
    suppliedMachineConfig configs r.Name = some vmc) ∧
  (∃ wg rest r vmc, clusterSpec.Spec.WorkerNodeGroupConfigurations = wg :: rest ∧
    wg.MachineGroupRef = some r ∧ suppliedMachineConfig configs r.Name = some vmc) ∧
  (∀ e, clusterSpec.Spec.ExternalEtcdConfiguration = some e →
    ∃ r vmc, e.MachineGroupRef = some r ∧ suppliedMachineConfig configs r.Name = some vmc)

/-- A machine config of the examples, with the given name and number of CPUs. -/
def exampleMachineConfig (name : String) (cpus : Int) : VSphereMachineConfig :=
  { Name := name
    Spec := { Datastore := "ds", Folder := "vm", ResourcePool := "pool", Template := "tpl"
              OSFamily := "bottlerocket", StoragePolicyName := "", MemoryMiB := 8192
              NumCPUs := cpus, Users := [("ec2-user", ["ssh-rsa AAAA"])] } }

/-- The datacenter config of the examples. -/
def exampleDatacenterConfig : VSphereDatacenterConfig :=
  { Name := "dc"
    Spec := { Datacenter := "SDDC", Network := "net", Server := "vc.example.com"
              Thumbprint := "", Insecure := false } }

/-- A collaborator like `okClient` that has stored the cluster spec of `distinctSpec`, the
datacenter config of the examples, and a machine config with 2 CPUs under every name. -/
def storedClient : ClusterClient Unit :=
  { okClient with
    GetEksaCluster := fun _ s => (Except.ok { Name := "mgmt", Spec := distinctSpec.Spec }, s)
    GetEksaVSphereDatacenterConfig := fun _ _ s => (Except.ok exampleDatacenterConfig, s)
    GetEksaVSphereMachineConfig := fun name _ s =>
      (Except.ok (exampleMachineConfig name 2), s) }

/-- The supplied datacenter config of the examples, as a value of the interface. -/
def suppliedDatacenterConfig : DatacenterConfig :=
  { paused := false, vsphere := some exampleDatacenterConfig }

/-- The supplied machine configs of the examples: 2 CPUs each. -/
def suppliedMachineConfigs : List VSphereMachineConfig :=
  [exampleMachineConfig "cp" 2, exampleMachineConfig "w" 2, exampleMachineConfig "e" 2]

/-- The supplied machine configs as values of the interface `providers.MachineConfig`. -/
def asMachineConfigs (configs : List VSphereMachineConfig) : List MachineConfig :=
  configs.map fun mc => { vsphere := some mc }

/-- A cluster manager against `failingMachinesClient`, built with the option
`WithWaitForMachines` for a backoff of 1 second, 10 minutes per machine and a floor of -1
nanosecond. -/
def negativeFloorManager : ClusterManager Unit :=
  WithWaitForMachines (1 * Second) (10 * Minute) (-1) (ClusterManager.New failingMachinesClient)

/-! ## Lemmas on the coordinator -/

/-- Pause, for every collaborator, is the run of the retried updates of its plan. -/
theorem pause_chain {σ : Type} (c : ClusterManager σ) (fuel : Nat) (cluster : Cluster)
    (clusterSpec : Spec) (provider : Provider) (w : World σ) :
    c.PauseEKSAControllerReconcile fuel cluster clusterSpec provider w
    = runSteps (c.retryUpdate fuel cluster [( clusterSpec.PausedAnnotation, "true")]) id
        (fun w => some ((plan pauseMessages cluster clusterSpec provider).1, w))
        (plan pauseMessages cluster clusterSpec provider).2 w := by
  obtain ⟨⟨cpc, ws, etcd, dcr⟩, pa, rty, pz⟩ := clusterSpec
  obtain ⟨cpn, cpr⟩ := cpc
  simp only [ClusterManager.PauseEKSAControllerReconcile, plan, ClusterManager.retryUpdate]
  by_cases hm : provider.MachineResourceType = ""
  · simp [hm, runSteps, pauseMessages, ClusterManager.retryUpdate]
  · rcases cpr with _ | cp
    · simp [hm, runSteps, pauseMessages, ClusterManager.retryUpdate]
    · rcases ws with _ | ⟨⟨wn, wr⟩, rest⟩
      · simp [hm, workerRefUndefined, runSteps, pauseMessages, ClusterManager.retryUpdate]
      · rcases wr with _ | wr
        · simp [hm, workerRefUndefined, index0, Except.map, runSteps, pauseMessages, ClusterManager.retryUpdate]
        · rcases etcd with _ | ⟨en, er⟩
          · by_cases h1 : cp.Name = wr.Name <;>
            simp [hm, workerRefUndefined, index0, Except.map, etcdRefUndefined,
              cpMachineGroupName, deref, namesDiffer, workerMachineGroupName, Except.bind, h1,
              runSteps, pauseMessages, ClusterManager.retryUpdate]
          · rcases er with _ | er
            · simp [hm, workerRefUndefined, index0, Except.map, etcdRefUndefined, deref,
                runSteps, pauseMessages, ClusterManager.retryUpdate]
            · by_cases h1 : cp.Name = wr.Name <;> by_cases h2 : er.Name = cp.Name <;>
              first
              | (rw [h1] at h2
                 simp [hm, workerRefUndefined, index0, Except.map, etcdRefUndefined,
                  cpMachineGroupName, deref, namesDiffer,
                  workerMachineGroupName, etcdMachineGroupName, Except.bind, h1, h2,
                  runSteps, pauseMessages, ClusterManager.retryUpdate])
              | simp [hm, workerRefUndefined, index0, Except.map, etcdRefUndefined,
                  cpMachineGroupName, deref, namesDiffer,
                  workerMachineGroupName, etcdMachineGroupName, Except.bind, h1, h2,
                  runSteps, pauseMessages, ClusterManager.retryUpdate]

/-- Resume, for every collaborator, is the run of the retried removals of its plan. -/
theorem resume_chain {σ : Type} (c : ClusterManager σ) (fuel : Nat) (cluster : Cluster)
    (clusterSpec : Spec) (provider : Provider) (w : World σ) :
    c.ResumeEKSAControllerReconcile fuel cluster clusterSpec provider w
    = runSteps (c.retryRemove fuel cluster clusterSpec.PausedAnnotation)
        (fun w => (clusterSpec, provider, w))
        (fun w => some ((plan resumeMessages cluster clusterSpec provider).1,
          (resumedObjects (plan resumeMessages cluster clusterSpec provider).1
            clusterSpec provider).1,
          (resumedObjects (plan resumeMessages cluster clusterSpec provider).1
            clusterSpec provider).2, w))
        (plan resumeMessages cluster clusterSpec provider).2 w := by
  obtain ⟨⟨cpc, ws, etcd, dcr⟩, pa, rty, pz⟩ := clusterSpec
  obtain ⟨cpn, cpr⟩ := cpc
  simp only [ClusterManager.ResumeEKSAControllerReconcile, plan, ClusterManager.retryRemove]
  by_cases hm : provider.MachineResourceType = ""
  · simp [hm, runSteps, resumeMessages, resumedObjects,
              ClusterManager.retryRemove]
  · rcases cpr with _ | cp
    · simp [hm, runSteps, resumeMessages, resumedObjects,
              ClusterManager.retryRemove]
    · rcases ws with _ | ⟨⟨wn, wr⟩, rest⟩
      · simp [hm, workerRefUndefined, runSteps, resumeMessages, resumedObjects,
              ClusterManager.retryRemove]
      · rcases wr with _ | wr
        · simp [hm, workerRefUndefined, index0, Except.map, runSteps, resumeMessages, resumedObjects,
              ClusterManager.retryRemove]
        · rcases etcd with _ | ⟨en, er⟩
          · by_cases h1 : cp.Name = wr.Name <;>
            simp [hm, workerRefUndefined, index0, Except.map, etcdRefUndefined,
              cpMachineGroupName, deref, namesDiffer, workerMachineGroupName, Except.bind, h1,
              runSteps, resumeMessages, resumedObjects,
              ClusterManager.retryRemove]
          · rcases er with _ | er
            · simp [hm, workerRefUndefined, index0, Except.map, etcdRefUndefined, deref,
                runSteps, resumeMessages, resumedObjects,
              ClusterManager.retryRemove]
            · by_cases h1 : cp.Name = wr.Name <;> by_cases h2 : er.Name = cp.Name <;>
              first
              | (rw [h1] at h2
                 simp [hm, workerRefUndefined, index0, Except.map, etcdRefUndefined,
                  cpMachineGroupName, deref, namesDiffer,
                  workerMachineGroupName, etcdMachineGroupName, Except.bind, h1, h2,
                  runSteps, resumeMessages, resumedObjects,
              ClusterManager.retryRemove])
              | simp [hm, workerRefUndefined, index0, Except.map, etcdRefUndefined,
                  cpMachineGroupName, deref, namesDiffer,
                  workerMachineGroupName, etcdMachineGroupName, Except.bind, h1, h2,
                  runSteps, resumeMessages, resumedObjects,
              ClusterManager.retryRemove]

theorem retryUpdate_ok {σ : Type} (c : ClusterManager σ) (fuel : Nat) (cluster : Cluster)
    (ann : List (String × String)) (t : String × String) (w : World σ)
    (h : (c.clusterClient.UpdateAnnotationInNamespace t.1 t.2 ann cluster "" w.st).1 = none) :
    c.retryUpdate (fuel + 1) cluster ann t w
    = some (none, (), World.afterUpdate c.clusterClient ann cluster w t) := by
  simp [ClusterManager.retryUpdate, Retrier.Retry, Retrier.loop,
    ClusterClient.callUpdateAnnotationInNamespace, h, World.afterUpdate]

theorem retryRemove_ok {σ : Type} (c : ClusterManager σ) (fuel : Nat) (cluster : Cluster)
    (key : String) (t : String × String) (w : World σ)
    (h : (c.clusterClient.RemoveAnnotationInNamespace t.1 t.2 key cluster "" w.st).1 = none) :
    c.retryRemove (fuel + 1) cluster key t w
    = some (none, (), World.afterRemove c.clusterClient key cluster w t) := by
  simp [ClusterManager.retryRemove, Retrier.Retry, Retrier.loop,
    ClusterClient.callRemoveAnnotationInNamespace, h, World.afterRemove]

theorem runSteps_update_ok {σ β : Type} (c : ClusterManager σ)
    (h : WritesSucceed c.clusterClient) (fuel : Nat) (cluster : Cluster)
    (ann : List (String × String)) (fail : World σ → β)
    (final : World σ → Option (Exit × β)) (steps : List Step) (w : World σ) :
    runSteps (c.retryUpdate (fuel + 1) cluster ann) fail final steps w
    = final ((steps.map Prod.fst).foldl (World.afterUpdate c.clusterClient ann cluster) w) := by
  induction steps generalizing w with
  | nil => rfl
  | cons s rest ih =>
    obtain ⟨t, msg⟩ := s
    simp [runSteps, retryUpdate_ok c fuel cluster ann t w (h.1 _ _ _ _ _ _), afterRetry, ih]

theorem runSteps_remove_ok {σ β : Type} (c : ClusterManager σ)
    (h : WritesSucceed c.clusterClient) (fuel : Nat) (cluster : Cluster)
    (key : String) (fail : World σ → β)
    (final : World σ → Option (Exit × β)) (steps : List Step) (w : World σ) :
    runSteps (c.retryRemove (fuel + 1) cluster key) fail final steps w
    = final ((steps.map Prod.fst).foldl (World.afterRemove c.clusterClient key cluster) w) := by
  induction steps generalizing w with
  | nil => rfl
  | cons s rest ih =>
    obtain ⟨t, msg⟩ := s
    simp [runSteps, retryRemove_ok c fuel cluster key t w (h.2 _ _ _ _ _ _), afterRetry, ih]

theorem log_foldl_afterUpdate {σ : Type} (cl : ClusterClient σ) (ann : List (String × String))
    (cluster : Cluster) (ts : List (String × String)) (w : World σ) :
    (ts.foldl (World.afterUpdate cl ann cluster) w).log
    = w.log ++ ts.map fun t => Call.UpdateAnnotationInNamespace t.1 t.2 ann cluster "" := by
  induction ts generalizing w with
  | nil => simp
  | cons t rest ih => simp [ih, World.afterUpdate]

theorem log_foldl_afterRemove {σ : Type} (cl : ClusterClient σ) (key : String)
    (cluster : Cluster) (ts : List (String × String)) (w : World σ) :
    (ts.foldl (World.afterRemove cl key cluster) w).log
    = w.log ++ ts.map fun t => Call.RemoveAnnotationInNamespace t.1 t.2 key cluster "" := by
  induction ts generalizing w with
  | nil => simp
  | cons t rest ih => simp [ih, World.afterRemove]

/-- The targets of the plan do not depend on the message heads. -/
theorem plan_targets (m1 m2 : StepMessages) (cluster : Cluster) (clusterSpec : Spec)
    (provider : Provider) :
    (plan m1 cluster clusterSpec provider).1 = (plan m2 cluster clusterSpec provider).1 ∧
    (plan m1 cluster clusterSpec provider).2.map Prod.fst
      = (plan m2 cluster clusterSpec provider).2.map Prod.fst := by
  unfold plan
  split
  · simp
  · split
    · simp
    · split
      · simp
      · split
        · simp
        · split
          · constructor
            · rfl
            · split <;> simp
          · split
            · simp
            · constructor
              · rfl
              · split <;> split <;> simp

/-- Pause with a collaborator whose writes succeed: exit and final world. -/
theorem pause_ok {σ : Type} (c : ClusterManager σ) (h : WritesSucceed c.clusterClient)
    (fuel : Nat) (cluster : Cluster) (clusterSpec : Spec) (provider : Provider) (w : World σ) :
    c.PauseEKSAControllerReconcile (fuel + 1) cluster clusterSpec provider w
    = some ((plan pauseMessages cluster clusterSpec provider).1,
        ((plan pauseMessages cluster clusterSpec provider).2.map Prod.fst).foldl
          (World.afterUpdate c.clusterClient [( clusterSpec.PausedAnnotation, "true")] cluster)
          w) := by
  rw [pause_chain, runSteps_update_ok c h]

/-- Resume with a collaborator whose writes succeed: exit, objects and final world. -/
theorem resume_ok {σ : Type} (c : ClusterManager σ) (h : WritesSucceed c.clusterClient)
    (fuel : Nat) (cluster : Cluster) (clusterSpec : Spec) (provider : Provider) (w : World σ) :
    c.ResumeEKSAControllerReconcile (fuel + 1) cluster clusterSpec provider w
    = some ((plan resumeMessages cluster clusterSpec provider).1,
        (resumedObjects (plan resumeMessages cluster clusterSpec provider).1
          clusterSpec provider).1,
        (resumedObjects (plan resumeMessages cluster clusterSpec provider).1
          clusterSpec provider).2,
        ((plan resumeMessages cluster clusterSpec provider).2.map Prod.fst).foldl
          (World.afterRemove c.clusterClient clusterSpec.PausedAnnotation cluster) w) := by
  rw [resume_chain, runSteps_remove_ok c h]

/-! ## Pause and resume of reconciliation -/

/-- C1, as stated, fails: on a spec whose control-plane machine-group reference is nil,
Pause returns the precondition error only after one `UpdateAnnotationInNamespace` call, on
the datacenter config, so the number of annotation calls before the error is not zero. -/
theorem pause_nil_ref_annotates_datacenter_first :
    ((ClusterManager.New okClient).PauseEKSAControllerReconcile 1 exampleCluster
        (exampleSpec none [some "w"] none) exampleProvider (World.init ())).map
        (fun r => (r.1, r.2.log))
      = some (Exit.returned (some "machineGroupRef for control plane is not defined"),
          [exampleUpdate "vspheredatacenterconfigs.anywhere.eks.amazonaws.com" "dc"]) := by
  decide

/-- C1, amended: for a provider with a non-empty machine resource type and a datacenter
annotation write that succeeds, on every spec in which the control-plane machine-group
reference is nil, or the first worker group's reference is nil, or external etcd is
configured with a nil reference, Pause returns one of the three precondition errors after
exactly one annotation call, the one on the datacenter config, and before any call on a
machine config or on the cluster. -/
theorem pause_nil_ref_precondition {σ : Type} (c : ClusterManager σ) (fuel : Nat)
    (cluster : Cluster) (clusterSpec : Spec) (provider : Provider) (w : World σ)
    (hm : provider.MachineResourceType ≠ "")
    (hdc : (c.clusterClient.UpdateAnnotationInNamespace provider.DatacenterResourceType
      clusterSpec.Spec.DatacenterRef.Name [( clusterSpec.PausedAnnotation, "true")] cluster ""
      w.st).1 = none)
    (hnil : clusterSpec.Spec.ControlPlaneConfiguration.MachineGroupRef = none ∨
      (∃ wg rest, clusterSpec.Spec.WorkerNodeGroupConfigurations = wg :: rest ∧
        wg.MachineGroupRef = none) ∨
      (∃ e, clusterSpec.Spec.ExternalEtcdConfiguration = some e ∧ e.MachineGroupRef = none)) :
    ∃ msg w1,
      msg ∈ ["machineGroupRef for control plane is not defined",
        "machineGroupRef for worker nodes is not defined",
        "machineGroupRef for etcd machines is not defined"] ∧
      c.PauseEKSAControllerReconcile (fuel + 1) cluster clusterSpec provider w
        = some (Exit.returned (some msg), w1) ∧
      w1.log = w.log ++ [Call.UpdateAnnotationInNamespace provider.DatacenterResourceType
        clusterSpec.Spec.DatacenterRef.Name [( clusterSpec.PausedAnnotation, "true")]
        cluster ""] := by
  have key : ∃ msg, msg ∈ ["machineGroupRef for control plane is not defined",
        "machineGroupRef for worker nodes is not defined",
        "machineGroupRef for etcd machines is not defined"] ∧
      plan pauseMessages cluster clusterSpec provider
        = (Exit.returned (some msg),
          [((provider.DatacenterResourceType, clusterSpec.Spec.DatacenterRef.Name),
            pauseMessages.datacenter)]) := by
    obtain ⟨⟨⟨cpn, cpr⟩, ws, etcd, dcr⟩, pa, rty, pz⟩ := clusterSpec
    simp only [plan, if_neg hm]
    rcases cpr with _ | cp
    · exact ⟨_, by simp, rfl⟩
    · rcases ws with _ | ⟨⟨wn, wr⟩, rest⟩
      · exact ⟨_, by simp, rfl⟩
      · rcases wr with _ | wr
        · exact ⟨_, by simp, rfl⟩
        · rcases etcd with _ | ⟨en, er⟩
          · simp at hnil
          · rcases er with _ | er
            · exact ⟨_, by simp, rfl⟩
            · simp at hnil
  obtain ⟨msg, hmem, hplan⟩ := key
  refine ⟨msg, World.afterUpdate c.clusterClient [( clusterSpec.PausedAnnotation, "true")]
    cluster w (provider.DatacenterResourceType, clusterSpec.Spec.DatacenterRef.Name), hmem, ?_, ?_⟩
  · rw [pause_chain, hplan]
    have hr := retryUpdate_ok c fuel cluster [( clusterSpec.PausedAnnotation, "true")]
      (provider.DatacenterResourceType, clusterSpec.Spec.DatacenterRef.Name) w hdc
    simp [runSteps, hr, afterRetry]
  · simp [World.afterUpdate]

/-- Witness of `pause_nil_ref_precondition`: `okClient`, control-plane reference nil. -/
theorem pause_nil_ref_precondition_witness :
    ∃ msg w1,
      msg ∈ ["machineGroupRef for control plane is not defined",
        "machineGroupRef for worker nodes is not defined",
        "machineGroupRef for etcd machines is not defined"] ∧
      (ClusterManager.New okClient).PauseEKSAControllerReconcile (0 + 1) exampleCluster
          (exampleSpec none [some "w"] none) exampleProvider (World.init ())
        = some (Exit.returned (some msg), w1) ∧
      w1.log = (World.init ()).log ++
        [Call.UpdateAnnotationInNamespace exampleProvider.DatacenterResourceType
          (exampleSpec none [some "w"] none).Spec.DatacenterRef.Name
          [( ( Spec.PausedAnnotation (exampleSpec none [some "w"] none)), "true")] exampleCluster ""] :=
  pause_nil_ref_precondition (ClusterManager.New okClient) 0 exampleCluster
    (exampleSpec none [some "w"] none) exampleProvider (World.init ())
    (by decide) (by decide) (Or.inl (by decide))

/-- C2, as stated, fails: on a spec whose control-plane, worker and etcd references are
set and pairwise distinct, Pause followed by Resume produces 5 annotation updates followed
by 5 annotation removals (datacenter, control plane, worker, etcd, cluster), not 4 and 4. -/
theorem pause_resume_distinct_refs_ten_calls :
    (((ClusterManager.New okClient).PauseEKSAControllerReconcile 1 exampleCluster
        (exampleSpec (some "cp") [some "w"] (some (some "e"))) exampleProvider
        (World.init ())).bind fun r =>
      ((ClusterManager.New okClient).ResumeEKSAControllerReconcile 1 exampleCluster
        (exampleSpec (some "cp") [some "w"] (some (some "e"))) exampleProvider r.2).map
        fun q => (r.1, q.1, q.2.2.2.log))
      = some (Exit.returned none, Exit.returned none,
          [exampleUpdate "vspheredatacenterconfigs.anywhere.eks.amazonaws.com" "dc",
           exampleUpdate "vspheremachineconfigs.anywhere.eks.amazonaws.com" "cp",
           exampleUpdate "vspheremachineconfigs.anywhere.eks.amazonaws.com" "w",
           exampleUpdate "vspheremachineconfigs.anywhere.eks.amazonaws.com" "e",
           exampleUpdate "clusters.anywhere.eks.amazonaws.com" "mgmt",
           exampleRemove "vspheredatacenterconfigs.anywhere.eks.amazonaws.com" "dc",
           exampleRemove "vspheremachineconfigs.anywhere.eks.amazonaws.com" "cp",
           exampleRemove "vspheremachineconfigs.anywhere.eks.amazonaws.com" "w",
           exampleRemove "vspheremachineconfigs.anywhere.eks.amazonaws.com" "e",
           exampleRemove "clusters.anywhere.eks.amazonaws.com" "mgmt"]) := by
  decide

/-- C2, amended: for a provider with a non-empty machine resource type, a collaborator
whose annotation writes all succeed and a spec whose control-plane, first worker and etcd
machine-group references are set with pairwise distinct names, Pause followed by Resume
both return nil and produce exactly 5 `UpdateAnnotationInNamespace` calls followed by
exactly 5 `RemoveAnnotationInNamespace` calls, each group in datacenter, control-plane,
worker, etcd, cluster order. -/
theorem pause_resume_distinct_refs {σ : Type} (c : ClusterManager σ)
    (h : WritesSucceed c.clusterClient) (fuel : Nat) (cluster : Cluster) (clusterSpec : Spec)
    (provider : Provider) (w : World σ) (cp wr er : Ref) (wg : WorkerNodeGroupConfiguration)
    (rest : List WorkerNodeGroupConfiguration) (e : ExternalEtcdConfiguration)
    (hm : provider.MachineResourceType ≠ "")
    (hcp : clusterSpec.Spec.ControlPlaneConfiguration.MachineGroupRef = some cp)
    (hws : clusterSpec.Spec.WorkerNodeGroupConfigurations = wg :: rest)
    (hwr : wg.MachineGroupRef = some wr)
    (he : clusterSpec.Spec.ExternalEtcdConfiguration = some e)
    (her : e.MachineGroupRef = some er)
    (h1 : cp.Name ≠ wr.Name) (h2 : er.Name ≠ cp.Name) (_h3 : er.Name ≠ wr.Name) :
    ∃ w1 s1 p1 w2,
      c.PauseEKSAControllerReconcile (fuel + 1) cluster clusterSpec provider w
        = some (Exit.returned none, w1) ∧
      c.ResumeEKSAControllerReconcile (fuel + 1) cluster clusterSpec provider w1
        = some (Exit.returned none, s1, p1, w2) ∧
      w2.log = w.log ++
        ([(provider.DatacenterResourceType, clusterSpec.Spec.DatacenterRef.Name),
          (provider.MachineResourceType, cp.Name), (provider.MachineResourceType, wr.Name),
          (provider.MachineResourceType, er.Name),
          (clusterSpec.ResourceType, cluster.Name)].map fun t =>
            Call.UpdateAnnotationInNamespace t.1 t.2 [( clusterSpec.PausedAnnotation, "true")]
              cluster "") ++
        ([(provider.DatacenterResourceType, clusterSpec.Spec.DatacenterRef.Name),
          (provider.MachineResourceType, cp.Name), (provider.MachineResourceType, wr.Name),
          (provider.MachineResourceType, er.Name),
          (clusterSpec.ResourceType, cluster.Name)].map fun t =>
            Call.RemoveAnnotationInNamespace t.1 t.2 clusterSpec.PausedAnnotation
              cluster "") := by
  have hp : ∀ m, plan m cluster clusterSpec provider = (Exit.returned none,
      [((provider.DatacenterResourceType, clusterSpec.Spec.DatacenterRef.Name), m.datacenter),
       ((provider.MachineResourceType, cp.Name), m.controlPlane),
       ((provider.MachineResourceType, wr.Name), m.worker),
       ((provider.MachineResourceType, er.Name), m.etcd),
       ((clusterSpec.ResourceType, cluster.Name), m.cluster)]) := by
    intro m
    simp [plan, hm, hcp, hws, hwr, he, her, h1, h2]
  have hP := pause_ok c h fuel cluster clusterSpec provider w
  have hR := resume_ok c h fuel cluster clusterSpec provider
    (((plan pauseMessages cluster clusterSpec provider).2.map Prod.fst).foldl
      (World.afterUpdate c.clusterClient [( clusterSpec.PausedAnnotation, "true")] cluster) w)
  simp only [hp] at hP hR
  refine ⟨_, _, _, _, hP, hR, ?_⟩
  simp [World.afterRemove, World.afterUpdate]

/-- Witness of `pause_resume_distinct_refs`: `okClient` and references cp, w, e. -/
theorem pause_resume_distinct_refs_witness :
    ∃ w1 s1 p1 w2,
      (ClusterManager.New okClient).PauseEKSAControllerReconcile (0 + 1) exampleCluster
          (exampleSpec (some "cp") [some "w"] (some (some "e"))) exampleProvider (World.init ())
        = some (Exit.returned none, w1) ∧
      (ClusterManager.New okClient).ResumeEKSAControllerReconcile (0 + 1) exampleCluster
          (exampleSpec (some "cp") [some "w"] (some (some "e"))) exampleProvider w1
        = some (Exit.returned none, s1, p1, w2) ∧
      w2.log = (World.init ()).log ++
        ([(exampleProvider.DatacenterResourceType,
            (exampleSpec (some "cp") [some "w"] (some (some "e"))).Spec.DatacenterRef.Name),
          (exampleProvider.MachineResourceType, (machineRef "cp").Name),
          (exampleProvider.MachineResourceType, (machineRef "w").Name),
          (exampleProvider.MachineResourceType, (machineRef "e").Name),
          ((exampleSpec (some "cp") [some "w"] (some (some "e"))).ResourceType,
            exampleCluster.Name)].map fun t =>
            Call.UpdateAnnotationInNamespace t.1 t.2
              [( ( Spec.PausedAnnotation (exampleSpec (some "cp") [some "w"] (some (some "e")))),
                "true")] exampleCluster "") ++
        ([(exampleProvider.DatacenterResourceType,
            (exampleSpec (some "cp") [some "w"] (some (some "e"))).Spec.DatacenterRef.Name),
          (exampleProvider.MachineResourceType, (machineRef "cp").Name),
          (exampleProvider.MachineResourceType, (machineRef "w").Name),
          (exampleProvider.MachineResourceType, (machineRef "e").Name),
          ((exampleSpec (some "cp") [some "w"] (some (some "e"))).ResourceType,
            exampleCluster.Name)].map fun t =>
            Call.RemoveAnnotationInNamespace t.1 t.2
              ( Spec.PausedAnnotation (exampleSpec (some "cp") [some "w"] (some (some "e"))))
              exampleCluster "") :=
  pause_resume_distinct_refs (ClusterManager.New okClient)
    ⟨fun _ _ _ _ _ _ => rfl, fun _ _ _ _ _ _ => rfl⟩ 0 exampleCluster
    (exampleSpec (some "cp") [some "w"] (some (some "e"))) exampleProvider (World.init ())
    (machineRef "cp") (machineRef "w") (machineRef "e")
    { Count := 1, MachineGroupRef := some (machineRef "w") } []
    { Count := 3, MachineGroupRef := some (machineRef "e") }
    (by decide) rfl rfl rfl rfl rfl (by decide) (by decide) (by decide)

/-- C3, as stated, fails: on a spec in which the first worker group and the control plane
share the machine-group reference name and external etcd has a reference of its own, Pause
makes 4 `UpdateAnnotationInNamespace` calls, not 3. -/
theorem pause_shared_worker_with_etcd_four_calls :
    ((ClusterManager.New okClient).PauseEKSAControllerReconcile 1 exampleCluster
        (exampleSpec (some "cp") [some "cp"] (some (some "e"))) exampleProvider
        (World.init ())).map (fun r => (r.1, r.2.log))
      = some (Exit.returned none,
          [exampleUpdate "vspheredatacenterconfigs.anywhere.eks.amazonaws.com" "dc",
           exampleUpdate "vspheremachineconfigs.anywhere.eks.amazonaws.com" "cp",
           exampleUpdate "vspheremachineconfigs.anywhere.eks.amazonaws.com" "e",
           exampleUpdate "clusters.anywhere.eks.amazonaws.com" "mgmt"]) := by
  decide

/-- C3, amended: for a provider with a non-empty machine resource type, a collaborator
whose annotation writes all succeed and a spec in which the first worker group and the
control plane share the machine-group reference name and external etcd is either not
configured or has the control plane's reference name too, Pause makes exactly 3
`UpdateAnnotationInNamespace` calls (datacenter, control plane, cluster: the worker machine
config is skipped) and Resume makes exactly 3 `RemoveAnnotationInNamespace` calls on the
same targets. -/
theorem pause_resume_shared_worker_ref {σ : Type} (c : ClusterManager σ)
    (h : WritesSucceed c.clusterClient) (fuel : Nat) (cluster : Cluster) (clusterSpec : Spec)
    (provider : Provider) (w w2 : World σ) (cp wr : Ref) (wg : WorkerNodeGroupConfiguration)
    (rest : List WorkerNodeGroupConfiguration)
    (hm : provider.MachineResourceType ≠ "")
    (hcp : clusterSpec.Spec.ControlPlaneConfiguration.MachineGroupRef = some cp)
    (hws : clusterSpec.Spec.WorkerNodeGroupConfigurations = wg :: rest)
    (hwr : wg.MachineGroupRef = some wr)
    (hshare : wr.Name = cp.Name)
    (hetcd : clusterSpec.Spec.ExternalEtcdConfiguration = none ∨
      ∃ e er, clusterSpec.Spec.ExternalEtcdConfiguration = some e ∧
        e.MachineGroupRef = some er ∧ er.Name = cp.Name) :
    ∃ w1 s3 p3 w3,
      c.PauseEKSAControllerReconcile (fuel + 1) cluster clusterSpec provider w
        = some (Exit.returned none, w1) ∧
      w1.log = w.log ++
        [Call.UpdateAnnotationInNamespace provider.DatacenterResourceType
           clusterSpec.Spec.DatacenterRef.Name [( clusterSpec.PausedAnnotation, "true")]
           cluster "",
         Call.UpdateAnnotationInNamespace provider.MachineResourceType cp.Name
           [( clusterSpec.PausedAnnotation, "true")] cluster "",
         Call.UpdateAnnotationInNamespace clusterSpec.ResourceType cluster.Name
           [( clusterSpec.PausedAnnotation, "true")] cluster ""] ∧
      c.ResumeEKSAControllerReconcile (fuel + 1) cluster clusterSpec provider w2
        = some (Exit.returned none, s3, p3, w3) ∧
      w3.log = w2.log ++
        [Call.RemoveAnnotationInNamespace provider.DatacenterResourceType
           clusterSpec.Spec.DatacenterRef.Name clusterSpec.PausedAnnotation cluster "",
         Call.RemoveAnnotationInNamespace provider.MachineResourceType cp.Name
           clusterSpec.PausedAnnotation cluster "",
         Call.RemoveAnnotationInNamespace clusterSpec.ResourceType cluster.Name
           clusterSpec.PausedAnnotation cluster ""] := by
  have hp : ∀ m, plan m cluster clusterSpec provider = (Exit.returned none,
      [((provider.DatacenterResourceType, clusterSpec.Spec.DatacenterRef.Name), m.datacenter),
       ((provider.MachineResourceType, cp.Name), m.controlPlane),
       ((clusterSpec.ResourceType, cluster.Name), m.cluster)]) := by
    intro m
    rcases hetcd with he | ⟨e, er, he, her, hname⟩
    · simp [plan, hm, hcp, hws, hwr, he, hshare]
    · simp [plan, hm, hcp, hws, hwr, he, her, hshare, hname]
  have hP := pause_ok c h fuel cluster clusterSpec provider w
  have hR := resume_ok c h fuel cluster clusterSpec provider w2
  simp only [hp] at hP hR
  refine ⟨_, _, _, _, hP, ?_, hR, ?_⟩ <;> simp [World.afterRemove, World.afterUpdate]

/-- Witness of `pause_resume_shared_worker_ref`: worker and control plane both on `cp`, no
external etcd. -/
theorem pause_resume_shared_worker_ref_witness :
    ∃ w1 s3 p3 w3,
      (ClusterManager.New okClient).PauseEKSAControllerReconcile (0 + 1) exampleCluster
          (exampleSpec (some "cp") [some "cp"] none) exampleProvider (World.init ())
        = some (Exit.returned none, w1) ∧
      w1.log = (World.init ()).log ++
        [Call.UpdateAnnotationInNamespace exampleProvider.DatacenterResourceType
           (exampleSpec (some "cp") [some "cp"] none).Spec.DatacenterRef.Name
           [( ( Spec.PausedAnnotation (exampleSpec (some "cp") [some "cp"] none)), "true")]
           exampleCluster "",
         Call.UpdateAnnotationInNamespace exampleProvider.MachineResourceType
           (machineRef "cp").Name
           [( ( Spec.PausedAnnotation (exampleSpec (some "cp") [some "cp"] none)), "true")]
           exampleCluster "",
         Call.UpdateAnnotationInNamespace (exampleSpec (some "cp") [some "cp"] none).ResourceType
           exampleCluster.Name
           [( ( Spec.PausedAnnotation (exampleSpec (some "cp") [some "cp"] none)), "true")]
           exampleCluster ""] ∧
      (ClusterManager.New okClient).ResumeEKSAControllerReconcile (0 + 1) exampleCluster
          (exampleSpec (some "cp") [some "cp"] none) exampleProvider (World.init ())
        = some (Exit.returned none, s3, p3, w3) ∧
      w3.log = (World.init ()).log ++
        [Call.RemoveAnnotationInNamespace exampleProvider.DatacenterResourceType
           (exampleSpec (some "cp") [some "cp"] none).Spec.DatacenterRef.Name
           ( Spec.PausedAnnotation (exampleSpec (some "cp") [some "cp"] none)) exampleCluster "",
         Call.RemoveAnnotationInNamespace exampleProvider.MachineResourceType
           (machineRef "cp").Name
           ( Spec.PausedAnnotation (exampleSpec (some "cp") [some "cp"] none)) exampleCluster "",
         Call.RemoveAnnotationInNamespace (exampleSpec (some "cp") [some "cp"] none).ResourceType
           exampleCluster.Name
           ( Spec.PausedAnnotation (exampleSpec (some "cp") [some "cp"] none)) exampleCluster ""] :=
  pause_resume_shared_worker_ref (ClusterManager.New okClient)
    ⟨fun _ _ _ _ _ _ => rfl, fun _ _ _ _ _ _ => rfl⟩ 0 exampleCluster
    (exampleSpec (some "cp") [some "cp"] none) exampleProvider (World.init ()) (World.init ())
    (machineRef "cp") (machineRef "cp")
    { Count := 1, MachineGroupRef := some (machineRef "cp") } []
    (by decide) rfl rfl rfl rfl (Or.inl rfl)

/-- C4: the code at the failing input. The control plane is on `cp`, the first worker group
and external etcd are both on `w`: Pause annotates the machine config `w` twice, once for
the worker group and once more for etcd, and Resume removes the annotation from it twice. -/
theorem pause_resume_etcd_on_worker_ref_writes_twice :
    ((ClusterManager.New okClient).PauseEKSAControllerReconcile 1 exampleCluster
        (exampleSpec (some "cp") [some "w"] (some (some "w"))) exampleProvider
        (World.init ())).map (fun r => (r.1, r.2.log))
      = some (Exit.returned none,
          [exampleUpdate "vspheredatacenterconfigs.anywhere.eks.amazonaws.com" "dc",
           exampleUpdate "vspheremachineconfigs.anywhere.eks.amazonaws.com" "cp",
           exampleUpdate "vspheremachineconfigs.anywhere.eks.amazonaws.com" "w",
           exampleUpdate "vspheremachineconfigs.anywhere.eks.amazonaws.com" "w",
           exampleUpdate "clusters.anywhere.eks.amazonaws.com" "mgmt"]) ∧
    ((ClusterManager.New okClient).ResumeEKSAControllerReconcile 1 exampleCluster
        (exampleSpec (some "cp") [some "w"] (some (some "w"))) exampleProvider
        (World.init ())).map (fun r => (r.1, r.2.2.2.log))
      = some (Exit.returned none,
          [exampleRemove "vspheredatacenterconfigs.anywhere.eks.amazonaws.com" "dc",
           exampleRemove "vspheremachineconfigs.anywhere.eks.amazonaws.com" "cp",
           exampleRemove "vspheremachineconfigs.anywhere.eks.amazonaws.com" "w",
           exampleRemove "vspheremachineconfigs.anywhere.eks.amazonaws.com" "w",
           exampleRemove "clusters.anywhere.eks.amazonaws.com" "mgmt"]) := by
  decide

/-- The plan on a valid spec with a provider that has machine configs. -/
theorem plan_valid (cluster : Cluster) (clusterSpec : Spec) (provider : Provider)
    (cp wr : Ref) (wg : WorkerNodeGroupConfiguration)
    (rest : List WorkerNodeGroupConfiguration)
    (hm : provider.MachineResourceType ≠ "")
    (hcp : clusterSpec.Spec.ControlPlaneConfiguration.MachineGroupRef = some cp)
    (hws : clusterSpec.Spec.WorkerNodeGroupConfigurations = wg :: rest)
    (hwr : wg.MachineGroupRef = some wr)
    (hetcd : ∀ e, clusterSpec.Spec.ExternalEtcdConfiguration = some e →
      e.MachineGroupRef ≠ none) :
    ∃ refs : List Ref,
      (refs = [] ∨ ∃ e er, clusterSpec.Spec.ExternalEtcdConfiguration = some e ∧
        e.MachineGroupRef = some er ∧ er.Name ≠ cp.Name ∧ refs = [er]) ∧
      ∀ m, plan m cluster clusterSpec provider = (Exit.returned none,
        [((provider.DatacenterResourceType, clusterSpec.Spec.DatacenterRef.Name), m.datacenter),
          ((provider.MachineResourceType, cp.Name), m.controlPlane)] ++
        (if cp.Name ≠ wr.Name then [((provider.MachineResourceType, wr.Name), m.worker)]
          else []) ++
        (refs.map fun r => ((provider.MachineResourceType, r.Name), m.etcd)) ++
        [((clusterSpec.ResourceType, cluster.Name), m.cluster)]) := by
  cases he : clusterSpec.Spec.ExternalEtcdConfiguration with
  | none => exact ⟨[], Or.inl rfl, fun m => by simp [plan, hm, hcp, hws, hwr, he]⟩
  | some e =>
    cases her : e.MachineGroupRef with
    | none => exact absurd her (hetcd e he)
    | some er =>
      by_cases h2 : er.Name = cp.Name
      · exact ⟨[], Or.inl rfl, fun m => by simp [plan, hm, hcp, hws, hwr, he, her, h2]⟩
      · exact ⟨[er], Or.inr ⟨e, er, rfl, her, h2, rfl⟩,
          fun m => by simp [plan, hm, hcp, hws, hwr, he, her, h2]⟩

/-- C5: for a valid spec (control-plane and first worker references set, etcd reference set
when etcd is configured), a provider with a non-empty machine resource type and a
collaborator whose writes succeed, Pause returns nil and annotates, in order: the datacenter
config, the control-plane machine config, the first worker group's machine config if and
only if its name differs from the control plane's, possibly the etcd machine config, and the
cluster resource last; every write carries the single pair (PausedAnnotation, "true"). -/
theorem pause_annotation_order {σ : Type} (c : ClusterManager σ)
    (h : WritesSucceed c.clusterClient) (fuel : Nat) (cluster : Cluster) (clusterSpec : Spec)
    (provider : Provider) (w : World σ) (cp wr : Ref) (wg : WorkerNodeGroupConfiguration)
    (rest : List WorkerNodeGroupConfiguration)
    (hm : provider.MachineResourceType ≠ "")
    (hcp : clusterSpec.Spec.ControlPlaneConfiguration.MachineGroupRef = some cp)
    (hws : clusterSpec.Spec.WorkerNodeGroupConfigurations = wg :: rest)
    (hwr : wg.MachineGroupRef = some wr)
    (hetcd : ∀ e, clusterSpec.Spec.ExternalEtcdConfiguration = some e →
      e.MachineGroupRef ≠ none) :
    ∃ w1 etcdPart,
      c.PauseEKSAControllerReconcile (fuel + 1) cluster clusterSpec provider w
        = some (Exit.returned none, w1) ∧
      (etcdPart = [] ∨ ∃ e er, clusterSpec.Spec.ExternalEtcdConfiguration = some e ∧
        e.MachineGroupRef = some er ∧ etcdPart = [(provider.MachineResourceType, er.Name)]) ∧
      w1.log = w.log ++
        ([(provider.DatacenterResourceType, clusterSpec.Spec.DatacenterRef.Name),
          (provider.MachineResourceType, cp.Name)] ++
          (if wr.Name ≠ cp.Name then [(provider.MachineResourceType, wr.Name)] else []) ++
          etcdPart ++ [(clusterSpec.ResourceType, cluster.Name)]).map fun t =>
            Call.UpdateAnnotationInNamespace t.1 t.2 [( clusterSpec.PausedAnnotation, "true")]
              cluster "" := by
  obtain ⟨refs, hrefs, hp⟩ :=
    plan_valid cluster clusterSpec provider cp wr wg rest hm hcp hws hwr hetcd
  have hP := pause_ok c h fuel cluster clusterSpec provider w
  simp only [hp] at hP
  refine ⟨_, refs.map fun r => (provider.MachineResourceType, r.Name), hP, ?_, ?_⟩
  · rcases hrefs with h0 | ⟨e, er, he, her, _, h1⟩
    · exact Or.inl (by simp [h0])
    · exact Or.inr ⟨e, er, he, her, by simp [h1]⟩
  · rw [log_foldl_afterUpdate]
    by_cases h1 : wr.Name = cp.Name
    · rw [h1]
      simp [Function.comp_def]
    · have h1c : ¬ cp.Name = wr.Name := fun hc => h1 hc.symm
      simp [h1, h1c, Function.comp_def]

/-- Witness of `pause_annotation_order`: `okClient` and references cp, w, e. -/
theorem pause_annotation_order_witness :
    ∃ w1 etcdPart,
      (ClusterManager.New okClient).PauseEKSAControllerReconcile (0 + 1) exampleCluster
          (exampleSpec (some "cp") [some "w"] (some (some "e"))) exampleProvider (World.init ())
        = some (Exit.returned none, w1) ∧
      (etcdPart = [] ∨ ∃ e er,
        (exampleSpec (some "cp") [some "w"] (some (some "e"))).Spec.ExternalEtcdConfiguration
          = some e ∧
        e.MachineGroupRef = some er ∧
        etcdPart = [(exampleProvider.MachineResourceType, er.Name)]) ∧
      w1.log = (World.init ()).log ++
        ([(exampleProvider.DatacenterResourceType,
            (exampleSpec (some "cp") [some "w"] (some (some "e"))).Spec.DatacenterRef.Name),
          (exampleProvider.MachineResourceType, (machineRef "cp").Name)] ++
          (if (machineRef "w").Name ≠ (machineRef "cp").Name then
            [(exampleProvider.MachineResourceType, (machineRef "w").Name)] else []) ++
          etcdPart ++
          [((exampleSpec (some "cp") [some "w"] (some (some "e"))).ResourceType,
            exampleCluster.Name)]).map fun t =>
            Call.UpdateAnnotationInNamespace t.1 t.2
              [( ( Spec.PausedAnnotation (exampleSpec (some "cp") [some "w"] (some (some "e")))),
                "true")] exampleCluster "" :=
  pause_annotation_order (ClusterManager.New okClient)
    ⟨fun _ _ _ _ _ _ => rfl, fun _ _ _ _ _ _ => rfl⟩ 0 exampleCluster
    (exampleSpec (some "cp") [some "w"] (some (some "e"))) exampleProvider (World.init ())
    (machineRef "cp") (machineRef "w")
    { Count := 1, MachineGroupRef := some (machineRef "w") } []
    (by decide) rfl rfl rfl (by decide)

/-- C6: when all collaborator writes succeed, for every cluster spec and provider Pause and
Resume exit in the same way (nil, or the same precondition error) and the ordered list of
(resource type, object name) targets from which Resume removes the annotation is the
ordered list of targets that Pause annotates. -/
theorem pause_resume_same_targets {σ : Type} (c : ClusterManager σ)
    (h : WritesSucceed c.clusterClient) (fuel : Nat) (cluster : Cluster) (clusterSpec : Spec)
    (provider : Provider) (wp wr : World σ) :
    ∃ (e : Exit) (targets : List (String × String)) (w1 : World σ) (s2 : Spec)
      (p2 : Provider) (w2 : World σ),
      c.PauseEKSAControllerReconcile (fuel + 1) cluster clusterSpec provider wp
        = some (e, w1) ∧
      c.ResumeEKSAControllerReconcile (fuel + 1) cluster clusterSpec provider wr
        = some (e, s2, p2, w2) ∧
      w1.log = wp.log ++ targets.map (fun t =>
        Call.UpdateAnnotationInNamespace t.1 t.2 [( clusterSpec.PausedAnnotation, "true")]
          cluster "") ∧
      w2.log = wr.log ++ targets.map (fun t =>
        Call.RemoveAnnotationInNamespace t.1 t.2 clusterSpec.PausedAnnotation cluster "") := by
  have hP := pause_ok c h fuel cluster clusterSpec provider wp
  have hR := resume_ok c h fuel cluster clusterSpec provider wr
  obtain ⟨hexit, htargets⟩ := plan_targets pauseMessages resumeMessages cluster clusterSpec provider
  rw [← hexit, ← htargets] at hR
  exact ⟨_, _, _, _, _, _, hP, hR, log_foldl_afterUpdate _ _ _ _ _,
    log_foldl_afterRemove _ _ _ _ _⟩

/-- Witness of `pause_resume_same_targets`: `okClient` on a spec whose worker reference is
nil, where both methods return the same precondition error. -/
theorem pause_resume_same_targets_witness :
    ∃ (e : Exit) (targets : List (String × String)) (w1 : World Unit) (s2 : Spec)
      (p2 : Provider) (w2 : World Unit),
      (ClusterManager.New okClient).PauseEKSAControllerReconcile (0 + 1) exampleCluster
          (exampleSpec (some "cp") [none] none) exampleProvider (World.init ())
        = some (e, w1) ∧
      (ClusterManager.New okClient).ResumeEKSAControllerReconcile (0 + 1) exampleCluster
          (exampleSpec (some "cp") [none] none) exampleProvider (World.init ())
        = some (e, s2, p2, w2) ∧
      w1.log = (World.init ()).log ++ targets.map (fun t =>
        Call.UpdateAnnotationInNamespace t.1 t.2
          [( ( Spec.PausedAnnotation (exampleSpec (some "cp") [none] none)), "true")]
          exampleCluster "") ∧
      w2.log = (World.init ()).log ++ targets.map (fun t =>
        Call.RemoveAnnotationInNamespace t.1 t.2
          ( Spec.PausedAnnotation (exampleSpec (some "cp") [none] none)) exampleCluster "") :=
  pause_resume_same_targets (ClusterManager.New okClient)
    ⟨fun _ _ _ _ _ _ => rfl, fun _ _ _ _ _ _ => rfl⟩ 0 exampleCluster
    (exampleSpec (some "cp") [none] none) exampleProvider (World.init ()) (World.init ())

/-! ## A removal that fails -/

/-- The log of a Retry loop: the loop appends a call of its operation first, and after it
only further calls of its operation and sleeps. -/
theorem loop_log {σ L : Type} (r : Retrier L)
    (fn : L → World σ → Option Error × L × World σ) (call : Call)
    (hfn : ∀ l w, (fn l w).2.2.log = w.log ++ [call]) (start : Duration) (fuel : Nat) :
    ∀ (retries : Nat) (l : L) (w : World σ) (res : Option Error × L × World σ),
      Retrier.loop r fn start fuel retries l w = some res →
      ∃ ext, res.2.2.log = w.log ++ call :: ext ∧
        ∀ x ∈ ext, x = call ∨ ∃ d, x = Call.Sleep d := by
  induction fuel with
  | zero => intro retries l w res h; simp [Retrier.loop] at h
  | succ n ih =>
    intro retries l w res h
    have hlog := hfn l w
    unfold Retrier.loop at h
    rcases hf : fn l w with ⟨e, l1, w1⟩
    rw [hf] at h hlog
    simp only at hlog
    cases e with
    | none =>
      simp only [Option.some.injEq] at h
      subst h
      exact ⟨[], hlog, by simp⟩
    | some err =>
      simp only at h
      rcases hp : r.retryPolicy l1 (retries + 1) err with ⟨b, wait⟩
      rw [hp] at h
      cases b with
      | false =>
        simp only [Option.some.injEq] at h
        subst h
        exact ⟨[], hlog, by simp⟩
      | true =>
        simp only at h
        have hsleep : (w1.sleep wait).log = w.log ++ [call, Call.Sleep wait] := by
          simp [World.sleep, hlog]
        have hrec : ∀ res, Retrier.loop r fn start n (retries + 1) l1 (w1.sleep wait) = some res →
            ∃ ext, res.2.2.log = w.log ++ call :: ext ∧
              ∀ x ∈ ext, x = call ∨ ∃ d, x = Call.Sleep d := by
          intro res hres
          obtain ⟨ext, hext, hall⟩ := ih (retries + 1) l1 (w1.sleep wait) res hres
          refine ⟨Call.Sleep wait :: call :: ext, by rw [hext, hsleep]; simp, ?_⟩
          intro x hx
          simp only [List.mem_cons] at hx
          rcases hx with hx | hx | hx
          · exact Or.inr ⟨wait, hx⟩
          · exact Or.inl hx
          · exact hall x hx
        cases ht : r.timeout with
        | none =>
          rw [ht] at h
          exact hrec res h
        | some t =>
          rw [ht] at h
          simp only at h
          split at h
          · exact hrec res h
          · simp only [Option.some.injEq] at h
            subst h
            exact ⟨[Call.Sleep wait], hsleep, by simp⟩

/-- The log of one retried removal: only removals on its target and sleeps are added. -/
theorem retryRemove_log {σ : Type} (c : ClusterManager σ) (fuel : Nat) (cluster : Cluster)
    (key : String) (t : String × String) (w : World σ)
    (res : Option Error × Unit × World σ)
    (h : c.retryRemove fuel cluster key t w = some res) :
    ∃ ext, res.2.2.log = w.log ++ ext ∧
      ∀ x ∈ ext, x = Call.RemoveAnnotationInNamespace t.1 t.2 key cluster "" ∨
        ∃ d, x = Call.Sleep d := by
  unfold ClusterManager.retryRemove Retrier.Retry at h
  obtain ⟨ext, hext, hall⟩ :=
    loop_log c.Retrier _ (Call.RemoveAnnotationInNamespace t.1 t.2 key cluster "")
      (fun _ _ => rfl) _ fuel 0 () { w with retrierRuns := w.retrierRuns + 1 } res h
  refine ⟨_ :: ext, hext, ?_⟩
  intro x hx
  rcases List.mem_cons.mp hx with hx | hx
  · exact Or.inl hx
  · exact hall x hx

/-- A Retry loop whose operation leaves the count of Retry invocations alone leaves it
alone. -/
theorem loop_retrierRuns {σ L : Type} (r : Retrier L)
    (fn : L → World σ → Option Error × L × World σ)
    (hfn : ∀ l w, (fn l w).2.2.retrierRuns = w.retrierRuns) (start : Duration) (fuel : Nat) :
    ∀ (retries : Nat) (l : L) (w : World σ) (res : Option Error × L × World σ),
      Retrier.loop r fn start fuel retries l w = some res →
      res.2.2.retrierRuns = w.retrierRuns := by
  induction fuel with
  | zero => intro retries l w res h; simp [Retrier.loop] at h
  | succ n ih =>
    intro retries l w res h
    have hruns := hfn l w
    unfold Retrier.loop at h
    rcases hf : fn l w with ⟨e, l1, w1⟩
    rw [hf] at h hruns
    simp only at hruns
    cases e with
    | none =>
      simp only [Option.some.injEq] at h
      subst h
      exact hruns
    | some err =>
      simp only at h
      rcases hp : r.retryPolicy l1 (retries + 1) err with ⟨b, wait⟩
      rw [hp] at h
      cases b with
      | false =>
        simp only [Option.some.injEq] at h
        subst h
        exact hruns
      | true =>
        simp only at h
        have hrec : ∀ res, Retrier.loop r fn start n (retries + 1) l1 (w1.sleep wait) = some res →
            res.2.2.retrierRuns = w.retrierRuns := by
          intro res hres
          rw [ih (retries + 1) l1 (w1.sleep wait) res hres]
          exact hruns
        cases ht : r.timeout with
        | none =>
          rw [ht] at h
          exact hrec res h
        | some t =>
          rw [ht] at h
          simp only at h
          split at h
          · exact hrec res h
          · simp only [Option.some.injEq] at h
            subst h
            exact hruns

/-- The log after a run of retried removals that all returned nil. -/
theorem succeedAll_remove_log {σ : Type} (c : ClusterManager σ) (fuel : Nat)
    (cluster : Cluster) (key : String) (pre : List Step) :
    ∀ (w wmid : World σ), succeedAll (c.retryRemove fuel cluster key) pre w = some wmid →
    ∃ ext, wmid.log = w.log ++ ext ∧
      ∀ x ∈ ext, (∃ d, x = Call.Sleep d) ∨
        ∃ t ∈ pre.map Prod.fst, x = Call.RemoveAnnotationInNamespace t.1 t.2 key cluster "" := by
  induction pre with
  | nil =>
    intro w wmid h
    simp only [succeedAll, Option.some.injEq] at h
    exact ⟨[], by simp [h], by simp⟩
  | cons s rest ih =>
    intro w wmid h
    obtain ⟨t, msg⟩ := s
    simp only [succeedAll] at h
    cases hr : c.retryRemove fuel cluster key t w with
    | none => simp [hr] at h
    | some res =>
      obtain ⟨e, u, w1⟩ := res
      cases e with
      | some err => simp [hr] at h
      | none =>
        simp only [hr] at h
        obtain ⟨ext1, h1, hall1⟩ := retryRemove_log c fuel cluster key t w _ hr
        obtain ⟨ext2, h2, hall2⟩ := ih w1 wmid h
        refine ⟨ext1 ++ ext2, by rw [h2, h1]; simp, ?_⟩
        intro x hx
        rcases List.mem_append.mp hx with hx | hx
        · rcases hall1 x hx with hx | ⟨d, hd⟩
          · exact Or.inr ⟨t, by simp, hx⟩
          · exact Or.inl ⟨d, hd⟩
        · rcases hall2 x hx with hd | ⟨t2, ht2, hx2⟩
          · exact Or.inl hd
          · exact Or.inr ⟨t2, by simp only [List.map_cons, List.mem_cons]; exact Or.inr ht2, hx2⟩

/-- A run of retried writes whose first writes all return nil continues with the rest. -/
theorem runSteps_append {σ β : Type}
    (retry : String × String → World σ → Option (Option Error × Unit × World σ))
    (fail : World σ → β) (final : World σ → Option (Exit × β)) (pre post : List Step) :
    ∀ (w wmid : World σ), succeedAll retry pre w = some wmid →
      runSteps retry fail final (pre ++ post) w = runSteps retry fail final post wmid := by
  induction pre with
  | nil =>
    intro w wmid h
    simp only [succeedAll, Option.some.injEq] at h
    simp [h]
  | cons s rest ih =>
    intro w wmid h
    obtain ⟨t, msg⟩ := s
    simp only [succeedAll] at h
    cases hr : retry t w with
    | none => simp [hr] at h
    | some res =>
      obtain ⟨e, u, w1⟩ := res
      cases e with
      | some err => simp [hr] at h
      | none =>
        simp only [hr] at h
        simp [runSteps, hr, afterRetry, ih w1 wmid h]

/-- C7, as stated, fails: against a collaborator whose removal on the control-plane machine
config `cp` always fails, Resume gives up after the retries on `cp` and returns the error;
it makes no removal call on the worker machine config, on the etcd machine config or on the
cluster resource, which stay annotated. -/
theorem resume_failed_removal_skips_remaining :
    ((ClusterManager.New failingRemoveClient).ResumeEKSAControllerReconcile 30 exampleCluster
        distinctSpec exampleProvider (World.init ())).map
        (fun r => (r.1, r.2.2.2.log.filter fun call =>
          decide (call ∈ [exampleRemove "vspheremachineconfigs.anywhere.eks.amazonaws.com" "w",
            exampleRemove "vspheremachineconfigs.anywhere.eks.amazonaws.com" "e",
            exampleRemove "clusters.anywhere.eks.amazonaws.com" "mgmt"])))
      = some (Exit.returned (some ("error updating annotation when unpausing control plane " ++
          "machineconfig reconciliation: retries exhausted: connection refused")), []) := by
  decide

/-- C7, amended: if, in a Resume, the retried removals on the first resources of the plan
return nil and the retried removal on the next resource returns an error (its retries are
exhausted), Resume returns that error under the message of the failed step at once, leaves
the in-memory pause markers as they are, and makes no removal call on any later resource:
the calls it made are removals on the resources up to the failed one, and sleeps. -/
theorem resume_stops_at_failed_removal {σ : Type} (c : ClusterManager σ) (fuel : Nat)
    (cluster : Cluster) (clusterSpec : Spec) (provider : Provider) (w wmid wfail : World σ)
    (pre post : List Step) (t : String × String) (msg : String) (err : Error)
    (hplan : (plan resumeMessages cluster clusterSpec provider).2 = pre ++ (t, msg) :: post)
    (hpre : succeedAll (c.retryRemove fuel cluster clusterSpec.PausedAnnotation) pre w
      = some wmid)
    (hfail : c.retryRemove fuel cluster clusterSpec.PausedAnnotation t wmid
      = some (some err, (), wfail)) :
    c.ResumeEKSAControllerReconcile fuel cluster clusterSpec provider w
      = some (Exit.returned (some (msg ++ err)), clusterSpec, provider, wfail) ∧
    ∃ ext, wfail.log = w.log ++ ext ∧
      ∀ x ∈ ext, (∃ d, x = Call.Sleep d) ∨
        ∃ t1 ∈ pre.map Prod.fst ++ [t],
          x = Call.RemoveAnnotationInNamespace t1.1 t1.2 clusterSpec.PausedAnnotation
            cluster "" := by
  constructor
  · rw [resume_chain, hplan, runSteps_append _ _ _ pre _ w wmid hpre]
    simp [runSteps, hfail, afterRetry]
  · obtain ⟨ext1, h1, hall1⟩ := succeedAll_remove_log c fuel cluster _ pre w wmid hpre
    obtain ⟨ext2, h2, hall2⟩ := retryRemove_log c fuel cluster _ t wmid _ hfail
    refine ⟨ext1 ++ ext2, by rw [h2, h1]; simp, ?_⟩
    intro x hx
    rcases List.mem_append.mp hx with hx | hx
    · rcases hall1 x hx with hd | ⟨t1, ht1, hx1⟩
      · exact Or.inl hd
      · exact Or.inr ⟨t1, List.mem_append.mpr (Or.inl ht1), hx1⟩
    · rcases hall2 x hx with hx2 | hd
      · exact Or.inr ⟨t, by simp, hx2⟩
      · exact Or.inl hd

/-- Witness of `resume_stops_at_failed_removal`: `failingRemoveClient` on `distinctSpec`;
the datacenter removal succeeds and the removal on `cp` is given up after 30 attempts. -/
theorem resume_stops_at_failed_removal_witness :
    (ClusterManager.New failingRemoveClient).ResumeEKSAControllerReconcile 30 exampleCluster
        distinctSpec exampleProvider (World.init ())
      = some (Exit.returned (some (resumeMessages.controlPlane ++
          "retries exhausted: connection refused")), distinctSpec, exampleProvider,
          exhaustedWorld) ∧
    ∃ ext, exhaustedWorld.log = (World.init ()).log ++ ext ∧
      ∀ x ∈ ext, (∃ d, x = Call.Sleep d) ∨
        ∃ t1 ∈ [((exampleProvider.DatacenterResourceType, "dc"),
              resumeMessages.datacenter)].map Prod.fst ++
            [(exampleProvider.MachineResourceType, "cp")],
          x = Call.RemoveAnnotationInNamespace t1.1 t1.2 distinctSpec.PausedAnnotation
            exampleCluster "" :=
  resume_stops_at_failed_removal (ClusterManager.New failingRemoveClient) 30 exampleCluster
    distinctSpec exampleProvider (World.init ())
    (World.afterRemove failingRemoveClient distinctSpec.PausedAnnotation exampleCluster
      (World.init ()) (exampleProvider.DatacenterResourceType, "dc"))
    exhaustedWorld
    [((exampleProvider.DatacenterResourceType, "dc"), resumeMessages.datacenter)]
    [((exampleProvider.MachineResourceType, "w"), resumeMessages.worker),
     ((exampleProvider.MachineResourceType, "e"), resumeMessages.etcd),
     ((distinctSpec.ResourceType, "mgmt"), resumeMessages.cluster)]
    (exampleProvider.MachineResourceType, "cp") resumeMessages.controlPlane
    "retries exhausted: connection refused"
    (by decide) (by decide) (by decide)

/-! ## Idempotence against a key/value store -/

/-- The collaborator state after a run of updates that succeeded at once. -/
theorem st_foldl_afterUpdate {σ : Type} (cl : ClusterClient σ) (ann : List (String × String))
    (cluster : Cluster) (ts : List (String × String)) (w : World σ) :
    (ts.foldl (World.afterUpdate cl ann cluster) w).st
    = ts.foldl (fun s t => (cl.UpdateAnnotationInNamespace t.1 t.2 ann cluster "" s).2) w.st := by
  induction ts generalizing w with
  | nil => rfl
  | cons t rest ih => simp [ih, World.afterUpdate]

/-- The collaborator state after a run of removals that succeeded at once. -/
theorem st_foldl_afterRemove {σ : Type} (cl : ClusterClient σ) (key : String)
    (cluster : Cluster) (ts : List (String × String)) (w : World σ) :
    (ts.foldl (World.afterRemove cl key cluster) w).st
    = ts.foldl (fun s t => (cl.RemoveAnnotationInNamespace t.1 t.2 key cluster "" s).2) w.st := by
  induction ts generalizing w with
  | nil => rfl
  | cons t rest ih => simp [ih, World.afterRemove]

/-- The store after updating the targets `ts`: on these resources the keys of `ann` hold
the values of `ann`, everything else is as before. -/
theorem store_after_updates (ann : List (String × String)) (cluster : Cluster)
    (ts : List (String × String)) (s : AnnotationStore) :
    ts.foldl (fun s t => (storeClient.UpdateAnnotationInNamespace t.1 t.2 ann cluster "" s).2) s
    = fun r k =>
        if r ∈ ts.map (fun t => (t.1, t.2, "")) then
          match ann.lookup k with
          | some v => some v
          | none => s r k
        else s r k := by
  induction ts generalizing s with
  | nil => simp
  | cons t rest ih =>
    rw [List.foldl_cons, ih]
    funext r k
    simp only [storeClient, List.map_cons, List.mem_cons]
    by_cases h1 : r ∈ rest.map (fun t => (t.1, t.2, ""))
    · by_cases h2 : r = (t.1, t.2, "") <;> cases List.lookup k ann <;> simp [h1, h2]
    · by_cases h2 : r = (t.1, t.2, "") <;> cases List.lookup k ann <;> simp [h1, h2]

/-- The store after removing `key` from the targets `ts`. -/
theorem store_after_removes (key : String) (cluster : Cluster)
    (ts : List (String × String)) (s : AnnotationStore) :
    ts.foldl (fun s t => (storeClient.RemoveAnnotationInNamespace t.1 t.2 key cluster "" s).2) s
    = fun r k =>
        if r ∈ ts.map (fun t => (t.1, t.2, "")) ∧ k = key then none else s r k := by
  induction ts generalizing s with
  | nil => simp
  | cons t rest ih =>
    rw [List.foldl_cons, ih]
    funext r k
    simp only [storeClient, List.map_cons, List.mem_cons]
    by_cases h1 : r ∈ rest.map (fun t => (t.1, t.2, "")) <;>
      by_cases h2 : r = (t.1, t.2, "") <;> by_cases h3 : k = key <;> simp [h1, h2, h3]

/-- The writes of the key/value store always succeed. -/
theorem storeClient_writes_succeed : WritesSucceed storeClient :=
  ⟨fun _ _ _ _ _ _ => rfl, fun _ _ _ _ _ _ => rfl⟩

/-- The plan ends with nil when the provider has no machine configs or the machine-group
references are set. -/
theorem plan_exit_ok (m : StepMessages) (cluster : Cluster) (clusterSpec : Spec)
    (provider : Provider)
    (hvalid : provider.MachineResourceType = "" ∨ machineGroupsDefined clusterSpec) :
    (plan m cluster clusterSpec provider).1 = Exit.returned none := by
  by_cases hm : provider.MachineResourceType = ""
  · simp [plan, hm]
  · rcases hvalid with h0 | ⟨⟨cp, hcp⟩, ⟨wg, rest, wr, hws, hwr⟩, hetcd⟩
    · exact absurd h0 hm
    · obtain ⟨refs, _, hp⟩ :=
        plan_valid cluster clusterSpec provider cp wr wg rest hm hcp hws hwr hetcd
      rw [hp]

/-- The plan does not read the in-memory pause markers. -/
theorem plan_clear (m : StepMessages) (cluster : Cluster) (clusterSpec : Spec)
    (provider : Provider) :
    plan m cluster clusterSpec.ClearPauseAnnotation provider.ClearPauseAnnotation
      = plan m cluster clusterSpec provider := rfl

/-- C8: against a collaborator that stores annotations as a key/value map per resource, on
a spec on which the coordinator can succeed (the provider has no machine configs, or the
machine-group references are set), Pause run twice in a row returns nil both times and the
second run leaves the store as the first run left it; Resume run twice in a row returns nil
both times and the second run leaves the store as the first run left it. -/
theorem pause_resume_idempotent (c : ClusterManager AnnotationStore)
    (hc : c.clusterClient = storeClient) (fuel : Nat) (cluster : Cluster)
    (clusterSpec : Spec) (provider : Provider) (w : World AnnotationStore)
    (hvalid : provider.MachineResourceType = "" ∨ machineGroupsDefined clusterSpec) :
    (∃ w1 w2,
      c.PauseEKSAControllerReconcile (fuel + 1) cluster clusterSpec provider w
        = some (Exit.returned none, w1) ∧
      c.PauseEKSAControllerReconcile (fuel + 1) cluster clusterSpec provider w1
        = some (Exit.returned none, w2) ∧
      w2.st = w1.st) ∧
    (∃ s1 p1 w1 s2 p2 w2,
      c.ResumeEKSAControllerReconcile (fuel + 1) cluster clusterSpec provider w
        = some (Exit.returned none, s1, p1, w1) ∧
      c.ResumeEKSAControllerReconcile (fuel + 1) cluster s1 p1 w1
        = some (Exit.returned none, s2, p2, w2) ∧
      w2.st = w1.st) := by
  have h : WritesSucceed c.clusterClient := hc ▸ storeClient_writes_succeed
  constructor
  · have hP1 := pause_ok c h fuel cluster clusterSpec provider w
    rw [plan_exit_ok _ _ _ _ hvalid] at hP1
    have hP2 := pause_ok c h fuel cluster clusterSpec provider
      (((plan pauseMessages cluster clusterSpec provider).2.map Prod.fst).foldl
        (World.afterUpdate c.clusterClient [( clusterSpec.PausedAnnotation, "true")] cluster) w)
    rw [plan_exit_ok _ _ _ _ hvalid] at hP2
    refine ⟨_, _, hP1, hP2, ?_⟩
    rw [hc, st_foldl_afterUpdate, st_foldl_afterUpdate, store_after_updates,
      store_after_updates]
    funext r k
    by_cases h1 : r ∈ ((plan pauseMessages cluster clusterSpec provider).2.map Prod.fst).map
        (fun t => (t.1, t.2, "")) <;> simp only [h1, if_true, if_false]
    cases List.lookup k [( clusterSpec.PausedAnnotation, "true")] <;> rfl
  · have hR1 := resume_ok c h fuel cluster clusterSpec provider w
    rw [plan_exit_ok _ _ _ _ hvalid] at hR1
    have hR2 := resume_ok c h fuel cluster clusterSpec.ClearPauseAnnotation
      provider.ClearPauseAnnotation
      (((plan resumeMessages cluster clusterSpec provider).2.map Prod.fst).foldl
        (World.afterRemove c.clusterClient clusterSpec.PausedAnnotation cluster) w)
    rw [plan_clear, plan_exit_ok _ _ _ _ hvalid] at hR2
    refine ⟨_, _, _, _, _, _, hR1, hR2, ?_⟩
    show (List.foldl (World.afterRemove c.clusterClient clusterSpec.PausedAnnotation cluster) _
      _).st = _
    rw [hc, st_foldl_afterRemove, st_foldl_afterRemove, store_after_removes,
      store_after_removes]
    funext r k
    by_cases h1 : r ∈ ((plan resumeMessages cluster clusterSpec provider).2.map Prod.fst).map
        (fun t => (t.1, t.2, "")) ∧ k = clusterSpec.PausedAnnotation <;>
      simp only [h1, and_self, if_true, if_false]

/-- Witness of `pause_resume_idempotent`: the default manager over the key/value store,
starting from the empty store, on `distinctSpec`. -/
theorem pause_resume_idempotent_witness :
    (∃ w1 w2,
      (ClusterManager.New storeClient).PauseEKSAControllerReconcile (0 + 1) exampleCluster
          distinctSpec exampleProvider (World.init emptyStore)
        = some (Exit.returned none, w1) ∧
      (ClusterManager.New storeClient).PauseEKSAControllerReconcile (0 + 1) exampleCluster
          distinctSpec exampleProvider w1
        = some (Exit.returned none, w2) ∧
      w2.st = w1.st) ∧
    (∃ s1 p1 w1 s2 p2 w2,
      (ClusterManager.New storeClient).ResumeEKSAControllerReconcile (0 + 1) exampleCluster
          distinctSpec exampleProvider (World.init emptyStore)
        = some (Exit.returned none, s1, p1, w1) ∧
      (ClusterManager.New storeClient).ResumeEKSAControllerReconcile (0 + 1) exampleCluster
          s1 p1 w1
        = some (Exit.returned none, s2, p2, w2) ∧
      w2.st = w1.st) :=
  pause_resume_idempotent (ClusterManager.New storeClient) rfl 0 exampleCluster distinctSpec
    exampleProvider (World.init emptyStore)
    (Or.inr ⟨⟨machineRef "cp", rfl⟩,
      ⟨{ Count := 1, MachineGroupRef := some (machineRef "w") }, [], machineRef "w", rfl, rfl⟩,
      fun e he => by
        have he2 : e = { Count := 3, MachineGroupRef := some (machineRef "e") } :=
          (Option.some.inj he).symm
        rw [he2]
        exact fun hcontra => Option.noConfusion hcontra⟩)

/-! ## Node readiness -/

/-- The closure `areNodesReady` makes one `GetMachines` query. -/
theorem areNodesReady_log {σ : Type} (c : ClusterManager σ) (cluster : Cluster)
    (l : NodeCounters) (w : World σ) :
    (c.areNodesReady cluster l w).2.2.log = w.log ++ [Call.GetMachines cluster] := by
  unfold ClusterManager.areNodesReady ClusterManager.countNodesReady
    ClusterClient.callGetMachines
  rcases c.clusterClient.GetMachines cluster w.st with ⟨r, s⟩
  cases r with
  | error e => rfl
  | ok ms => simp only; split <;> rfl

/-- The closure `areNodesReady` does not invoke the Retrier. -/
theorem areNodesReady_retrierRuns {σ : Type} (c : ClusterManager σ) (cluster : Cluster)
    (l : NodeCounters) (w : World σ) :
    (c.areNodesReady cluster l w).2.2.retrierRuns = w.retrierRuns := by
  unfold ClusterManager.areNodesReady ClusterManager.countNodesReady
    ClusterClient.callGetMachines
  rcases c.clusterClient.GetMachines cluster w.st with ⟨r, s⟩
  cases r with
  | error e => rfl
  | ok ms => simp only; split <;> rfl

/-- The closure `areNodesReady` in terms of the observation `countNodesReady` returns. -/
theorem areNodesReady_eq {σ : Type} (c : ClusterManager σ) (cluster : Cluster)
    (l : NodeCounters) (w : World σ) (R N : Int) (err : Option Error) :
    (c.countNodesReady cluster w).1 = (R, N, err) →
    c.areNodesReady cluster l w
      = ((match err with
          | some e => some e
          | none => if R ≠ N then some "nodes are not ready yet" else none),
        ⟨R, N⟩, (c.countNodesReady cluster w).2) := by
  intro hobs
  unfold ClusterManager.areNodesReady
  rcases hc : c.countNodesReady cluster w with ⟨⟨R1, N1, e1⟩, w1⟩
  rw [hc] at hobs
  simp only [Prod.mk.injEq] at hobs
  obtain ⟨h1, h2, h3⟩ := hobs
  subst h1 h2 h3
  cases e1 with
  | some e => rfl
  | none => simp only; split <;> rfl

/-- Every result of the retry part of `waitForNodesReady` comes from one Retry invocation
that made a `GetMachines` query. -/
theorem retryNodesReady_result {σ : Type} (c : ClusterManager σ) (fuel : Nat)
    (cluster : Cluster) (l : NodeCounters) (w : World σ) (res : Option Error × World σ)
    (h : c.retryNodesReady fuel cluster l w = some res) :
    res.2.retrierRuns = w.retrierRuns + 1 ∧
    ∃ ext, res.2.log = w.log ++ Call.GetMachines cluster :: ext := by
  unfold ClusterManager.retryNodesReady at h
  simp only at h
  cases hr : (Retrier.New (c.nodesTimeout l.totalNodes) c.policy).Retry fuel
      (c.areNodesReady cluster) l w with
  | none => rw [hr] at h; simp at h
  | some r3 =>
    obtain ⟨e, l2, w2⟩ := r3
    have hruns := loop_retrierRuns _ _ (areNodesReady_retrierRuns c cluster) _ fuel 0 l
      { w with retrierRuns := w.retrierRuns + 1 } _ hr
    obtain ⟨ext, hext, _⟩ := loop_log _ _ (Call.GetMachines cluster)
      (areNodesReady_log c cluster) _ fuel 0 l
      { w with retrierRuns := w.retrierRuns + 1 } _ hr
    rw [hr] at h
    cases e with
    | none =>
      simp only [Option.some.injEq] at h
      subst h
      exact ⟨hruns, ext, hext⟩
    | some e1 =>
      simp only [Option.some.injEq] at h
      subst h
      exact ⟨hruns, ext, hext⟩

/-- C9: let (R, N, err) be what the first `countNodesReady` observation returns. Then
`waitForNodesReady` returns success after exactly one `GetMachines` query and without
invoking the Retrier if and only if the query succeeded and R = N; when R differs from N
or the first query failed it enters the retry loop: it continues as the Retry of
`areNodesReady` from these counters, and whatever it returns then comes after one Retry
invocation and at least a second `GetMachines` query. -/
theorem waitForNodesReady_first_observation {σ : Type} (c : ClusterManager σ) (fuel : Nat)
    (cluster : Cluster) (w : World σ) (R N : Int) (err : Option Error)
    (hobs : (c.countNodesReady cluster w).1 = (R, N, err)) :
    ((∃ w1, c.waitForNodesReady fuel cluster w = some (none, w1) ∧
        w1.log = w.log ++ [Call.GetMachines cluster] ∧ w1.retrierRuns = w.retrierRuns)
      ↔ (err = none ∧ R = N)) ∧
    (¬ (err = none ∧ R = N) →
      c.waitForNodesReady fuel cluster w
        = c.retryNodesReady fuel cluster ⟨R, N⟩ (c.countNodesReady cluster w).2 ∧
      ∀ res, c.waitForNodesReady fuel cluster w = some res →
        res.2.retrierRuns = w.retrierRuns + 1 ∧
        ∃ ext, res.2.log
          = w.log ++ [Call.GetMachines cluster, Call.GetMachines cluster] ++ ext) := by
  have heq := areNodesReady_eq c cluster ⟨0, 0⟩ w R N err hobs
  have hlog := areNodesReady_log c cluster ⟨0, 0⟩ w
  have hruns := areNodesReady_retrierRuns c cluster ⟨0, 0⟩ w
  rw [heq] at hlog hruns
  simp only at hlog hruns
  have hretry : ¬ (err = none ∧ R = N) →
      c.waitForNodesReady fuel cluster w
        = c.retryNodesReady fuel cluster ⟨R, N⟩ (c.countNodesReady cluster w).2 := by
    intro hne
    unfold ClusterManager.waitForNodesReady
    rw [heq]
    cases err with
    | some e => rfl
    | none =>
      have : R ≠ N := fun h => hne ⟨rfl, h⟩
      simp [this]
  have hafter : ¬ (err = none ∧ R = N) →
      ∀ res, c.waitForNodesReady fuel cluster w = some res →
        res.2.retrierRuns = w.retrierRuns + 1 ∧
        ∃ ext, res.2.log
          = w.log ++ [Call.GetMachines cluster, Call.GetMachines cluster] ++ ext := by
    intro hne res hres
    rw [hretry hne] at hres
    obtain ⟨h1, ext, h2⟩ := retryNodesReady_result c fuel cluster _ _ res hres
    refine ⟨by rw [h1, hruns], ext, ?_⟩
    rw [h2, hlog]
    simp
  refine ⟨⟨?_, ?_⟩, fun hne => ⟨hretry hne, hafter hne⟩⟩
  · rintro ⟨w1, hw, _, hr⟩
    by_contra hne
    have := (hafter hne _ hw).1
    simp only at this
    omega
  · rintro ⟨he, hRN⟩
    subst he hRN
    refine ⟨(c.countNodesReady cluster w).2, ?_, hlog, hruns⟩
    unfold ClusterManager.waitForNodesReady
    rw [heq]
    simp

/-- Witness of `waitForNodesReady_first_observation`: against `joiningClient` the first
observation is 1 ready of 3. -/
theorem waitForNodesReady_first_observation_witness :
    ((∃ w1, (ClusterManager.New joiningClient).waitForNodesReady 1 exampleCluster
          (World.init 0) = some (none, w1) ∧
        w1.log = (World.init 0).log ++ [Call.GetMachines exampleCluster] ∧
        w1.retrierRuns = (World.init 0).retrierRuns)
      ↔ ((none : Option Error) = none ∧ (1 : Int) = 3)) ∧
    (¬ ((none : Option Error) = none ∧ (1 : Int) = 3) →
      (ClusterManager.New joiningClient).waitForNodesReady 1 exampleCluster (World.init 0)
        = (ClusterManager.New joiningClient).retryNodesReady 1 exampleCluster ⟨1, 3⟩
            ((ClusterManager.New joiningClient).countNodesReady exampleCluster
              (World.init 0)).2 ∧
      ∀ res, (ClusterManager.New joiningClient).waitForNodesReady 1 exampleCluster
          (World.init 0) = some res →
        res.2.retrierRuns = (World.init 0).retrierRuns + 1 ∧
        ∃ ext, res.2.log = (World.init 0).log ++
          [Call.GetMachines exampleCluster, Call.GetMachines exampleCluster] ++ ext) :=
  waitForNodesReady_first_observation (ClusterManager.New joiningClient) 1 exampleCluster
    (World.init 0) 1 3 none (by decide)

/-- No wrap-around inside the 64 bit range. -/
theorem wrap64_of_range (x : Int) (h1 : -2 ^ 63 ≤ x) (h2 : x < 2 ^ 63) : wrap64 x = x := by
  unfold wrap64
  have h : (x + 2 ^ 63) % 2 ^ 64 = x + 2 ^ 63 :=
    Int.emod_eq_of_lt (by omega) (by omega)
  rw [h]
  omega

/-- C10: the retry policy of `waitForNodesReady` always answers retry; after a failed poll
the shared counters hold the counts (R ready, N total) of that poll's own observation,
whatever they held before, and the delay the policy returns is
machineBackoff × (N − R) (the product is assumed to fit a 64 bit duration); so the retry
loop, after each failed poll, sleeps for machineBackoff × (N − R) of the most recent
observation before it polls again or gives up on the timeout. -/
theorem policy_delay_current_deficit {σ : Type} (c : ClusterManager σ) (cluster : Cluster)
    (l : NodeCounters) (w : World σ) (R N : Int) (obsErr : Option Error) (err : Error)
    (timeout start : Duration) (fuel retries : Nat)
    (hobs : (c.countNodesReady cluster w).1 = (R, N, obsErr))
    (hpoll : (c.areNodesReady cluster l w).1 = some err)
    (hlow : -2 ^ 63 ≤ c.machineBackoff * (N - R))
    (hhigh : c.machineBackoff * (N - R) < 2 ^ 63) :
    (∀ l2 n e, (c.policy l2 n e).1 = true) ∧
    (c.areNodesReady cluster l w).2.1 = ⟨R, N⟩ ∧
    (∀ n e, c.policy (c.areNodesReady cluster l w).2.1 n e
      = (true, c.machineBackoff * (N - R))) ∧
    Retrier.loop (Retrier.New timeout c.policy) (c.areNodesReady cluster) start (fuel + 1)
        retries l w
      = (if ((c.countNodesReady cluster w).2.sleep (c.machineBackoff * (N - R))).clock - start
            < timeout then
          Retrier.loop (Retrier.New timeout c.policy) (c.areNodesReady cluster) start fuel
            (retries + 1) ⟨R, N⟩
            ((c.countNodesReady cluster w).2.sleep (c.machineBackoff * (N - R)))
        else
          some (some (exhaustionError err), ⟨R, N⟩,
            (c.countNodesReady cluster w).2.sleep (c.machineBackoff * (N - R)))) := by
  have heq := areNodesReady_eq c cluster l w R N obsErr hobs
  have hpol : ∀ n e, c.policy ⟨R, N⟩ n e = (true, c.machineBackoff * (N - R)) := by
    intro n e
    simp only [ClusterManager.policy, wrap64_of_range _ hlow hhigh]
  rw [heq] at hpoll
  simp only at hpoll
  refine ⟨fun _ _ _ => rfl, by rw [heq], by rw [heq]; exact hpol, ?_⟩
  rw [Retrier.loop, heq, hpoll]
  simp only [Retrier.New, hpol]

/-- Witness of `policy_delay_current_deficit`: against `joiningClient` the first poll
observes 1 ready of 3, so the delay is 2 seconds, whatever the counters held before. -/
theorem policy_delay_current_deficit_witness :
    (∀ l2 n e, ((ClusterManager.New joiningClient).policy l2 n e).1 = true) ∧
    ((ClusterManager.New joiningClient).areNodesReady exampleCluster ⟨7, 9⟩
      (World.init 0)).2.1 = ⟨1, 3⟩ ∧
    (∀ n e, (ClusterManager.New joiningClient).policy
        ((ClusterManager.New joiningClient).areNodesReady exampleCluster ⟨7, 9⟩
          (World.init 0)).2.1 n e
      = (true, (ClusterManager.New joiningClient).machineBackoff * (3 - 1))) ∧
    Retrier.loop (Retrier.New (30 * Minute) (ClusterManager.New joiningClient).policy)
        ((ClusterManager.New joiningClient).areNodesReady exampleCluster) 0 (1 + 1) 0
        ⟨7, 9⟩ (World.init 0)
      = (if (((ClusterManager.New joiningClient).countNodesReady exampleCluster
              (World.init 0)).2.sleep
              ((ClusterManager.New joiningClient).machineBackoff * (3 - 1))).clock - 0
            < 30 * Minute then
          Retrier.loop (Retrier.New (30 * Minute) (ClusterManager.New joiningClient).policy)
            ((ClusterManager.New joiningClient).areNodesReady exampleCluster) 0 1
            (0 + 1) ⟨1, 3⟩
            (((ClusterManager.New joiningClient).countNodesReady exampleCluster
              (World.init 0)).2.sleep
              ((ClusterManager.New joiningClient).machineBackoff * (3 - 1)))
        else
          some (some (exhaustionError "nodes are not ready yet"), ⟨1, 3⟩,
            ((ClusterManager.New joiningClient).countNodesReady exampleCluster
              (World.init 0)).2.sleep
              ((ClusterManager.New joiningClient).machineBackoff * (3 - 1)))) :=
  policy_delay_current_deficit (ClusterManager.New joiningClient) exampleCluster ⟨7, 9⟩
    (World.init 0) 1 3 none "nodes are not ready yet" (30 * Minute) 0 1 0
    (by decide) (by decide) (by decide) (by decide)

/-! ## Counting nodes -/

/-- The three counters after the loop of `countNodesReady` over a machine list. -/
theorem foldl_countStep (ms : List Machine) (acc : Int × Int × Int) :
    ms.foldl countStep acc
      = (acc.1 + (ms.countP fun m => m.NodeRef.isSome),
         acc.2.1 + (ms.countP fun m => m.hasLabel MachineControlPlaneLabelName),
         acc.2.2 + (ms.countP fun m => m.hasLabel MachineDeploymentLabelName)) := by
  induction ms generalizing acc with
  | nil => simp
  | cons m rest ih =>
    rw [List.foldl_cons, ih]
    simp only [countStep, List.countP_cons]
    by_cases h1 : m.NodeRef.isSome = true <;>
      by_cases h2 : m.hasLabel MachineControlPlaneLabelName = true <;>
      by_cases h3 : m.hasLabel MachineDeploymentLabelName = true <;>
      simp [h1, h2, h3] <;> omega

/-- The results of `countNodesReady` when the `GetMachines` query returns `machines`. -/
theorem countNodesReady_ok {σ : Type} (c : ClusterManager σ) (cluster : Cluster)
    (w : World σ) (machines : List Machine)
    (hq : (c.clusterClient.GetMachines cluster w.st).1 = Except.ok machines) :
    (c.countNodesReady cluster w).1
      = (((machines.countP fun m => m.NodeRef.isSome : Nat) : Int),
         ((machines.countP fun m => m.hasLabel MachineControlPlaneLabelName : Nat) : Int) +
           ((machines.countP fun m => m.hasLabel MachineDeploymentLabelName : Nat) : Int),
         none) := by
  unfold ClusterManager.countNodesReady ClusterClient.callGetMachines
  simp only [hq, foldl_countStep]
  simp

end EksAnywhere

namespace EksAnywhere

/-- After a first check that is not ready, `waitForNodesReady` is the retry part run from
the counters of the first observation. -/
theorem waitForNodesReady_not_ready {σ : Type} (c : ClusterManager σ) (fuel : Nat)
    (cluster : Cluster) (w : World σ) (R N : Int) (err : Option Error)
    (hobs : (c.countNodesReady cluster w).1 = (R, N, err))
    (hne : ¬ (err = none ∧ R = N)) :
    c.waitForNodesReady fuel cluster w
      = c.retryNodesReady fuel cluster ⟨R, N⟩ (c.countNodesReady cluster w).2 := by
  unfold ClusterManager.waitForNodesReady
  rw [areNodesReady_eq c cluster ⟨0, 0⟩ w R N err hobs]
  cases err with
  | some e => rfl
  | none =>
    have : R ≠ N := fun h => hne ⟨rfl, h⟩
    simp [this]

/-- C11: when the first observation (R ready of N, or a failed query) is not ready, the
Retrier that `waitForNodesReady` builds has the overall timeout
max(N × machineMaxWait, machinesMinWait), N being the total of the first observation; the
product is assumed to fit a 64 bit duration. -/
theorem waitForNodesReady_timeout {σ : Type} (c : ClusterManager σ) (fuel : Nat)
    (cluster : Cluster) (w : World σ) (R N : Int) (err : Option Error)
    (hobs : (c.countNodesReady cluster w).1 = (R, N, err))
    (hne : ¬ (err = none ∧ R = N))
    (hlow : -2 ^ 63 ≤ N * c.machineMaxWait) (hhigh : N * c.machineMaxWait < 2 ^ 63) :
    c.nodesTimeout N = max (N * c.machineMaxWait) c.machinesMinWait ∧
    c.waitForNodesReady fuel cluster w
      = (match (Retrier.New (max (N * c.machineMaxWait) c.machinesMinWait) c.policy).Retry
            fuel (c.areNodesReady cluster) ⟨R, N⟩ (c.countNodesReady cluster w).2 with
        | none => none
        | some (some e, _, w2) =>
          some (some ("retries exhausted waiting for machines to be ready: " ++ e), w2)
        | some (none, _, w2) => some (none, w2)) := by
  have ht : c.nodesTimeout N = max (N * c.machineMaxWait) c.machinesMinWait := by
    unfold ClusterManager.nodesTimeout
    simp only [wrap64_of_range _ hlow hhigh, max_def]
  refine ⟨ht, ?_⟩
  rw [waitForNodesReady_not_ready c fuel cluster w R N err hobs hne]
  unfold ClusterManager.retryNodesReady
  simp only [ht]

/-- Witness of `waitForNodesReady_timeout`: against `joiningClient` the first observation
is 1 ready of 3, so the timeout is max(3 × 10 minutes, 30 minutes). -/
theorem waitForNodesReady_timeout_witness :
    (ClusterManager.New joiningClient).nodesTimeout 3
      = max (3 * (ClusterManager.New joiningClient).machineMaxWait)
          (ClusterManager.New joiningClient).machinesMinWait ∧
    (ClusterManager.New joiningClient).waitForNodesReady 2 exampleCluster (World.init 0)
      = (match (Retrier.New (max (3 * (ClusterManager.New joiningClient).machineMaxWait)
              (ClusterManager.New joiningClient).machinesMinWait)
            (ClusterManager.New joiningClient).policy).Retry
            2 ((ClusterManager.New joiningClient).areNodesReady exampleCluster) ⟨1, 3⟩
            ((ClusterManager.New joiningClient).countNodesReady exampleCluster
              (World.init 0)).2 with
        | none => none
        | some (some e, _, w2) =>
          some (some ("retries exhausted waiting for machines to be ready: " ++ e), w2)
        | some (none, _, w2) => some (none, w2)) :=
  waitForNodesReady_timeout (ClusterManager.New joiningClient) 2 exampleCluster (World.init 0)
    1 3 none (by decide) (by decide) (by decide) (by decide)

/-- C12, as stated, fails: for a list with one machine that carries both the control-plane
label and the machine-deployment label, `countNodesReady` returns total 2, while one
machine carries one of the two labels. -/
theorem countNodesReady_double_label_counts_twice :
    ((ClusterManager.New doubleLabelClient).countNodesReady exampleCluster
        (World.init ())).1 = (1, 2, none) ∧
    ([doubleLabelMachine].countP fun m =>
        m.hasLabel MachineControlPlaneLabelName || m.hasLabel MachineDeploymentLabelName)
      = 1 := by
  decide

/-- C12, amended: for every machine list returned by `GetMachines`, the total returned by
`countNodesReady` is the number of machines that carry the control-plane label plus the
number of machines that carry the machine-deployment label; when no machine carries both
labels this is the number of machines that carry one of the two. -/
theorem countNodesReady_total {σ : Type} (c : ClusterManager σ) (cluster : Cluster)
    (w : World σ) (machines : List Machine)
    (hq : (c.clusterClient.GetMachines cluster w.st).1 = Except.ok machines) :
    (c.countNodesReady cluster w).1.2.1
      = ((machines.countP fun m => m.hasLabel MachineControlPlaneLabelName : Nat) : Int) +
        ((machines.countP fun m => m.hasLabel MachineDeploymentLabelName : Nat) : Int) ∧
    ((∀ m ∈ machines, ¬ (m.hasLabel MachineControlPlaneLabelName = true ∧
        m.hasLabel MachineDeploymentLabelName = true)) →
      (c.countNodesReady cluster w).1.2.1
        = ((machines.countP fun m => m.hasLabel MachineControlPlaneLabelName ||
            m.hasLabel MachineDeploymentLabelName : Nat) : Int)) := by
  rw [countNodesReady_ok c cluster w machines hq]
  refine ⟨rfl, ?_⟩
  intro hno
  simp only
  clear hq
  induction machines with
  | nil => simp
  | cons m rest ih =>
    have hm := hno m (List.mem_cons_self m rest)
    have ih2 := ih (fun x hx => hno x (List.mem_cons_of_mem m hx))
    simp only [List.countP_cons]
    by_cases h1 : m.hasLabel MachineControlPlaneLabelName = true <;>
      by_cases h2 : m.hasLabel MachineDeploymentLabelName = true
    · exact absurd ⟨h1, h2⟩ hm
    · simp [h1, h2]; omega
    · simp [h1, h2]; omega
    · simp [h1, h2]; omega

/-- Witness of `countNodesReady_total`: `joiningClient` reports one control-plane machine
and two workers. -/
theorem countNodesReady_total_witness :
    ((ClusterManager.New joiningClient).countNodesReady exampleCluster (World.init 0)).1.2.1
      = (([controlPlaneMachine true, workerMachine false, workerMachine false].countP
          fun m => m.hasLabel MachineControlPlaneLabelName : Nat) : Int) +
        (([controlPlaneMachine true, workerMachine false, workerMachine false].countP
          fun m => m.hasLabel MachineDeploymentLabelName : Nat) : Int) ∧
    ((∀ m ∈ [controlPlaneMachine true, workerMachine false, workerMachine false],
        ¬ (m.hasLabel MachineControlPlaneLabelName = true ∧
          m.hasLabel MachineDeploymentLabelName = true)) →
      ((ClusterManager.New joiningClient).countNodesReady exampleCluster (World.init 0)).1.2.1
        = (([controlPlaneMachine true, workerMachine false, workerMachine false].countP
            fun m => m.hasLabel MachineControlPlaneLabelName ||
              m.hasLabel MachineDeploymentLabelName : Nat) : Int)) :=
  countNodesReady_total (ClusterManager.New joiningClient) exampleCluster (World.init 0)
    [controlPlaneMachine true, workerMachine false, workerMachine false] rfl

/-- C13: for every machine list returned by `GetMachines`, the ready count returned by
`countNodesReady` is the number of machines whose node reference is non-nil; it is a
function of the list of node-reference presences alone, so no label and no other field of
a machine enters it. -/
theorem countNodesReady_ready {σ : Type} (c : ClusterManager σ) (cluster : Cluster)
    (w : World σ) (machines : List Machine)
    (hq : (c.clusterClient.GetMachines cluster w.st).1 = Except.ok machines) :
    (c.countNodesReady cluster w).1.1
      = ((machines.countP fun m => m.NodeRef.isSome : Nat) : Int) ∧
    (c.countNodesReady cluster w).1.1
      = (((machines.map fun m => m.NodeRef.isSome).count true : Nat) : Int) := by
  rw [countNodesReady_ok c cluster w machines hq]
  refine ⟨rfl, ?_⟩
  simp only [List.count, List.countP_map]
  congr 2
  funext m
  simp

/-- Witness of `countNodesReady_ready`: `joiningClient` reports three machines of which
the control-plane machine has a node reference. -/
theorem countNodesReady_ready_witness :
    ((ClusterManager.New joiningClient).countNodesReady exampleCluster (World.init 0)).1.1
      = (([controlPlaneMachine true, workerMachine false, workerMachine false].countP
          fun m => m.NodeRef.isSome : Nat) : Int) ∧
    ((ClusterManager.New joiningClient).countNodesReady exampleCluster (World.init 0)).1.1
      = ((([controlPlaneMachine true, workerMachine false, workerMachine false].map
          fun m => m.NodeRef.isSome).count true : Nat) : Int) :=
  countNodesReady_ready (ClusterManager.New joiningClient) exampleCluster (World.init 0)
    [controlPlaneMachine true, workerMachine false, workerMachine false] rfl

/-! ## Management move -/

/-- The calls of `waitForNodesReady`: `GetMachines` queries on its cluster and sleeps. -/
theorem waitForNodesReady_log {σ : Type} (c : ClusterManager σ) (fuel : Nat)
    (cluster : Cluster) (w : World σ) (res : Option Error × World σ)
    (h : c.waitForNodesReady fuel cluster w = some res) :
    ∃ ext, res.2.log = w.log ++ ext ∧
      ∀ x ∈ ext, x = Call.GetMachines cluster ∨ ∃ d, x = Call.Sleep d := by
  have hlog := areNodesReady_log c cluster ⟨0, 0⟩ w
  unfold ClusterManager.waitForNodesReady at h
  rcases hf : c.areNodesReady cluster ⟨0, 0⟩ w with ⟨e, l1, w1⟩
  rw [hf] at h hlog
  simp only at hlog
  cases e with
  | none =>
    simp only [Option.some.injEq] at h
    subst h
    exact ⟨[Call.GetMachines cluster], hlog, by simp⟩
  | some err =>
    simp only at h
    unfold ClusterManager.retryNodesReady at h
    simp only at h
    cases hr : (Retrier.New (c.nodesTimeout l1.totalNodes) c.policy).Retry fuel
        (c.areNodesReady cluster) l1 w1 with
    | none => rw [hr] at h; simp at h
    | some r3 =>
      obtain ⟨e3, l3, w3⟩ := r3
      obtain ⟨ext, hext, hall⟩ := loop_log _ _ (Call.GetMachines cluster)
        (areNodesReady_log c cluster) _ fuel 0 l1
        { w1 with retrierRuns := w1.retrierRuns + 1 } _ hr
      have hres : res.2.log = w3.log := by
        rw [hr] at h
        cases e3 with
        | none => simp only [Option.some.injEq] at h; subst h; rfl
        | some e4 => simp only [Option.some.injEq] at h; subst h; rfl
      refine ⟨Call.GetMachines cluster :: Call.GetMachines cluster :: ext, ?_, ?_⟩
      · rw [hres]
        simp only at hext
        rw [hext, hlog]
        simp
      · intro x hx
        simp only [List.mem_cons] at hx
        rcases hx with hx | hx | hx
        · exact Or.inl hx
        · exact Or.inl hx
        · exact hall x hx

/-- C14: in `MoveCapi`, when the nodes of the source cluster have been found ready and the
`MoveManagement` call returns an error, `MoveCapi` returns an error built from it and the
`MoveManagement` call is the last call made: every other call is a `GetMachines` query on
the source cluster or a sleep of the wait before the move, so no `GetClusters` and no
`WaitForControlPlaneReady` call is issued, and no `GetMachines` call on the destination
cluster (a cluster other than the source). -/
theorem MoveCapi_move_fails {σ : Type} (c : ClusterManager σ) (fuel : Nat)
    (org target : Cluster) (w w1 : World σ) (err : Error)
    (hsrc : c.waitForNodesReady fuel org w = some (none, w1))
    (hmove : (c.clusterClient.MoveManagement org target w1.st).1 = some err) :
    ∃ w2 ext,
      c.MoveCapi fuel org target w
        = some (some ("error moving CAPI management from source to target: " ++ err), w2) ∧
      w2.log = w.log ++ ext ++ [Call.MoveManagement org target] ∧
      (∀ x ∈ ext, x = Call.GetMachines org ∨ ∃ d, x = Call.Sleep d) ∧
      (∀ x ∈ ext ++ [Call.MoveManagement org target],
        (∀ cl, x ≠ Call.GetClusters cl) ∧
        (∀ cl t n, x ≠ Call.WaitForControlPlaneReady cl t n) ∧
        (target ≠ org → x ≠ Call.GetMachines target)) := by
  obtain ⟨ext, hext, hall⟩ := waitForNodesReady_log c fuel org w _ hsrc
  simp only at hext
  refine ⟨(c.clusterClient.callMoveManagement org target w1).2, ext, ?_, ?_, hall, ?_⟩
  · unfold ClusterManager.MoveCapi
    rw [hsrc]
    simp only [ClusterClient.callMoveManagement, hmove]
  · simp [ClusterClient.callMoveManagement, hext]
  · intro x hx
    rcases List.mem_append.mp hx with hx | hx
    · rcases hall x hx with h1 | ⟨d, h1⟩
      · subst h1
        refine ⟨fun _ h => (by cases h), fun _ _ _ h => (by cases h), fun hne h => ?_⟩
        injection h with h2
        exact hne h2.symm
      · subst h1
        exact ⟨fun _ h => (by cases h), fun _ _ _ h => (by cases h), fun _ h => (by cases h)⟩
    · simp only [List.mem_singleton] at hx
      subst hx
      exact ⟨fun _ h => (by cases h), fun _ _ _ h => (by cases h), fun _ h => (by cases h)⟩

/-- Witness of `MoveCapi_move_fails`: `failingMoveClient`, whose source nodes are ready at
the first check. -/
theorem MoveCapi_move_fails_witness :
    ∃ w2 ext,
      (ClusterManager.New failingMoveClient).MoveCapi 1 exampleCluster targetCluster
          (World.init ())
        = some (some ("error moving CAPI management from source to target: " ++
            "move failed"), w2) ∧
      w2.log = (World.init ()).log ++ ext ++
        [Call.MoveManagement exampleCluster targetCluster] ∧
      (∀ x ∈ ext, x = Call.GetMachines exampleCluster ∨ ∃ d, x = Call.Sleep d) ∧
      (∀ x ∈ ext ++ [Call.MoveManagement exampleCluster targetCluster],
        (∀ cl, x ≠ Call.GetClusters cl) ∧
        (∀ cl t n, x ≠ Call.WaitForControlPlaneReady cl t n) ∧
        (targetCluster ≠ exampleCluster → x ≠ Call.GetMachines targetCluster)) :=
  MoveCapi_move_fails (ClusterManager.New failingMoveClient) 1 exampleCluster targetCluster
    (World.init ())
    { st := (), log := [Call.GetMachines exampleCluster], clock := 0, retrierRuns := 0 }
    "move failed" (by decide) (by decide)

/-- When no element satisfies `p`, `untilFirst p` keeps the whole list. -/
theorem untilFirst_of_all_false {α : Type} (p : α → Bool) (xs : List α)
    (h : ∀ x ∈ xs, p x = false) : untilFirst p xs = xs := by
  induction xs with
  | nil => rfl
  | cons a rest ih =>
    have ha := h a (List.mem_cons_self a rest)
    simp [untilFirst, ha, ih (fun x hx => h x (List.mem_cons_of_mem a hx))]

/-- The loop of `waitForAllControlPlanes` against a collaborator whose answer to
`WaitForControlPlaneReady` is determined by the name of the cluster waited for. -/
theorem waitForControlPlanes_answer {σ : Type} (c : ClusterManager σ) (cluster : Cluster)
    (waitForCluster : Duration) (answer : String → Option Error)
    (hans : ∀ cl t n s, (c.clusterClient.WaitForControlPlaneReady cl t n s).1 = answer n)
    (clusters : List CAPICluster) (w : World σ) :
    (c.waitForControlPlanes cluster waitForCluster clusters w).2.log
      = w.log ++ (untilFirst (fun clu => (answer clu.Name).isSome) clusters).map
          (fun clu => Call.WaitForControlPlaneReady cluster (Duration.String waitForCluster)
            clu.Name) ∧
    (c.waitForControlPlanes cluster waitForCluster clusters w).1
      = (match clusters.find? (fun clu => (answer clu.Name).isSome) with
        | none => none
        | some clu => (answer clu.Name).map fun err =>
            "error waiting for workload cluster control plane for cluster " ++ clu.Name ++
              " to be ready: " ++ err) := by
  induction clusters generalizing w with
  | nil => simp [ClusterManager.waitForControlPlanes, untilFirst]
  | cons clu rest ih =>
    unfold ClusterManager.waitForControlPlanes
    simp only [ClusterClient.callWaitForControlPlaneReady]
    have h1 := hans cluster (Duration.String waitForCluster) clu.Name w.st
    rcases hr : c.clusterClient.WaitForControlPlaneReady cluster
      (Duration.String waitForCluster) clu.Name w.st with ⟨a, s1⟩
    rw [hr] at h1
    simp only at h1
    subst h1
    cases ha : answer clu.Name with
    | some err => simp [untilFirst, List.find?, ha]
    | none =>
      simp only [untilFirst, List.find?, ha, Option.isSome_none, Bool.false_eq_true,
        if_false]
      obtain ⟨ih1, ih2⟩ := ih
        { st := s1, log := w.log ++ [Call.WaitForControlPlaneReady cluster
            (Duration.String waitForCluster) clu.Name], clock := w.clock,
          retrierRuns := w.retrierRuns }
      refine ⟨?_, ih2⟩
      rw [ih1]
      simp

/-- C16: against a collaborator whose answer to `WaitForControlPlaneReady` is determined by
the cluster waited for, `waitForAllControlPlanes` with the move timeout (whose string form
is "5m0s") makes one `GetClusters` call; if that call fails it returns an error and makes
no wait call; otherwise it calls `WaitForControlPlaneReady` once per returned cluster, in
list order, each with the timeout string, up to and including the first cluster that
fails, and returns the error naming that cluster; when no cluster fails (in particular for
an empty list) every cluster is waited for once and the result is nil. -/
theorem waitForAllControlPlanes_calls {σ : Type} (c : ClusterManager σ) (cluster : Cluster)
    (w : World σ) (answer : String → Option Error)
    (hans : ∀ cl t n s, (c.clusterClient.WaitForControlPlaneReady cl t n s).1 = answer n) :
    Duration.String moveCapiWait = "5m0s" ∧
    (∀ e, (c.clusterClient.GetClusters cluster w.st).1 = Except.error e →
      (c.waitForAllControlPlanes cluster moveCapiWait w).1
        = some ("error getting clusters: " ++ e) ∧
      (c.waitForAllControlPlanes cluster moveCapiWait w).2.log
        = w.log ++ [Call.GetClusters cluster]) ∧
    (∀ clusters, (c.clusterClient.GetClusters cluster w.st).1 = Except.ok clusters →
      (c.waitForAllControlPlanes cluster moveCapiWait w).2.log
        = w.log ++ Call.GetClusters cluster ::
            (untilFirst (fun clu => (answer clu.Name).isSome) clusters).map
              (fun clu => Call.WaitForControlPlaneReady cluster "5m0s" clu.Name) ∧
      (c.waitForAllControlPlanes cluster moveCapiWait w).1
        = (match clusters.find? (fun clu => (answer clu.Name).isSome) with
          | none => none
          | some clu => (answer clu.Name).map fun err =>
              "error waiting for workload cluster control plane for cluster " ++ clu.Name ++
                " to be ready: " ++ err) ∧
      ((∀ clu ∈ clusters, answer clu.Name = none) →
        (c.waitForAllControlPlanes cluster moveCapiWait w).1 = none ∧
        (c.waitForAllControlPlanes cluster moveCapiWait w).2.log
          = w.log ++ Call.GetClusters cluster ::
              clusters.map (fun clu =>
                Call.WaitForControlPlaneReady cluster "5m0s" clu.Name))) := by
  have hstr : Duration.String moveCapiWait = "5m0s" := by decide
  refine ⟨hstr, ?_, ?_⟩
  · intro e he
    unfold ClusterManager.waitForAllControlPlanes ClusterClient.callGetClusters
    simp only [he]
    exact ⟨trivial, trivial⟩
  · intro clusters hok
    have hrun : c.waitForAllControlPlanes cluster moveCapiWait w
        = c.waitForControlPlanes cluster moveCapiWait clusters
            { st := (c.clusterClient.GetClusters cluster w.st).2
              log := w.log ++ [Call.GetClusters cluster]
              clock := w.clock
              retrierRuns := w.retrierRuns } := by
      unfold ClusterManager.waitForAllControlPlanes ClusterClient.callGetClusters
      simp only [hok]
    obtain ⟨h1, h2⟩ := waitForControlPlanes_answer c cluster moveCapiWait answer hans clusters
      { st := (c.clusterClient.GetClusters cluster w.st).2
        log := w.log ++ [Call.GetClusters cluster]
        clock := w.clock
        retrierRuns := w.retrierRuns }
    rw [hstr] at h1
    have hlog : (c.waitForAllControlPlanes cluster moveCapiWait w).2.log
        = w.log ++ Call.GetClusters cluster ::
            (untilFirst (fun clu => (answer clu.Name).isSome) clusters).map
              (fun clu => Call.WaitForControlPlaneReady cluster "5m0s" clu.Name) := by
      rw [hrun, h1]
      simp
    refine ⟨hlog, by rw [hrun, h2], ?_⟩
    intro hall
    have hnone : clusters.find? (fun clu => (answer clu.Name).isSome) = none := by
      rw [List.find?_eq_none]
      intro clu hclu
      simp [hall clu hclu]
    refine ⟨by rw [hrun, h2, hnone], ?_⟩
    rw [hlog, untilFirst_of_all_false _ _ (fun clu hclu => by simp [hall clu hclu])]

/-- Witness of `waitForAllControlPlanes_calls`: `fleetClient`, where the second of three
clusters fails. -/
theorem waitForAllControlPlanes_calls_witness :
    Duration.String moveCapiWait = "5m0s" ∧
    (∀ e, ((ClusterManager.New fleetClient).clusterClient.GetClusters targetCluster
        (World.init ()).st).1 = Except.error e →
      ((ClusterManager.New fleetClient).waitForAllControlPlanes targetCluster moveCapiWait
        (World.init ())).1 = some ("error getting clusters: " ++ e) ∧
      ((ClusterManager.New fleetClient).waitForAllControlPlanes targetCluster moveCapiWait
        (World.init ())).2.log = (World.init ()).log ++ [Call.GetClusters targetCluster]) ∧
    (∀ clusters, ((ClusterManager.New fleetClient).clusterClient.GetClusters targetCluster
        (World.init ()).st).1 = Except.ok clusters →
      ((ClusterManager.New fleetClient).waitForAllControlPlanes targetCluster moveCapiWait
        (World.init ())).2.log
        = (World.init ()).log ++ Call.GetClusters targetCluster ::
            (untilFirst (fun clu =>
              ((fun n => if n = "w1" then some "timed out" else none) clu.Name).isSome)
              clusters).map
              (fun clu => Call.WaitForControlPlaneReady targetCluster "5m0s" clu.Name) ∧
      ((ClusterManager.New fleetClient).waitForAllControlPlanes targetCluster moveCapiWait
        (World.init ())).1
        = (match clusters.find? (fun clu =>
              ((fun n => if n = "w1" then some "timed out" else none) clu.Name).isSome) with
          | none => none
          | some clu =>
            ((fun n => if n = "w1" then some "timed out" else none) clu.Name).map fun err =>
              "error waiting for workload cluster control plane for cluster " ++ clu.Name ++
                " to be ready: " ++ err) ∧
      ((∀ clu ∈ clusters,
          (fun n => if n = "w1" then some "timed out" else none) clu.Name = none) →
        ((ClusterManager.New fleetClient).waitForAllControlPlanes targetCluster moveCapiWait
          (World.init ())).1 = none ∧
        ((ClusterManager.New fleetClient).waitForAllControlPlanes targetCluster moveCapiWait
          (World.init ())).2.log
          = (World.init ()).log ++ Call.GetClusters targetCluster ::
              clusters.map (fun clu =>
                Call.WaitForControlPlaneReady targetCluster "5m0s" clu.Name))) :=
  waitForAllControlPlanes_calls (ClusterManager.New fleetClient) targetCluster (World.init ())
    (fun n => if n = "w1" then some "timed out" else none) (fun _ _ _ _ => rfl)

/-- The loop of `waitForAllControlPlanes` only appends `WaitForControlPlaneReady` calls. -/
theorem waitForControlPlanes_no_move {σ : Type} (c : ClusterManager σ) (cluster : Cluster)
    (waitForCluster : Duration) (clusters : List CAPICluster) (w : World σ) :
    ∃ ext, (c.waitForControlPlanes cluster waitForCluster clusters w).2.log = w.log ++ ext ∧
      ∀ x ∈ ext, x.isMoveManagement = false := by
  induction clusters generalizing w with
  | nil => exact ⟨[], by simp [ClusterManager.waitForControlPlanes], by simp⟩
  | cons clu rest ih =>
    unfold ClusterManager.waitForControlPlanes
    simp only [ClusterClient.callWaitForControlPlaneReady]
    rcases hr : c.clusterClient.WaitForControlPlaneReady cluster
      (Duration.String waitForCluster) clu.Name w.st with ⟨a, s1⟩
    cases a with
    | some err =>
      exact ⟨[Call.WaitForControlPlaneReady cluster (Duration.String waitForCluster) clu.Name],
        rfl, by simp [Call.isMoveManagement]⟩
    | none =>
      simp only
      obtain ⟨ext, hext, hall⟩ := ih
        { st := s1, log := w.log ++ [Call.WaitForControlPlaneReady cluster
            (Duration.String waitForCluster) clu.Name], clock := w.clock,
          retrierRuns := w.retrierRuns }
      refine ⟨Call.WaitForControlPlaneReady cluster (Duration.String waitForCluster)
        clu.Name :: ext, by rw [hext]; simp, ?_⟩
      intro x hx
      rcases List.mem_cons.mp hx with hx | hx
      · subst hx; rfl
      · exact hall x hx

/-- The calls of `waitForAllControlPlanes` are no `MoveManagement` calls. -/
theorem waitForAllControlPlanes_no_move {σ : Type} (c : ClusterManager σ) (cluster : Cluster)
    (waitForCluster : Duration) (w : World σ) :
    ∃ ext, (c.waitForAllControlPlanes cluster waitForCluster w).2.log = w.log ++ ext ∧
      ∀ x ∈ ext, x.isMoveManagement = false := by
  unfold ClusterManager.waitForAllControlPlanes ClusterClient.callGetClusters
  rcases hr : c.clusterClient.GetClusters cluster w.st with ⟨a, s1⟩
  cases a with
  | error e => exact ⟨[Call.GetClusters cluster], rfl, by simp [Call.isMoveManagement]⟩
  | ok clusters =>
    simp only
    obtain ⟨ext, hext, hall⟩ := waitForControlPlanes_no_move c cluster waitForCluster clusters
      { st := s1, log := w.log ++ [Call.GetClusters cluster], clock := w.clock,
        retrierRuns := w.retrierRuns }
    refine ⟨Call.GetClusters cluster :: ext, by rw [hext]; simp, ?_⟩
    intro x hx
    rcases List.mem_cons.mp hx with hx | hx
    · subst hx; rfl
    · exact hall x hx

/-- The calls of `waitForNodesReady` are no `MoveManagement` calls. -/
theorem waitForNodesReady_no_move {σ : Type} (c : ClusterManager σ) (fuel : Nat)
    (cluster : Cluster) (w : World σ) (res : Option Error × World σ)
    (h : c.waitForNodesReady fuel cluster w = some res) :
    ∃ ext, res.2.log = w.log ++ ext ∧ ∀ x ∈ ext, x.isMoveManagement = false := by
  obtain ⟨ext, hext, hall⟩ := waitForNodesReady_log c fuel cluster w res h
  refine ⟨ext, hext, ?_⟩
  intro x hx
  rcases hall x hx with h1 | ⟨d, h1⟩ <;> subst h1 <;> rfl

/-- C15: in every execution of `MoveCapi` that returns, the wait for the nodes of the
source cluster returned first, and none of its calls is a `MoveManagement` call; if that
wait failed, `MoveCapi` returns its error and makes no further call, so `MoveManagement`
is never invoked; if it found the nodes ready, the next call is the `MoveManagement` call
and no later call is a `MoveManagement` call, so the move is invoked once and never
retried; and when `MoveCapi` returns nil, the steps were, in this order: source nodes
ready, move, control planes of the destination ready, destination nodes ready. -/
theorem MoveCapi_order {σ : Type} (c : ClusterManager σ) (fuel : Nat)
    (org target : Cluster) (w : World σ) (res : Option Error × World σ)
    (h : c.MoveCapi fuel org target w = some res) :
    ∃ r1 w1 ext1 rest,
      c.waitForNodesReady fuel org w = some (r1, w1) ∧
      w1.log = w.log ++ ext1 ∧
      res.2.log = w1.log ++ rest ∧
      (∀ x ∈ ext1, x.isMoveManagement = false) ∧
      (r1 ≠ none → res = (r1, w1) ∧ rest = []) ∧
      (r1 = none → ∃ tail, rest = Call.MoveManagement org target :: tail ∧
        ∀ x ∈ tail, x.isMoveManagement = false) ∧
      (res.1 = none → ∃ w2 w3,
        c.clusterClient.callMoveManagement org target w1 = (none, w2) ∧
        c.waitForAllControlPlanes target moveCapiWait w2 = (none, w3) ∧
        c.waitForNodesReady fuel target w3 = some (none, res.2)) := by
  unfold ClusterManager.MoveCapi at h
  cases hsrc : c.waitForNodesReady fuel org w with
  | none => rw [hsrc] at h; simp at h
  | some r =>
    obtain ⟨r1, w1⟩ := r
    obtain ⟨ext1, hext1, hall1⟩ := waitForNodesReady_no_move c fuel org w _ hsrc
    simp only at hext1
    rw [hsrc] at h
    cases r1 with
    | some e1 =>
      simp only [Option.some.injEq] at h
      subst h
      exact ⟨some e1, w1, ext1, [], rfl, hext1, by simp, hall1, fun _ => ⟨rfl, rfl⟩,
        fun hc => (by cases hc), fun hc => (by cases hc)⟩
    | none =>
      simp only at h
      have hmlog : (c.clusterClient.callMoveManagement org target w1).2.log
          = w1.log ++ [Call.MoveManagement org target] := rfl
      rcases hm : c.clusterClient.callMoveManagement org target w1 with ⟨e2, w2⟩
      rw [hm] at h hmlog
      simp only at hmlog
      cases e2 with
      | some err2 =>
        simp only [Option.some.injEq] at h
        subst h
        exact ⟨none, w1, ext1, [Call.MoveManagement org target], rfl, hext1, hmlog, hall1,
          fun hc => absurd rfl hc, fun _ => ⟨[], rfl, by simp⟩, fun hc => (by cases hc)⟩
      | none =>
        simp only at h
        obtain ⟨ext3, hext3, hall3⟩ := waitForAllControlPlanes_no_move c target moveCapiWait w2
        rcases hcp : c.waitForAllControlPlanes target moveCapiWait w2 with ⟨e3, w3⟩
        rw [hcp] at h hext3
        simp only at hext3
        cases e3 with
        | some err3 =>
          simp only [Option.some.injEq] at h
          subst h
          exact ⟨none, w1, ext1, Call.MoveManagement org target :: ext3, rfl, hext1,
            by simp [hext3, hmlog], hall1, fun hc => absurd rfl hc,
            fun _ => ⟨ext3, rfl, hall3⟩, fun hc => (by cases hc)⟩
        | none =>
          simp only at h
          cases hdst : c.waitForNodesReady fuel target w3 with
          | none => rw [hdst] at h; simp at h
          | some r4 =>
            obtain ⟨e4, w4⟩ := r4
            obtain ⟨ext4, hext4, hall4⟩ := waitForNodesReady_no_move c fuel target w3 _ hdst
            simp only at hext4
            rw [hdst] at h
            have hres : res = (e4, w4) := by
              cases e4 with
              | none => simp only [Option.some.injEq] at h; exact h.symm
              | some e5 => simp only [Option.some.injEq] at h; exact h.symm
            subst hres
            refine ⟨none, w1, ext1, Call.MoveManagement org target :: (ext3 ++ ext4), rfl,
              hext1, by simp [hext4, hext3, hmlog], hall1, fun hc => absurd rfl hc,
              fun _ => ⟨ext3 ++ ext4, rfl, ?_⟩, ?_⟩
            · intro x hx
              rcases List.mem_append.mp hx with hx | hx
              · exact hall3 x hx
              · exact hall4 x hx
            · intro he4
              simp only at he4
              subst he4
              exact ⟨w2, w3, hm, hcp, hdst⟩

/-- Witness of `MoveCapi_order`: a successful move against `okClient`. -/
theorem MoveCapi_order_witness :
    ∃ r1 w1 ext1 rest,
      (ClusterManager.New okClient).waitForNodesReady 1 exampleCluster (World.init ())
        = some (r1, w1) ∧
      w1.log = (World.init ()).log ++ ext1 ∧
      ((none : Option Error), movedWorld).2.log = w1.log ++ rest ∧
      (∀ x ∈ ext1, x.isMoveManagement = false) ∧
      (r1 ≠ none → ((none : Option Error), movedWorld) = (r1, w1) ∧ rest = []) ∧
      (r1 = none → ∃ tail, rest = Call.MoveManagement exampleCluster targetCluster :: tail ∧
        ∀ x ∈ tail, x.isMoveManagement = false) ∧
      (((none : Option Error), movedWorld).1 = none → ∃ w2 w3,
        (ClusterManager.New okClient).clusterClient.callMoveManagement exampleCluster
          targetCluster w1 = (none, w2) ∧
        (ClusterManager.New okClient).waitForAllControlPlanes targetCluster moveCapiWait w2
          = (none, w3) ∧
        (ClusterManager.New okClient).waitForNodesReady 1 targetCluster w3
          = some (none, ((none : Option Error), movedWorld).2)) :=
  MoveCapi_order (ClusterManager.New okClient) 1 exampleCluster targetCluster (World.init ())
    (none, movedWorld) (by decide)

/-! ## Deployment waits -/

/-- With a first match in the front part, `untilFirst` stops inside the front part. -/
theorem untilFirst_append_of_find_some {α : Type} (p : α → Bool) (xs ys : List α) (a : α)
    (h : xs.find? p = some a) : untilFirst p (xs ++ ys) = untilFirst p xs := by
  induction xs with
  | nil => simp at h
  | cons x rest ih =>
    by_cases hx : p x = true
    · simp [untilFirst, hx]
    · have hx2 : p x = false := by simpa using hx
      simp only [List.find?, hx2] at h
      simp [untilFirst, hx2, ih h]

/-- Without a match in the front part, `untilFirst` keeps it and goes on. -/
theorem untilFirst_append_of_find_none {α : Type} (p : α → Bool) (xs ys : List α)
    (h : xs.find? p = none) : untilFirst p (xs ++ ys) = xs ++ untilFirst p ys := by
  induction xs with
  | nil => rfl
  | cons x rest ih =>
    by_cases hx : p x = true
    · simp [List.find?, hx] at h
    · have hx2 : p x = false := by simpa using hx
      simp only [List.find?, hx2] at h
      simp [untilFirst, hx2, ih h]

/-- The wait error of a pair is an error exactly when the pair fails. -/
theorem deploymentWaitError_of_find (answer : String → String → Option Error)
    (xs : List (String × String)) :
    (xs.find? (deploymentFails answer)).bind (deploymentWaitError answer) = none
      ↔ xs.find? (deploymentFails answer) = none := by
  constructor
  · intro h
    cases hf : xs.find? (deploymentFails answer) with
    | none => rfl
    | some p =>
      have hp := List.find?_some hf
      rw [hf] at h
      simp only [Option.bind, deploymentWaitError, deploymentFails] at h hp
      cases ha : answer p.2 p.1 with
      | none => rw [ha] at hp; simp at hp
      | some e => rw [ha] at h; simp at h
  · intro h
    rw [h]
    rfl

/-- The inner loop of `waitForDeployments` against a collaborator whose answer is
determined by the deployment and the namespace. -/
theorem waitForNamespace_answer {σ : Type} (c : ClusterManager σ) (cluster : Cluster)
    (answer : String → String → Option Error)
    (hans : ∀ cl t cond d ns s,
      (c.clusterClient.WaitForDeployment cl t cond d ns s).1 = answer d ns)
    (ns : String) (ds : List String) (w : World σ) :
    (c.waitForNamespace cluster ns ds w).2.log
      = w.log ++ (untilFirst (deploymentFails answer) (ds.map fun d => (ns, d))).map
          (deploymentWaitCall cluster) ∧
    (c.waitForNamespace cluster ns ds w).1
      = ((ds.map fun d => (ns, d)).find? (deploymentFails answer)).bind
          (deploymentWaitError answer) := by
  induction ds generalizing w with
  | nil => simp [ClusterManager.waitForNamespace, untilFirst]
  | cons d rest ih =>
    unfold ClusterManager.waitForNamespace
    simp only [ClusterClient.callWaitForDeployment]
    have h1 := hans cluster deploymentWaitStr "Available" d ns w.st
    rcases hr : c.clusterClient.WaitForDeployment cluster deploymentWaitStr "Available" d ns
      w.st with ⟨a, s1⟩
    rw [hr] at h1
    simp only at h1
    subst h1
    cases ha : answer d ns with
    | some err =>
      simp [untilFirst, List.find?, deploymentFails, deploymentWaitError,
        deploymentWaitCall, deploymentWaitStr, ha]
    | none =>
      simp only [List.map_cons, untilFirst, List.find?, deploymentFails, ha,
        Option.isSome_none, Bool.false_eq_true, if_false]
      obtain ⟨ih1, ih2⟩ := ih
        { st := s1, log := w.log ++ [Call.WaitForDeployment cluster deploymentWaitStr
            "Available" d ns], clock := w.clock, retrierRuns := w.retrierRuns }
      refine ⟨?_, ih2⟩
      rw [ih1]
      simp [deploymentWaitCall, deploymentWaitStr, deploymentFails]

/-- The outer loop of `waitForDeployments` against a collaborator whose answer is
determined by the deployment and the namespace. -/
theorem waitForEntries_answer {σ : Type} (c : ClusterManager σ) (cluster : Cluster)
    (answer : String → String → Option Error)
    (hans : ∀ cl t cond d ns s,
      (c.clusterClient.WaitForDeployment cl t cond d ns s).1 = answer d ns)
    (entries : List (String × List String)) (w : World σ) :
    (c.waitForEntries cluster entries w).2.log
      = w.log ++ (untilFirst (deploymentFails answer) (deploymentPairs entries)).map
          (deploymentWaitCall cluster) ∧
    (c.waitForEntries cluster entries w).1
      = ((deploymentPairs entries).find? (deploymentFails answer)).bind
          (deploymentWaitError answer) := by
  induction entries generalizing w with
  | nil => simp [ClusterManager.waitForEntries, deploymentPairs, untilFirst]
  | cons e rest ih =>
    obtain ⟨ns, ds⟩ := e
    have hpairs : deploymentPairs ((ns, ds) :: rest)
        = (ds.map fun d => (ns, d)) ++ deploymentPairs rest := by
      simp [deploymentPairs]
    obtain ⟨h1, h2⟩ := waitForNamespace_answer c cluster answer hans ns ds w
    unfold ClusterManager.waitForEntries
    rcases hr : c.waitForNamespace cluster ns ds w with ⟨a, w1⟩
    rw [hr] at h1 h2
    simp only at h1 h2
    rw [hpairs, List.find?_append]
    cases a with
    | some err =>
      cases hf : (ds.map fun d => (ns, d)).find? (deploymentFails answer) with
      | none => rw [hf] at h2; simp at h2
      | some p =>
        rw [untilFirst_append_of_find_some _ _ _ p hf]
        rw [hf] at h2
        exact ⟨h1, by simpa using h2⟩
    | none =>
      have hf : (ds.map fun d => (ns, d)).find? (deploymentFails answer) = none :=
        (deploymentWaitError_of_find answer _).mp h2.symm
      rw [untilFirst_append_of_find_none _ _ _ hf, hf]
      obtain ⟨ih1, ih2⟩ := ih w1
      simp only
      refine ⟨?_, by simpa using ih2⟩
      rw [ih1, h1, untilFirst_of_all_false _ _ (fun x hx => by
        have := List.find?_eq_none.mp hf x hx
        simpa using this)]
      simp

end EksAnywhere

namespace EksAnywhere

/-- C17: against a collaborator whose `WaitForDeployment` answer is determined by the
deployment and the namespace, whatever the order in which Go visits the maps:
`waitForDeployments` issues `WaitForDeployment` (timeout "30m", condition "Available") for
the (namespace, deployment) pairs of the table in the visiting order, up to and including
the first pair that fails, issues no wait after it, and returns the error
"error waiting for <deployment> in namespace <namespace>: ..." of that pair, or nil when
no pair fails; `waitForCapi` does the same over the pairs of the static CAPI table followed
by the pairs of the provider's table, so when a pair of the CAPI table fails only pairs of
the CAPI table are waited for. -/
theorem waitForDeployments_calls {σ : Type} (c : ClusterManager σ)
    (rangeOrder : List (String × List String) → List (String × List String))
    (hperm : ∀ m, (rangeOrder m).Perm m)
    (table : List (String × List String)) (cluster : Cluster) (provider : Provider)
    (w : World σ) (answer : String → String → Option Error)
    (hans : ∀ cl t cond d ns s,
      (c.clusterClient.WaitForDeployment cl t cond d ns s).1 = answer d ns) :
    ((deploymentPairs (rangeOrder table)).Perm (deploymentPairs table) ∧
      (c.waitForDeployments rangeOrder table cluster w).2.log
        = w.log ++ (untilFirst (deploymentFails answer)
            (deploymentPairs (rangeOrder table))).map (deploymentWaitCall cluster) ∧
      (c.waitForDeployments rangeOrder table cluster w).1
        = ((deploymentPairs (rangeOrder table)).find? (deploymentFails answer)).bind
            (deploymentWaitError answer)) ∧
    ((c.waitForCapi rangeOrder cluster provider w).2.log
        = w.log ++ (untilFirst (deploymentFails answer)
            (deploymentPairs (rangeOrder capiDeployments) ++
              deploymentPairs (rangeOrder provider.GetDeployments))).map
            (deploymentWaitCall cluster) ∧
      (c.waitForCapi rangeOrder cluster provider w).1
        = ((deploymentPairs (rangeOrder capiDeployments) ++
              deploymentPairs (rangeOrder provider.GetDeployments)).find?
            (deploymentFails answer)).bind (deploymentWaitError answer) ∧
      (∀ p, (deploymentPairs (rangeOrder capiDeployments)).find? (deploymentFails answer)
          = some p →
        (c.waitForCapi rangeOrder cluster provider w).1 = deploymentWaitError answer p ∧
        (c.waitForCapi rangeOrder cluster provider w).2.log
          = w.log ++ (untilFirst (deploymentFails answer)
              (deploymentPairs (rangeOrder capiDeployments))).map
              (deploymentWaitCall cluster))) := by
  have hcapi : (c.waitForCapi rangeOrder cluster provider w).2.log
        = w.log ++ (untilFirst (deploymentFails answer)
            (deploymentPairs (rangeOrder capiDeployments) ++
              deploymentPairs (rangeOrder provider.GetDeployments))).map
            (deploymentWaitCall cluster) ∧
      (c.waitForCapi rangeOrder cluster provider w).1
        = ((deploymentPairs (rangeOrder capiDeployments) ++
              deploymentPairs (rangeOrder provider.GetDeployments)).find?
            (deploymentFails answer)).bind (deploymentWaitError answer) := by
    obtain ⟨h1, h2⟩ := waitForEntries_answer c cluster answer hans
      (rangeOrder capiDeployments) w
    unfold ClusterManager.waitForCapi ClusterManager.waitForDeployments
    rcases hr : c.waitForEntries cluster (rangeOrder capiDeployments) w with ⟨a, w1⟩
    rw [hr] at h1 h2
    simp only at h1 h2
    rw [List.find?_append]
    cases a with
    | some err =>
      cases hf : (deploymentPairs (rangeOrder capiDeployments)).find?
          (deploymentFails answer) with
      | none => rw [hf] at h2; simp at h2
      | some p =>
        rw [untilFirst_append_of_find_some _ _ _ p hf]
        rw [hf] at h2
        exact ⟨h1, by simpa using h2⟩
    | none =>
      have hf : (deploymentPairs (rangeOrder capiDeployments)).find?
          (deploymentFails answer) = none :=
        (deploymentWaitError_of_find answer _).mp h2.symm
      rw [untilFirst_append_of_find_none _ _ _ hf, hf]
      obtain ⟨g1, g2⟩ := waitForEntries_answer c cluster answer hans
        (rangeOrder provider.GetDeployments) w1
      simp only
      rcases hr2 : c.waitForEntries cluster (rangeOrder provider.GetDeployments) w1
        with ⟨b, w2⟩
      rw [hr2] at g1 g2
      simp only at g1 g2
      have hlog : w2.log = w.log ++ (deploymentPairs (rangeOrder capiDeployments) ++
          untilFirst (deploymentFails answer)
            (deploymentPairs (rangeOrder provider.GetDeployments))).map
          (deploymentWaitCall cluster) := by
        rw [g1, h1, untilFirst_of_all_false _ _ (fun x hx => by
          have := List.find?_eq_none.mp hf x hx
          simpa using this)]
        simp
      cases b with
      | some err2 => exact ⟨hlog, by simpa using g2⟩
      | none => exact ⟨hlog, by simpa using g2⟩
  refine ⟨⟨List.Perm.flatMap_right _ (hperm table), ?_⟩, hcapi.1, hcapi.2, ?_⟩
  · exact waitForEntries_answer c cluster answer hans (rangeOrder table) w
  · intro p hp
    refine ⟨?_, ?_⟩
    · rw [hcapi.2, List.find?_append, hp]
      rfl
    · rw [hcapi.1, untilFirst_append_of_find_some _ _ _ p hp]

/-- Witness of `waitForDeployments_calls`: `failingDeploymentClient`, maps visited in source
order, a provider with a deployment of its own. -/
theorem waitForDeployments_calls_witness :
    ((deploymentPairs (id capiDeployments)).Perm (deploymentPairs capiDeployments) ∧
      ((ClusterManager.New failingDeploymentClient).waitForDeployments id capiDeployments
          exampleCluster (World.init ())).2.log
        = (World.init ()).log ++ (untilFirst (deploymentFails fun target ns =>
              if target = "capi-controller-manager" ∧ ns = "capi-webhook-system" then
                some "timed out" else none)
            (deploymentPairs (id capiDeployments))).map (deploymentWaitCall exampleCluster) ∧
      ((ClusterManager.New failingDeploymentClient).waitForDeployments id capiDeployments
          exampleCluster (World.init ())).1
        = ((deploymentPairs (id capiDeployments)).find? (deploymentFails fun target ns =>
              if target = "capi-controller-manager" ∧ ns = "capi-webhook-system" then
                some "timed out" else none)).bind
            (deploymentWaitError fun target ns =>
              if target = "capi-controller-manager" ∧ ns = "capi-webhook-system" then
                some "timed out" else none)) ∧
    (((ClusterManager.New failingDeploymentClient).waitForCapi id exampleCluster capvProvider
          (World.init ())).2.log
        = (World.init ()).log ++ (untilFirst (deploymentFails fun target ns =>
              if target = "capi-controller-manager" ∧ ns = "capi-webhook-system" then
                some "timed out" else none)
            (deploymentPairs (id capiDeployments) ++
              deploymentPairs (id capvProvider.GetDeployments))).map
            (deploymentWaitCall exampleCluster) ∧
      ((ClusterManager.New failingDeploymentClient).waitForCapi id exampleCluster capvProvider
          (World.init ())).1
        = ((deploymentPairs (id capiDeployments) ++
              deploymentPairs (id capvProvider.GetDeployments)).find?
            (deploymentFails fun target ns =>
              if target = "capi-controller-manager" ∧ ns = "capi-webhook-system" then
                some "timed out" else none)).bind
            (deploymentWaitError fun target ns =>
              if target = "capi-controller-manager" ∧ ns = "capi-webhook-system" then
                some "timed out" else none) ∧
      (∀ p, (deploymentPairs (id capiDeployments)).find? (deploymentFails fun target ns =>
              if target = "capi-controller-manager" ∧ ns = "capi-webhook-system" then
                some "timed out" else none)
          = some p →
        ((ClusterManager.New failingDeploymentClient).waitForCapi id exampleCluster
            capvProvider (World.init ())).1
          = deploymentWaitError (fun target ns =>
              if target = "capi-controller-manager" ∧ ns = "capi-webhook-system" then
                some "timed out" else none) p ∧
        ((ClusterManager.New failingDeploymentClient).waitForCapi id exampleCluster
            capvProvider (World.init ())).2.log
          = (World.init ()).log ++ (untilFirst (deploymentFails fun target ns =>
                if target = "capi-controller-manager" ∧ ns = "capi-webhook-system" then
                  some "timed out" else none)
              (deploymentPairs (id capiDeployments))).map
              (deploymentWaitCall exampleCluster))) :=
  waitForDeployments_calls (ClusterManager.New failingDeploymentClient) id
    (fun m => List.Perm.refl m) capiDeployments exampleCluster capvProvider (World.init ())
    (fun target ns =>
      if target = "capi-controller-manager" ∧ ns = "capi-webhook-system" then
        some "timed out" else none)
    (fun _ _ _ _ _ _ => rfl)

/-! ## Remote command execution -/

/-- C18: for every status string, `isFinalStatus` is true if and only if the status is
none of InProgress, Delayed, Pending; so Success, Failed and every value the poller does
not know are terminal. -/
theorem isFinalStatus_iff :
    (∀ s : String, isFinalStatus s = true ↔ (s ≠ "InProgress" ∧ s ≠ "Delayed" ∧ s ≠ "Pending")) ∧
    isFinalStatus "Success" = true ∧ isFinalStatus "Failed" = true ∧
    (∀ s : String, s ∉ ["InProgress", "Delayed", "Pending", "Success"] →
      isFinalStatus s = true) := by
  have h : ∀ s : String, isFinalStatus s = true
      ↔ (s ≠ "InProgress" ∧ s ≠ "Delayed" ∧ s ≠ "Pending") := by
    intro s
    simp [isFinalStatus, nonFinalStatuses, CommandInvocationStatusInProgress,
      CommandInvocationStatusDelayed, CommandInvocationStatusPending]
  refine ⟨h, by decide, by decide, ?_⟩
  intro s hs
  simp only [List.mem_cons, List.mem_singleton, List.not_mem_nil, or_false, not_or] at hs
  exact (h s).mpr ⟨hs.1, hs.2.1, hs.2.2.1⟩

/-- A Retry loop that ends with nil ends with a call of its operation that returned nil. -/
theorem loop_success_last {σ L : Type} (r : Retrier L)
    (fn : L → World σ → Option Error × L × World σ) (start : Duration) (fuel : Nat) :
    ∀ (retries : Nat) (l : L) (w : World σ) (l1 : L) (w1 : World σ),
      Retrier.loop r fn start fuel retries l w = some (none, l1, w1) →
      ∃ l0 w0, fn l0 w0 = (none, l1, w1) := by
  induction fuel with
  | zero => intro retries l w l1 w1 h; simp [Retrier.loop] at h
  | succ n ih =>
    intro retries l w l1 w1 h
    unfold Retrier.loop at h
    rcases hf : fn l w with ⟨e, l2, w2⟩
    rw [hf] at h
    cases e with
    | none =>
      simp only [Option.some.injEq, Prod.mk.injEq, true_and] at h
      obtain ⟨h1, h2⟩ := h
      subst h1 h2
      exact ⟨l, w, hf⟩
    | some err =>
      simp only at h
      rcases hp : r.retryPolicy l2 (retries + 1) err with ⟨b, wait⟩
      rw [hp] at h
      cases b with
      | false => simp at h
      | true =>
        simp only at h
        cases ht : r.timeout with
        | none =>
          rw [ht] at h
          exact ih _ _ _ _ _ h
        | some t =>
          rw [ht] at h
          simp only at h
          split at h
          · exact ih _ _ _ _ _ h
          · simp at h

/-- The status poll returns nil only with an invocation whose status is terminal. -/
theorem statusPoll_success {σ : Type} (service : SSMService σ)
    (commandIn : GetCommandInvocationInput) (l0 : Option GetCommandInvocationOutput)
    (w0 : World σ) (l1 : Option GetCommandInvocationOutput) (w1 : World σ)
    (h : statusPoll service commandIn l0 w0 = (none, l1, w1)) :
    ∃ out, l1 = some out ∧ isFinalStatus out.Status = true := by
  unfold statusPoll at h
  rcases hc : service.callGetCommandInvocation commandIn w0 with ⟨a, w2⟩
  rw [hc] at h
  cases a with
  | error e => simp at h
  | ok out =>
    simp only at h
    by_cases hfin : isFinalStatus out.Status = true
    · simp only [hfin, if_true, Prod.mk.injEq, true_and] at h
      exact ⟨out, h.1.symm, hfin⟩
    · simp [hfin] at h

/-- The generic failure does not start with the text of the exhaustion error. -/
theorem failed_ne_exhausted (e : String) :
    "failed to execute ssm command" ≠ "retries exhausted running ssm command" ++ e := by
  intro h
  have h2 := congrArg (fun s => s.data.head?) h
  simp only [String.data_append] at h2
  simp at h2

end EksAnywhere

namespace EksAnywhere

/-- C19: when, in a `Run`, the command was sent, its registration was confirmed and the
completion poll ended on an observed status, that status is terminal and `Run` returns nil
if and only if it is `Success`; for every other terminal status `Run` returns the error
"failed to execute ssm command", which differs from every retry-exhaustion error: it does
not start with "retries exhausted running ssm command". -/
theorem Run_terminal_status {σ : Type} (service : SSMService σ) (fuel : Nat)
    (instanceId command : String) (opts : List (SendCommandInput → SendCommandInput))
    (w w1 w2 w3 : World σ) (commandId : String)
    (commandOut : Option GetCommandInvocationOutput)
    (hsend : service.callSendCommand
        (opts.foldl (fun c opt => opt c) (runCommandInput instanceId command)) w
      = (Except.ok commandId, w1))
    (hreg : retrierRetry 10 (5 * Second) fuel
        (registrationCheck service { CommandId := commandId, InstanceId := instanceId }) () w1
      = some (none, (), w2))
    (hpoll : (Retrier.New (180 * Minute) defaultPolicy).Retry fuel
        (statusPoll service { CommandId := commandId, InstanceId := instanceId }) none w2
      = some (none, commandOut, w3)) :
    ∃ out, commandOut = some out ∧ isFinalStatus out.Status = true ∧
      Run service fuel instanceId command opts w
        = some (Exit.returned
            (if out.Status = "Success" then none else some "failed to execute ssm command"),
            w3) ∧
      (Run service fuel instanceId command opts w = some (Exit.returned none, w3)
        ↔ out.Status = "Success") ∧
      ∀ e : String,
        "failed to execute ssm command" ≠ "retries exhausted running ssm command" ++ e := by
  obtain ⟨l0, w0, hlast⟩ := loop_success_last _ _ _ fuel 0 none _ commandOut w3 hpoll
  obtain ⟨out, hout, hfin⟩ := statusPoll_success service _ l0 w0 commandOut w3 hlast
  subst hout
  have hrun : Run service fuel instanceId command opts w
      = some (Exit.returned
          (if out.Status = "Success" then none else some "failed to execute ssm command"),
          w3) := by
    unfold Run
    simp only [hsend, hreg, hpoll, deref, CommandInvocationStatusSuccess]
    by_cases hs : out.Status = "Success" <;> simp [hs]
  refine ⟨out, rfl, hfin, hrun, ?_, failed_ne_exhausted⟩
  rw [hrun]
  by_cases hs : out.Status = "Success" <;> simp [hs]

/-- Witness of `Run_terminal_status`: against `failedService` the poll observes `Failed`. -/
theorem Run_terminal_status_witness :
    ∃ out, some failedOutput = some out ∧
      isFinalStatus out.Status = true ∧
      Run failedService 1 "i-0abc" "ls" [] (World.init 0)
        = some (Exit.returned
            (if out.Status = "Success" then none else some "failed to execute ssm command"),
            failedRunPolled) ∧
      (Run failedService 1 "i-0abc" "ls" [] (World.init 0)
          = some (Exit.returned none, failedRunPolled)
        ↔ out.Status = "Success") ∧
      ∀ e : String,
        "failed to execute ssm command" ≠ "retries exhausted running ssm command" ++ e :=
  Run_terminal_status failedService 1 "i-0abc" "ls" [] (World.init 0) failedRunSent
    failedRunRegistered failedRunPolled "cmd-1"
    (some failedOutput)
    rfl (by decide) (by decide)

/-- C20, as stated, fails: against a channel whose `GetCommandInvocation` calls return
Pending, InProgress, Success in that order, the first call is the registration check of
`Run`, which takes the Pending answer; the status polling then makes two calls and
observes one non-terminal status (InProgress, followed by one sleep), not two, before the
terminal Success. -/
theorem Run_registration_takes_first_status :
    (Run (scriptedService ["Pending", "InProgress", "Success"]) 2 "i-0abc" "ls" []
        (World.init 0)).map (fun r => (r.1, r.2.log))
      = some (Exit.returned none,
          [Call.SendCommand (runCommandInput "i-0abc" "ls"),
           exampleInvocation,
           exampleInvocation, Call.Sleep 0,
           exampleInvocation,
           Call.Println "Command stdout:", Call.Println "hello", Call.Println "------",
           Call.Println "Command stderr", Call.Println "warning", Call.Println "------"]) := by
  decide

/-- C20, amended: for a remote channel on which the command is sent, the call that
confirms its registration succeeds, and the following `GetCommandInvocation` calls return
the statuses Pending, InProgress, Success in that order, the status polling of `Run`
observes exactly 2 non-terminal statuses (each followed by a sleep and a new poll) before
it observes the terminal Success, prints stdout and stderr of that Success invocation, and
`Run` returns nil. -/
theorem Run_pending_inprogress_success {σ : Type} (service : SSMService σ) (fuel : Nat)
    (instanceId command : String) (opts : List (SendCommandInput → SendCommandInput))
    (w : World σ) (commandId : String) (s1 s2 s3 s4 s5 : σ)
    (o0 o1 o2 o3 : GetCommandInvocationOutput)
    (hsend : service.SendCommand
        (opts.foldl (fun c opt => opt c) (runCommandInput instanceId command)) w.st
      = (Except.ok commandId, s1))
    (hreg : service.GetCommandInvocation { CommandId := commandId, InstanceId := instanceId }
        s1 = (Except.ok o0, s2))
    (h1 : service.GetCommandInvocation { CommandId := commandId, InstanceId := instanceId }
        s2 = (Except.ok o1, s3))
    (hs1 : o1.Status = "Pending")
    (h2 : service.GetCommandInvocation { CommandId := commandId, InstanceId := instanceId }
        s3 = (Except.ok o2, s4))
    (hs2 : o2.Status = "InProgress")
    (h3 : service.GetCommandInvocation { CommandId := commandId, InstanceId := instanceId }
        s4 = (Except.ok o3, s5))
    (hs3 : o3.Status = "Success") :
    ∃ w1, Run service (fuel + 3) instanceId command opts w = some (Exit.returned none, w1) ∧
      w1.st = s5 ∧
      w1.log = w.log ++
        [Call.SendCommand
           (opts.foldl (fun c opt => opt c) (runCommandInput instanceId command)),
         Call.GetCommandInvocation { CommandId := commandId, InstanceId := instanceId },
         Call.GetCommandInvocation { CommandId := commandId, InstanceId := instanceId },
         Call.Sleep defaultRetryWait,
         Call.GetCommandInvocation { CommandId := commandId, InstanceId := instanceId },
         Call.Sleep defaultRetryWait,
         Call.GetCommandInvocation { CommandId := commandId, InstanceId := instanceId },
         Call.Println "Command stdout:", Call.Println o3.StandardOutputContent,
         Call.Println "------",
         Call.Println "Command stderr", Call.Println o3.StandardErrorContent,
         Call.Println "------"] := by
  have hf1 : isFinalStatus "Pending" = false := by decide
  have hf2 : isFinalStatus "InProgress" = false := by decide
  have hf3 : isFinalStatus "Success" = true := by decide
  have ht : (0 : Int) < 180 * Minute := by decide
  refine ⟨{ st := s5
            log := w.log ++
              [Call.SendCommand
                 (opts.foldl (fun c opt => opt c) (runCommandInput instanceId command)),
               Call.GetCommandInvocation { CommandId := commandId, InstanceId := instanceId },
               Call.GetCommandInvocation { CommandId := commandId, InstanceId := instanceId },
               Call.Sleep defaultRetryWait,
               Call.GetCommandInvocation { CommandId := commandId, InstanceId := instanceId },
               Call.Sleep defaultRetryWait,
               Call.GetCommandInvocation { CommandId := commandId, InstanceId := instanceId },
               Call.Println "Command stdout:", Call.Println o3.StandardOutputContent,
               Call.Println "------",
               Call.Println "Command stderr", Call.Println o3.StandardErrorContent,
               Call.Println "------"]
            clock := w.clock
            retrierRuns := w.retrierRuns + 1 + 1 }, ?_, rfl, rfl⟩
  simp [Run, SSMService.callSendCommand, hsend, retrierRetry, Retrier.Retry, Retrier.loop,
    registrationCheck, SSMService.callGetCommandInvocation, hreg, statusPoll, h1, h2, h3,
    hs1, hs2, hf1, hf2, hf3, Retrier.New, Retrier.NewWithMaxRetries, defaultPolicy, defaultRetryWait,
    World.sleep, ht, deref, CommandInvocationStatusSuccess, hs3, World.println, printDivider]

/-- Witness of `Run_pending_inprogress_success`: `pendingService`, whose first answer
confirms the registration. -/
theorem Run_pending_inprogress_success_witness :
    ∃ w1, Run pendingService (0 + 3) "i-0abc" "ls" [] (World.init 0)
        = some (Exit.returned none, w1) ∧
      w1.st = 4 ∧
      w1.log = (World.init 0).log ++
        [Call.SendCommand
           (([] : List (SendCommandInput → SendCommandInput)).foldl (fun c opt => opt c)
             (runCommandInput "i-0abc" "ls")),
         Call.GetCommandInvocation { CommandId := "cmd-1", InstanceId := "i-0abc" },
         Call.GetCommandInvocation { CommandId := "cmd-1", InstanceId := "i-0abc" },
         Call.Sleep defaultRetryWait,
         Call.GetCommandInvocation { CommandId := "cmd-1", InstanceId := "i-0abc" },
         Call.Sleep defaultRetryWait,
         Call.GetCommandInvocation { CommandId := "cmd-1", InstanceId := "i-0abc" },
         Call.Println "Command stdout:",
         Call.Println (scriptedOutput "Success").StandardOutputContent,
         Call.Println "------",
         Call.Println "Command stderr",
         Call.Println (scriptedOutput "Success").StandardErrorContent,
         Call.Println "------"] :=
  Run_pending_inprogress_success pendingService 0 "i-0abc" "ls" [] (World.init 0) "cmd-1"
    0 1 2 3 4 (scriptedOutput "Pending") (scriptedOutput "Pending")
    (scriptedOutput "InProgress") (scriptedOutput "Success")
    rfl rfl rfl rfl rfl rfl rfl rfl

/-! ## Counting nodes that carry one label -/

/-- C26: for every machine list returned by `GetMachines` in which each machine carries
exactly one of the control-plane label and the machine-deployment label, `countNodesReady`
returns nil as error, a total equal to the length of the list and a ready count that is at
most the total; ready equals total if and only if every machine has a non-nil node
reference. -/
theorem countNodesReady_one_label_each {σ : Type} (c : ClusterManager σ) (cluster : Cluster)
    (w : World σ) (machines : List Machine)
    (hq : (c.clusterClient.GetMachines cluster w.st).1 = Except.ok machines)
    (hone : ∀ m ∈ machines,
      (m.hasLabel MachineControlPlaneLabelName = true ∧
        m.hasLabel MachineDeploymentLabelName = false) ∨
      (m.hasLabel MachineControlPlaneLabelName = false ∧
        m.hasLabel MachineDeploymentLabelName = true)) :
    ∃ ready total : Int,
      (c.countNodesReady cluster w).1 = (ready, total, none) ∧
      total = machines.length ∧ ready ≤ total ∧
      (ready = total ↔ ∀ m ∈ machines, m.NodeRef ≠ none) := by
  have htotal : ((machines.countP fun m => m.hasLabel MachineControlPlaneLabelName : Nat) : Int) +
      ((machines.countP fun m => m.hasLabel MachineDeploymentLabelName : Nat) : Int)
      = machines.length := by
    clear hq
    induction machines with
    | nil => simp
    | cons m rest ih =>
      have ih2 := ih (fun x hx => hone x (List.mem_cons_of_mem m hx))
      simp only [List.countP_cons, List.length_cons]
      rcases hone m (List.mem_cons_self m rest) with ⟨h1, h2⟩ | ⟨h1, h2⟩ <;>
        simp [h1, h2] <;> omega
  have hle : (machines.countP fun m => m.NodeRef.isSome) ≤ machines.length :=
    List.countP_le_length _
  refine ⟨_, _, countNodesReady_ok c cluster w machines hq, htotal, ?_, ?_⟩
  · rw [htotal]
    exact_mod_cast hle
  · rw [htotal]
    constructor
    · intro h m hm
      have h2 : (machines.countP fun m => m.NodeRef.isSome) = machines.length := by
        exact_mod_cast h
      have h3 := (List.countP_eq_length).mp h2 m hm
      intro hn
      simp [hn] at h3
    · intro h
      have h2 : (machines.countP fun m => m.NodeRef.isSome) = machines.length := by
        rw [List.countP_eq_length]
        intro m hm
        have := h m hm
        cases hr : m.NodeRef with
        | none => exact absurd hr this
        | some r => rfl
      exact_mod_cast h2

/-- Witness of `countNodesReady_one_label_each`: `joiningClient` reports one control-plane
machine and two workers. -/
theorem countNodesReady_one_label_each_witness :
    ∃ ready total : Int,
      ((ClusterManager.New joiningClient).countNodesReady exampleCluster (World.init 0)).1
        = (ready, total, none) ∧
      total = [controlPlaneMachine true, workerMachine false, workerMachine false].length ∧
      ready ≤ total ∧
      (ready = total ↔
        ∀ m ∈ [controlPlaneMachine true, workerMachine false, workerMachine false],
          m.NodeRef ≠ none) :=
  countNodesReady_one_label_each (ClusterManager.New joiningClient) exampleCluster
    (World.init 0) [controlPlaneMachine true, workerMachine false, workerMachine false] rfl
    (by decide)

/-! ## A failed machine query -/

/-- C27, as stated, fails: a cluster manager built with `WithWaitForMachines` for a floor of
-1 nanosecond, whose very first `GetMachines` query fails, computes the overall timeout 0,
not machinesMinWait, and `waitForNodesReady` gives up under the timeout 0 after one more
query. -/
theorem waitForNodesReady_failed_query_negative_floor :
    (negativeFloorManager.clusterClient.GetMachines exampleCluster (World.init ()).st).1
      = Except.error "connection refused" ∧
    negativeFloorManager.machinesMinWait = -1 ∧
    (negativeFloorManager.areNodesReady exampleCluster ⟨0, 0⟩ (World.init ())).2.1 = ⟨0, 0⟩ ∧
    negativeFloorManager.nodesTimeout 0 = 0 ∧
    negativeFloorManager.nodesTimeout 0 ≠ negativeFloorManager.machinesMinWait ∧
    negativeFloorManager.waitForNodesReady 1 exampleCluster (World.init ())
      = Option.map
          (fun r => (r.1.map (fun e =>
            "retries exhausted waiting for machines to be ready: " ++ e), r.2.2))
          ((Retrier.New 0 negativeFloorManager.policy).Retry 1
            (negativeFloorManager.areNodesReady exampleCluster) ⟨0, 0⟩
            (negativeFloorManager.countNodesReady exampleCluster (World.init ())).2) ∧
    (negativeFloorManager.waitForNodesReady 1 exampleCluster (World.init ())).map
        (fun r => (r.1, r.2.log))
      = some (some ("retries exhausted waiting for machines to be ready: " ++
            "retries exhausted: " ++
            "error getting machines resources from management cluster: connection refused"),
          [Call.GetMachines exampleCluster, Call.GetMachines exampleCluster, Call.Sleep 0]) := by
  decide

/-- C27, amended: when the `GetMachines` query of a poll fails, whatever the counters held
before, the poll returns the query error, both counters are 0 afterwards and the delay the
retry policy returns for the next attempt is 0, so the retry loop sleeps for 0 before it
polls again or gives up on the timeout; and when the query of the very first check fails,
the overall timeout is max(0, machinesMinWait), which is machinesMinWait exactly when
machinesMinWait is not negative (the default is 30 minutes) and 0 when it is negative:
`waitForNodesReady` is the Retry under that timeout, started from counters 0 and 0. -/
theorem waitForNodesReady_failed_query {σ : Type} (c : ClusterManager σ) (cluster : Cluster)
    (l : NodeCounters) (w : World σ) (err : Error) (timeout start : Duration)
    (fuel retries : Nat)
    (hq : (c.clusterClient.GetMachines cluster w.st).1 = Except.error err) :
    c.areNodesReady cluster l w
      = (some ("error getting machines resources from management cluster: " ++ err), ⟨0, 0⟩,
          (c.countNodesReady cluster w).2) ∧
    (∀ n e, c.policy (c.areNodesReady cluster l w).2.1 n e = (true, 0)) ∧
    Retrier.loop (Retrier.New timeout c.policy) (c.areNodesReady cluster) start (fuel + 1)
        retries l w
      = (if ((c.countNodesReady cluster w).2.sleep 0).clock - start < timeout then
          Retrier.loop (Retrier.New timeout c.policy) (c.areNodesReady cluster) start fuel
            (retries + 1) ⟨0, 0⟩ ((c.countNodesReady cluster w).2.sleep 0)
        else
          some (some (exhaustionError
              ("error getting machines resources from management cluster: " ++ err)),
            ⟨0, 0⟩, (c.countNodesReady cluster w).2.sleep 0)) ∧
    c.nodesTimeout 0 = max 0 c.machinesMinWait ∧
    (c.nodesTimeout 0 = c.machinesMinWait ↔ 0 ≤ c.machinesMinWait) ∧
    (c.machinesMinWait < 0 → c.nodesTimeout 0 = 0) ∧
    c.waitForNodesReady fuel cluster w
      = (match (Retrier.New (max 0 c.machinesMinWait) c.policy).Retry fuel
            (c.areNodesReady cluster) ⟨0, 0⟩ (c.countNodesReady cluster w).2 with
        | none => none
        | some (some e, _, w2) =>
          some (some ("retries exhausted waiting for machines to be ready: " ++ e), w2)
        | some (none, _, w2) => some (none, w2)) := by
  have hobs : (c.countNodesReady cluster w).1
      = (0, 0, some ("error getting machines resources from management cluster: " ++ err)) := by
    unfold ClusterManager.countNodesReady ClusterClient.callGetMachines
    simp only [hq]
  have heq : ∀ l, c.areNodesReady cluster l w
      = (some ("error getting machines resources from management cluster: " ++ err), ⟨0, 0⟩,
          (c.countNodesReady cluster w).2) := fun l =>
    areNodesReady_eq c cluster l w 0 0 _ hobs
  have hpol : ∀ n e, c.policy ⟨0, 0⟩ n e = (true, 0) := by
    intro n e
    simp [ClusterManager.policy, wrap64]
  have hnt : c.nodesTimeout 0 = if 0 ≤ c.machinesMinWait then c.machinesMinWait else 0 := by
    simp [ClusterManager.nodesTimeout, wrap64]
  have ht : c.nodesTimeout 0 = max 0 c.machinesMinWait := by
    rw [hnt, max_def]
  refine ⟨heq l, by rw [heq]; exact hpol, ?_, ht, ?_, ?_, ?_⟩
  · rw [Retrier.loop, heq]
    simp only [Retrier.New, hpol]
  · constructor
    · intro h
      by_contra hn
      rw [hnt, if_neg hn] at h
      exact hn (le_of_eq h)
    · intro h
      rw [hnt, if_pos h]
  · intro hneg
    rw [hnt, if_neg (not_le.mpr hneg)]
  · rw [waitForNodesReady_not_ready c fuel cluster w 0 0 _ hobs (by simp)]
    unfold ClusterManager.retryNodesReady
    simp only [ht]

/-- Witness of `waitForNodesReady_failed_query`: against `failingMachinesClient` every
query fails; the counters held 1 ready of 3 before. -/
theorem waitForNodesReady_failed_query_witness :
    (ClusterManager.New failingMachinesClient).areNodesReady exampleCluster ⟨1, 3⟩
        (World.init ())
      = (some ("error getting machines resources from management cluster: " ++
            "connection refused"), ⟨0, 0⟩,
          ((ClusterManager.New failingMachinesClient).countNodesReady exampleCluster
            (World.init ())).2) ∧
    (∀ n e, (ClusterManager.New failingMachinesClient).policy
      ((ClusterManager.New failingMachinesClient).areNodesReady exampleCluster ⟨1, 3⟩
        (World.init ())).2.1 n e = (true, 0)) ∧
    Retrier.loop (Retrier.New (30 * Minute) (ClusterManager.New failingMachinesClient).policy)
        ((ClusterManager.New failingMachinesClient).areNodesReady exampleCluster) 0 (1 + 1)
        0 ⟨1, 3⟩ (World.init ())
      = (if (((ClusterManager.New failingMachinesClient).countNodesReady exampleCluster
            (World.init ())).2.sleep 0).clock - 0 < 30 * Minute then
          Retrier.loop
            (Retrier.New (30 * Minute) (ClusterManager.New failingMachinesClient).policy)
            ((ClusterManager.New failingMachinesClient).areNodesReady exampleCluster) 0 1
            (0 + 1) ⟨0, 0⟩
            (((ClusterManager.New failingMachinesClient).countNodesReady exampleCluster
              (World.init ())).2.sleep 0)
        else
          some (some (exhaustionError
              ("error getting machines resources from management cluster: " ++
                "connection refused")),
            ⟨0, 0⟩,
            ((ClusterManager.New failingMachinesClient).countNodesReady exampleCluster
              (World.init ())).2.sleep 0)) ∧
    (ClusterManager.New failingMachinesClient).nodesTimeout 0
      = max 0 (ClusterManager.New failingMachinesClient).machinesMinWait ∧
    ((ClusterManager.New failingMachinesClient).nodesTimeout 0
        = (ClusterManager.New failingMachinesClient).machinesMinWait
      ↔ 0 ≤ (ClusterManager.New failingMachinesClient).machinesMinWait) ∧
    ((ClusterManager.New failingMachinesClient).machinesMinWait < 0 →
      (ClusterManager.New failingMachinesClient).nodesTimeout 0 = 0) ∧
    (ClusterManager.New failingMachinesClient).waitForNodesReady 2 exampleCluster
        (World.init ())
      = (match (Retrier.New (max 0 (ClusterManager.New failingMachinesClient).machinesMinWait)
            (ClusterManager.New failingMachinesClient).policy).Retry 2
            ((ClusterManager.New failingMachinesClient).areNodesReady exampleCluster)
            ⟨0, 0⟩
            ((ClusterManager.New failingMachinesClient).countNodesReady exampleCluster
              (World.init ())).2 with
        | none => none
        | some (some e, _, w2) =>
          some (some ("retries exhausted waiting for machines to be ready: " ++ e), w2)
        | some (none, _, w2) => some (none, w2)) :=
  waitForNodesReady_failed_query (ClusterManager.New failingMachinesClient) exampleCluster
    ⟨1, 3⟩ (World.init ()) "connection refused" (30 * Minute) 0 1 0 rfl

/-! ## Providers without machine configs -/

/-- C28: for a provider whose machine resource type is the empty string and a collaborator
whose writes succeed, on every spec, whatever its machine-group references and worker group
list are, Pause returns nil after exactly two annotation updates, on the datacenter config
and then on the cluster resource, and Resume returns nil after exactly two annotation
removals on the same two resources in the same order, with the pause markers cleared. -/
theorem pause_resume_without_machine_configs {σ : Type} (c : ClusterManager σ)
    (h : WritesSucceed c.clusterClient) (fuel : Nat) (cluster : Cluster) (clusterSpec : Spec)
    (provider : Provider) (w : World σ) (hm : provider.MachineResourceType = "") :
    (∃ w1, c.PauseEKSAControllerReconcile (fuel + 1) cluster clusterSpec provider w
        = some (Exit.returned none, w1) ∧
      w1.log = w.log ++
        [Call.UpdateAnnotationInNamespace provider.DatacenterResourceType
           clusterSpec.Spec.DatacenterRef.Name [( clusterSpec.PausedAnnotation, "true")]
           cluster "",
         Call.UpdateAnnotationInNamespace clusterSpec.ResourceType cluster.Name
           [( clusterSpec.PausedAnnotation, "true")] cluster ""]) ∧
    (∃ w1, c.ResumeEKSAControllerReconcile (fuel + 1) cluster clusterSpec provider w
        = some (Exit.returned none, clusterSpec.ClearPauseAnnotation,
            provider.ClearPauseAnnotation, w1) ∧
      w1.log = w.log ++
        [Call.RemoveAnnotationInNamespace provider.DatacenterResourceType
           clusterSpec.Spec.DatacenterRef.Name clusterSpec.PausedAnnotation cluster "",
         Call.RemoveAnnotationInNamespace clusterSpec.ResourceType cluster.Name
           clusterSpec.PausedAnnotation cluster ""]) := by
  have hplan : ∀ m, plan m cluster clusterSpec provider
      = (Exit.returned none,
          [((provider.DatacenterResourceType, clusterSpec.Spec.DatacenterRef.Name),
              m.datacenter),
           ((clusterSpec.ResourceType, cluster.Name), m.cluster)]) := by
    intro m
    simp [plan, hm]
  constructor
  · rw [pause_ok c h, hplan]
    exact ⟨_, rfl, by rw [log_foldl_afterUpdate]; simp⟩
  · rw [resume_ok c h, hplan]
    exact ⟨_, rfl, by rw [log_foldl_afterRemove]; simp⟩

/-- Witness of `pause_resume_without_machine_configs`: `okClient`, a provider without
machine configs and a spec whose machine-group references are nil and whose worker group
list is empty. -/
theorem pause_resume_without_machine_configs_witness :
    (∃ w1, (ClusterManager.New okClient).PauseEKSAControllerReconcile (0 + 1) exampleCluster
        noMachineGroupSpec noMachineProvider (World.init ())
        = some (Exit.returned none, w1) ∧
      w1.log = (World.init ()).log ++
        [Call.UpdateAnnotationInNamespace noMachineProvider.DatacenterResourceType
           noMachineGroupSpec.Spec.DatacenterRef.Name
           [( ( Spec.PausedAnnotation noMachineGroupSpec), "true")] exampleCluster "",
         Call.UpdateAnnotationInNamespace noMachineGroupSpec.ResourceType exampleCluster.Name
           [( ( Spec.PausedAnnotation noMachineGroupSpec), "true")] exampleCluster ""]) ∧
    (∃ w1, (ClusterManager.New okClient).ResumeEKSAControllerReconcile (0 + 1) exampleCluster
        noMachineGroupSpec noMachineProvider (World.init ())
        = some (Exit.returned none, ( Spec.ClearPauseAnnotation noMachineGroupSpec),
            ( Provider.ClearPauseAnnotation noMachineProvider), w1) ∧
      w1.log = (World.init ()).log ++
        [Call.RemoveAnnotationInNamespace noMachineProvider.DatacenterResourceType
           noMachineGroupSpec.Spec.DatacenterRef.Name
           ( Spec.PausedAnnotation noMachineGroupSpec) exampleCluster "",
         Call.RemoveAnnotationInNamespace noMachineGroupSpec.ResourceType exampleCluster.Name
           ( Spec.PausedAnnotation noMachineGroupSpec) exampleCluster ""]) :=
  pause_resume_without_machine_configs (ClusterManager.New okClient)
    ⟨fun _ _ _ _ _ _ => rfl, fun _ _ _ _ _ _ => rfl⟩ 0 exampleCluster noMachineGroupSpec
    noMachineProvider (World.init ()) rfl

/-! ## Absent machine groups -/

/-- The exit of a plan is a return, never a panic. -/
theorem plan_exit_returned (m : StepMessages) (cluster : Cluster) (clusterSpec : Spec)
    (provider : Provider) : ∃ e, (plan m cluster clusterSpec provider).1 = Exit.returned e := by
  unfold plan
  split
  · exact ⟨_, rfl⟩
  · split
    · exact ⟨_, rfl⟩
    · split
      · exact ⟨_, rfl⟩
      · split
        · exact ⟨_, rfl⟩
        · split
          · exact ⟨_, rfl⟩
          · split <;> exact ⟨_, rfl⟩

/-- A run of retried writes exits the way its last part does, or with a returned error. -/
theorem runSteps_exit {σ β : Type}
    (retry : String × String → World σ → Option (Option Error × Unit × World σ))
    (fail : World σ → β) (final : World σ → Option (Exit × β)) (steps : List Step) :
    ∀ (w : World σ) (r : Exit × β), runSteps retry fail final steps w = some r →
      (∃ e, r.1 = Exit.returned (some e)) ∨ ∃ w1, final w1 = some r := by
  induction steps with
  | nil => intro w r h; exact Or.inr ⟨w, h⟩
  | cons s rest ih =>
    intro w r h
    obtain ⟨t, msg⟩ := s
    simp only [runSteps, afterRetry] at h
    split at h
    · simp at h
    · simp only [Option.some.injEq] at h
      subst h
      exact Or.inl ⟨_, rfl⟩
    · exact ih _ r h

/-- The plan of a spec without worker groups, for a provider with machine configs. -/
theorem plan_no_workers (m : StepMessages) (cluster : Cluster) (clusterSpec : Spec)
    (provider : Provider) (hm : provider.MachineResourceType ≠ "")
    (hw : clusterSpec.Spec.WorkerNodeGroupConfigurations = []) :
    plan m cluster clusterSpec provider
      = (Exit.returned (some
          (if clusterSpec.Spec.ControlPlaneConfiguration.MachineGroupRef.isNone then
            "machineGroupRef for control plane is not defined"
          else "machineGroupRef for worker nodes is not defined")),
          [((provider.DatacenterResourceType, clusterSpec.Spec.DatacenterRef.Name),
            m.datacenter)]) := by
  cases hcp : clusterSpec.Spec.ControlPlaneConfiguration.MachineGroupRef with
  | none => simp [plan, hm, hcp]
  | some cp => simp [plan, hm, hcp, hw]

/-- C29, as stated, fails: on a spec with an empty worker group list whose control-plane
machine-group reference is nil, Pause and Resume return the error "machineGroupRef for
control plane is not defined", not the error on the worker nodes. -/
theorem pause_resume_no_workers_nil_control_plane :
    ((ClusterManager.New okClient).PauseEKSAControllerReconcile 1 exampleCluster
        (exampleSpec none [] none) exampleProvider (World.init ())).map (fun r => r.1)
      = some (Exit.returned (some "machineGroupRef for control plane is not defined")) ∧
    ((ClusterManager.New okClient).ResumeEKSAControllerReconcile 1 exampleCluster
        (exampleSpec none [] none) exampleProvider (World.init ())).map (fun r => r.1)
      = some (Exit.returned (some "machineGroupRef for control plane is not defined")) ∧
    (exampleSpec none [] none).Spec.WorkerNodeGroupConfigurations = [] ∧
    exampleProvider.MachineResourceType ≠ "" := by
  decide

/-- C29, amended: Pause and Resume never end in a panic, for any spec, provider,
collaborator and state: they do not read a machine group that is absent. On every spec with
an empty worker group list, for a provider with a non-empty machine resource type and a
datacenter annotation write that succeeds, they return after that one write the error
"machineGroupRef for worker nodes is not defined" when the control-plane machine-group
reference is set, and "machineGroupRef for control plane is not defined" when it is nil. -/
theorem pause_resume_no_workers {σ : Type} (c : ClusterManager σ) (fuel : Nat)
    (cluster : Cluster) (clusterSpec : Spec) (provider : Provider) (w : World σ)
    (hm : provider.MachineResourceType ≠ "")
    (hw : clusterSpec.Spec.WorkerNodeGroupConfigurations = [])
    (hupdate : (c.clusterClient.UpdateAnnotationInNamespace provider.DatacenterResourceType
      clusterSpec.Spec.DatacenterRef.Name [( clusterSpec.PausedAnnotation, "true")] cluster ""
      w.st).1 = none)
    (hremove : (c.clusterClient.RemoveAnnotationInNamespace provider.DatacenterResourceType
      clusterSpec.Spec.DatacenterRef.Name clusterSpec.PausedAnnotation cluster "" w.st).1
      = none) :
    (∀ (fuel2 : Nat) (spec2 : Spec) (provider2 : Provider) (w2 : World σ),
      (∀ r, c.PauseEKSAControllerReconcile fuel2 cluster spec2 provider2 w2 = some r →
        ∃ e, r.1 = Exit.returned e) ∧
      (∀ r, c.ResumeEKSAControllerReconcile fuel2 cluster spec2 provider2 w2 = some r →
        ∃ e, r.1 = Exit.returned e)) ∧
    c.PauseEKSAControllerReconcile (fuel + 1) cluster clusterSpec provider w
      = some (Exit.returned (some
          (if clusterSpec.Spec.ControlPlaneConfiguration.MachineGroupRef.isNone then
            "machineGroupRef for control plane is not defined"
          else "machineGroupRef for worker nodes is not defined")),
          World.afterUpdate c.clusterClient [( clusterSpec.PausedAnnotation, "true")] cluster w
            (provider.DatacenterResourceType, clusterSpec.Spec.DatacenterRef.Name)) ∧
    c.ResumeEKSAControllerReconcile (fuel + 1) cluster clusterSpec provider w
      = some (Exit.returned (some
          (if clusterSpec.Spec.ControlPlaneConfiguration.MachineGroupRef.isNone then
            "machineGroupRef for control plane is not defined"
          else "machineGroupRef for worker nodes is not defined")),
          clusterSpec, provider,
          World.afterRemove c.clusterClient clusterSpec.PausedAnnotation cluster w
            (provider.DatacenterResourceType, clusterSpec.Spec.DatacenterRef.Name)) := by
  refine ⟨?_, ?_, ?_⟩
  · intro fuel2 spec2 provider2 w2
    constructor
    · intro r hr
      rw [pause_chain] at hr
      rcases runSteps_exit _ _ _ _ _ _ hr with ⟨e, he⟩ | ⟨w1, hfin⟩
      · exact ⟨_, he⟩
      · simp only [Option.some.injEq] at hfin
        subst hfin
        exact plan_exit_returned _ _ _ _
    · intro r hr
      rw [resume_chain] at hr
      rcases runSteps_exit _ _ _ _ _ _ hr with ⟨e, he⟩ | ⟨w1, hfin⟩
      · exact ⟨_, he⟩
      · simp only [Option.some.injEq] at hfin
        subst hfin
        exact plan_exit_returned _ _ _ _
  · rw [pause_chain, plan_no_workers _ _ _ _ hm hw]
    have hr := retryUpdate_ok c fuel cluster [( clusterSpec.PausedAnnotation, "true")]
      (provider.DatacenterResourceType, clusterSpec.Spec.DatacenterRef.Name) w hupdate
    simp [runSteps, hr, afterRetry]
  · rw [resume_chain, plan_no_workers _ _ _ _ hm hw]
    have hr := retryRemove_ok c fuel cluster clusterSpec.PausedAnnotation
      (provider.DatacenterResourceType, clusterSpec.Spec.DatacenterRef.Name) w hremove
    simp [runSteps, hr, afterRetry, resumedObjects]

/-- Witness of `pause_resume_no_workers`: `okClient`, control plane on `cp`, no worker
group. -/
theorem pause_resume_no_workers_witness :
    (ClusterManager.New okClient).PauseEKSAControllerReconcile (0 + 1) exampleCluster
        (exampleSpec (some "cp") [] none) exampleProvider (World.init ())
      = some (Exit.returned (some "machineGroupRef for worker nodes is not defined"),
          World.afterUpdate okClient [("anywhere.eks.amazonaws.com/paused", "true")]
            exampleCluster (World.init ())
            ("vspheredatacenterconfigs.anywhere.eks.amazonaws.com", "dc")) ∧
    (ClusterManager.New okClient).ResumeEKSAControllerReconcile (0 + 1) exampleCluster
        (exampleSpec (some "cp") [] none) exampleProvider (World.init ())
      = some (Exit.returned (some "machineGroupRef for worker nodes is not defined"),
          exampleSpec (some "cp") [] none, exampleProvider,
          World.afterRemove okClient "anywhere.eks.amazonaws.com/paused"
            exampleCluster (World.init ())
            ("vspheredatacenterconfigs.anywhere.eks.amazonaws.com", "dc")) :=
  (pause_resume_no_workers (ClusterManager.New okClient) 0 exampleCluster
    (exampleSpec (some "cp") [] none) exampleProvider (World.init ())
    (by decide) rfl rfl rfl).2

/-! ## The Retrier with a maximum of attempts -/

/-- One more attempt in the log of a Retry loop: a call, a sleep, and the attempts left. -/
theorem intersperse_replicate_succ (a b : Call) (k : Nat) :
    (List.replicate (k + 2) a).intersperse b
      = a :: b :: (List.replicate (k + 1) a).intersperse b := by
  simp [List.replicate_succ]

/-- Among calls separated by sleeps, the calls are as many as were made. -/
theorem count_intersperse_replicate (a b : Call) (hab : a ≠ b) (k : Nat) :
    ((List.replicate k a).intersperse b).count a = k := by
  induction k using Nat.strong_induction_on with
  | _ k ih =>
    match k with
    | 0 => simp
    | 1 => simp
    | j + 2 =>
      rw [intersperse_replicate_succ, List.count_cons_self, List.count_cons_of_ne hab,
        ih (j + 1) (by omega)]

/-- A Retry loop under a maximum of `n` attempts with fixed delay `d`, on an operation that
logs each call as `call`: the loop makes `k` attempts with a sleep of `d` between them,
where `k` is at least 1 and the attempts counted so far stay within `n`; the result is the
one of the last attempt, and the loop returns an error only when the attempts are used up,
wrapping the error of the last attempt. -/
theorem loop_maxRetries {σ L : Type} (n : Nat) (d : Duration)
    (fn : L → World σ → Option Error × L × World σ) (call : Call)
    (hfn : ∀ l w, (fn l w).2.2.log = w.log ++ [call]) (start : Duration) (fuel : Nat) :
    ∀ (retries : Nat) (l : L) (w : World σ) (res : Option Error × L × World σ),
      Retrier.loop (Retrier.NewWithMaxRetries n d) fn start fuel retries l w = some res →
      ∃ k l0 w0, 1 ≤ k ∧ retries + k ≤ max n (retries + 1) ∧
        res.2.2.log = w.log ++ (List.replicate k call).intersperse (Call.Sleep d) ∧
        (fn l0 w0).2 = res.2 ∧
        (res.1 = none → (fn l0 w0).1 = none) ∧
        (∀ e, res.1 = some e → retries + k = max n (retries + 1) ∧
          ∃ e0, (fn l0 w0).1 = some e0 ∧ e = exhaustionError e0) := by
  induction fuel with
  | zero => intro retries l w res h; simp [Retrier.loop] at h
  | succ f ih =>
    intro retries l w res h
    have hlog := hfn l w
    unfold Retrier.loop at h
    rcases hf : fn l w with ⟨e, l1, w1⟩
    rw [hf] at h hlog
    simp only at hlog
    cases e with
    | none =>
      simp only [Option.some.injEq] at h
      subst h
      exact ⟨1, l, w, le_refl 1, by omega, by simpa using hlog, by rw [hf], by simp [hf],
        by simp⟩
    | some err =>
      simp only [Retrier.NewWithMaxRetries, maxRetriesPolicy] at h
      by_cases hlt : retries + 1 < n
      · simp only [hlt, decide_True] at h
        obtain ⟨k, l0, w0, hk1, hk2, hk3, hk4, hk5, hk6⟩ := ih (retries + 1) l1 _ res h
        obtain ⟨j, rfl⟩ : ∃ j, k = j + 1 := ⟨k - 1, by omega⟩
        refine ⟨j + 2, l0, w0, by omega, by omega, ?_, hk4, hk5, ?_⟩
        · rw [hk3, intersperse_replicate_succ]
          simp [World.sleep, hlog]
        · intro e he
          obtain ⟨h1, h2⟩ := hk6 e he
          exact ⟨by omega, h2⟩
      · simp only [hlt, decide_False, Option.some.injEq] at h
        subst h
        exact ⟨1, l, w, le_refl 1, by omega, by simpa using hlog, by rw [hf], by simp,
          fun e he => ⟨by omega, err, by rw [hf], by simpa using he.symm⟩⟩

/-- A Retry loop under a maximum of `n` attempts returns once its fuel covers the attempts
that are left. -/
theorem loop_maxRetries_returns {σ L : Type} (n : Nat) (d : Duration)
    (fn : L → World σ → Option Error × L × World σ) (start : Duration) (fuel : Nat) :
    ∀ (retries : Nat) (l : L) (w : World σ), 1 ≤ fuel → n ≤ retries + fuel →
      ∃ res, Retrier.loop (Retrier.NewWithMaxRetries n d) fn start fuel retries l w
        = some res := by
  induction fuel with
  | zero => intro retries l w h; omega
  | succ f ih =>
    intro retries l w _ hn
    unfold Retrier.loop
    rcases hf : fn l w with ⟨e, l1, w1⟩
    cases e with
    | none => exact ⟨_, rfl⟩
    | some err =>
      simp only [Retrier.NewWithMaxRetries, maxRetriesPolicy]
      by_cases hlt : retries + 1 < n
      · simp only [hlt, decide_True]
        exact ih (retries + 1) l1 _ (by omega) (by omega)
      · simp only [hlt, decide_False]
        exact ⟨_, rfl⟩

/-- C22: a Retrier with a maximum of `n` attempts (`n` at least 1) and a fixed delay `d`,
run with enough fuel on an operation that fails on every call and logs each call, makes
exactly `n` calls of the operation, separated by sleeps of `d`, and returns the exhaustion
error that wraps the error of the last call. `DeleteCluster` of a manager built by `New`
(maxRetries = 30, delay 5 seconds) makes exactly 30 `DeleteCluster` calls of the collaborator
when that call fails in every state and returns the wrapped error of the last one; it makes
exactly one call and returns nil when the first call succeeds. -/
theorem Retrier_max_attempts {σ L : Type} :
    (∀ (n : Nat) (d : Duration) (fn : L → World σ → Option Error × L × World σ)
        (call : Call) (fuel : Nat) (l : L) (w : World σ),
      0 < n → n ≤ fuel → (∀ l w, (fn l w).2.2.log = w.log ++ [call]) →
      (∀ x, call ≠ Call.Sleep x) → (∀ l w, (fn l w).1 ≠ none) →
      ∃ elast l0 w0 l1 w1,
        (Retrier.NewWithMaxRetries n d).Retry fuel fn l w
          = some (some (exhaustionError elast), l1, w1) ∧
        fn l0 w0 = (some elast, l1, w1) ∧
        w1.log = w.log ++ (List.replicate n call).intersperse (Call.Sleep d) ∧
        ((List.replicate n call).intersperse (Call.Sleep d)).count call = n) ∧
    (∀ (cl : ClusterClient σ) (managementCluster clusterToDelete : Cluster) (fuel : Nat)
        (w : World σ),
      30 ≤ fuel → (∀ s, (cl.DeleteCluster managementCluster clusterToDelete s).1 ≠ none) →
      ∃ elast s w1,
        (ClusterManager.New cl).DeleteCluster fuel managementCluster clusterToDelete w
          = some (some (exhaustionError elast), w1) ∧
        (cl.DeleteCluster managementCluster clusterToDelete s).1 = some elast ∧
        w1.log = w.log ++
          (List.replicate 30 (Call.DeleteCluster managementCluster clusterToDelete)).intersperse
            (Call.Sleep (5 * Second)) ∧
        ((List.replicate 30
            (Call.DeleteCluster managementCluster clusterToDelete)).intersperse
          (Call.Sleep (5 * Second))).count
            (Call.DeleteCluster managementCluster clusterToDelete) = 30) ∧
    (∀ (cl : ClusterClient σ) (managementCluster clusterToDelete : Cluster) (fuel : Nat)
        (w : World σ),
      (cl.DeleteCluster managementCluster clusterToDelete w.st).1 = none →
      ∃ w1,
        (ClusterManager.New cl).DeleteCluster (fuel + 1) managementCluster clusterToDelete w
          = some (none, w1) ∧
        w1.log = w.log ++ [Call.DeleteCluster managementCluster clusterToDelete]) := by
  have key : ∀ {M : Type} (n : Nat) (d : Duration)
      (fn : M → World σ → Option Error × M × World σ)
      (call : Call) (fuel : Nat) (l : M) (w : World σ),
      0 < n → n ≤ fuel → (∀ l w, (fn l w).2.2.log = w.log ++ [call]) →
      (∀ x, call ≠ Call.Sleep x) → (∀ l w, (fn l w).1 ≠ none) →
      ∃ elast l0 w0 l1 w1,
        (Retrier.NewWithMaxRetries n d).Retry fuel fn l w
          = some (some (exhaustionError elast), l1, w1) ∧
        fn l0 w0 = (some elast, l1, w1) ∧
        w1.log = w.log ++ (List.replicate n call).intersperse (Call.Sleep d) ∧
        ((List.replicate n call).intersperse (Call.Sleep d)).count call = n := by
    intro M n d fn call fuel l w hn hfuel hlog hcall hfail
    obtain ⟨res, hres⟩ := loop_maxRetries_returns n d fn w.clock fuel 0 l
      { w with retrierRuns := w.retrierRuns + 1 } (by omega) (by omega)
    obtain ⟨k, l0, w0, hk1, hk2, hk3, hk4, hk5, hk6⟩ :=
      loop_maxRetries n d fn call hlog w.clock fuel 0 l _ res hres
    obtain ⟨e, l1, w1⟩ := res
    cases e with
    | none => exact absurd (hk5 rfl) (hfail l0 w0)
    | some e =>
      obtain ⟨hk, e0, he0, he⟩ := hk6 e rfl
      have hkn : k = n := by
        have : max n (0 + 1) = n := by omega
        omega
      subst hkn he
      refine ⟨e0, l0, w0, l1, w1, hres, ?_, hk3, count_intersperse_replicate _ _ (hcall d) k⟩
      rw [← he0]
      exact Prod.ext rfl hk4
  refine ⟨fun n d fn call fuel l w => key n d fn call fuel l w, ?_, ?_⟩
  · intro cl m t fuel w hfuel hfail
    obtain ⟨elast, l0, w0, l1, w1, hres, hlast, hlog, hcount⟩ :=
      key 30 (5 * Second) (fun _ w => cl.callDeleteCluster m t w) (Call.DeleteCluster m t)
        fuel () w (by omega) hfuel (fun _ _ => rfl) (fun x => by simp)
        (fun _ w => hfail w.st)
    refine ⟨elast, w0.st, w1, ?_, ?_, hlog, hcount⟩
    · simp only [ClusterManager.DeleteCluster, ClusterManager.New, maxRetries, backOffPeriod]
      rw [hres]
    · have := congrArg Prod.fst hlast
      simpa [ClusterClient.callDeleteCluster] using this
  · intro cl m t fuel w hok
    refine ⟨{ w with
        st := (cl.DeleteCluster m t w.st).2
        log := w.log ++ [Call.DeleteCluster m t]
        retrierRuns := w.retrierRuns + 1 }, ?_, rfl⟩
    simp [ClusterManager.DeleteCluster, ClusterManager.New, Retrier.Retry, Retrier.loop,
      ClusterClient.callDeleteCluster, hok]

/-- Witness of `Retrier_max_attempts`: three attempts on `failingOperation`, and
`DeleteCluster` against `failingDeleteClient` and against `okClient`. -/
theorem Retrier_max_attempts_witness :
    (∃ elast l0 w0 l1 w1,
      (Retrier.NewWithMaxRetries 3 backOffPeriod).Retry 3 failingOperation () (World.init ())
        = some (some (exhaustionError elast), l1, w1) ∧
      failingOperation l0 w0 = (some elast, l1, w1) ∧
      w1.log = (World.init ()).log ++
        (List.replicate 3 (Call.GetClusters exampleCluster)).intersperse
          (Call.Sleep backOffPeriod) ∧
      ((List.replicate 3 (Call.GetClusters exampleCluster)).intersperse
        (Call.Sleep backOffPeriod)).count (Call.GetClusters exampleCluster) = 3) ∧
    (∃ elast s w1,
      (ClusterManager.New failingDeleteClient).DeleteCluster 30 exampleCluster targetCluster
          (World.init ())
        = some (some (exhaustionError elast), w1) ∧
      (failingDeleteClient.DeleteCluster exampleCluster targetCluster s).1 = some elast ∧
      w1.log = (World.init ()).log ++
        (List.replicate 30 (Call.DeleteCluster exampleCluster targetCluster)).intersperse
          (Call.Sleep (5 * Second)) ∧
      ((List.replicate 30 (Call.DeleteCluster exampleCluster targetCluster)).intersperse
        (Call.Sleep (5 * Second))).count (Call.DeleteCluster exampleCluster targetCluster)
        = 30) ∧
    (∃ w1,
      (ClusterManager.New okClient).DeleteCluster (0 + 1) exampleCluster targetCluster
          (World.init ())
        = some (none, w1) ∧
      w1.log = (World.init ()).log ++ [Call.DeleteCluster exampleCluster targetCluster]) :=
  ⟨(@Retrier_max_attempts Unit Unit).1 3 backOffPeriod failingOperation
      (Call.GetClusters exampleCluster) 3 () (World.init ()) (by decide) (by decide)
      (fun _ _ => rfl) (fun _ => by simp) (fun _ _ => by simp [failingOperation]),
    (@Retrier_max_attempts Unit Unit).2.1 failingDeleteClient exampleCluster targetCluster 30
      (World.init ()) (by decide) (fun _ => by simp [failingDeleteClient]),
    (@Retrier_max_attempts Unit Unit).2.2 okClient exampleCluster targetCluster 0
      (World.init ()) rfl⟩

/-- The run of `DeleteCluster` against `failingDeleteClient`, evaluated: 30 calls, 29
sleeps of 5 seconds, and the wrapped error of the collaborator. -/
theorem DeleteCluster_thirty_calls :
    ((ClusterManager.New failingDeleteClient).DeleteCluster 30 exampleCluster targetCluster
        (World.init ())).map
        (fun r => (r.1, r.2.log.count (Call.DeleteCluster exampleCluster targetCluster),
          r.2.clock))
      = some (some (exhaustionError "cluster is busy"), 30, 29 * (5 * Second)) := by
  decide

/-! ## The phases of a remote command -/

/-- The log of a Retry loop whose operation makes the call `call` first and then only
calls that satisfy `P`: the loop appends `call` first, and after it only `call`, calls that
satisfy `P`, and sleeps. -/
theorem loop_log_first {σ L : Type} (r : Retrier L)
    (fn : L → World σ → Option Error × L × World σ) (call : Call) (P : Call → Prop)
    (hfn : ∀ l w, ∃ ext, (fn l w).2.2.log = w.log ++ call :: ext ∧ ∀ x ∈ ext, P x)
    (start : Duration) (fuel : Nat) :
    ∀ (retries : Nat) (l : L) (w : World σ) (res : Option Error × L × World σ),
      Retrier.loop r fn start fuel retries l w = some res →
      ∃ ext, res.2.2.log = w.log ++ call :: ext ∧
        ∀ x ∈ ext, x = call ∨ P x ∨ ∃ d, x = Call.Sleep d := by
  induction fuel with
  | zero => intro retries l w res h; simp [Retrier.loop] at h
  | succ n ih =>
    intro retries l w res h
    obtain ⟨ext0, hlog, hP⟩ := hfn l w
    have hP2 : ∀ x ∈ ext0, x = call ∨ P x ∨ ∃ d, x = Call.Sleep d :=
      fun x hx => Or.inr (Or.inl (hP x hx))
    unfold Retrier.loop at h
    rcases hf : fn l w with ⟨e, l1, w1⟩
    rw [hf] at h hlog
    simp only at hlog
    cases e with
    | none =>
      simp only [Option.some.injEq] at h
      subst h
      exact ⟨ext0, hlog, hP2⟩
    | some err =>
      simp only at h
      rcases hp : r.retryPolicy l1 (retries + 1) err with ⟨b, wait⟩
      rw [hp] at h
      cases b with
      | false =>
        simp only [Option.some.injEq] at h
        subst h
        exact ⟨ext0, hlog, hP2⟩
      | true =>
        simp only at h
        have hsleep : (w1.sleep wait).log = w.log ++ call :: (ext0 ++ [Call.Sleep wait]) := by
          simp [World.sleep, hlog]
        have hrec : ∀ res,
            Retrier.loop r fn start n (retries + 1) l1 (w1.sleep wait) = some res →
            ∃ ext, res.2.2.log = w.log ++ call :: ext ∧
              ∀ x ∈ ext, x = call ∨ P x ∨ ∃ d, x = Call.Sleep d := by
          intro res hres
          obtain ⟨ext, hext, hall⟩ := ih (retries + 1) l1 (w1.sleep wait) res hres
          refine ⟨ext0 ++ Call.Sleep wait :: call :: ext, by rw [hext, hsleep]; simp, ?_⟩
          intro x hx
          simp only [List.mem_append, List.mem_cons] at hx
          rcases hx with hx | hx | hx | hx
          · exact hP2 x hx
          · exact Or.inr (Or.inr ⟨wait, hx⟩)
          · exact Or.inl hx
          · exact hall x hx
        cases ht : r.timeout with
        | none =>
          rw [ht] at h
          exact hrec res h
        | some t =>
          rw [ht] at h
          simp only at h
          split at h
          · exact hrec res h
          · simp only [Option.some.injEq] at h
            subst h
            refine ⟨ext0 ++ [Call.Sleep wait], hsleep, ?_⟩
            intro x hx
            simp only [List.mem_append, List.mem_singleton] at hx
            rcases hx with hx | hx
            · exact hP2 x hx
            · exact Or.inr (Or.inr ⟨wait, hx⟩)

/-- Calls separated by sleeps: every entry is the call or the sleep. -/
theorem mem_intersperse_replicate (a b : Call) (k : Nat) :
    ∀ x ∈ (List.replicate k a).intersperse b, x = a ∨ x = b := by
  induction k using Nat.strong_induction_on with
  | _ k ih =>
    match k with
    | 0 => simp
    | 1 => simp
    | j + 2 =>
      intro x hx
      rw [intersperse_replicate_succ] at hx
      simp only [List.mem_cons] at hx
      rcases hx with hx | hx | hx
      · exact Or.inl hx
      · exact Or.inr hx
      · exact ih (j + 1) (by omega) x hx

/-- The registration check makes one `GetCommandInvocation` call. -/
theorem registrationCheck_log {σ : Type} (service : SSMService σ)
    (commandIn : GetCommandInvocationInput) (l : Unit) (w : World σ) :
    (registrationCheck service commandIn l w).2.2.log
      = w.log ++ [Call.GetCommandInvocation commandIn] := by
  unfold registrationCheck SSMService.callGetCommandInvocation
  rcases service.GetCommandInvocation commandIn w.st with ⟨a, s⟩
  cases a <;> rfl

/-- The registration check in terms of the answer of its call. -/
theorem registrationCheck_eq {σ : Type} (service : SSMService σ)
    (commandIn : GetCommandInvocationInput) (l : Unit) (w : World σ) :
    registrationCheck service commandIn l w
      = ((match (service.callGetCommandInvocation commandIn w).1 with
          | Except.error err => some ("error getting ssm command invocation: " ++ err)
          | Except.ok _ => none), (), (service.callGetCommandInvocation commandIn w).2) := by
  unfold registrationCheck
  rcases service.callGetCommandInvocation commandIn w with ⟨a, s⟩
  cases a <;> rfl

/-- The status poll makes one `GetCommandInvocation` call and then only prints. -/
theorem statusPoll_log {σ : Type} (service : SSMService σ)
    (commandIn : GetCommandInvocationInput) (l : Option GetCommandInvocationOutput)
    (w : World σ) :
    ∃ ext, (statusPoll service commandIn l w).2.2.log
        = w.log ++ Call.GetCommandInvocation commandIn :: ext ∧
      ∀ x ∈ ext, ∃ line, x = Call.Println line := by
  unfold statusPoll SSMService.callGetCommandInvocation
  rcases service.GetCommandInvocation commandIn w.st with ⟨a, s⟩
  cases a with
  | error e => exact ⟨[], rfl, by simp⟩
  | ok out =>
    simp only
    split
    · refine ⟨[Call.Println "Command stdout:", Call.Println out.StandardOutputContent,
        Call.Println "------", Call.Println "Command stderr",
        Call.Println out.StandardErrorContent, Call.Println "------"], ?_, ?_⟩
      · simp [printDivider, World.println]
      · intro x hx
        simp only [List.mem_cons, List.mem_singleton, List.not_mem_nil, or_false] at hx
        rcases hx with hx | hx | hx | hx | hx | hx <;> exact ⟨_, hx⟩
    · exact ⟨[], rfl, by simp⟩

/-- C21: every `Run` that returns has gone through submitted, registered, polled. Its log
starts with the one `SendCommand` call and holds no other; when that call fails `Run`
returns the send error and makes no `GetCommandInvocation` call; otherwise the registration
phase makes `k` `GetCommandInvocation` calls, `1 ≤ k ≤ 10`, 5 seconds apart, and then either
the last of them succeeded and the status polling follows, starting with its own
`GetCommandInvocation` call, or all 10 failed and `Run` returns the registration error with
no status polling. Against a channel on which the command is sent and every
`GetCommandInvocation` call fails, `Run` with fuel for 10 attempts does return that error
after exactly 10 calls. -/
theorem Run_phases {σ : Type} (service : SSMService σ) (instanceId command : String)
    (opts : List (SendCommandInput → SendCommandInput)) (w : World σ) :
    (∀ (fuel : Nat) (r : Exit × World σ),
      Run service fuel instanceId command opts w = some r →
      ∃ ext,
        r.2.log = w.log ++ Call.SendCommand
          (opts.foldl (fun c opt => opt c) (runCommandInput instanceId command)) :: ext ∧
        (∀ x ∈ ext, ∀ i, x ≠ Call.SendCommand i) ∧
        (∀ err, (service.SendCommand
            (opts.foldl (fun c opt => opt c) (runCommandInput instanceId command)) w.st).1
            = Except.error err →
          ext = [] ∧ r.1 = Exit.returned (some ("error sending ssm command: " ++ err))) ∧
        (∀ commandId, (service.SendCommand
            (opts.foldl (fun c opt => opt c) (runCommandInput instanceId command)) w.st).1
            = Except.ok commandId →
          ∃ k poll w0 w2, 1 ≤ k ∧ k ≤ 10 ∧
            ext = (List.replicate k (Call.GetCommandInvocation
                { CommandId := commandId, InstanceId := instanceId })).intersperse
                (Call.Sleep (5 * Second)) ++ poll ∧
            (service.callGetCommandInvocation
                { CommandId := commandId, InstanceId := instanceId } w0).2 = w2 ∧
            w2.log = w.log ++ Call.SendCommand
                (opts.foldl (fun c opt => opt c) (runCommandInput instanceId command)) ::
              (List.replicate k (Call.GetCommandInvocation
                { CommandId := commandId, InstanceId := instanceId })).intersperse
                (Call.Sleep (5 * Second)) ∧
            ((∃ out tail,
                (service.callGetCommandInvocation
                  { CommandId := commandId, InstanceId := instanceId } w0).1 = Except.ok out ∧
                poll = Call.GetCommandInvocation
                  { CommandId := commandId, InstanceId := instanceId } :: tail ∧
                ∀ x ∈ tail,
                  x = Call.GetCommandInvocation
                    { CommandId := commandId, InstanceId := instanceId } ∨
                  (∃ line, x = Call.Println line) ∨ ∃ d, x = Call.Sleep d) ∨
              (∃ e,
                (service.callGetCommandInvocation
                  { CommandId := commandId, InstanceId := instanceId } w0).1
                  = Except.error e ∧
                k = 10 ∧ poll = [] ∧
                r = (Exit.returned (some ("error waiting for ssm command to be registered: " ++
                    exhaustionError ("error getting ssm command invocation: " ++ e))),
                  w2))))) ∧
    (∀ (fuel : Nat) (commandId : String), 10 ≤ fuel →
      (service.SendCommand
        (opts.foldl (fun c opt => opt c) (runCommandInput instanceId command)) w.st).1
        = Except.ok commandId →
      (∀ s, ∃ e, (service.GetCommandInvocation
        { CommandId := commandId, InstanceId := instanceId } s).1 = Except.error e) →
      ∃ e w2,
        Run service fuel instanceId command opts w
          = some (Exit.returned (some ("error waiting for ssm command to be registered: " ++
              exhaustionError ("error getting ssm command invocation: " ++ e))), w2) ∧
        w2.log = w.log ++ Call.SendCommand
            (opts.foldl (fun c opt => opt c) (runCommandInput instanceId command)) ::
          (List.replicate 10 (Call.GetCommandInvocation
            { CommandId := commandId, InstanceId := instanceId })).intersperse
            (Call.Sleep (5 * Second))) := by
  have hsendlog : (service.callSendCommand
      (opts.foldl (fun c opt => opt c) (runCommandInput instanceId command)) w).2.log
      = w.log ++ [Call.SendCommand
        (opts.foldl (fun c opt => opt c) (runCommandInput instanceId command))] := rfl
  have hsendans : (service.callSendCommand
      (opts.foldl (fun c opt => opt c) (runCommandInput instanceId command)) w).1
      = (service.SendCommand
        (opts.foldl (fun c opt => opt c) (runCommandInput instanceId command)) w.st).1 := rfl
  refine ⟨?_, ?_⟩
  · intro fuel r h
    unfold Run at h
    simp only at h
    rcases hs : service.callSendCommand
      (opts.foldl (fun c opt => opt c) (runCommandInput instanceId command)) w with ⟨a, w1⟩
    rw [hs] at h hsendlog hsendans
    simp only at hsendlog hsendans
    cases a with
    | error err =>
      simp only [Option.some.injEq] at h
      subst h
      refine ⟨[], by simpa using hsendlog, by simp, ?_, ?_⟩
      · intro err2 he
        rw [← hsendans] at he
        cases he
        exact ⟨rfl, rfl⟩
      · intro commandId he
        rw [← hsendans] at he
        cases he
    | ok commandId =>
      simp only at h
      cases hreg : retrierRetry 10 (5 * Second) fuel
          (registrationCheck service { CommandId := commandId, InstanceId := instanceId })
          () w1 with
      | none => rw [hreg] at h; simp at h
      | some res =>
        obtain ⟨e, u, w2⟩ := res
        rw [hreg] at h
        obtain ⟨k, l0, w0, hk1, hk2, hk3, hk4, hk5, hk6⟩ :=
          loop_maxRetries 10 (5 * Second) _ _ (registrationCheck_log service _) w1.clock fuel
            0 () { w1 with retrierRuns := w1.retrierRuns + 1 } _ hreg
        have hk10 : k ≤ 10 := by
          have : max 10 (0 + 1) = 10 := by decide
          omega
        rw [registrationCheck_eq] at hk4 hk5 hk6
        simp only [Prod.mk.injEq, true_and] at hk4
        simp only at hk3 hk5 hk6
        have hw2log : w2.log = w.log ++ Call.SendCommand
            (opts.foldl (fun c opt => opt c) (runCommandInput instanceId command)) ::
            (List.replicate k (Call.GetCommandInvocation
              { CommandId := commandId, InstanceId := instanceId })).intersperse
              (Call.Sleep (5 * Second)) := by
          rw [hk3, hsendlog]
          simp
        have hnosend : ∀ x ∈ (List.replicate k (Call.GetCommandInvocation
              { CommandId := commandId, InstanceId := instanceId })).intersperse
              (Call.Sleep (5 * Second)), ∀ i, x ≠ Call.SendCommand i := by
          intro x hx i
          rcases mem_intersperse_replicate _ _ k x hx with hx | hx <;> simp [hx]
        cases e with
        | some err2 =>
          simp only [Option.some.injEq] at h
          subst h
          obtain ⟨hk, e0, he0, he⟩ := hk6 err2 rfl
          refine ⟨_, by rw [hw2log], hnosend, ?_, ?_⟩
          · intro err he2
            rw [← hsendans] at he2
            cases he2
          · intro cid he2
            rw [← hsendans] at he2
            cases he2
            refine ⟨k, [], w0, w2, hk1, hk10, by simp, hk4, hw2log, Or.inr ?_⟩
            cases ha : (service.callGetCommandInvocation
                { CommandId := commandId, InstanceId := instanceId } w0).1 with
            | ok out => rw [ha] at he0; simp at he0
            | error e1 =>
              rw [ha] at he0
              simp only [Option.some.injEq] at he0
              refine ⟨e1, rfl, ?_, rfl, ?_⟩
              · have : max 10 (0 + 1) = 10 := by decide
                omega
              · rw [he, ← he0]
        | none =>
          simp only at h
          have hans := hk5 rfl
          cases hpoll : (Retrier.New (180 * Minute) defaultPolicy).Retry fuel
              (statusPoll service { CommandId := commandId, InstanceId := instanceId })
              none w2 with
          | none => rw [hpoll] at h; simp at h
          | some res3 =>
            obtain ⟨e3, out3, w3⟩ := res3
            obtain ⟨tail, htail, hall⟩ :=
              loop_log_first _ _ _ _ (statusPoll_log service _) w2.clock fuel 0 none
                { w2 with retrierRuns := w2.retrierRuns + 1 } _ hpoll
            simp only at htail
            have hr : r.2 = w3 := by
              rw [hpoll] at h
              cases e3 with
              | some e4 => simp only [Option.some.injEq] at h; subst h; rfl
              | none =>
                simp only at h
                split at h
                · simp only [Option.some.injEq] at h; subst h; rfl
                · split at h <;> (simp only [Option.some.injEq] at h; subst h; rfl)
            refine ⟨(List.replicate k (Call.GetCommandInvocation
                { CommandId := commandId, InstanceId := instanceId })).intersperse
                (Call.Sleep (5 * Second)) ++
              Call.GetCommandInvocation
                { CommandId := commandId, InstanceId := instanceId } :: tail, ?_, ?_, ?_, ?_⟩
            · rw [hr, htail, hw2log]
              simp
            · intro x hx i
              rcases List.mem_append.mp hx with hx | hx
              · exact hnosend x hx i
              · rcases List.mem_cons.mp hx with hx | hx
                · simp [hx]
                · rcases hall x hx with hx | ⟨line, hx⟩ | ⟨d, hx⟩ <;> simp [hx]
            · intro err he2
              rw [← hsendans] at he2
              cases he2
            · intro cid he2
              rw [← hsendans] at he2
              cases he2
              refine ⟨k, _, w0, w2, hk1, hk10, rfl, hk4, hw2log, Or.inl ?_⟩
              cases ha : (service.callGetCommandInvocation
                  { CommandId := commandId, InstanceId := instanceId } w0).1 with
              | error e1 => rw [ha] at hans; simp at hans
              | ok out => exact ⟨out, tail, rfl, rfl, hall⟩
  intro fuel commandId hfuel hsend hfail
  have hcs : service.callSendCommand
      (opts.foldl (fun c opt => opt c) (runCommandInput instanceId command)) w
      = (Except.ok commandId, (service.callSendCommand
        (opts.foldl (fun c opt => opt c) (runCommandInput instanceId command)) w).2) :=
    Prod.ext (hsendans.trans hsend) rfl
  obtain ⟨res, hres⟩ := loop_maxRetries_returns 10 (5 * Second)
    (registrationCheck service { CommandId := commandId, InstanceId := instanceId })
    (service.callSendCommand
      (opts.foldl (fun c opt => opt c) (runCommandInput instanceId command)) w).2.clock
    fuel 0 ()
    { (service.callSendCommand
        (opts.foldl (fun c opt => opt c) (runCommandInput instanceId command)) w).2 with
      retrierRuns := (service.callSendCommand
        (opts.foldl (fun c opt => opt c) (runCommandInput instanceId command)) w).2.retrierRuns
        + 1 }
    (by omega) (by omega)
  obtain ⟨k, l0, w0, hk1, hk2, hk3, hk4, hk5, hk6⟩ :=
    loop_maxRetries 10 (5 * Second) _ _ (registrationCheck_log service _) _ fuel 0 () _ _ hres
  obtain ⟨e, u, w2⟩ := res
  rw [registrationCheck_eq] at hk4 hk5 hk6
  obtain ⟨e1, he1⟩ := hfail w0.st
  have ha : (service.callGetCommandInvocation
      { CommandId := commandId, InstanceId := instanceId } w0).1 = Except.error e1 := he1
  rw [ha] at hk5 hk6
  simp only at hk3 hk5 hk6
  cases e with
  | none => simp at hk5
  | some err2 =>
    obtain ⟨hk, e0, he0, he⟩ := hk6 err2 rfl
    simp only [Option.some.injEq] at he0
    have hk10 : k = 10 := by
      have : max 10 (0 + 1) = 10 := by decide
      omega
    subst hk10
    refine ⟨e1, w2, ?_, ?_⟩
    · unfold Run
      simp only
      rw [hcs]
      simp only [retrierRetry, Retrier.Retry]
      rw [hres]
      simp only [he, ← he0]
    · rw [hk3]
      simp [SSMService.callSendCommand]

/-- The run of `ls` against `unregisteredService`, evaluated: one `SendCommand`, ten
`GetCommandInvocation` calls, no print. -/
theorem Run_unregistered :
    (Run unregisteredService 10 "i-0abc" "ls" [] (World.init ())).map
        (fun r => (r.1, r.2.log.count exampleInvocation,
          r.2.log.countP fun x => x matches Call.Println _))
      = some (Exit.returned (some ("error waiting for ssm command to be registered: " ++
          exhaustionError ("error getting ssm command invocation: " ++
            "InvocationDoesNotExist"))), 10, 0) ∧
    (Run refusingService 10 "i-0abc" "ls" [] (World.init ())).map (fun r => (r.1, r.2.log))
      = some (Exit.returned (some "error sending ssm command: AccessDenied"),
          [Call.SendCommand (runCommandInput "i-0abc" "ls")]) := by
  decide

/-- Witness of `Run_phases`: the run against `pendingService`, which returns, and the run
against `unregisteredService`, on which no invocation is ever found. -/
theorem Run_phases_witness :
    (∃ ext,
      pendingRun.2.log = (World.init 0).log ++
        Call.SendCommand (runCommandInput "i-0abc" "ls") :: ext ∧
      (∀ x ∈ ext, ∀ i, x ≠ Call.SendCommand i) ∧
      (∀ err, (pendingService.SendCommand (runCommandInput "i-0abc" "ls")
          (World.init 0).st).1 = Except.error err →
        ext = [] ∧
        pendingRun.1 = Exit.returned (some ("error sending ssm command: " ++ err))) ∧
      (∀ commandId, (pendingService.SendCommand (runCommandInput "i-0abc" "ls")
          (World.init 0).st).1 = Except.ok commandId →
        ∃ k poll w0 w2, 1 ≤ k ∧ k ≤ 10 ∧
          ext = (List.replicate k (Call.GetCommandInvocation
              { CommandId := commandId, InstanceId := "i-0abc" })).intersperse
              (Call.Sleep (5 * Second)) ++ poll ∧
          (pendingService.callGetCommandInvocation
              { CommandId := commandId, InstanceId := "i-0abc" } w0).2 = w2 ∧
          w2.log = (World.init 0).log ++
            Call.SendCommand (runCommandInput "i-0abc" "ls") ::
            (List.replicate k (Call.GetCommandInvocation
              { CommandId := commandId, InstanceId := "i-0abc" })).intersperse
              (Call.Sleep (5 * Second)) ∧
          ((∃ out tail,
              (pendingService.callGetCommandInvocation
                { CommandId := commandId, InstanceId := "i-0abc" } w0).1 = Except.ok out ∧
              poll = Call.GetCommandInvocation
                { CommandId := commandId, InstanceId := "i-0abc" } :: tail ∧
              ∀ x ∈ tail,
                x = Call.GetCommandInvocation
                  { CommandId := commandId, InstanceId := "i-0abc" } ∨
                (∃ line, x = Call.Println line) ∨ ∃ d, x = Call.Sleep d) ∨
            (∃ e,
              (pendingService.callGetCommandInvocation
                { CommandId := commandId, InstanceId := "i-0abc" } w0).1
                = Except.error e ∧
              k = 10 ∧ poll = [] ∧
              pendingRun
                = (Exit.returned (some ("error waiting for ssm command to be registered: " ++
                    exhaustionError ("error getting ssm command invocation: " ++ e))),
                  w2))))) ∧
    (∃ e w2,
      Run unregisteredService 10 "i-0abc" "ls" [] (World.init ())
        = some (Exit.returned (some ("error waiting for ssm command to be registered: " ++
            exhaustionError ("error getting ssm command invocation: " ++ e))), w2) ∧
      w2.log = (World.init ()).log ++ Call.SendCommand (runCommandInput "i-0abc" "ls") ::
        (List.replicate 10 (Call.GetCommandInvocation
          { CommandId := "cmd-1", InstanceId := "i-0abc" })).intersperse
          (Call.Sleep (5 * Second))) :=
  ⟨(Run_phases pendingService "i-0abc" "ls" [] (World.init 0)).1 3 pendingRun (by decide),
    (Run_phases unregisteredService "i-0abc" "ls" [] (World.init ())).2 10 "cmd-1"
      (by decide) rfl (fun _ => ⟨_, rfl⟩)⟩

/-! ## Log collection -/

/-- The log after the goroutines of `SaveLogs` have run in a given order. -/
theorem log_foldl_saveLog {σ : Type} (c : ClusterManager σ) (cluster : Cluster)
    (writer : String) (entries : List (String × Deployment)) (w : World σ) :
    (entries.foldl (c.saveLog cluster writer) w).log
      = w.log ++ entries.map (saveLogCall cluster writer) := by
  induction entries generalizing w with
  | nil => simp
  | cons e rest ih =>
    simp [ih, ClusterManager.saveLog, ClusterClient.callSaveLog, saveLogCall]

/-- C25: the table `clusterDeployments` has 13 entries under 13 different file names. For a
manager and a cluster that are not nil and a writer whose `WithDir` succeeds, in whatever
order the `SaveLog` calls of the goroutines reach the collaborator and whatever they return,
`SaveLogs` returns nil and has made, after `WithDir`, exactly the 13 `SaveLog` calls of the
table, one per entry: when it returns all of them are done. With a nil cluster it returns
nil and makes no call at all. -/
theorem SaveLogs_calls {σ : Type} (c : ClusterManager σ)
    (schedule : List (String × Deployment) → List (String × Deployment))
    (cluster : Cluster) (w : World σ) (dir : String)
    (hschedule : (schedule clusterDeployments).Perm clusterDeployments)
    (hdir : (c.writer.WithDir logDir w.st).1 = Except.ok dir) :
    clusterDeployments.length = 13 ∧ (clusterDeployments.map Prod.fst).Nodup ∧
    (∃ w1 calls,
      ClusterManager.SaveLogs (some c) schedule (some cluster) w = (none, w1) ∧
      w1.log = w.log ++ Call.WithDir logDir :: calls ∧
      calls.Perm (clusterDeployments.map (saveLogCall cluster dir)) ∧
      calls.length = 13 ∧
      ∀ e ∈ clusterDeployments, calls.count (saveLogCall cluster dir e) = 1) ∧
    (∀ c0 : Option (ClusterManager σ),
      ClusterManager.SaveLogs c0 schedule none w = (none, w)) := by
  have hperm : ((schedule clusterDeployments).map (saveLogCall cluster dir)).Perm
      (clusterDeployments.map (saveLogCall cluster dir)) := hschedule.map _
  have hnodup : (clusterDeployments.map (saveLogCall cluster dir)).Nodup := by
    have hinj : ∀ a ∈ clusterDeployments, ∀ b ∈ clusterDeployments,
        saveLogCall cluster dir a = saveLogCall cluster dir b → a = b := by
      intro a _ b _ hab
      simp only [saveLogCall, Call.SaveLog.injEq, true_and, and_true] at hab
      exact Prod.ext hab.2 hab.1
    exact List.Nodup.map_on hinj (by decide)
  refine ⟨rfl, by decide, ?_, ?_⟩
  · refine ⟨(schedule clusterDeployments).foldl (c.saveLog cluster dir)
        (c.writer.callWithDir logDir w).2,
      (schedule clusterDeployments).map (saveLogCall cluster dir), ?_, ?_, hperm, ?_, ?_⟩
    · simp only [ClusterManager.SaveLogs]
      have h2 : c.writer.callWithDir logDir w
          = (Except.ok dir, (c.writer.callWithDir logDir w).2) := Prod.ext hdir rfl
      rw [h2]
    · rw [log_foldl_saveLog]
      simp [FileWriter.callWithDir]
    · rw [hperm.length_eq]
      rfl
    · intro e he
      rw [hperm.count_eq]
      exact List.count_eq_one_of_mem hnodup (List.mem_map_of_mem _ he)
  · intro c0
    cases c0 <;> rfl

/-- Witness of `SaveLogs_calls`: a collaborator whose `SaveLog` call always fails, reached
by the goroutines in the reverse of the source order. -/
theorem SaveLogs_calls_witness :
    clusterDeployments.length = 13 ∧ (clusterDeployments.map Prod.fst).Nodup ∧
    (∃ w1 calls,
      ClusterManager.SaveLogs (some (ClusterManager.New failingSaveLogClient)) List.reverse
          (some exampleCluster) (World.init ()) = (none, w1) ∧
      w1.log = (World.init ()).log ++ Call.WithDir logDir :: calls ∧
      calls.Perm (clusterDeployments.map (saveLogCall exampleCluster "./logs")) ∧
      calls.length = 13 ∧
      ∀ e ∈ clusterDeployments, calls.count (saveLogCall exampleCluster "./logs" e) = 1) ∧
    (∀ c0 : Option (ClusterManager Unit),
      ClusterManager.SaveLogs c0 List.reverse none (World.init ()) = (none, World.init ())) :=
  SaveLogs_calls (ClusterManager.New failingSaveLogClient) List.reverse exampleCluster
    (World.init ()) "./logs" (List.reverse_perm _) rfl

/-! ## Creation of the workload cluster -/

/-- The calls of `GenerateDeploymentFile`: calls of the provider or of the file writer. -/
theorem GenerateDeploymentFile_log {σ : Type} (c : ClusterManager σ)
    (bootstrapCluster workloadCluster : Cluster) (clusterSpec : Spec)
    (provider : ProviderActions σ) (isUpgrade : Bool) (w : World σ) :
    ∃ gen, (c.GenerateDeploymentFile bootstrapCluster workloadCluster clusterSpec provider
        isUpgrade w).2.log = w.log ++ gen ∧
      ∀ x ∈ gen, x.isFileGeneration = true := by
  unfold ClusterManager.GenerateDeploymentFile
  simp only
  split
  · split
    · exact ⟨[_], rfl, by simp [Call.isFileGeneration]⟩
    · exact ⟨[_], rfl, by simp [Call.isFileGeneration]⟩
  · split
    · exact ⟨[], by simp, by simp⟩
    · rename_i fileContent _
      have hlog : (c.writer.callWrite (clusterSpec.Name ++ "-eks-a-cluster.yaml") fileContent
          [] w).2.log = w.log ++ [Call.Write (clusterSpec.Name ++ "-eks-a-cluster.yaml")
            fileContent []] := rfl
      split
      · rename_i h
        rw [h] at hlog
        exact ⟨[_], hlog, by simp [Call.isFileGeneration]⟩
      · rename_i h
        rw [h] at hlog
        exact ⟨[_], hlog, by simp [Call.isFileGeneration]⟩

/-- The calls of the first part of `applyCluster`: the generation of the manifest file, then
`ApplyKubeSpecWithNamespace` calls on the management cluster and sleeps; when the part ends
with nil, its last call is an `ApplyKubeSpecWithNamespace` call that returned nil. -/
theorem applyManifest_log {σ : Type} (c : ClusterManager σ) (ext : Externals σ) (fuel : Nat)
    (managementCluster workloadCluster : Cluster) (clusterSpec : Spec)
    (provider : ProviderActions σ) (isUpgrade : Bool) (w : World σ)
    (res : Option Error × World σ)
    (h : c.applyManifest ext fuel managementCluster workloadCluster clusterSpec provider
      isUpgrade w = some res) :
    ∃ gen app, res.2.log = w.log ++ gen ++ app ∧
      (∀ x ∈ gen, x.isFileGeneration = true) ∧
      (∀ x ∈ app, (∃ file, x = Call.ApplyKubeSpecWithNamespace managementCluster file
          ext.EksaSystemNamespace) ∨ ∃ d, x = Call.Sleep d) ∧
      (res.1 = none → ∃ file tail w0,
        app = Call.ApplyKubeSpecWithNamespace managementCluster file ext.EksaSystemNamespace ::
          tail ∧
        c.clusterClient.callApplyKubeSpecWithNamespace managementCluster file
          ext.EksaSystemNamespace w0 = (none, (), res.2)) := by
  obtain ⟨gen, hgen, hall⟩ := GenerateDeploymentFile_log c managementCluster workloadCluster
    clusterSpec provider isUpgrade w
  unfold ClusterManager.applyManifest at h
  rcases hg : c.GenerateDeploymentFile managementCluster workloadCluster clusterSpec provider
    isUpgrade w with ⟨a, w1⟩
  rw [hg] at h hgen
  simp only at hgen
  cases a with
  | error err =>
    simp only [Option.some.injEq] at h
    subst h
    exact ⟨gen, [], by simpa using hgen, hall, by simp, by simp⟩
  | ok file =>
    simp only at h
    cases hr : c.Retrier.Retry fuel
        (fun _ w => c.clusterClient.callApplyKubeSpecWithNamespace managementCluster file
          ext.EksaSystemNamespace w) () w1 with
    | none => rw [hr] at h; simp at h
    | some r2 =>
      obtain ⟨e, u, w2⟩ := r2
      rw [hr] at h
      obtain ⟨tail, htail, hcalls⟩ := loop_log c.Retrier _
        (Call.ApplyKubeSpecWithNamespace managementCluster file ext.EksaSystemNamespace)
        (fun _ _ => rfl) _ fuel 0 () { w1 with retrierRuns := w1.retrierRuns + 1 } _ hr
      simp only at htail
      have hmem : ∀ x ∈ Call.ApplyKubeSpecWithNamespace managementCluster file
          ext.EksaSystemNamespace :: tail,
          (∃ file, x = Call.ApplyKubeSpecWithNamespace managementCluster file
            ext.EksaSystemNamespace) ∨ ∃ d, x = Call.Sleep d := by
        intro x hx
        rcases List.mem_cons.mp hx with hx | hx
        · exact Or.inl ⟨file, hx⟩
        · rcases hcalls x hx with hx | hx
          · exact Or.inl ⟨file, hx⟩
          · exact Or.inr hx
      cases e with
      | some err =>
        simp only [Option.some.injEq] at h
        subst h
        exact ⟨gen, _, by rw [htail, hgen], hall, hmem, by simp⟩
      | none =>
        simp only [Option.some.injEq] at h
        subst h
        refine ⟨gen, _, by rw [htail, hgen], hall, hmem, ?_⟩
        intro _
        obtain ⟨l0, w0, hlast⟩ := loop_success_last _ _ _ fuel 0 () _ u w2 hr
        exact ⟨file, tail, w0, rfl, hlast⟩

/-- The calls of the second part of `applyCluster`: the wait for external etcd, when the
spec configures it, then the wait for the control plane, each once, both with the timeout
"60m" and the name of the workload cluster. -/
theorem waitForPlanes_log {σ : Type} (c : ClusterManager σ)
    (managementCluster workloadCluster : Cluster) (clusterSpec : Spec) (w : World σ) :
    ∃ ext, (c.waitForPlanes managementCluster workloadCluster clusterSpec w).2.log
        = w.log ++ ext ∧
      (∀ x ∈ ext,
        x = Call.WaitForManagedExternalEtcdReady managementCluster "60m" workloadCluster.Name ∨
        x = Call.WaitForControlPlaneReady managementCluster "60m" workloadCluster.Name) ∧
      ((c.waitForPlanes managementCluster workloadCluster clusterSpec w).1 = none →
        ext = (if clusterSpec.Spec.ExternalEtcdConfiguration.isSome then
            [Call.WaitForManagedExternalEtcdReady managementCluster "60m"
              workloadCluster.Name]
          else []) ++
          [Call.WaitForControlPlaneReady managementCluster "60m" workloadCluster.Name]) := by
  have hcplog : ∀ w1 : World σ, (c.clusterClient.callWaitForControlPlaneReady managementCluster
      ctrlPlaneWaitStr workloadCluster.Name w1).2.log
      = w1.log ++ [Call.WaitForControlPlaneReady managementCluster "60m"
          workloadCluster.Name] := fun _ => rfl
  unfold ClusterManager.waitForPlanes
  simp only
  split
  · rename_i hetcd
    have hlog : (c.clusterClient.callWaitForManagedExternalEtcdReady managementCluster
        etcdWaitStr workloadCluster.Name w).2.log
        = w.log ++ [Call.WaitForManagedExternalEtcdReady managementCluster "60m"
          workloadCluster.Name] := rfl
    rcases he : c.clusterClient.callWaitForManagedExternalEtcdReady managementCluster
      etcdWaitStr workloadCluster.Name w with ⟨a, w1⟩
    rw [he] at hlog
    simp only at hlog
    cases a with
    | some err =>
      exact ⟨[Call.WaitForManagedExternalEtcdReady managementCluster "60m"
        workloadCluster.Name], hlog, by simp, by simp⟩
    | none =>
      simp only
      have hlog2 := hcplog w1
      rcases hc : c.clusterClient.callWaitForControlPlaneReady managementCluster
        ctrlPlaneWaitStr workloadCluster.Name w1 with ⟨b, w2⟩
      rw [hc] at hlog2
      simp only at hlog2
      refine ⟨[Call.WaitForManagedExternalEtcdReady managementCluster "60m"
          workloadCluster.Name,
        Call.WaitForControlPlaneReady managementCluster "60m" workloadCluster.Name],
        ?_, by simp, ?_⟩
      · cases b <;> simp [hlog2, hlog]
      · intro _
        simp [hetcd]
  · rename_i hetcd
    have hlog2 := hcplog w
    rcases hc : c.clusterClient.callWaitForControlPlaneReady managementCluster
      ctrlPlaneWaitStr workloadCluster.Name w with ⟨b, w2⟩
    rw [hc] at hlog2
    simp only at hlog2
    refine ⟨[Call.WaitForControlPlaneReady managementCluster "60m" workloadCluster.Name],
      ?_, by simp, ?_⟩
    · cases b <;> simp [hlog2]
    · intro _
      simp [hetcd]

/-- One attempt to fetch the kubeconfig: a `GetWorkloadKubeconfig` call for the workload
cluster on the management cluster, then only calls that rewrite or write the kubeconfig. -/
theorem kubeconfigAttempt_log {σ : Type} (c : ClusterManager σ)
    (managementCluster workloadCluster : Cluster) (provider : ProviderActions σ)
    (l : String) (w : World σ) :
    ∃ ext, (c.kubeconfigAttempt managementCluster workloadCluster provider l w).2.2.log
        = w.log ++ Call.GetWorkloadKubeconfig workloadCluster.Name managementCluster :: ext ∧
      ∀ x ∈ ext, x.isKubeconfigWrite = true := by
  unfold ClusterManager.kubeconfigAttempt ClusterManager.generateWorkloadKubeconfig
    ClusterClient.callGetWorkloadKubeconfig
  rcases c.clusterClient.GetWorkloadKubeconfig workloadCluster.Name managementCluster w.st
    with ⟨a, s1⟩
  cases a with
  | error err => exact ⟨[], rfl, by simp⟩
  | ok kubeconfig =>
    simp only [ProviderActions.callUpdateKubeConfig]
    rcases provider.UpdateKubeConfig kubeconfig workloadCluster.Name s1 with ⟨b, s2⟩
    cases b with
    | error err =>
      exact ⟨[Call.UpdateKubeConfig kubeconfig workloadCluster.Name], by simp,
        by simp [Call.isKubeconfigWrite]⟩
    | ok kubeconfig1 =>
      simp only [FileWriter.callWrite]
      rcases c.writer.Write (workloadCluster.Name ++ "-eks-a-cluster.kubeconfig") kubeconfig1
        ["PersistentFile", "Permission0600"] s2 with ⟨d, s3⟩
      cases d with
      | error err =>
        exact ⟨[Call.UpdateKubeConfig kubeconfig workloadCluster.Name,
          Call.Write (workloadCluster.Name ++ "-eks-a-cluster.kubeconfig") kubeconfig1
            ["PersistentFile", "Permission0600"]], by simp,
          by simp [Call.isKubeconfigWrite]⟩
      | ok path =>
        exact ⟨[Call.UpdateKubeConfig kubeconfig workloadCluster.Name,
          Call.Write (workloadCluster.Name ++ "-eks-a-cluster.kubeconfig") kubeconfig1
            ["PersistentFile", "Permission0600"]], by simp,
          by simp [Call.isKubeconfigWrite]⟩

/-- An attempt to fetch the kubeconfig that returns nil leaves, as the kubeconfig file of
the workload cluster, the path the file writer returned for the file
"<name>-eks-a-cluster.kubeconfig". -/
theorem kubeconfigAttempt_success {σ : Type} (c : ClusterManager σ)
    (managementCluster workloadCluster : Cluster) (provider : ProviderActions σ)
    (l l1 : String) (w w1 : World σ)
    (h : c.kubeconfigAttempt managementCluster workloadCluster provider l w
      = (none, l1, w1)) :
    ∃ content w0,
      c.writer.callWrite (workloadCluster.Name ++ "-eks-a-cluster.kubeconfig") content
        ["PersistentFile", "Permission0600"] w0 = (Except.ok l1, w1) := by
  unfold ClusterManager.kubeconfigAttempt ClusterManager.generateWorkloadKubeconfig at h
  simp only at h
  rcases hg : c.clusterClient.callGetWorkloadKubeconfig workloadCluster.Name managementCluster
    w with ⟨a, s1⟩
  rw [hg] at h
  cases a with
  | error err => simp at h
  | ok kubeconfig =>
    simp only at h
    rcases hu : provider.callUpdateKubeConfig kubeconfig workloadCluster.Name s1 with ⟨b, s2⟩
    rw [hu] at h
    cases b with
    | error err => simp at h
    | ok kubeconfig1 =>
      simp only at h
      rcases hw : c.writer.callWrite (workloadCluster.Name ++ "-eks-a-cluster.kubeconfig")
        kubeconfig1 ["PersistentFile", "Permission0600"] s2 with ⟨d, s3⟩
      rw [hw] at h
      cases d with
      | error err => simp at h
      | ok path =>
        simp only [Prod.mk.injEq, true_and] at h
        obtain ⟨h1, h2⟩ := h
        subst h1 h2
        exact ⟨kubeconfig1, s2, hw⟩

/-- The calls of the third part of `applyCluster`: none in an upgrade; otherwise a
`GetWorkloadKubeconfig` call first and then only such calls, calls that rewrite or write
the kubeconfig, and sleeps. When the part ends with nil outside an upgrade, the kubeconfig
file of the workload cluster is the path the file writer returned. -/
theorem fetchKubeconfig_log {σ : Type} (c : ClusterManager σ) (fuel : Nat)
    (managementCluster workloadCluster : Cluster) (provider : ProviderActions σ)
    (isUpgrade : Bool) (w : World σ) (res : Option Error × Cluster × World σ)
    (h : c.fetchKubeconfig fuel managementCluster workloadCluster provider isUpgrade w
      = some res) :
    ∃ ext, res.2.2.log = w.log ++ ext ∧ res.2.1.Name = workloadCluster.Name ∧
      (isUpgrade = true → ext = [] ∧ res.2.1 = workloadCluster) ∧
      (isUpgrade = false →
        (∃ tail,
          ext = Call.GetWorkloadKubeconfig workloadCluster.Name managementCluster :: tail ∧
          ∀ x ∈ tail,
            x = Call.GetWorkloadKubeconfig workloadCluster.Name managementCluster ∨
            x.isKubeconfigWrite = true ∨ ∃ d, x = Call.Sleep d) ∧
        (res.1 = none → ∃ content w0,
          c.writer.callWrite (workloadCluster.Name ++ "-eks-a-cluster.kubeconfig") content
            ["PersistentFile", "Permission0600"] w0
            = (Except.ok res.2.1.KubeconfigFile, res.2.2))) := by
  unfold ClusterManager.fetchKubeconfig at h
  cases isUpgrade with
  | true =>
    simp only [Bool.not_true, Bool.false_eq_true, if_false, Option.some.injEq] at h
    subst h
    exact ⟨[], by simp, rfl, fun _ => ⟨rfl, rfl⟩, by simp⟩
  | false =>
    simp only [Bool.not_false, if_true] at h
    cases hr : (c.Retrier.withLocals).Retry fuel
        (c.kubeconfigAttempt managementCluster workloadCluster provider)
        workloadCluster.KubeconfigFile w with
    | none => rw [hr] at h; simp at h
    | some r2 =>
      obtain ⟨e, path, w1⟩ := r2
      rw [hr] at h
      obtain ⟨tail, htail, hall⟩ := loop_log_first _ _ _ _
        (kubeconfigAttempt_log c managementCluster workloadCluster provider) _ fuel 0
        workloadCluster.KubeconfigFile { w with retrierRuns := w.retrierRuns + 1 } _ hr
      simp only at htail
      cases e with
      | some err =>
        simp only [Option.some.injEq] at h
        subst h
        exact ⟨_, htail, rfl, by simp, fun _ => ⟨⟨tail, rfl, hall⟩, by simp⟩⟩
      | none =>
        simp only [Option.some.injEq] at h
        subst h
        refine ⟨_, htail, rfl, by simp, fun _ => ⟨⟨tail, rfl, hall⟩, fun _ => ?_⟩⟩
        obtain ⟨l0, w0, hlast⟩ := loop_success_last _ _ _ fuel 0 _ _ path w1 hr
        exact kubeconfigAttempt_success c managementCluster workloadCluster provider l0 path
          w0 w1 hlast

/-- The calls of `waitForNodesReady`: a `GetMachines` query on its cluster first, then only
such queries and sleeps. -/
theorem waitForNodesReady_log_first {σ : Type} (c : ClusterManager σ) (fuel : Nat)
    (cluster : Cluster) (w : World σ) (res : Option Error × World σ)
    (h : c.waitForNodesReady fuel cluster w = some res) :
    ∃ tail, res.2.log = w.log ++ Call.GetMachines cluster :: tail ∧
      ∀ x ∈ tail, x = Call.GetMachines cluster ∨ ∃ d, x = Call.Sleep d := by
  have hlog := areNodesReady_log c cluster ⟨0, 0⟩ w
  unfold ClusterManager.waitForNodesReady at h
  rcases hf : c.areNodesReady cluster ⟨0, 0⟩ w with ⟨e, l1, w1⟩
  rw [hf] at h hlog
  simp only at hlog
  cases e with
  | none =>
    simp only [Option.some.injEq] at h
    subst h
    exact ⟨[], hlog, by simp⟩
  | some err =>
    simp only at h
    obtain ⟨_, ext, hext⟩ := retryNodesReady_result c fuel cluster l1 w1 res h
    obtain ⟨ext2, hext2, hall⟩ := waitForNodesReady_log c fuel cluster w res (by
      unfold ClusterManager.waitForNodesReady
      rw [hf]
      exact h)
    have : ext2 = Call.GetMachines cluster :: Call.GetMachines cluster :: ext := by
      have h3 : w.log ++ ext2 = w.log ++ (Call.GetMachines cluster ::
          Call.GetMachines cluster :: ext) := by
        rw [← hext2, hext, hlog]
        simp
      exact List.append_cancel_left h3
    subst this
    refine ⟨_, hext2, ?_⟩
    intro x hx
    exact hall x (List.mem_cons_of_mem _ hx)

/-- A call of the generation of the manifest file is no readiness poll. -/
theorem not_poll_of_fileGeneration (x : Call) (h : x.isFileGeneration = true) :
    x.isReadinessPoll = false := by
  cases x <;> simp [Call.isFileGeneration] at h <;> rfl

/-- The course of `applyCluster`: every run that returns went through the first part; when
that part returned an error the run ends there, otherwise its log continues with the waits
for the planes, the calls that fetch the kubeconfig, and the calls of the wait for the
nodes, each group complete before the next one begins. -/
theorem applyCluster_course {σ : Type} (c : ClusterManager σ) (ext : Externals σ) (fuel : Nat)
    (managementCluster workloadCluster : Cluster) (clusterSpec : Spec)
    (provider : ProviderActions σ) (isUpgrade : Bool) (w : World σ)
    (r : Option Error × Cluster × World σ)
    (h : c.applyCluster ext fuel managementCluster workloadCluster clusterSpec provider
      isUpgrade w = some r) :
    ∃ em w1, c.applyManifest ext fuel managementCluster workloadCluster clusterSpec provider
        isUpgrade w = some (em, w1) ∧
      ((em ≠ none ∧ r = (em, workloadCluster, w1)) ∨
        (em = none ∧ ∃ planes kube nodes,
          r.2.2.log = w1.log ++ planes ++ kube ++ nodes ∧
          (∀ x ∈ planes,
            x = Call.WaitForManagedExternalEtcdReady managementCluster "60m"
              workloadCluster.Name ∨
            x = Call.WaitForControlPlaneReady managementCluster "60m"
              workloadCluster.Name) ∧
          (kube ≠ [] ∨ nodes ≠ [] ∨ r.1 = none →
            planes = (if clusterSpec.Spec.ExternalEtcdConfiguration.isSome then
                [Call.WaitForManagedExternalEtcdReady managementCluster "60m"
                  workloadCluster.Name]
              else []) ++
              [Call.WaitForControlPlaneReady managementCluster "60m"
                workloadCluster.Name]) ∧
          (isUpgrade = true → kube = [] ∧ r.2.1 = workloadCluster) ∧
          (∀ x ∈ kube,
            x = Call.GetWorkloadKubeconfig workloadCluster.Name managementCluster ∨
            x.isKubeconfigWrite = true ∨ ∃ d, x = Call.Sleep d) ∧
          (isUpgrade = false → nodes ≠ [] ∨ r.1 = none → ∃ tail,
            kube = Call.GetWorkloadKubeconfig workloadCluster.Name managementCluster ::
              tail) ∧
          (∀ x ∈ nodes, x = Call.GetMachines managementCluster ∨ ∃ d, x = Call.Sleep d) ∧
          (r.1 = none → ∃ tail, nodes = Call.GetMachines managementCluster :: tail) ∧
          r.2.1.Name = workloadCluster.Name ∧
          (r.1 = none → isUpgrade = false → ∃ content w0 w5,
            c.writer.callWrite (workloadCluster.Name ++ "-eks-a-cluster.kubeconfig") content
              ["PersistentFile", "Permission0600"] w0
              = (Except.ok r.2.1.KubeconfigFile, w5)))) := by
  unfold ClusterManager.applyCluster at h
  cases hm : c.applyManifest ext fuel managementCluster workloadCluster clusterSpec provider
      isUpgrade w with
  | none => rw [hm] at h; simp at h
  | some rm =>
    obtain ⟨em, w1⟩ := rm
    rw [hm] at h
    refine ⟨em, w1, rfl, ?_⟩
    cases em with
    | some err =>
      simp only [Option.some.injEq] at h
      subst h
      exact Or.inl ⟨by simp, rfl⟩
    | none =>
      simp only at h
      refine Or.inr ⟨rfl, ?_⟩
      obtain ⟨planes, hplanes, hpall, hpok⟩ :=
        waitForPlanes_log c managementCluster workloadCluster clusterSpec w1
      rcases hp : c.waitForPlanes managementCluster workloadCluster clusterSpec w1
        with ⟨ep, w2⟩
      rw [hp] at h hplanes hpok
      simp only at hplanes hpok
      cases ep with
      | some err =>
        simp only [Option.some.injEq] at h
        subst h
        exact ⟨planes, [], [], by simpa using hplanes, hpall, by simp, by simp, by simp,
          by simp, by simp, by simp, rfl, by simp⟩
      | none =>
        simp only at h
        have hpl := hpok rfl
        cases hk : c.fetchKubeconfig fuel managementCluster workloadCluster provider isUpgrade
            w2 with
        | none => rw [hk] at h; simp at h
        | some rk =>
          obtain ⟨ek, wl1, w3⟩ := rk
          rw [hk] at h
          obtain ⟨kube, hkube, hname, hup, hcreate⟩ :=
            fetchKubeconfig_log c fuel managementCluster workloadCluster provider isUpgrade
              w2 _ hk
          simp only at hkube hname hup hcreate
          have hkall : ∀ x ∈ kube,
              x = Call.GetWorkloadKubeconfig workloadCluster.Name managementCluster ∨
              x.isKubeconfigWrite = true ∨ ∃ d, x = Call.Sleep d := by
            cases isUpgrade with
            | true => simp [(hup rfl).1]
            | false =>
              obtain ⟨⟨tail, ht, hall⟩, _⟩ := hcreate rfl
              intro x hx
              rw [ht] at hx
              rcases List.mem_cons.mp hx with hx | hx
              · exact Or.inl hx
              · exact hall x hx
          cases ek with
          | some err =>
            simp only [Option.some.injEq] at h
            subst h
            refine ⟨planes, kube, [], by rw [hkube, hplanes]; simp, hpall, fun _ => hpl,
              fun hu => ⟨(hup hu).1, (hup hu).2⟩, hkall, by simp, by simp, by simp, hname,
              by simp⟩
          | none =>
            simp only at h
            cases hn : c.waitForNodesReady fuel managementCluster w3 with
            | none => rw [hn] at h; simp at h
            | some rn =>
              obtain ⟨en, w4⟩ := rn
              rw [hn] at h
              obtain ⟨ntail, hnodes, hnall⟩ :=
                waitForNodesReady_log_first c fuel managementCluster w3 _ hn
              simp only at hnodes
              have hnall2 : ∀ x ∈ Call.GetMachines managementCluster :: ntail,
                  x = Call.GetMachines managementCluster ∨ ∃ d, x = Call.Sleep d := by
                intro x hx
                rcases List.mem_cons.mp hx with hx | hx
                · exact Or.inl hx
                · exact hnall x hx
              have hres : r.2.2 = w4 ∧ r.2.1 = wl1 := by
                cases en with
                | some err => simp only [Option.some.injEq] at h; subst h; simp
                | none => simp only [Option.some.injEq] at h; subst h; simp
              obtain ⟨hr1, hr2⟩ := hres
              refine ⟨planes, kube, Call.GetMachines managementCluster :: ntail,
                by rw [hr1, hnodes, hkube, hplanes], hpall, fun _ => hpl,
                fun hu => ⟨(hup hu).1, by rw [hr2]; exact (hup hu).2⟩, hkall,
                fun hc _ => ((hcreate hc).1).imp fun tail ht => ht.1, hnall2,
                fun _ => ⟨ntail, rfl⟩, by rw [hr2]; exact hname, ?_⟩
              intro _ hc
              obtain ⟨content, w0, hw⟩ := (hcreate hc).2 rfl
              exact ⟨content, w0, w3, by rw [hr2]; exact hw⟩

/-- C24: in `applyCluster`, for create and for upgrade, every readiness poll of a run comes
after an `ApplyKubeSpecWithNamespace` call that returned nil: the log of a run that returns
splits into a part without any poll, which ends with that call whenever something follows,
and the rest. When the Retry of the apply gives up, `applyCluster` returns the error
"error applying workload spec: ..." and its log holds no poll at all. A run that returns nil
has made its calls in the order: generation of the manifest file, apply (with its retries),
the wait for external etcd if and only if the spec configures external etcd, the wait for
the control plane, both with timeout "60m" and the name of the workload cluster, the calls
that fetch the workload kubeconfig if and only if this is not an upgrade, and the machine
queries of the wait for the nodes. -/
theorem applyCluster_order {σ : Type} (c : ClusterManager σ) (ext : Externals σ) (fuel : Nat)
    (managementCluster workloadCluster : Cluster) (clusterSpec : Spec)
    (provider : ProviderActions σ) (isUpgrade : Bool) (w : World σ) :
    (∀ r, c.applyCluster ext fuel managementCluster workloadCluster clusterSpec provider
        isUpgrade w = some r →
      ∃ pre post, r.2.2.log = w.log ++ pre ++ post ∧
        (∀ x ∈ pre, x.isReadinessPoll = false) ∧
        (post ≠ [] → ∃ file w0 w1,
          c.clusterClient.callApplyKubeSpecWithNamespace managementCluster file
            ext.EksaSystemNamespace w0 = (none, (), w1) ∧
          w1.log = w.log ++ pre)) ∧
    (∀ file wG e wA,
      c.GenerateDeploymentFile managementCluster workloadCluster clusterSpec provider
        isUpgrade w = (Except.ok file, wG) →
      c.Retrier.Retry fuel
        (fun _ w => c.clusterClient.callApplyKubeSpecWithNamespace managementCluster file
          ext.EksaSystemNamespace w) () wG = some (some e, (), wA) →
      c.applyCluster ext fuel managementCluster workloadCluster clusterSpec provider
          isUpgrade w
        = some (some ("error applying workload spec: " ++ e), workloadCluster, wA) ∧
      ∃ pre, wA.log = w.log ++ pre ∧ ∀ x ∈ pre, x.isReadinessPoll = false) ∧
    (∀ wl1 wf, c.applyCluster ext fuel managementCluster workloadCluster clusterSpec provider
        isUpgrade w = some (none, wl1, wf) →
      ∃ gen file app kube nodes,
        wf.log = w.log ++ gen ++
          Call.ApplyKubeSpecWithNamespace managementCluster file ext.EksaSystemNamespace ::
            app ++
          (if clusterSpec.Spec.ExternalEtcdConfiguration.isSome then
            [Call.WaitForManagedExternalEtcdReady managementCluster "60m"
              workloadCluster.Name]
          else []) ++
          [Call.WaitForControlPlaneReady managementCluster "60m" workloadCluster.Name] ++
          kube ++ Call.GetMachines managementCluster :: nodes ∧
        (∀ x ∈ gen, x.isFileGeneration = true) ∧
        (∀ x ∈ app, (∃ f, x = Call.ApplyKubeSpecWithNamespace managementCluster f
          ext.EksaSystemNamespace) ∨ ∃ d, x = Call.Sleep d) ∧
        (isUpgrade = true → kube = []) ∧
        (isUpgrade = false → ∃ tail,
          kube = Call.GetWorkloadKubeconfig workloadCluster.Name managementCluster :: tail) ∧
        (∀ x ∈ kube,
          x = Call.GetWorkloadKubeconfig workloadCluster.Name managementCluster ∨
          x.isKubeconfigWrite = true ∨ ∃ d, x = Call.Sleep d) ∧
        (∀ x ∈ nodes, x = Call.GetMachines managementCluster ∨ ∃ d, x = Call.Sleep d)) := by
  have hpre : ∀ gen app : List Call, (∀ x ∈ gen, x.isFileGeneration = true) →
      (∀ x ∈ app, (∃ f, x = Call.ApplyKubeSpecWithNamespace managementCluster f
        ext.EksaSystemNamespace) ∨ ∃ d, x = Call.Sleep d) →
      ∀ x ∈ gen ++ app, x.isReadinessPoll = false := by
    intro gen app hgen happ x hx
    rcases List.mem_append.mp hx with hx | hx
    · exact not_poll_of_fileGeneration x (hgen x hx)
    · rcases happ x hx with ⟨f, hf⟩ | ⟨d, hd⟩
      · rw [hf]; rfl
      · rw [hd]; rfl
  refine ⟨?_, ?_, ?_⟩
  · intro r h
    obtain ⟨em, w1, hm, hcases⟩ := applyCluster_course c ext fuel managementCluster
      workloadCluster clusterSpec provider isUpgrade w r h
    obtain ⟨gen, app, hlog, hgen, happ, hok⟩ := applyManifest_log c ext fuel managementCluster
      workloadCluster clusterSpec provider isUpgrade w _ hm
    simp only at hlog hok
    rcases hcases with ⟨_, hr⟩ | ⟨hem, planes, kube, nodes, hrlog, _⟩
    · subst hr
      exact ⟨gen ++ app, [], by simpa using hlog, hpre gen app hgen happ, by simp⟩
    · obtain ⟨file, tail, w0, _, hlast⟩ := hok hem
      refine ⟨gen ++ app, planes ++ kube ++ nodes, by rw [hrlog, hlog]; simp,
        hpre gen app hgen happ, fun _ => ⟨file, w0, w1, hlast, by rw [hlog]; simp⟩⟩
  · intro file wG e wA hg hretry
    have hm : c.applyManifest ext fuel managementCluster workloadCluster clusterSpec provider
        isUpgrade w = some (some ("error applying workload spec: " ++ e), wA) := by
      unfold ClusterManager.applyManifest
      rw [hg]
      simp only
      rw [hretry]
    obtain ⟨gen, app, hlog, hgen, happ, _⟩ := applyManifest_log c ext fuel managementCluster
      workloadCluster clusterSpec provider isUpgrade w _ hm
    refine ⟨?_, gen ++ app, by simpa using hlog, hpre gen app hgen happ⟩
    unfold ClusterManager.applyCluster
    rw [hm]
  · intro wl1 wf h
    obtain ⟨em, w1, hm, hcases⟩ := applyCluster_course c ext fuel managementCluster
      workloadCluster clusterSpec provider isUpgrade w _ h
    obtain ⟨gen, app, hlog, hgen, happ, hok⟩ := applyManifest_log c ext fuel managementCluster
      workloadCluster clusterSpec provider isUpgrade w _ hm
    simp only at hlog hok
    rcases hcases with ⟨hne, hr⟩ | ⟨hem, planes, kube, nodes, hrlog, _, hplanes, hup, hkall,
      hcreate, hnall, hnodes, _, _⟩
    · simp only [Prod.mk.injEq] at hr
      exact absurd hr.1.symm hne
    · simp only at hrlog hplanes hup hcreate hnodes
      obtain ⟨file, tail, w0, happeq, _⟩ := hok hem
      obtain ⟨ntail, hntail⟩ := hnodes trivial
      subst happeq hntail
      refine ⟨gen, file, tail, kube, ntail, ?_, hgen,
        fun x hx => happ x (List.mem_cons_of_mem _ hx), fun hu => (hup hu).1,
        fun hc => hcreate hc (Or.inr trivial), hkall,
        fun x hx => hnall x (List.mem_cons_of_mem _ hx)⟩
      rw [hrlog, hlog, hplanes (Or.inr (Or.inr trivial))]
      simp

/-- Witness of `applyCluster_order`: a create against `okClient`, which returns nil, and a
create against `failingApplyClient`, where the Retry of the apply gives up after 30
attempts. -/
theorem applyCluster_order_witness :
    (∃ pre post, appliedRun.2.2.log = (World.init ()).log ++ pre ++ post ∧
      (∀ x ∈ pre, x.isReadinessPoll = false) ∧
      (post ≠ [] → ∃ file w0 w1,
        (ClusterManager.New okClient).clusterClient.callApplyKubeSpecWithNamespace
          exampleCluster file okExternals.EksaSystemNamespace w0 = (none, (), w1) ∧
        w1.log = (World.init ()).log ++ pre)) ∧
    ((ClusterManager.New failingApplyClient).applyCluster okExternals 30 exampleCluster
        newWorkload namedSpec okProvider false (World.init ())
      = some (some ("error applying workload spec: " ++ exhaustionError "webhook not ready"),
          newWorkload, applyExhaustedWorld) ∧
      ∃ pre, applyExhaustedWorld.log = (World.init ()).log ++ pre ∧
        ∀ x ∈ pre, x.isReadinessPoll = false) ∧
    (∃ gen file app kube nodes,
      appliedRun.2.2.log = (World.init ()).log ++ gen ++
        Call.ApplyKubeSpecWithNamespace exampleCluster file okExternals.EksaSystemNamespace ::
          app ++
        (if namedSpec.Spec.ExternalEtcdConfiguration.isSome then
          [Call.WaitForManagedExternalEtcdReady exampleCluster "60m" newWorkload.Name]
        else []) ++
        [Call.WaitForControlPlaneReady exampleCluster "60m" newWorkload.Name] ++
        kube ++ Call.GetMachines exampleCluster :: nodes ∧
      (∀ x ∈ gen, x.isFileGeneration = true) ∧
      (∀ x ∈ app, (∃ f, x = Call.ApplyKubeSpecWithNamespace exampleCluster f
        okExternals.EksaSystemNamespace) ∨ ∃ d, x = Call.Sleep d) ∧
      (false = true → kube = []) ∧
      (false = false → ∃ tail,
        kube = Call.GetWorkloadKubeconfig newWorkload.Name exampleCluster :: tail) ∧
      (∀ x ∈ kube,
        x = Call.GetWorkloadKubeconfig newWorkload.Name exampleCluster ∨
        x.isKubeconfigWrite = true ∨ ∃ d, x = Call.Sleep d) ∧
      (∀ x ∈ nodes, x = Call.GetMachines exampleCluster ∨ ∃ d, x = Call.Sleep d)) :=
  ⟨(applyCluster_order (ClusterManager.New okClient) okExternals 1 exampleCluster newWorkload
      namedSpec okProvider false (World.init ())).1 appliedRun (by decide),
    (applyCluster_order (ClusterManager.New failingApplyClient) okExternals 30 exampleCluster
      newWorkload namedSpec okProvider false (World.init ())).2.1
      "generated/mgmt-eks-a-cluster.yaml" generatedWorld
      (exhaustionError "webhook not ready") applyExhaustedWorld rfl (by decide),
    (applyCluster_order (ClusterManager.New okClient) okExternals 1 exampleCluster newWorkload
      namedSpec okProvider false (World.init ())).2.2 appliedRun.2.1 appliedRun.2.2
      (by decide)⟩

/-- The create against `okClient` and `okProvider`, evaluated: the calls in order. -/
theorem applyCluster_create_calls :
    appliedRun.1 = none ∧
    appliedRun.2.1 = { Name := "mgmt", KubeconfigFile := "./mgmt-eks-a-cluster.kubeconfig" } ∧
    appliedRun.2.2.log
      = [Call.GenerateDeploymentFileForCreate newWorkload namedSpec "mgmt-eks-a-cluster.yaml",
         Call.ApplyKubeSpecWithNamespace exampleCluster "generated/mgmt-eks-a-cluster.yaml"
           "eksa-system",
         Call.WaitForManagedExternalEtcdReady exampleCluster "60m" "mgmt",
         Call.WaitForControlPlaneReady exampleCluster "60m" "mgmt",
         Call.GetWorkloadKubeconfig "mgmt" exampleCluster,
         Call.UpdateKubeConfig "" "mgmt",
         Call.Write "mgmt-eks-a-cluster.kubeconfig" "" ["PersistentFile", "Permission0600"],
         Call.GetMachines exampleCluster] := by
  decide

/-- C23: for every `CreateWorkloadCluster` that returns: the returned cluster is nil exactly
when the returned error is not nil; a returned cluster has the name of the management
cluster and, as kubeconfig file, the path the file writer returned for the file
"<name>-eks-a-cluster.kubeconfig" with that name; and the log splits into a part without any
`GetWorkloadKubeconfig` call and the rest, where the rest, when there is one, comes after an
`ApplyKubeSpecWithNamespace` call and directly after the `WaitForControlPlaneReady` call,
and starts, in a run that succeeds, with the `GetWorkloadKubeconfig` call. -/
theorem CreateWorkloadCluster_result {σ : Type} (c : ClusterManager σ) (ext : Externals σ)
    (fuel : Nat) (managementCluster : Cluster) (clusterSpec : Spec)
    (provider : ProviderActions σ) (w : World σ)
    (r : (Option Cluster × Option Error) × World σ)
    (h : c.CreateWorkloadCluster ext fuel managementCluster clusterSpec provider w = some r) :
    (r.1.1 = none ↔ r.1.2 ≠ none) ∧
    (∀ wc, r.1.1 = some wc →
      wc.Name = managementCluster.Name ∧
      ∃ content w0 w5,
        c.writer.callWrite (managementCluster.Name ++ "-eks-a-cluster.kubeconfig") content
          ["PersistentFile", "Permission0600"] w0 = (Except.ok wc.KubeconfigFile, w5)) ∧
    (∃ before after, r.2.log = w.log ++ before ++ after ∧
      (∀ x ∈ before, ∀ n cl, x ≠ Call.GetWorkloadKubeconfig n cl) ∧
      (after ≠ [] →
        (∃ file, Call.ApplyKubeSpecWithNamespace managementCluster file
          ext.EksaSystemNamespace ∈ before) ∧
        ∃ b0, before = b0 ++
          [Call.WaitForControlPlaneReady managementCluster "60m" managementCluster.Name]) ∧
      (r.1.2 = none → ∃ tail,
        after = Call.GetWorkloadKubeconfig managementCluster.Name managementCluster ::
          tail)) := by
  unfold ClusterManager.CreateWorkloadCluster at h
  simp only at h
  cases ha : c.applyCluster ext fuel managementCluster
      { Name := managementCluster.Name, KubeconfigFile := "" } clusterSpec provider false w with
  | none => rw [ha] at h; simp at h
  | some ra =>
    rw [ha] at h
    obtain ⟨em, w1, hm, hcases⟩ := applyCluster_course c ext fuel managementCluster _
      clusterSpec provider false w ra ha
    obtain ⟨gen, app, hlog, hgen, happ, hok⟩ := applyManifest_log c ext fuel managementCluster
      _ clusterSpec provider false w _ hm
    simp only at hlog hok
    have hnofetch : ∀ planes : List Call,
        (∀ x ∈ planes,
          x = Call.WaitForManagedExternalEtcdReady managementCluster "60m"
            managementCluster.Name ∨
          x = Call.WaitForControlPlaneReady managementCluster "60m"
            managementCluster.Name) →
        ∀ x ∈ gen ++ app ++ planes, ∀ n cl, x ≠ Call.GetWorkloadKubeconfig n cl := by
      intro planes hp x hx n cl hxe
      subst hxe
      simp only [List.mem_append] at hx
      rcases hx with (hx | hx) | hx
      · have := hgen _ hx
        simp [Call.isFileGeneration] at this
      · rcases happ _ hx with ⟨f, hf⟩ | ⟨d, hd⟩
        · cases hf
        · cases hd
      · rcases hp _ hx with hx | hx <;> cases hx
    rcases hcases with ⟨hne, hr⟩ | ⟨hem, planes, kube, nodes, hrlog, hpall, hplanes, _, _,
      hcreate, _, _, hname, hwrite⟩
    · subst hr
      cases em with
      | none => exact absurd rfl hne
      | some err =>
        simp only [Option.some.injEq] at h
        subst h
        refine ⟨by simp, by simp, gen ++ app, [], by simpa using hlog, ?_, by simp, by simp⟩
        intro x hx
        exact hnofetch [] (by simp) x (by simpa using hx)
    · obtain ⟨ea, wl1, w4⟩ := ra
      simp only at hrlog hplanes hcreate hname hwrite
      obtain ⟨file, tail, w0, happeq, _⟩ := hok hem
      have hbefore : (kube ++ nodes ≠ [] ∨ ea = none) →
          (∃ file, Call.ApplyKubeSpecWithNamespace managementCluster file
            ext.EksaSystemNamespace ∈ gen ++ app ++ planes) ∧
          ∃ b0, gen ++ app ++ planes = b0 ++
            [Call.WaitForControlPlaneReady managementCluster "60m"
              managementCluster.Name] := by
        intro hcond
        have hpl := hplanes (by
          rcases hcond with hcond | hcond
          · by_cases hk : kube = []
            · right; left
              intro hn
              exact hcond (by simp [hk, hn])
            · exact Or.inl hk
          · exact Or.inr (Or.inr hcond))
        refine ⟨⟨file, by simp [happeq]⟩, ?_⟩
        rw [hpl]
        exact ⟨gen ++ app ++ (if clusterSpec.Spec.ExternalEtcdConfiguration.isSome then
          [Call.WaitForManagedExternalEtcdReady managementCluster "60m"
            managementCluster.Name] else []), by simp⟩
      cases ea with
      | some err =>
        simp only [Option.some.injEq] at h
        subst h
        refine ⟨by simp, by simp, gen ++ app ++ planes, kube ++ nodes,
          by rw [hrlog, hlog]; simp, hnofetch planes hpall, ?_, by simp⟩
        intro hne
        exact hbefore (Or.inl hne)
      | none =>
        simp only at h
        obtain ⟨ktail, hktail⟩ := hcreate (by trivial) (Or.inr rfl)
        obtain ⟨content, w0, w5, hw⟩ := hwrite (by trivial) (by trivial)
        have hb := hbefore (Or.inr rfl)
        have hxlog : (ext.callApplyExtraObjects wl1 clusterSpec w4).2.log
            = w4.log ++ [Call.ApplyExtraObjects wl1 clusterSpec] := rfl
        rcases hx : ext.callApplyExtraObjects wl1 clusterSpec w4 with ⟨ex, w6⟩
        rw [hx] at h hxlog
        simp only at hxlog
        cases ex with
        | some err =>
          simp only [Option.some.injEq] at h
          subst h
          refine ⟨by simp, by simp, gen ++ app ++ planes,
            kube ++ nodes ++ [Call.ApplyExtraObjects wl1 clusterSpec],
            by rw [hxlog, hrlog, hlog]; simp, hnofetch planes hpall, fun _ => hb, by simp⟩
        | none =>
          simp only [Option.some.injEq] at h
          subst h
          refine ⟨by simp, ?_, gen ++ app ++ planes,
            kube ++ nodes ++ [Call.ApplyExtraObjects wl1 clusterSpec],
            by rw [hxlog, hrlog, hlog]; simp, hnofetch planes hpall, fun _ => hb, ?_⟩
          · intro wc hwc
            simp only [Option.some.injEq] at hwc
            subst hwc
            exact ⟨hname, content, w0, w5, hw⟩
          · intro _
            exact ⟨ktail ++ nodes ++ [Call.ApplyExtraObjects wl1 clusterSpec],
              by rw [hktail]; simp⟩

/-- Witness of `CreateWorkloadCluster_result`: the create against `okClient` and
`okProvider`, which returns the cluster `mgmt` with the kubeconfig file the writer
returned. -/
theorem CreateWorkloadCluster_result_witness :
    createdRun.1 = (some { Name := "mgmt", KubeconfigFile := "./mgmt-eks-a-cluster.kubeconfig" },
      none) ∧
    (createdRun.1.1 = none ↔ createdRun.1.2 ≠ none) ∧
    (∀ wc, createdRun.1.1 = some wc →
      wc.Name = exampleCluster.Name ∧
      ∃ content w0 w5,
        (ClusterManager.New okClient).writer.callWrite
          (exampleCluster.Name ++ "-eks-a-cluster.kubeconfig") content
          ["PersistentFile", "Permission0600"] w0 = (Except.ok wc.KubeconfigFile, w5)) ∧
    (∃ before after, createdRun.2.log = (World.init ()).log ++ before ++ after ∧
      (∀ x ∈ before, ∀ n cl, x ≠ Call.GetWorkloadKubeconfig n cl) ∧
      (after ≠ [] →
        (∃ file, Call.ApplyKubeSpecWithNamespace exampleCluster file
          okExternals.EksaSystemNamespace ∈ before) ∧
        ∃ b0, before = b0 ++
          [Call.WaitForControlPlaneReady exampleCluster "60m" exampleCluster.Name]) ∧
      (createdRun.1.2 = none → ∃ tail,
        after = Call.GetWorkloadKubeconfig exampleCluster.Name exampleCluster :: tail)) :=
  ⟨by decide,
    CreateWorkloadCluster_result (ClusterManager.New okClient) okExternals 1 exampleCluster
      namedSpec okProvider (World.init ()) createdRun (by decide)⟩

/-! ## Comparison of the stored and the new cluster spec -/

/-- The map that `EKSAClusterSpecChanged` builds from machine configs that are all vSphere
machine configs. -/
theorem buildMachineConfigMap_vsphere (configs : List VSphereMachineConfig) :
    ∀ acc, buildMachineConfigMap (asMachineConfigs configs) acc
      = Except.ok (configs.foldl (fun m mc => (mc.Name, mc) :: m) acc) := by
  induction configs with
  | nil => intro acc; rfl
  | cons mc rest ih =>
    intro acc
    simp only [asMachineConfigs, List.map_cons, buildMachineConfigMap,
      MachineConfig.assertVSphere, List.foldl_cons]
    exact ih _

/-- A run that fails fast after calls that are no failed fetch fails fast as a whole. -/
theorem FailsFast.prepend {σ : Type} (ccAns : Except Error EksaCluster)
    (dcAns : String → Except Error VSphereDatacenterConfig)
    (mcAns : String → Except Error VSphereMachineConfig) (w w1 : World σ)
    (r : Changed × World σ) (pre0 : List Call) (hlog : w1.log = w.log ++ pre0)
    (hgood : ∀ x ∈ pre0, fetchError ccAns dcAns mcAns x = none)
    (h : FailsFast ccAns dcAns mcAns w1 r) : FailsFast ccAns dcAns mcAns w r := by
  obtain ⟨ext, hext, hcases⟩ := h
  refine ⟨pre0 ++ ext, by rw [hext, hlog]; simp, ?_⟩
  rcases hcases with hall | ⟨pre, x, e, h1, h2, h3, h4⟩
  · left
    intro x hx
    rcases List.mem_append.mp hx with hx | hx
    · exact hgood x hx
    · exact hall x hx
  · right
    refine ⟨pre0 ++ pre, x, e, by rw [h1]; simp, ?_, h3, h4⟩
    intro y hy
    rcases List.mem_append.mp hy with hy | hy
    · exact hgood y hy
    · exact h2 y hy

/-- A run that made no call fails fast. -/
theorem FailsFast.refl {σ : Type} (ccAns : Except Error EksaCluster)
    (dcAns : String → Except Error VSphereDatacenterConfig)
    (mcAns : String → Except Error VSphereMachineConfig) (w : World σ) (a : Changed) :
    FailsFast ccAns dcAns mcAns w (a, w) :=
  ⟨[], by simp, Or.inl (by simp)⟩

/-- In a run that fails fast, every failed fetch gives the result (false, err). -/
theorem FailsFast.result {σ : Type} (ccAns : Except Error EksaCluster)
    (dcAns : String → Except Error VSphereDatacenterConfig)
    (mcAns : String → Except Error VSphereMachineConfig) (w : World σ)
    (r : Changed × World σ) (h : FailsFast ccAns dcAns mcAns w r) :
    ∃ ext, r.2.log = w.log ++ ext ∧
      ∀ x ∈ ext, ∀ e, fetchError ccAns dcAns mcAns x = some e →
        r.1 = Except.ok (false, some e) ∧ ∃ pre, ext = pre ++ [x] := by
  obtain ⟨ext, hext, hcases⟩ := h
  refine ⟨ext, hext, ?_⟩
  intro x hx e he
  rcases hcases with hall | ⟨pre, x0, e0, h1, h2, h3, h4⟩
  · rw [hall x hx] at he
    cases he
  · rw [h1] at hx
    rcases List.mem_append.mp hx with hx | hx
    · rw [h2 x hx] at he
      cases he
    · simp only [List.mem_singleton] at hx
      subst hx
      rw [h3] at he
      cases he
      exact ⟨h4, pre, h1⟩

/-- The comparison of one machine config fails fast when what follows it does. -/
theorem compareMachineConfig_failsFast {σ : Type} (c : ClusterManager σ) (cluster : Cluster)
    (ccAns : Except Error EksaCluster)
    (dcAns : String → Except Error VSphereDatacenterConfig)
    (mcAns : String → Except Error VSphereMachineConfig)
    (hmc : ∀ name s, (c.clusterClient.GetEksaVSphereMachineConfig name cluster.KubeconfigFile
      s).1 = mcAns name)
    (machineConfigMap : List (String × VSphereMachineConfig))
    (existingName newName : Except String String) (k : World σ → Changed × World σ)
    (hk : ∀ w1, FailsFast ccAns dcAns mcAns w1 (k w1)) (w : World σ) :
    FailsFast ccAns dcAns mcAns w
      (c.compareMachineConfig cluster machineConfigMap existingName newName k w) := by
  unfold ClusterManager.compareMachineConfig
  cases existingName with
  | error p => exact FailsFast.refl _ _ _ w _
  | ok name =>
    simp only
    have hans : (c.clusterClient.callGetEksaVSphereMachineConfig name cluster.KubeconfigFile
        w).1 = mcAns name := hmc name w.st
    have hlog : (c.clusterClient.callGetEksaVSphereMachineConfig name cluster.KubeconfigFile
        w).2.log = w.log ++ [Call.GetEksaVSphereMachineConfig name cluster.KubeconfigFile] :=
      rfl
    rcases hcall : c.clusterClient.callGetEksaVSphereMachineConfig name
      cluster.KubeconfigFile w with ⟨a, w1⟩
    rw [hcall] at hans hlog
    simp only at hans hlog
    cases a with
    | error err =>
      exact ⟨_, hlog, Or.inr ⟨[], _, err, rfl, by simp, by simp [fetchError, ← hans], rfl⟩⟩
    | ok existingVmc =>
      have hgood : ∀ x ∈ [Call.GetEksaVSphereMachineConfig name cluster.KubeconfigFile],
          fetchError ccAns dcAns mcAns x = none := by
        intro x hx
        simp only [List.mem_singleton] at hx
        subst hx
        simp [fetchError, ← hans]
      simp only
      split
      · exact ⟨_, hlog, Or.inl hgood⟩
      · split
        · exact ⟨_, hlog, Or.inl hgood⟩
        · exact FailsFast.prepend _ _ _ w w1 _ _ hlog hgood (hk w1)

/-- The comparison of one machine config, for a collaborator that has a machine config
stored under every name, ends with (false, nil) exactly when the reference is set in the
stored spec and in the new spec, a machine config is supplied under the new name with the
spec of the stored one, and what follows ends with (false, nil). -/
theorem compareMachineConfig_unchanged {σ : Type} (c : ClusterManager σ) (cluster : Cluster)
    (mcOf : String → VSphereMachineConfig)
    (hmc : ∀ name s, (c.clusterClient.GetEksaVSphereMachineConfig name cluster.KubeconfigFile
      s).1 = Except.ok (mcOf name))
    (machineConfigMap : List (String × VSphereMachineConfig))
    (existingName newName : Except String String) (k : World σ → Changed × World σ)
    (K : Prop) (hk : ∀ w1, (k w1).1 = Except.ok (false, none) ↔ K) (w : World σ) :
    (c.compareMachineConfig cluster machineConfigMap existingName newName k w).1
        = Except.ok (false, none)
      ↔ (∃ name n vmc, existingName = Except.ok name ∧ newName = Except.ok n ∧
          machineConfigMap.lookup n = some vmc ∧ (mcOf name).Spec = vmc.Spec) ∧ K := by
  unfold ClusterManager.compareMachineConfig
  cases existingName with
  | error p => simp
  | ok name =>
    simp only
    have hans : (c.clusterClient.callGetEksaVSphereMachineConfig name cluster.KubeconfigFile
        w).1 = Except.ok (mcOf name) := hmc name w.st
    rcases hcall : c.clusterClient.callGetEksaVSphereMachineConfig name
      cluster.KubeconfigFile w with ⟨a, w1⟩
    rw [hcall] at hans
    simp only at hans
    subst hans
    simp only
    cases newName with
    | error p => simp [Except.bind]
    | ok n =>
      cases hl : machineConfigMap.lookup n with
      | none => simp [Except.bind, deref, hl]
      | some vmc =>
        by_cases hs : (mcOf name).Spec = vmc.Spec
        · simp [Except.bind, deref, hl, hs, hk]
        · simp [Except.bind, deref, hl, hs]

/-- The comparison of one machine config returns, for a collaborator that has a machine
config stored under every name, when the reference is set in both specs, a machine config
is supplied under the new name, and what follows returns. -/
theorem compareMachineConfig_returns {σ : Type} (c : ClusterManager σ) (cluster : Cluster)
    (mcOf : String → VSphereMachineConfig)
    (hmc : ∀ name s, (c.clusterClient.GetEksaVSphereMachineConfig name cluster.KubeconfigFile
      s).1 = Except.ok (mcOf name))
    (machineConfigMap : List (String × VSphereMachineConfig))
    (name n : String) (vmc : VSphereMachineConfig)
    (hl : machineConfigMap.lookup n = some vmc) (k : World σ → Changed × World σ)
    (hk : ∀ w1, ∃ b, (k w1).1 = Except.ok (b, none)) (w : World σ) :
    ∃ b, (c.compareMachineConfig cluster machineConfigMap (Except.ok name) (Except.ok n) k
      w).1 = Except.ok (b, none) := by
  unfold ClusterManager.compareMachineConfig
  simp only
  have hans : (c.clusterClient.callGetEksaVSphereMachineConfig name cluster.KubeconfigFile
      w).1 = Except.ok (mcOf name) := hmc name w.st
  rcases hcall : c.clusterClient.callGetEksaVSphereMachineConfig name
    cluster.KubeconfigFile w with ⟨a, w1⟩
  rw [hcall] at hans
  simp only at hans
  subst hans
  simp only [Except.bind, deref, hl]
  split
  · exact ⟨true, rfl⟩
  · exact hk w1

/-- The name of the control-plane machine group can be read exactly when the reference is
set. -/
theorem cpMachineGroupName_eq_ok (spec : ClusterSpec) (n : String) :
    cpMachineGroupName spec = Except.ok n
      ↔ ∃ r, spec.ControlPlaneConfiguration.MachineGroupRef = some r ∧ r.Name = n := by
  unfold cpMachineGroupName
  cases spec.ControlPlaneConfiguration.MachineGroupRef <;> simp [deref, Except.map]

/-- The name of the first worker machine group can be read exactly when there is a first
worker group and its reference is set. -/
theorem workerMachineGroupName_eq_ok (spec : ClusterSpec) (n : String) :
    workerMachineGroupName spec = Except.ok n
      ↔ ∃ wg rest r, spec.WorkerNodeGroupConfigurations = wg :: rest ∧
          wg.MachineGroupRef = some r ∧ r.Name = n := by
  unfold workerMachineGroupName
  cases spec.WorkerNodeGroupConfigurations with
  | nil => simp [index0, Except.bind]
  | cons wg rest =>
    cases hr : wg.MachineGroupRef <;> simp [index0, Except.bind, deref, Except.map, hr]

/-- The name of the etcd machine group can be read exactly when external etcd is configured
and its reference is set. -/
theorem etcdMachineGroupName_eq_ok (spec : ClusterSpec) (n : String) :
    etcdMachineGroupName spec = Except.ok n
      ↔ ∃ e r, spec.ExternalEtcdConfiguration = some e ∧ e.MachineGroupRef = some r ∧
          r.Name = n := by
  unfold etcdMachineGroupName
  cases spec.ExternalEtcdConfiguration with
  | none => simp [deref, Except.bind]
  | some e =>
    cases hr : e.MachineGroupRef <;> simp [deref, Except.bind, Except.map, hr]

/-- `EKSAClusterSpecChanged` fails fast, for a collaborator whose answers to the fetches are
determined by their names. -/
theorem EKSAClusterSpecChanged_failsFast {σ : Type} (c : ClusterManager σ) (ext : Externals σ)
    (cluster : Cluster) (clusterSpec : Spec) (datacenterConfig : DatacenterConfig)
    (machineConfigs : List MachineConfig) (w : World σ)
    (ccAns : Except Error EksaCluster)
    (dcAns : String → Except Error VSphereDatacenterConfig)
    (mcAns : String → Except Error VSphereMachineConfig)
    (hcc : ∀ s, (c.clusterClient.GetEksaCluster cluster s).1 = ccAns)
    (hdc : ∀ name s, (c.clusterClient.GetEksaVSphereDatacenterConfig name
      cluster.KubeconfigFile s).1 = dcAns name)
    (hmc : ∀ name s, (c.clusterClient.GetEksaVSphereMachineConfig name cluster.KubeconfigFile
      s).1 = mcAns name) :
    FailsFast ccAns dcAns mcAns w
      (c.EKSAClusterSpecChanged ext cluster clusterSpec datacenterConfig machineConfigs w) := by
  unfold ClusterManager.EKSAClusterSpecChanged
  have hans : (c.clusterClient.callGetEksaCluster cluster w).1 = ccAns := hcc w.st
  have hlog : (c.clusterClient.callGetEksaCluster cluster w).2.log
      = w.log ++ [Call.GetEksaCluster cluster] := rfl
  rcases hcall : c.clusterClient.callGetEksaCluster cluster w with ⟨a, w1⟩
  rw [hcall] at hans hlog
  simp only at hans hlog
  cases a with
  | error err =>
    exact ⟨_, hlog, Or.inr ⟨[], _, err, rfl, by simp, by simp [fetchError, ← hans], rfl⟩⟩
  | ok cc =>
    have hgood : ∀ x ∈ [Call.GetEksaCluster cluster],
        fetchError ccAns dcAns mcAns x = none := by
      intro x hx
      simp only [List.mem_singleton] at hx
      subst hx
      simp [fetchError, ← hans]
    simp only
    split
    · exact ⟨_, hlog, Or.inl hgood⟩
    · split
      · refine FailsFast.prepend _ _ _ w w1 _ _ hlog hgood ?_
        have hans2 : (c.clusterClient.callGetEksaVSphereDatacenterConfig
            cc.Spec.DatacenterRef.Name cluster.KubeconfigFile w1).1
            = dcAns cc.Spec.DatacenterRef.Name := hdc _ w1.st
        have hlog2 : (c.clusterClient.callGetEksaVSphereDatacenterConfig
            cc.Spec.DatacenterRef.Name cluster.KubeconfigFile w1).2.log
            = w1.log ++ [Call.GetEksaVSphereDatacenterConfig cc.Spec.DatacenterRef.Name
              cluster.KubeconfigFile] := rfl
        rcases hcall2 : c.clusterClient.callGetEksaVSphereDatacenterConfig
          cc.Spec.DatacenterRef.Name cluster.KubeconfigFile w1 with ⟨a2, w2⟩
        rw [hcall2] at hans2 hlog2
        simp only at hans2 hlog2
        cases a2 with
        | error err =>
          exact ⟨_, hlog2,
            Or.inr ⟨[], _, err, rfl, by simp, by simp [fetchError, ← hans2], rfl⟩⟩
        | ok existingVdc =>
          have hgood2 : ∀ x ∈ [Call.GetEksaVSphereDatacenterConfig cc.Spec.DatacenterRef.Name
              cluster.KubeconfigFile], fetchError ccAns dcAns mcAns x = none := by
            intro x hx
            simp only [List.mem_singleton] at hx
            subst hx
            simp [fetchError, ← hans2]
          simp only
          split
          · exact ⟨_, hlog2, Or.inl hgood2⟩
          · split
            · exact ⟨_, hlog2, Or.inl hgood2⟩
            · split
              · exact ⟨_, hlog2, Or.inl hgood2⟩
              · refine FailsFast.prepend _ _ _ w1 w2 _ _ hlog2 hgood2 ?_
                refine compareMachineConfig_failsFast c cluster ccAns dcAns mcAns hmc _ _ _ _
                  (fun w3 => ?_) w2
                refine compareMachineConfig_failsFast c cluster ccAns dcAns mcAns hmc _ _ _ _
                  (fun w4 => ?_) w3
                split
                · exact compareMachineConfig_failsFast c cluster ccAns dcAns mcAns hmc _ _ _
                    _ (fun w5 => FailsFast.refl _ _ _ w5 _) w4
                · exact FailsFast.refl _ _ _ w4 _
      · exact ⟨_, hlog, Or.inl hgood⟩

/-- The comparison of a machine config whose name is read from equal specs, in terms of the
reference the name is read from. -/
theorem unchanged_of_names (mcOf : String → VSphereMachineConfig)
    (configs : List VSphereMachineConfig) (nm : Except String String) (ref : Option Ref)
    (hnm : ∀ n, nm = Except.ok n ↔ ∃ r, ref = some r ∧ r.Name = n) :
    (∃ name n vmc, nm = Except.ok name ∧ nm = Except.ok n ∧
        (configs.foldl (fun m mc => (mc.Name, mc) :: m) []).lookup n = some vmc ∧
        (mcOf name).Spec = vmc.Spec)
      ↔ machineSpecUnchanged mcOf configs ref := by
  unfold machineSpecUnchanged suppliedMachineConfig
  constructor
  · rintro ⟨name, n, vmc, h1, h2, h3, h4⟩
    have hn : name = n := by
      rw [h1] at h2
      exact Except.ok.inj h2
    subst hn
    obtain ⟨r, hr, hrn⟩ := (hnm name).mp h1
    subst hrn
    exact ⟨r, vmc, hr, h3, h4⟩
  · rintro ⟨r, vmc, hr, h3, h4⟩
    have h1 := (hnm r.Name).mpr ⟨r, hr, rfl⟩
    exact ⟨r.Name, r.Name, vmc, h1, h1, h3, h4⟩

/-- `EKSAClusterSpecChanged`, for a collaborator that has the cluster object `cc` stored and
a datacenter config and a machine config under every name, ends with (false, nil) exactly
when the stored cluster spec is the new one, the datacenter kind is vSphere, and the stored
datacenter, control-plane, first-worker and, with external etcd, etcd specs are the
supplied ones. -/
theorem EKSAClusterSpecChanged_unchanged {σ : Type} (c : ClusterManager σ) (ext : Externals σ)
    (cluster : Cluster) (clusterSpec : Spec) (datacenterConfig : DatacenterConfig)
    (configs : List VSphereMachineConfig) (w : World σ) (cc : EksaCluster)
    (dcOf : String → VSphereDatacenterConfig) (mcOf : String → VSphereMachineConfig)
    (vdc : VSphereDatacenterConfig)
    (hcc : ∀ s, (c.clusterClient.GetEksaCluster cluster s).1 = Except.ok cc)
    (hdc : ∀ name s, (c.clusterClient.GetEksaVSphereDatacenterConfig name
      cluster.KubeconfigFile s).1 = Except.ok (dcOf name))
    (hmc : ∀ name s, (c.clusterClient.GetEksaVSphereMachineConfig name cluster.KubeconfigFile
      s).1 = Except.ok (mcOf name))
    (hv : datacenterConfig.vsphere = some vdc) :
    (c.EKSAClusterSpecChanged ext cluster clusterSpec datacenterConfig
        (asMachineConfigs configs) w).1 = Except.ok (false, none)
      ↔ (cc.Spec = clusterSpec.Spec ∧
        cc.Spec.DatacenterRef.Kind = ext.VSphereDatacenterKind ∧
        (dcOf cc.Spec.DatacenterRef.Name).Spec = vdc.Spec ∧
        machineSpecUnchanged mcOf configs
          clusterSpec.Spec.ControlPlaneConfiguration.MachineGroupRef ∧
        (∃ wg rest, clusterSpec.Spec.WorkerNodeGroupConfigurations = wg :: rest ∧
          machineSpecUnchanged mcOf configs wg.MachineGroupRef) ∧
        (∀ e, clusterSpec.Spec.ExternalEtcdConfiguration = some e →
          machineSpecUnchanged mcOf configs e.MachineGroupRef)) := by
  unfold ClusterManager.EKSAClusterSpecChanged
  have hans : (c.clusterClient.callGetEksaCluster cluster w).1 = Except.ok cc := hcc w.st
  rcases hcall : c.clusterClient.callGetEksaCluster cluster w with ⟨a, w1⟩
  rw [hcall] at hans
  simp only at hans
  subst hans
  simp only
  by_cases hspec : cc.Spec = clusterSpec.Spec
  swap
  · simp [hspec]
  simp only [hspec, ne_eq, not_true_eq_false, if_false, true_and]
  by_cases hkind : clusterSpec.Spec.DatacenterRef.Kind = ext.VSphereDatacenterKind
  swap
  · simp [hkind]
  have hans2 : (c.clusterClient.callGetEksaVSphereDatacenterConfig
      clusterSpec.Spec.DatacenterRef.Name cluster.KubeconfigFile w1).1
      = Except.ok (dcOf clusterSpec.Spec.DatacenterRef.Name) := hdc _ w1.st
  rcases hcall2 : c.clusterClient.callGetEksaVSphereDatacenterConfig
    clusterSpec.Spec.DatacenterRef.Name cluster.KubeconfigFile w1 with ⟨a2, w2⟩
  rw [hcall2] at hans2
  simp only at hans2
  subst hans2
  by_cases hdcs : (dcOf clusterSpec.Spec.DatacenterRef.Name).Spec = vdc.Spec
  swap
  · simp [hkind, DatacenterConfig.assertVSphere, hv, hdcs]
  have hetcd : ∀ w4 : World σ,
      ((if clusterSpec.Spec.ExternalEtcdConfiguration.isSome = true then
          c.compareMachineConfig cluster (configs.foldl (fun m mc => (mc.Name, mc) :: m) [])
            (etcdMachineGroupName clusterSpec.Spec) (etcdMachineGroupName clusterSpec.Spec)
            (fun w5 => ((Except.ok (false, none) : Changed), w5)) w4
        else ((Except.ok (false, none) : Changed), w4)).1 = Except.ok (false, none))
      ↔ (∀ e, clusterSpec.Spec.ExternalEtcdConfiguration = some e →
          machineSpecUnchanged mcOf configs e.MachineGroupRef) := by
    intro w4
    cases he : clusterSpec.Spec.ExternalEtcdConfiguration with
    | none => simp
    | some e =>
      simp only [Option.isSome_some, if_true, Option.some.injEq, forall_eq']
      rw [compareMachineConfig_unchanged c cluster mcOf hmc _ _ _ _ True (fun _ => by simp)]
      rw [and_true]
      refine unchanged_of_names mcOf configs _ _ ?_
      intro n
      rw [etcdMachineGroupName_eq_ok]
      simp [he]
  have hworker : ∀ w3 : World σ,
      ((c.compareMachineConfig cluster (configs.foldl (fun m mc => (mc.Name, mc) :: m) [])
          (workerMachineGroupName clusterSpec.Spec) (workerMachineGroupName clusterSpec.Spec)
          (fun w4 =>
            if clusterSpec.Spec.ExternalEtcdConfiguration.isSome = true then
              c.compareMachineConfig cluster
                (configs.foldl (fun m mc => (mc.Name, mc) :: m) [])
                (etcdMachineGroupName clusterSpec.Spec) (etcdMachineGroupName clusterSpec.Spec)
                (fun w5 => ((Except.ok (false, none) : Changed), w5)) w4
            else ((Except.ok (false, none) : Changed), w4)) w3).1 = Except.ok (false, none))
      ↔ ((∃ wg rest, clusterSpec.Spec.WorkerNodeGroupConfigurations = wg :: rest ∧
            machineSpecUnchanged mcOf configs wg.MachineGroupRef) ∧
          (∀ e, clusterSpec.Spec.ExternalEtcdConfiguration = some e →
            machineSpecUnchanged mcOf configs e.MachineGroupRef)) := by
    intro w3
    rw [compareMachineConfig_unchanged c cluster mcOf hmc _ _ _ _ _ hetcd]
    refine and_congr ?_ Iff.rfl
    cases hws : clusterSpec.Spec.WorkerNodeGroupConfigurations with
    | nil =>
      have hno : ∀ n, workerMachineGroupName clusterSpec.Spec ≠ Except.ok n := by
        intro n hn
        obtain ⟨wg, rest, r, h1, _⟩ := (workerMachineGroupName_eq_ok _ n).mp hn
        rw [hws] at h1
        cases h1
      constructor
      · rintro ⟨name, n, vmc, h1, _⟩
        exact absurd h1 (hno name)
      · rintro ⟨wg, rest, h1, _⟩
        cases h1
    | cons wg rest =>
      have := unchanged_of_names mcOf configs (workerMachineGroupName clusterSpec.Spec)
        wg.MachineGroupRef (by
          intro n
          rw [workerMachineGroupName_eq_ok]
          simp [hws])
      rw [this]
      constructor
      · intro h
        exact ⟨wg, rest, rfl, h⟩
      · rintro ⟨wg2, rest2, h1, h2⟩
        simp only [List.cons.injEq] at h1
        rw [h1.1]
        exact h2
  simp only [hkind, DatacenterConfig.assertVSphere, hv, hdcs,
    buildMachineConfigMap_vsphere, if_true, true_and, not_true_eq_false, if_false]
  rw [compareMachineConfig_unchanged c cluster mcOf hmc _ _ _ _ _ hworker]
  refine and_congr ?_ Iff.rfl
  refine unchanged_of_names mcOf configs _ _ ?_
  intro n
  rw [cpMachineGroupName_eq_ok]

/-- `EKSAClusterSpecChanged` returns a pair (b, nil), for a collaborator that has the
cluster object `cc` stored and a datacenter config and a machine config under every name,
when the supplied configs are vSphere configs and every machine-group name of the new spec
is present in the supplied machine configs. -/
theorem EKSAClusterSpecChanged_returns {σ : Type} (c : ClusterManager σ) (ext : Externals σ)
    (cluster : Cluster) (clusterSpec : Spec) (datacenterConfig : DatacenterConfig)
    (configs : List VSphereMachineConfig) (w : World σ) (cc : EksaCluster)
    (dcOf : String → VSphereDatacenterConfig) (mcOf : String → VSphereMachineConfig)
    (vdc : VSphereDatacenterConfig)
    (hcc : ∀ s, (c.clusterClient.GetEksaCluster cluster s).1 = Except.ok cc)
    (hdc : ∀ name s, (c.clusterClient.GetEksaVSphereDatacenterConfig name
      cluster.KubeconfigFile s).1 = Except.ok (dcOf name))
    (hmc : ∀ name s, (c.clusterClient.GetEksaVSphereMachineConfig name cluster.KubeconfigFile
      s).1 = Except.ok (mcOf name))
    (hv : datacenterConfig.vsphere = some vdc)
    (hsup : machineGroupsSupplied clusterSpec configs) :
    ∃ b, (c.EKSAClusterSpecChanged ext cluster clusterSpec datacenterConfig
        (asMachineConfigs configs) w).1 = Except.ok (b, none) := by
  obtain ⟨⟨cpr, cpVmc, hcp, hcpl⟩, ⟨wg, rest, wr, wVmc, hws, hwr, hwl⟩, hetcd⟩ := hsup
  unfold suppliedMachineConfig at hcpl hwl hetcd
  unfold ClusterManager.EKSAClusterSpecChanged
  have hans : (c.clusterClient.callGetEksaCluster cluster w).1 = Except.ok cc := hcc w.st
  rcases hcall : c.clusterClient.callGetEksaCluster cluster w with ⟨a, w1⟩
  rw [hcall] at hans
  simp only at hans
  subst hans
  simp only
  by_cases hspec : cc.Spec = clusterSpec.Spec
  swap
  · exact ⟨true, by simp [hspec]⟩
  simp only [hspec, ne_eq, not_true_eq_false, if_false]
  by_cases hkind : clusterSpec.Spec.DatacenterRef.Kind = ext.VSphereDatacenterKind
  swap
  · exact ⟨true, by simp [hkind]⟩
  have hans2 : (c.clusterClient.callGetEksaVSphereDatacenterConfig
      clusterSpec.Spec.DatacenterRef.Name cluster.KubeconfigFile w1).1
      = Except.ok (dcOf clusterSpec.Spec.DatacenterRef.Name) := hdc _ w1.st
  rcases hcall2 : c.clusterClient.callGetEksaVSphereDatacenterConfig
    clusterSpec.Spec.DatacenterRef.Name cluster.KubeconfigFile w1 with ⟨a2, w2⟩
  rw [hcall2] at hans2
  simp only at hans2
  subst hans2
  by_cases hdcs : (dcOf clusterSpec.Spec.DatacenterRef.Name).Spec = vdc.Spec
  swap
  · exact ⟨true, by simp [hkind, DatacenterConfig.assertVSphere, hv, hdcs]⟩
  have hcpn : cpMachineGroupName clusterSpec.Spec = Except.ok cpr.Name :=
    (cpMachineGroupName_eq_ok _ _).mpr ⟨cpr, hcp, rfl⟩
  have hwn : workerMachineGroupName clusterSpec.Spec = Except.ok wr.Name :=
    (workerMachineGroupName_eq_ok _ _).mpr ⟨wg, rest, wr, hws, hwr, rfl⟩
  simp only [hkind, DatacenterConfig.assertVSphere, hv, hdcs,
    buildMachineConfigMap_vsphere, if_true, not_true_eq_false, if_false, hcpn, hwn]
  refine compareMachineConfig_returns c cluster mcOf hmc _ _ _ cpVmc hcpl _ (fun w3 => ?_) w2
  refine compareMachineConfig_returns c cluster mcOf hmc _ _ _ wVmc hwl _ (fun w4 => ?_) w3
  cases he : clusterSpec.Spec.ExternalEtcdConfiguration with
  | none => exact ⟨false, by simp⟩
  | some e =>
    obtain ⟨er, eVmc, her, hel⟩ := hetcd e he
    have hen : etcdMachineGroupName clusterSpec.Spec = Except.ok er.Name :=
      (etcdMachineGroupName_eq_ok _ _).mpr ⟨e, er, he, her, rfl⟩
    simp only [Option.isSome_some, if_true, hen]
    exact compareMachineConfig_returns c cluster mcOf hmc _ _ _ eVmc hel _
      (fun w5 => ⟨false, rfl⟩) w4

/-- `EKSAClusterSpecChanged` returns (true, nil) after the single call `GetEksaCluster` when
the stored cluster spec differs from the new one. -/
theorem EKSAClusterSpecChanged_differ {σ : Type} (c : ClusterManager σ) (ext : Externals σ)
    (cluster : Cluster) (clusterSpec : Spec) (datacenterConfig : DatacenterConfig)
    (machineConfigs : List MachineConfig) (w : World σ) (cc : EksaCluster)
    (hcc : (c.clusterClient.GetEksaCluster cluster w.st).1 = Except.ok cc)
    (hne : cc.Spec ≠ clusterSpec.Spec) :
    (c.EKSAClusterSpecChanged ext cluster clusterSpec datacenterConfig machineConfigs w).1
        = Except.ok (true, none) ∧
      (c.EKSAClusterSpecChanged ext cluster clusterSpec datacenterConfig machineConfigs w).2.log
        = w.log ++ [Call.GetEksaCluster cluster] := by
  unfold ClusterManager.EKSAClusterSpecChanged
  have hans : (c.clusterClient.callGetEksaCluster cluster w).1 = Except.ok cc := hcc
  have hlog : (c.clusterClient.callGetEksaCluster cluster w).2.log
      = w.log ++ [Call.GetEksaCluster cluster] := rfl
  rcases hcall : c.clusterClient.callGetEksaCluster cluster w with ⟨a, w1⟩
  rw [hcall] at hans hlog
  simp only at hans hlog
  subst hans
  simp [hne, hlog]

/-- C30: for a collaborator whose answers to the fetches depend only on their arguments,
`EKSAClusterSpecChanged` behaves as follows. When every fetch succeeds and the supplied
configs are vSphere configs, it returns (false, nil) if and only if the stored cluster spec
equals the new one, the datacenter kind is vSphere, and the stored datacenter spec, the
control-plane machine spec, the first-worker machine spec and, when external etcd is
configured, the etcd machine spec equal the supplied ones; and when moreover every
machine-group name of the new spec is present in the supplied machine configs, it returns
some (b, nil), so true in every other case. When the stored cluster spec differs from the
new one it returns (true, nil) after the single call `GetEksaCluster`. When the first fetch
fails it returns (false, err), and any fetch that fails is the last call and its error is
returned with false. -/
theorem EKSAClusterSpecChanged_result {σ : Type} (c : ClusterManager σ) (ext : Externals σ)
    (cluster : Cluster) (clusterSpec : Spec) (datacenterConfig : DatacenterConfig)
    (machineConfigs : List MachineConfig) (w : World σ)
    (ccAns : Except Error EksaCluster)
    (dcAns : String → Except Error VSphereDatacenterConfig)
    (mcAns : String → Except Error VSphereMachineConfig)
    (hcc : ∀ s, (c.clusterClient.GetEksaCluster cluster s).1 = ccAns)
    (hdc : ∀ name s, (c.clusterClient.GetEksaVSphereDatacenterConfig name
      cluster.KubeconfigFile s).1 = dcAns name)
    (hmc : ∀ name s, (c.clusterClient.GetEksaVSphereMachineConfig name cluster.KubeconfigFile
      s).1 = mcAns name) :
    (∀ (cc : EksaCluster) (dcOf : String → VSphereDatacenterConfig)
        (mcOf : String → VSphereMachineConfig) (vdc : VSphereDatacenterConfig)
        (configs : List VSphereMachineConfig), ccAns = Except.ok cc →
      (∀ name, dcAns name = Except.ok (dcOf name)) →
      (∀ name, mcAns name = Except.ok (mcOf name)) →
      datacenterConfig.vsphere = some vdc → machineConfigs = asMachineConfigs configs →
      ((c.EKSAClusterSpecChanged ext cluster clusterSpec datacenterConfig machineConfigs w).1
          = Except.ok (false, none)
        ↔ (cc.Spec = clusterSpec.Spec ∧
          cc.Spec.DatacenterRef.Kind = ext.VSphereDatacenterKind ∧
          (dcOf cc.Spec.DatacenterRef.Name).Spec = vdc.Spec ∧
          machineSpecUnchanged mcOf configs
            clusterSpec.Spec.ControlPlaneConfiguration.MachineGroupRef ∧
          (∃ wg rest, clusterSpec.Spec.WorkerNodeGroupConfigurations = wg :: rest ∧
            machineSpecUnchanged mcOf configs wg.MachineGroupRef) ∧
          (∀ e, clusterSpec.Spec.ExternalEtcdConfiguration = some e →
            machineSpecUnchanged mcOf configs e.MachineGroupRef))) ∧
      (machineGroupsSupplied clusterSpec configs →
        ∃ b, (c.EKSAClusterSpecChanged ext cluster clusterSpec datacenterConfig machineConfigs
          w).1 = Except.ok (b, none))) ∧
    (∀ cc, ccAns = Except.ok cc → cc.Spec ≠ clusterSpec.Spec →
      (c.EKSAClusterSpecChanged ext cluster clusterSpec datacenterConfig machineConfigs w).1
          = Except.ok (true, none) ∧
        (c.EKSAClusterSpecChanged ext cluster clusterSpec datacenterConfig machineConfigs
          w).2.log = w.log ++ [Call.GetEksaCluster cluster]) ∧
    (∀ err, ccAns = Except.error err →
      (c.EKSAClusterSpecChanged ext cluster clusterSpec datacenterConfig machineConfigs w).1
          = Except.ok (false, some err) ∧
        (c.EKSAClusterSpecChanged ext cluster clusterSpec datacenterConfig machineConfigs
          w).2.log = w.log ++ [Call.GetEksaCluster cluster]) ∧
    (∃ calls,
      (c.EKSAClusterSpecChanged ext cluster clusterSpec datacenterConfig machineConfigs
        w).2.log = w.log ++ calls ∧
      ∀ x ∈ calls, ∀ err, fetchError ccAns dcAns mcAns x = some err →
        (c.EKSAClusterSpecChanged ext cluster clusterSpec datacenterConfig machineConfigs
          w).1 = Except.ok (false, some err) ∧
        ∃ pre, calls = pre ++ [x]) := by
  refine ⟨?_, ?_, ?_, ?_⟩
  · intro cc dcOf mcOf vdc configs h1 h2 h3 hv hm
    subst hm
    have hcc2 : ∀ s, (c.clusterClient.GetEksaCluster cluster s).1 = Except.ok cc := fun s =>
      (hcc s).trans h1
    have hdc2 : ∀ name s, (c.clusterClient.GetEksaVSphereDatacenterConfig name
        cluster.KubeconfigFile s).1 = Except.ok (dcOf name) := fun name s =>
      (hdc name s).trans (h2 name)
    have hmc2 : ∀ name s, (c.clusterClient.GetEksaVSphereMachineConfig name
        cluster.KubeconfigFile s).1 = Except.ok (mcOf name) := fun name s =>
      (hmc name s).trans (h3 name)
    exact ⟨EKSAClusterSpecChanged_unchanged c ext cluster clusterSpec datacenterConfig configs w
        cc dcOf mcOf vdc hcc2 hdc2 hmc2 hv,
      EKSAClusterSpecChanged_returns c ext cluster clusterSpec datacenterConfig configs w
        cc dcOf mcOf vdc hcc2 hdc2 hmc2 hv⟩
  · intro cc h1 hne
    exact EKSAClusterSpecChanged_differ c ext cluster clusterSpec datacenterConfig
      machineConfigs w cc ((hcc w.st).trans h1) hne
  · intro err h1
    have hans : (c.clusterClient.callGetEksaCluster cluster w).1 = Except.error err :=
      (hcc w.st).trans h1
    have hlog : (c.clusterClient.callGetEksaCluster cluster w).2.log
        = w.log ++ [Call.GetEksaCluster cluster] := rfl
    unfold ClusterManager.EKSAClusterSpecChanged
    rcases hcall : c.clusterClient.callGetEksaCluster cluster w with ⟨a, w1⟩
    rw [hcall] at hans hlog
    simp only at hans hlog
    subst hans
    exact ⟨rfl, hlog⟩
  · exact FailsFast.result ccAns dcAns mcAns w _
      (EKSAClusterSpecChanged_failsFast c ext cluster clusterSpec datacenterConfig
        machineConfigs w ccAns dcAns mcAns hcc hdc hmc)

/-- C30 at a concrete input: the collaborator has stored the cluster spec of `distinctSpec`,
the datacenter config of the examples and machine configs with 2 CPUs, and the same configs
are supplied; the comparison returns (false, nil) after five fetches. -/
theorem EKSAClusterSpecChanged_result_witness :
    (∀ s, (storedClient.GetEksaCluster exampleCluster s).1
      = Except.ok { Name := "mgmt", Spec := distinctSpec.Spec }) ∧
    (∀ name s, (storedClient.GetEksaVSphereDatacenterConfig name exampleCluster.KubeconfigFile
      s).1 = Except.ok exampleDatacenterConfig) ∧
    (∀ name s, (storedClient.GetEksaVSphereMachineConfig name exampleCluster.KubeconfigFile
      s).1 = Except.ok (exampleMachineConfig name 2)) ∧
    machineGroupsSupplied distinctSpec suppliedMachineConfigs ∧
    ((ClusterManager.New storedClient).EKSAClusterSpecChanged okExternals exampleCluster
        distinctSpec suppliedDatacenterConfig (asMachineConfigs suppliedMachineConfigs)
        (World.init ())).1 = Except.ok (false, none) ∧
    ((ClusterManager.New storedClient).EKSAClusterSpecChanged okExternals exampleCluster
        distinctSpec suppliedDatacenterConfig (asMachineConfigs suppliedMachineConfigs)
        (World.init ())).2.log
      = [Call.GetEksaCluster exampleCluster,
          Call.GetEksaVSphereDatacenterConfig "dc" "mgmt.kubeconfig",
          Call.GetEksaVSphereMachineConfig "cp" "mgmt.kubeconfig",
          Call.GetEksaVSphereMachineConfig "w" "mgmt.kubeconfig",
          Call.GetEksaVSphereMachineConfig "e" "mgmt.kubeconfig"] :=
  ⟨fun _ => rfl, fun _ _ => rfl, fun _ _ => rfl,
    ⟨⟨machineRef "cp", exampleMachineConfig "cp" 2, rfl, by decide⟩,
      ⟨_, _, machineRef "w", exampleMachineConfig "w" 2, rfl, rfl, by decide⟩,
      fun e he => ⟨machineRef "e", exampleMachineConfig "e" 2,
        by cases he; rfl, by decide⟩⟩,
    ((EKSAClusterSpecChanged_result (ClusterManager.New storedClient) okExternals
        exampleCluster distinctSpec suppliedDatacenterConfig
        (asMachineConfigs suppliedMachineConfigs) (World.init ())
        (Except.ok { Name := "mgmt", Spec := distinctSpec.Spec })
        (fun _ => Except.ok exampleDatacenterConfig)
        (fun name => Except.ok (exampleMachineConfig name 2))
        (fun _ => rfl) (fun _ _ => rfl) (fun _ _ => rfl)).1
      { Name := "mgmt", Spec := distinctSpec.Spec } (fun _ => exampleDatacenterConfig)
      (fun name => exampleMachineConfig name 2) exampleDatacenterConfig
      suppliedMachineConfigs rfl (fun _ => rfl) (fun _ => rfl) rfl rfl).1.mpr
      ⟨rfl, by decide, rfl,
        ⟨machineRef "cp", exampleMachineConfig "cp" 2, rfl, by decide, by decide⟩,
        ⟨_, _, rfl, machineRef "w", exampleMachineConfig "w" 2, rfl, by decide, by decide⟩,
        fun e he => ⟨machineRef "e", exampleMachineConfig "e" 2, by cases he; rfl,
          by decide, by decide⟩⟩,
    by decide⟩

end EksAnywhere
